import Mathlib

/-!
# Verification of the ubx-gps-server message substrate

A shallow embedding, in Lean 4, of the byte codec, message model,
envelope layer, hub loop and configuration transaction of the
ubx-gps-server repository, together with theorems settling the frozen
claims about it.

Bytes are modelled as natural numbers (each byte value is below 256 on
every wire input; writers emit values reduced modulo 256), byte buffers
as lists, and fallible parsing as `Except` over the parse error type of
the source. Machine integer arithmetic is modelled on `Nat`/`Int` with
explicit reduction modulo powers of two where the source's fixed-width
types wrap.
-/

/-- A byte buffer: the borrowed byte slice of the source. -/
abbrev Bytes := List Nat

/-- The parse error enumeration of src/parse.rs (`ParseError`, named
`Error` in the older modules of the crate). -/
inductive PErr where
  | notEnoughData
  | invalidChecksum
  | invalidHeader
  | invalidClass (x : Nat)
  | invalidMsg (x : Nat)
  | invalidLen
  | invalid
deriving DecidableEq, Repr

/-- Result of a reader: the unconsumed remainder and the parsed value. -/
abbrev PRes (α : Type) := Except PErr (Bytes × α)

/-- Decidable equality for `Except`, for evaluating concrete parses. -/
instance exceptDecEq {ε α : Type} [DecidableEq ε] [DecidableEq α] :
    DecidableEq (Except ε α) := fun x y =>
  match x, y with
  | .ok a, .ok b =>
    if h : a = b then isTrue (by rw [h]) else isFalse (by simp [h])
  | .error a, .error b =>
    if h : a = b then isTrue (by rw [h]) else isFalse (by simp [h])
  | .ok _, .error _ => isFalse (by simp)
  | .error _, .ok _ => isFalse (by simp)

/-- Little-endian byte encoding of `v` on `n` bytes (`to_le_bytes`). -/
def leBytes : Nat → Nat → Bytes
  | 0, _ => []
  | n + 1, v => v % 256 :: leBytes n (v / 256)

/-- Little-endian byte decoding (`from_le_bytes`), on byte-valued input. -/
def leDecode : Bytes → Nat
  | [] => 0
  | x :: r => x + 256 * leDecode r

/-- `impl ParseData for u8`, `parse_read`: one byte. -/
def readU8 (b : Bytes) : PRes Nat :=
  match b with
  | [] => .error .notEnoughData
  | x :: r => .ok (r, x)

/-- `impl ParseData for u8`, `parse_write`. -/
def writeU8 (v : Nat) : Bytes := [v % 256]

/-- `impl ParseData for u16`, `parse_read`: two bytes little endian. -/
def readU16 (b : Bytes) : PRes Nat :=
  if b.length < 2 then .error .notEnoughData
  else .ok (b.drop 2, leDecode (b.take 2))

/-- `impl ParseData for u16`, `parse_write`. -/
def writeU16 (v : Nat) : Bytes := leBytes 2 v

/-- `impl ParseData for u32`, `parse_read`: four bytes little endian. -/
def readU32 (b : Bytes) : PRes Nat :=
  if b.length < 4 then .error .notEnoughData
  else .ok (b.drop 4, leDecode (b.take 4))

/-- `impl ParseData for u32`, `parse_write`. -/
def writeU32 (v : Nat) : Bytes := leBytes 4 v

/-- `impl ParseData for u64`, `parse_read`, exactly as the source has it:
the value is decoded from eight little-endian bytes, but the returned
remainder is `&b[4..]` — only four bytes are consumed. -/
def readU64 (b : Bytes) : PRes Nat :=
  if b.length < 8 then .error .notEnoughData
  else .ok (b.drop 4, leDecode (b.take 8))

/-- `impl ParseData for u64`, `parse_write`: eight bytes little endian. -/
def writeU64 (v : Nat) : Bytes := leBytes 8 v

/-- Two's-complement decoding of `n` bytes read as the natural `d`. -/
def signedOf (w : Nat) (d : Nat) : Int :=
  if d < 2 ^ (w - 1) then (d : Int) else (d : Int) - 2 ^ w

/-- `impl ParseData for i8`, `parse_read`. -/
def readI8 (b : Bytes) : PRes Int :=
  match b with
  | [] => .error .notEnoughData
  | x :: r => .ok (r, signedOf 8 x)

/-- `impl ParseData for i8`, `parse_write` (`v as u8`). -/
def writeI8 (v : Int) : Bytes := [(v % 256).toNat]

/-- `impl ParseData for i16`, `parse_read`. -/
def readI16 (b : Bytes) : PRes Int :=
  if b.length < 2 then .error .notEnoughData
  else .ok (b.drop 2, signedOf 16 (leDecode (b.take 2)))

/-- `impl ParseData for i16`, `parse_write`. -/
def writeI16 (v : Int) : Bytes := leBytes 2 (v % 2 ^ 16).toNat

/-- `impl ParseData for i32`, `parse_read`. -/
def readI32 (b : Bytes) : PRes Int :=
  if b.length < 4 then .error .notEnoughData
  else .ok (b.drop 4, signedOf 32 (leDecode (b.take 4)))

/-- `impl ParseData for i32`, `parse_write`. -/
def writeI32 (v : Int) : Bytes := leBytes 4 (v % 2 ^ 32).toNat

/-- `impl ParseData for bool`, `parse_read`: any nonzero byte is true. -/
def readBool (b : Bytes) : PRes Bool :=
  match readU8 b with
  | .ok (r, v) => .ok (r, v != 0)
  | .error e => .error e

/-- `impl ParseData for bool`, `parse_write` (`v as u8`). -/
def writeBool (v : Bool) : Bytes := [if v then 1 else 0]

/-- `parse::tag` specialised to `u8`: read one byte, fail with `Invalid`
on mismatch. -/
def tagU8 (b : Bytes) (t : Nat) : Except PErr Bytes :=
  match readU8 b with
  | .ok (r, v) => if v = t then .ok r else .error .invalid
  | .error e => .error e

/-- `parse::tag` specialised to `u16`. -/
def tagU16 (b : Bytes) (t : Nat) : Except PErr Bytes :=
  match readU16 b with
  | .ok (r, v) => if v = t then .ok r else .error .invalid
  | .error e => .error e

/-- `ResultExt::map_invalid`: replace an `Invalid` error by another. -/
def mapInvalid (x : Except PErr Bytes) (e : PErr) : Except PErr Bytes :=
  match x with
  | .error .invalid => .error e
  | x => x

/-- `parse::collect`: read exactly `n` elements with the given reader. -/
def collectP {α : Type} (rd : Bytes → PRes α) : Bytes → Nat → PRes (List α)
  | b, 0 => .ok (b, [])
  | b, n + 1 =>
    match rd b with
    | .ok (nb, t) =>
      match collectP rd nb n with
      | .ok (r, ts) => .ok (r, t :: ts)
      | .error e => .error e
    | .error e => .error e

/-- `impl ParseData for Vec<T>`, `parse_read`: read elements until the
buffer is empty; `NotEnoughData` from an element becomes `Invalid`.
The fuel argument bounds the recursion; it is spent only on iterations
that consume no input, on which the source loops forever, so with fuel
at least `b.length + 1` the model agrees with the source whenever the
source terminates. -/
def readListP {α : Type} (rd : Bytes → PRes α) : Nat → Bytes → PRes (List α)
  | _, [] => .ok ([], [])
  | 0, _ :: _ => .error .invalid
  | fuel + 1, b =>
    match rd b with
    | .ok (nb, v) =>
      match readListP rd fuel nb with
      | .ok (r, vs) => .ok (r, v :: vs)
      | .error e => .error e
    | .error .notEnoughData => .error .invalid
    | .error e => .error e

/-- `impl ParseData for Vec<T>`, `parse_write`: concatenate the elements'
encodings. -/
def writeListP {α : Type} (wr : α → Bytes) (vs : List α) : Bytes :=
  (vs.map wr).flatten

/-! ## Primitive round-trip lemmas -/

theorem leBytes_length (n v : Nat) : (leBytes n v).length = n := by
  induction n generalizing v with
  | zero => rfl
  | succ n ih => simp [leBytes, ih]

theorem leDecode_leBytes (n v : Nat) :
    leDecode (leBytes n v) = v % 2 ^ (8 * n) := by
  induction n generalizing v with
  | zero => simp [leBytes, leDecode, Nat.mod_one]
  | succ n ih =>
    simp only [leBytes, leDecode, ih]
    have h8 : 8 * (n + 1) = 8 + 8 * n := by ring
    rw [h8, pow_add, show (2 : Nat) ^ 8 = 256 by norm_num, Nat.mod_mul]

theorem leDecode_lt (n v : Nat) : leDecode (leBytes n v) < 2 ^ (8 * n) := by
  rw [leDecode_leBytes]
  exact Nat.mod_lt _ (Nat.pos_pow_of_pos _ (by norm_num))

theorem take_len {α : Type} (l r : List α) (n : Nat) (h : l.length = n) :
    (l ++ r).take n = l := by
  subst h; exact List.take_left _ _

theorem drop_len {α : Type} (l r : List α) (n : Nat) (h : l.length = n) :
    (l ++ r).drop n = r := by
  subst h; exact List.drop_left _ _

theorem readU8_writeU8 (v : Nat) (r : Bytes) :
    readU8 (writeU8 v ++ r) = .ok (r, v % 256) := rfl

theorem readU16_writeU16 (v : Nat) (r : Bytes) :
    readU16 (writeU16 v ++ r) = .ok (r, v % 2 ^ 16) := by
  have hl : (writeU16 v).length = 2 := leBytes_length 2 v
  simp only [readU16, writeU16] at *
  rw [show (2 : Nat) = (leBytes 2 v).length from hl.symm]
  simp [List.take_left, List.drop_left, leDecode_leBytes, hl]

theorem readU32_writeU32 (v : Nat) (r : Bytes) :
    readU32 (writeU32 v ++ r) = .ok (r, v % 2 ^ 32) := by
  have hl : (writeU32 v).length = 4 := leBytes_length 4 v
  simp only [readU32, writeU32] at *
  rw [show (4 : Nat) = (leBytes 4 v).length from hl.symm]
  simp [List.take_left, List.drop_left, leDecode_leBytes, hl]

theorem readU64_writeU64 (v : Nat) (r : Bytes) :
    readU64 (writeU64 v ++ r) =
      .ok ((leBytes 8 v).drop 4 ++ r, v % 2 ^ 64) := by
  have hl : (writeU64 v).length = 8 := leBytes_length 8 v
  simp only [readU64, writeU64] at *
  rw [show (8 : Nat) = (leBytes 8 v).length from hl.symm]
  simp [List.take_left, leDecode_leBytes, hl, List.drop_append_eq_append_drop]

theorem readI8_writeI8 (v : Int) (r : Bytes) (h1 : -128 ≤ v) (h2 : v < 128) :
    readI8 (writeI8 v ++ r) = .ok (r, v) := by
  have hs : signedOf 8 (v % 256).toNat = v := by
    unfold signedOf
    split <;> omega
  simp [readI8, writeI8, hs]

theorem readI16_writeI16 (v : Int) (r : Bytes)
    (h1 : -(2 ^ 15) ≤ v) (h2 : v < 2 ^ 15) :
    readI16 (writeI16 v ++ r) = .ok (r, v) := by
  have hl : (writeI16 v).length = 2 := leBytes_length _ _
  simp only [readI16, writeI16] at *
  rw [take_len _ _ _ hl, drop_len _ _ _ hl, leDecode_leBytes]
  have hmod : (v % 2 ^ 16).toNat % 2 ^ (8 * 2) = (v % 2 ^ 16).toNat := by omega
  have hs : signedOf 16 (v % 2 ^ 16).toNat = v := by
    unfold signedOf
    split <;> omega
  rw [hmod, hs]
  rw [if_neg (by simp only [List.length_append, leBytes_length]; omega)]

theorem readI32_writeI32 (v : Int) (r : Bytes)
    (h1 : -(2 ^ 31) ≤ v) (h2 : v < 2 ^ 31) :
    readI32 (writeI32 v ++ r) = .ok (r, v) := by
  have hl : (writeI32 v).length = 4 := leBytes_length _ _
  simp only [readI32, writeI32] at *
  rw [take_len _ _ _ hl, drop_len _ _ _ hl, leDecode_leBytes]
  have hmod : (v % 2 ^ 32).toNat % 2 ^ (8 * 4) = (v % 2 ^ 32).toNat := by omega
  have hs : signedOf 32 (v % 2 ^ 32).toNat = v := by
    unfold signedOf
    split <;> omega
  rw [hmod, hs]
  rw [if_neg (by simp only [List.length_append, leBytes_length]; omega)]

theorem readBool_writeBool (v : Bool) (r : Bytes) :
    readBool (writeBool v ++ r) = .ok (r, v) := by
  cases v <;> rfl

theorem tagU8_cons (x : Nat) (r : Bytes) (t : Nat) :
    tagU8 (x :: r) t = if x = t then .ok r else .error .invalid := rfl

theorem tagU8_writeU8 (t : Nat) (r : Bytes) (h : t < 256) :
    tagU8 (writeU8 t ++ r) t = .ok r := by
  simp [tagU8, writeU8, readU8, Nat.mod_eq_of_lt h]

theorem tagU16_writeU16 (t : Nat) (r : Bytes) (h : t < 2 ^ 16) :
    tagU16 (writeU16 t ++ r) t = .ok r := by
  unfold tagU16
  rw [readU16_writeU16]
  have ht : t % 2 ^ 16 = t := Nat.mod_eq_of_lt h
  simp [ht]
  omega

theorem writeListP_nil {α : Type} (wr : α → Bytes) :
    writeListP wr [] = [] := rfl

theorem writeListP_cons {α : Type} (wr : α → Bytes) (v : α) (vs : List α) :
    writeListP wr (v :: vs) = wr v ++ writeListP wr vs := by
  simp [writeListP]

/-- Generic round trip for `parse::collect` over concatenated encodings. -/
theorem collectP_writeListP {α : Type} (rd : Bytes → PRes α) (wr : α → Bytes)
    (cn : α → Prop)
    (H : ∀ v r, cn v → rd (wr v ++ r) = .ok (r, v)) :
    ∀ (vs : List α) (r : Bytes), (∀ v ∈ vs, cn v) →
      collectP rd (writeListP wr vs ++ r) vs.length = .ok (r, vs) := by
  intro vs
  induction vs with
  | nil => intro r _; simp [writeListP_nil, collectP]
  | cons v vs ih =>
    intro r hc
    rw [writeListP_cons, List.append_assoc]
    simp only [List.length_cons, collectP,
      H v _ (hc v (by simp)), ih r (fun x hx => hc x (by simp [hx]))]

/-- Generic round trip for `Vec<T>::parse_read` over concatenated encodings:
with enough fuel and nonempty element encodings the reader returns the
written list and consumes the whole buffer. -/
theorem readListP_writeListP {α : Type} (rd : Bytes → PRes α) (wr : α → Bytes)
    (cn : α → Prop)
    (H : ∀ v r, cn v → rd (wr v ++ r) = .ok (r, v))
    (Hne : ∀ v, cn v → wr v ≠ []) :
    ∀ (vs : List α) (fuel : Nat), vs.length ≤ fuel → (∀ v ∈ vs, cn v) →
      readListP rd fuel (writeListP wr vs) = .ok ([], vs) := by
  intro vs
  induction vs with
  | nil => intro fuel _ _; simp [writeListP_nil, readListP]
  | cons v vs ih =>
    intro fuel hf hc
    obtain ⟨f, rfl⟩ : ∃ f, fuel = f + 1 := by
      cases fuel with
      | zero => simp at hf
      | succ f => exact ⟨f, rfl⟩
    have hv : cn v := hc v (by simp)
    obtain ⟨x, xs, hx⟩ : ∃ x xs, wr v = x :: xs := by
      cases hw : wr v with
      | nil => exact absurd hw (Hne v hv)
      | cons x xs => exact ⟨x, xs, rfl⟩
    rw [writeListP_cons]
    have hcons : wr v ++ writeListP wr vs = x :: (xs ++ writeListP wr vs) := by
      rw [hx]; rfl
    rw [hcons]
    simp only [readListP]
    rw [← hcons]
    simp only [H v _ hv,
      ih f (by simpa using hf) (fun y hy => hc y (by simp [hy]))]

/-! ## Claim C9: integer readers and writers -/

/-- C9: the claim says every integer reader consumes exactly
`size_of(T)` bytes of its little-endian encoding (8 bytes for u64).
The code's u64 reader decodes the value from eight bytes but returns
`&b[4..]`: parsing the encoding of 0x0102030405060708 yields the full
value yet leaves the four bytes [0x04, 0x03, 0x02, 0x01] unconsumed,
so the remainder is not the trailing input (here empty). -/
theorem c9_u64_reader_consumes_four_bytes :
    readU64 (writeU64 0x0102030405060708) =
      .ok ([0x04, 0x03, 0x02, 0x01], 0x0102030405060708) ∧
    ([0x04, 0x03, 0x02, 0x01] : Bytes) ≠ ([] : Bytes) := by
  constructor
  · rfl
  · simp

/-! ## RTCM framing (src/rtcm.rs) and the CRC-24Q check -/

/-- The 16-entry nibble table `CRC_TAB` of `crc24q_check`. -/
def crcTab (i : Nat) : Nat :=
  [0x00000000, 0x01864CFB, 0x038AD50D, 0x020C99F6, 0x0793E6E1, 0x0615AA1A,
   0x041933EC, 0x059F7F17, 0x0FA18139, 0x0E27CDC2, 0x0C2B5434, 0x0DAD18CF,
   0x083267D8, 0x09B42B23, 0x0BB8B2D5, 0x0A3EFE2E].getD i 0

/-- One loop iteration of `crc24q_check`: fold in one byte (a u8) and
run two table steps; `crc` is the u32 accumulator, wrapping at 2^32. -/
def crc24qByte (crc b : Nat) : Nat :=
  let c0 := crc ^^^ ((b % 256) <<< 16)
  let c1 := ((c0 <<< 4) ^^^ crcTab ((c0 >>> 20) % 16)) % 2 ^ 32
  ((c1 <<< 4) ^^^ crcTab ((c1 >>> 20) % 16)) % 2 ^ 32

/-- `crc24q_check`: the folded CRC, masked to 24 bits, must be zero. -/
def crc24qCheck (d : Bytes) : Bool :=
  (d.foldl crc24qByte 0) % 2 ^ 24 == 0

/-- One MSB-first step of the reference CRC-24Q bitwise division,
polynomial 0x1864CFB, on a 24-bit state. -/
def crcRefBit (c : Nat) : Nat :=
  if 2 ^ 23 ≤ c then ((c <<< 1) ^^^ 0x1864CFB) % 2 ^ 24 else (c <<< 1) % 2 ^ 24

/-- `k` reference bit steps. -/
def crcRefBits (c : Nat) : Nat → Nat
  | 0 => c
  | k + 1 => crcRefBits (crcRefBit c) k

/-- Reference CRC-24Q: fold in one byte at the top of the 24-bit state,
then run eight bit steps. -/
def crcRefByte (c b : Nat) : Nat :=
  crcRefBits ((c ^^^ ((b % 256) <<< 16)) % 2 ^ 24) 8

/-- The reference CRC-24Q remainder of a byte sequence (initial value 0). -/
def crc24qRef (d : Bytes) : Nat := d.foldl crcRefByte 0

/-- `RtcmFrame` of src/rtcm.rs: message type and the raw frame bytes. -/
structure RtcmFrameO where
  kind : Nat
  data : Bytes
deriving DecidableEq, Repr

/-- `RtcmFrame::from_bytes`, exactly as the source has it; in particular
the message type is computed from byte 3 alone:
`((b[3] as u16) << 4) | b[3] as u16 >> 4`. -/
def rtcmFromBytes (b : Bytes) : Except PErr (RtcmFrameO × Nat) :=
  if b.length < 6 then .error .notEnoughData
  else if b.getD 0 0 ≠ 0xd3 then .error .invalidHeader
  else
    let size := (((b.getD 1 0) &&& 0b11) <<< 8) ||| b.getD 2 0
    let size := size + 6
    let kind := ((b.getD 3 0) <<< 4) ||| ((b.getD 3 0) >>> 4)
    if b.length < size then .error .notEnoughData
    else if ¬ crc24qCheck (b.take size) then .error .invalidChecksum
    else .ok (⟨kind, b.take size⟩, size)

/-- C3: the concrete RTCM frame D3 00 05 3E D0 00 00 00 99 6E 27 (5-byte
payload, valid CRC-24Q) parses, but `from_bytes` computes the message
type from byte 3 twice — `(b[3] << 4) | (b[3] >> 4)` — yielding 0x3E3,
not the 0x3ED the claim derives from the high 12 bits of bytes 3 and 4. -/
theorem c3_rtcm_message_type_uses_byte3_twice :
    rtcmFromBytes [0xD3, 0x00, 0x05, 0x3E, 0xD0, 0x00, 0x00, 0x00,
                   0x99, 0x6E, 0x27] =
      .ok (⟨0x3E3, [0xD3, 0x00, 0x05, 0x3E, 0xD0, 0x00, 0x00, 0x00,
                    0x99, 0x6E, 0x27]⟩, 11) ∧
    (0x3E3 : Nat) ≠ 0x3ED := by
  constructor
  · rfl
  · simp

/-! ## Equivalence of the nibble-table CRC with the reference CRC-24Q -/

theorem xor_mod_two_pow (a b n : Nat) :
    (a ^^^ b) % 2 ^ n = (a % 2 ^ n) ^^^ (b % 2 ^ n) := by
  apply Nat.eq_of_testBit_eq
  intro i
  simp only [Nat.testBit_mod_two_pow, Nat.testBit_xor]
  cases h : decide (i < n) <;> simp

theorem shiftLeft4_mod24 (a : Nat) :
    (a <<< 4) % 2 ^ 24 = (a % 2 ^ 20) <<< 4 := by
  apply Nat.eq_of_testBit_eq
  intro i
  simp only [Nat.testBit_mod_two_pow, Nat.testBit_shiftLeft]
  by_cases h4 : i ≥ 4
  · by_cases h24 : i < 24
    · have h20 : i - 4 < 20 := by omega
      simp [h4, h24, h20]
    · have h20 : ¬(i - 4 < 20) := by omega
      simp [h24, h20]
  · simp [h4]

theorem shiftRight20_mod16 (s : Nat) :
    (s >>> 20) % 16 = (s % 2 ^ 24) >>> 20 := by
  simp only [Nat.shiftRight_eq_div_pow]
  omega

theorem crcRefBit_lt (c : Nat) : crcRefBit c < 2 ^ 24 := by
  unfold crcRefBit
  split <;> exact Nat.mod_lt _ (by norm_num)

theorem crcRefBit_low (c : Nat) (h : c < 2 ^ 23) : crcRefBit c = c <<< 1 := by
  unfold crcRefBit
  rw [if_neg (by omega)]
  apply Nat.mod_eq_of_lt
  rw [Nat.shiftLeft_eq]
  omega

/-- For a 24-bit state the top-bit test agrees with `testBit 23`. -/
theorem le_pow23_iff_testBit (c : Nat) (h : c < 2 ^ 24) :
    2 ^ 23 ≤ c ↔ c.testBit 23 = true := by
  rw [Nat.testBit_to_div_mod]
  simp only [decide_eq_true_eq]
  omega

/-- `crcRefBit` rewritten so that the polynomial XOR is isolated. -/
theorem crcRefBit_eq (c : Nat) :
    crcRefBit c =
      ((c <<< 1) % 2 ^ 24) ^^^ (if 2 ^ 23 ≤ c then 0x864CFB else 0) := by
  unfold crcRefBit
  by_cases h : 2 ^ 23 ≤ c
  · rw [if_pos h, if_pos h, xor_mod_two_pow]
    norm_num
  · rw [if_neg h, if_neg h]
    simp

/-- The reference bit step is GF(2)-linear on 24-bit states. -/
theorem crcRefBit_xor (x y : Nat) (hx : x < 2 ^ 24) (hy : y < 2 ^ 24) :
    crcRefBit (x ^^^ y) = crcRefBit x ^^^ crcRefBit y := by
  have hxy : x ^^^ y < 2 ^ 24 := Nat.xor_lt_two_pow hx hy
  rw [crcRefBit_eq x, crcRefBit_eq y, crcRefBit_eq (x ^^^ y)]
  have hcond : (2 ^ 23 ≤ (x ^^^ y)) ↔ ((2 ^ 23 ≤ x) ↔ ¬(2 ^ 23 ≤ y)) := by
    rw [le_pow23_iff_testBit _ hxy, le_pow23_iff_testBit _ hx,
      le_pow23_iff_testBit _ hy, Nat.testBit_xor]
    cases hbx : x.testBit 23 <;> cases hby : y.testBit 23 <;> simp
  have hshift : ((x ^^^ y) <<< 1) % 2 ^ 24 =
      ((x <<< 1) % 2 ^ 24) ^^^ ((y <<< 1) % 2 ^ 24) := by
    have hsx : (x ^^^ y) <<< 1 = (x <<< 1) ^^^ (y <<< 1) := by
      apply Nat.eq_of_testBit_eq
      intro i
      simp only [Nat.testBit_shiftLeft, Nat.testBit_xor]
      cases h : decide (i ≥ 1) <;> simp
    rw [hsx, xor_mod_two_pow]
  have cancel : ∀ a b p : Nat, (a ^^^ p) ^^^ (b ^^^ p) = a ^^^ b := by
    intro a b p
    apply Nat.eq_of_testBit_eq
    intro i
    simp only [Nat.testBit_xor]
    cases a.testBit i <;> cases b.testBit i <;> cases p.testBit i <;> rfl
  have swap : ∀ a b p : Nat, (a ^^^ p) ^^^ b = (a ^^^ b) ^^^ p := by
    intro a b p
    apply Nat.eq_of_testBit_eq
    intro i
    simp only [Nat.testBit_xor]
    cases a.testBit i <;> cases b.testBit i <;> cases p.testBit i <;> rfl
  rw [hshift]
  by_cases hx23 : 2 ^ 23 ≤ x <;> by_cases hy23 : 2 ^ 23 ≤ y
  · have hc : ¬(2 ^ 23 ≤ (x ^^^ y)) := by rw [hcond]; omega
    rw [if_neg hc, if_pos hx23, if_pos hy23, cancel]
    simp
  · have hc : 2 ^ 23 ≤ (x ^^^ y) := by rw [hcond]; omega
    rw [if_pos hc, if_pos hx23, if_neg hy23, Nat.xor_zero, swap]
  · have hc : 2 ^ 23 ≤ (x ^^^ y) := by rw [hcond]; omega
    rw [if_pos hc, if_neg hx23, if_pos hy23, Nat.xor_zero, Nat.xor_assoc]
  · have hc : ¬(2 ^ 23 ≤ (x ^^^ y)) := by rw [hcond]; omega
    rw [if_neg hc, if_neg hx23, if_neg hy23]
    simp

theorem crcRefBits_lt (k : Nat) (c : Nat) (h : c < 2 ^ 24) :
    crcRefBits c k < 2 ^ 24 := by
  induction k generalizing c with
  | zero => exact h
  | succ k ih => exact ih _ (crcRefBit_lt c)

theorem crcRefBits_add (c : Nat) (m n : Nat) :
    crcRefBits c (m + n) = crcRefBits (crcRefBits c m) n := by
  induction m generalizing c with
  | zero => rw [Nat.zero_add]; rfl
  | succ m ih =>
    rw [show m + 1 + n = (m + n) + 1 by omega]
    show crcRefBits (crcRefBit c) (m + n) =
      crcRefBits (crcRefBits (crcRefBit c) m) n
    exact ih (crcRefBit c)

theorem crcRefBits_xor (k : Nat) (x y : Nat)
    (hx : x < 2 ^ 24) (hy : y < 2 ^ 24) :
    crcRefBits (x ^^^ y) k = crcRefBits x k ^^^ crcRefBits y k := by
  induction k generalizing x y with
  | zero => rfl
  | succ k ih =>
    simp only [crcRefBits]
    rw [crcRefBit_xor x y hx hy]
    exact ih _ _ (crcRefBit_lt x) (crcRefBit_lt y)

theorem crcRefBits4_low (lo : Nat) (h : lo < 2 ^ 20) :
    crcRefBits lo 4 = lo <<< 4 := by
  have s1 : crcRefBit lo = lo <<< 1 := crcRefBit_low lo (by omega)
  have b1 : lo <<< 1 < 2 ^ 21 := by rw [Nat.shiftLeft_eq]; omega
  have s2 : crcRefBit (lo <<< 1) = lo <<< 1 <<< 1 :=
    crcRefBit_low _ (by omega)
  have b2 : lo <<< 1 <<< 1 < 2 ^ 22 := by
    simp only [Nat.shiftLeft_eq] at b1 ⊢
    omega
  have s3 : crcRefBit (lo <<< 1 <<< 1) = lo <<< 1 <<< 1 <<< 1 :=
    crcRefBit_low _ (by omega)
  have b3 : lo <<< 1 <<< 1 <<< 1 < 2 ^ 23 := by
    simp only [Nat.shiftLeft_eq] at b2 ⊢
    omega
  have s4 : crcRefBit (lo <<< 1 <<< 1 <<< 1) = lo <<< 1 <<< 1 <<< 1 <<< 1 :=
    crcRefBit_low _ (by omega)
  show crcRefBit (crcRefBit (crcRefBit (crcRefBit lo))) = lo <<< 4
  rw [s1, s2, s3, s4]
  simp only [Nat.shiftLeft_eq]
  ring

/-- Any state splits into its low 20 bits XOR its remaining top bits. -/
theorem split_24 (t : Nat) :
    t = (t % 2 ^ 20) ^^^ ((t >>> 20) <<< 20) := by
  apply Nat.eq_of_testBit_eq
  intro i
  simp only [Nat.testBit_xor, Nat.testBit_mod_two_pow, Nat.testBit_shiftLeft,
    Nat.testBit_shiftRight]
  by_cases hi : i < 20
  · simp [hi, Nat.not_le.mpr hi]
  · have h20 : i ≥ 20 := by omega
    simp only [hi, decide_False, Bool.false_and, Bool.false_xor,
      ge_iff_le, h20, decide_True, Bool.true_and]
    rw [Nat.add_sub_cancel' h20]

/-- The low 24 bits of each table entry are the four reference bit steps
of the corresponding top nibble: the table is a correct CRC-24Q nibble
table despite the entries being wider than 24 bits. -/
theorem crcTab_correct :
    ∀ h : Fin 16, crcTab h.val % 2 ^ 24 = crcRefBits (h.val <<< 20) 4 := by
  decide

/-- One table step of `crc24q_check`, masked to 24 bits, is four
reference bit steps of the masked state. -/
theorem nib_mod24 (s : Nat) :
    (((s <<< 4) ^^^ crcTab ((s >>> 20) % 16)) % 2 ^ 32) % 2 ^ 24 =
      crcRefBits (s % 2 ^ 24) 4 := by
  have hdvd : (2 : Nat) ^ 24 ∣ 2 ^ 32 := pow_dvd_pow 2 (by omega)
  rw [Nat.mod_mod_of_dvd _ hdvd, xor_mod_two_pow, shiftLeft4_mod24]
  set t := s % 2 ^ 24 with ht
  have htlt : t < 2 ^ 24 := Nat.mod_lt _ (by norm_num)
  have hlo : s % 2 ^ 20 = t % 2 ^ 20 := by rw [ht]; omega
  have hhi : (s >>> 20) % 16 = t >>> 20 := shiftRight20_mod16 s
  have hhil : t >>> 20 < 16 := by
    rw [Nat.shiftRight_eq_div_pow]
    omega
  rw [hlo, hhi]
  conv_rhs => rw [split_24 t]
  rw [crcRefBits_xor 4 _ _
    (lt_of_lt_of_le (Nat.mod_lt _ (by norm_num)) (by norm_num))
    (by rw [Nat.shiftLeft_eq]; omega)]
  rw [crcRefBits4_low _ (Nat.mod_lt _ (by norm_num))]
  rw [← crcTab_correct ⟨t >>> 20, hhil⟩]

/-- One byte of `crc24q_check`, masked to 24 bits, equals one byte of the
reference CRC-24Q on the masked state. -/
theorem crc24qByte_mod24 (s b : Nat) :
    crc24qByte s b % 2 ^ 24 = crcRefByte (s % 2 ^ 24) b := by
  unfold crc24qByte crcRefByte
  set c0 := s ^^^ ((b % 256) <<< 16) with hc0
  have h1 : ((((c0 <<< 4) ^^^ crcTab ((c0 >>> 20) % 16)) % 2 ^ 32) % 2 ^ 24) =
      crcRefBits (c0 % 2 ^ 24) 4 := nib_mod24 c0
  set c1 := ((c0 <<< 4) ^^^ crcTab ((c0 >>> 20) % 16)) % 2 ^ 32 with hc1
  have h2 : (((c1 <<< 4) ^^^ crcTab ((c1 >>> 20) % 16)) % 2 ^ 32) % 2 ^ 24 =
      crcRefBits (c1 % 2 ^ 24) 4 := nib_mod24 c1
  rw [h2, h1]
  rw [show (8 : Nat) = 4 + 4 from rfl, crcRefBits_add]
  congr 1
  have hb : (b % 256) <<< 16 < 2 ^ 24 := by
    rw [Nat.shiftLeft_eq]
    omega
  have : (s % 2 ^ 24 ^^^ (b % 256) <<< 16) % 2 ^ 24 =
      s % 2 ^ 24 ^^^ (b % 256) <<< 16 :=
    Nat.mod_eq_of_lt (Nat.xor_lt_two_pow (Nat.mod_lt _ (by norm_num)) hb)
  rw [this, hc0, xor_mod_two_pow, Nat.mod_eq_of_lt hb]

theorem crc24q_fold (d : Bytes) (s : Nat) :
    (d.foldl crc24qByte s) % 2 ^ 24 = d.foldl crcRefByte (s % 2 ^ 24) := by
  induction d generalizing s with
  | nil => rfl
  | cons x xs ih =>
    simp only [List.foldl_cons]
    rw [ih, crc24qByte_mod24]

/-- C8: `crc24q_check` computes the reference CRC-24Q despite its
16-entry nibble table with entries wider than 24 bits: for every byte
sequence it returns true exactly when the reference CRC-24Q remainder
(polynomial 0x1864CFB, MSB first, initial value 0) is zero; and
`RtcmFrame::from_bytes` succeeds only on frames whose 3-byte CRC-24Q
over preamble, length and payload verifies. -/
theorem c8_crc24q_check_is_reference_crc :
    (∀ d : Bytes, crc24qCheck d = decide (crc24qRef d = 0)) ∧
    (∀ (b : Bytes) (f : RtcmFrameO) (sz : Nat),
      rtcmFromBytes b = .ok (f, sz) → crc24qRef (b.take sz) = 0) := by
  have key : ∀ d : Bytes, crc24qCheck d = decide (crc24qRef d = 0) := by
    intro d
    unfold crc24qCheck
    rw [crc24q_fold]
    simp only [Nat.zero_mod, crc24qRef]
    rw [Bool.eq_iff_iff]
    simp
  refine ⟨key, ?_⟩
  intro b f sz h
  simp only [rtcmFromBytes] at h
  split at h
  · exact absurd h (by simp)
  · split at h
    · exact absurd h (by simp)
    · split at h
      · exact absurd h (by simp)
      · split at h
        · exact absurd h (by simp)
        · rename_i hc
          rw [not_not] at hc
          injection h with h'
          have hsz : sz = ((b.getD 1 0 &&& 3) <<< 8 ||| b.getD 2 0) + 6 := by
            have := congrArg Prod.snd h'
            simpa using this.symm
          rw [hsz]
          have := key (b.take (((b.getD 1 0 &&& 3) <<< 8 ||| b.getD 2 0) + 6))
          rw [hc] at this
          simpa using this.symm

/-- Witness for C8 at the concrete valid frame of claim C3. -/
theorem c8_crc_witness :
    crc24qCheck [0xD3, 0x00, 0x05, 0x3E, 0xD0, 0x00, 0x00, 0x00,
                 0x99, 0x6E, 0x27] =
      decide (crc24qRef [0xD3, 0x00, 0x05, 0x3E, 0xD0, 0x00, 0x00, 0x00,
                         0x99, 0x6E, 0x27] = 0) ∧
    crc24qRef (([0xD3, 0x00, 0x05, 0x3E, 0xD0, 0x00, 0x00, 0x00,
                 0x99, 0x6E, 0x27] : Bytes).take 11) = 0 :=
  ⟨c8_crc24q_check_is_reference_crc.1 _,
   c8_crc24q_check_is_reference_crc.2
     [0xD3, 0x00, 0x05, 0x3E, 0xD0, 0x00, 0x00, 0x00, 0x99, 0x6E, 0x27]
     ⟨0x3E3, [0xD3, 0x00, 0x05, 0x3E, 0xD0, 0x00, 0x00, 0x00,
              0x99, 0x6E, 0x27]⟩ 11 rfl⟩

/-! ## The Server control frame (src/msg/server.rs) and the hub peer arm -/

/-- `ServerMsg`: `ResetPort = 0`, `Quit = 1`. -/
inductive ServerMsg where
  | resetPort
  | quit
deriving DecidableEq, Repr

/-- `ServerMsg::parse_read` (via `impl_enum!`): a `u8` discriminant. -/
def readServerMsg (b : Bytes) : PRes ServerMsg :=
  match readU8 b with
  | .ok (r, 0) => .ok (r, .resetPort)
  | .ok (r, 1) => .ok (r, .quit)
  | .ok _ => .error .invalid
  | .error e => .error e

/-- `ServerMsg::parse_write`. -/
def writeServerMsg : ServerMsg → Bytes
  | .resetPort => [0]
  | .quit => [1]

/-- `Server`: the `%`-prefixed two-byte control frame. -/
structure Server where
  msg : ServerMsg
deriving DecidableEq, Repr

/-- `Server::contains_prefix`: first byte is `%` (0x25). -/
def serverHasMagic (b : Bytes) : Bool :=
  ¬ b.isEmpty && b.getD 0 0 == 0x25

/-- `Server::message_usage`: two bytes once available. -/
def serverUsage (b : Bytes) : Option Nat :=
  if ¬ serverHasMagic b then none
  else if b.length < 2 then none
  else some 2

/-- `Server::parse_read`. -/
def serverRead (b : Bytes) : PRes Server :=
  match tagU8 b 0x25 with
  | .ok r =>
    match readServerMsg r with
    | .ok (r, msg) => .ok (r, ⟨msg⟩)
    | .error e => .error e
  | .error e => .error e

/-- `Server::parse_write`. -/
def serverWrite (s : Server) : Bytes :=
  0x25 :: writeServerMsg s.msg

/-- The effect of `handle_incomming` in src/bin/server.rs on the serial
port: nothing (the Quit arm), a port reset cycle, or a verbatim write of
the payload to the serial device. -/
inductive HandleEffect where
  | noEffect
  | portReset
  | writeSerial (x : Bytes)
deriving DecidableEq, Repr

/-- `handle_incomming`: parse the payload as a Server frame; `Quit`
returns `Ok(())` immediately, `ResetPort` reopens the port, anything
else is written to the serial device. Serial I/O is modelled as
succeeding; the `Err` results of the source arise only from serial
write or reopen failures. -/
def handleIncomming (x : Bytes) : Except PErr HandleEffect :=
  match serverRead x with
  | .ok (_, s) =>
    match s.msg with
    | .quit => .ok .noEffect
    | .resetPort => .ok .portReset
  | .error _ => .ok (.writeSerial x)

/-- What one iteration of the `run` select loop does after a peer
payload arrives. -/
inductive LoopControl where
  | continueLoop
  | exitOk
  | exitErr
deriving DecidableEq, Repr

/-- The peer-payload arms of the select loop in `run`: the handler's
result is propagated with `?`, so an `Ok` — including the Quit arm's —
simply continues the loop; only an `Err` exits. -/
def peerArmStep (x : Bytes) : LoopControl :=
  match handleIncomming x with
  | .ok _ => .continueLoop
  | .error _ => .exitErr

/-- C4: the payload 0x25 0x01 parses as Server::Quit, yet the hub loop
does not terminate: `handle_incomming` merely returns `Ok(())` from
itself, and the select loop in `run` continues iterating — the claim
that the loop exits with success on Quit fails. -/
theorem c4_quit_payload_does_not_exit_hub_loop :
    serverRead [0x25, 0x01] = .ok ([], ⟨.quit⟩) ∧
    handleIncomming [0x25, 0x01] = .ok .noEffect ∧
    peerArmStep [0x25, 0x01] = .continueLoop ∧
    LoopControl.continueLoop ≠ .exitOk := by
  refine ⟨rfl, rfl, rfl, by simp⟩

/-! ## The device ACK correlation (src/device.rs, over the older message
model of src/main.rs / the former src/ubx module) -/

/-- `ubx::Ack` (cf. src/old/ubx/ack.rs, the module device.rs links
against): an acknowledgement or rejection carrying the class and message
id of the acknowledged message. -/
inductive AckO where
  | ack (msg_id cls_id : Nat)
  | nak (msg_id cls_id : Nat)
deriving DecidableEq, Repr

/-- `ubx::Msg`: the class-level union of the older ubx module. Payloads
of the classes other than `Ack` are elided: `GpsDevice::read` matches
only on the `Ack` shape and passes every other message through
untouched (`x => Ok(x)`). -/
inductive MsgO where
  | nav
  | rxm
  | inf
  | ack (a : AckO)
  | cfg
  | upd
  | mon
  | tim
  | mga
  | log
  | sec
deriving DecidableEq, Repr

/-- The `GpsMsg` union of src/main.rs; NMEA and RTCM payloads are
elided for the same reason. -/
inductive GpsMsgO where
  | nmea
  | rtcm
  | ubx (m : MsgO)
deriving DecidableEq, Repr

/-- `GpsDevice::read`, given the pending ACK slot contents (the stored
`msg.id()` byte of the sent CFG message) and the next message parsed
from the device. Returns the new slot, the value sent through the
oneshot completion (if any), and the message returned to the caller.
The source matches only `msg_id == id`; the acknowledged `cls_id` is
bound but never compared. -/
def deviceRead (pending : Option Nat) (m : GpsMsgO) :
    Option Nat × Option Bool × GpsMsgO :=
  match pending with
  | none => (none, none, m)
  | some id =>
    match m with
    | .ubx (.ack (.ack mid _)) =>
      if mid = id then (none, some true, m) else (some id, none, m)
    | .ubx (.ack (.nak mid _)) =>
      if mid = id then (none, some false, m) else (some id, none, m)
    | _ => (some id, none, m)

/-- The resolution the code actually performs: match on `msg_id` alone. -/
def ackResolution (id : Nat) (m : GpsMsgO) : Option Bool :=
  match m with
  | .ubx (.ack (.ack mid _)) => if mid = id then some true else none
  | .ubx (.ack (.nak mid _)) => if mid = id then some false else none
  | _ => none

/-- C5 counterexample: with a CFG transaction pending for id 0x8A (class
0x06), an ACK acknowledging class 0x00 with message id 0x8A resolves the
transaction with success — refuting the claim that an ACK/NAK whose
acknowledged class differs from the sent class does not resolve it. -/
theorem c5_ack_with_wrong_class_resolves :
    deviceRead (some 0x8A) (.ubx (.ack (.ack 0x8A 0x00))) =
      (none, some true, .ubx (.ack (.ack 0x8A 0x00))) ∧
    (0x00 : Nat) ≠ 0x06 := by
  refine ⟨rfl, by simp⟩

/-- C5 amended: while a transaction is pending for id `i`, `read`
resolves it (true on ACK, false on NAK) exactly when the received
ACK/NAK's acknowledged `msg_id` equals `i` — the acknowledged class is
ignored — the slot is cleared exactly on resolution, and every message,
including the resolving one, is returned to the caller unchanged. -/
theorem c5_read_resolves_on_msg_id_only (id : Nat) (m : GpsMsgO) :
    deviceRead (some id) m =
      ((ackResolution id m).elim (some id) (fun _ => none),
        ackResolution id m, m) := by
  cases m with
  | ubx mm =>
    cases mm with
    | ack a =>
      cases a with
      | ack mid cid =>
        by_cases h : mid = id <;> simp [deviceRead, ackResolution, h]
      | nak mid cid =>
        by_cases h : mid = id <;> simp [deviceRead, ackResolution, h]
    | _ => rfl
  | _ => rfl

/-- Witness for C5 at a concrete resolving NAK. -/
theorem c5_read_witness :
    deviceRead (some 0x8A) (.ubx (.ack (.nak 0x8A 0x06))) =
      ((ackResolution 0x8A (.ubx (.ack (.nak 0x8A 0x06)))).elim
        (some 0x8A) (fun _ => none),
       ackResolution 0x8A (.ubx (.ack (.nak 0x8A 0x06))),
       .ubx (.ack (.nak 0x8A 0x06))) :=
  c5_read_resolves_on_msg_id_only 0x8A (.ubx (.ack (.nak 0x8A 0x06)))

/-! ## The configuration value catalogue (src/ubx/cfg/value.rs) -/

set_option maxRecDepth 8000

/-- `RtkMode` (`impl_enum!`): Float = 2, Fixed = 3. -/
inductive RtkMode where
  | float
  | fixed
deriving DecidableEq, Repr

def writeRtkMode : RtkMode → Bytes
  | .float => [2]
  | .fixed => [3]

def readRtkMode (b : Bytes) : PRes RtkMode :=
  match readU8 b with
  | .ok (r, 2) => .ok (r, .float)
  | .ok (r, 3) => .ok (r, .fixed)
  | .ok _ => .error .invalid
  | .error e => .error e

/-- `Tmode` of the value catalogue: Disabled = 0, SurveyIn = 1, Fixed = 2. -/
inductive VTmode where
  | disabled
  | surveyIn
  | fixed
deriving DecidableEq, Repr

def writeVTmode : VTmode → Bytes
  | .disabled => [0]
  | .surveyIn => [1]
  | .fixed => [2]

def readVTmode (b : Bytes) : PRes VTmode :=
  match readU8 b with
  | .ok (r, 0) => .ok (r, .disabled)
  | .ok (r, 1) => .ok (r, .surveyIn)
  | .ok (r, 2) => .ok (r, .fixed)
  | .ok _ => .error .invalid
  | .error e => .error e

/-- `PosType`: Ecef = 0, Llh = 1. -/
inductive VPosType where
  | ecef
  | llh
deriving DecidableEq, Repr

def writeVPosType : VPosType → Bytes
  | .ecef => [0]
  | .llh => [1]

def readVPosType (b : Bytes) : PRes VPosType :=
  match readU8 b with
  | .ok (r, 0) => .ok (r, .ecef)
  | .ok (r, 1) => .ok (r, .llh)
  | .ok _ => .error .invalid
  | .error e => .error e

/-- `StopBits` of the value catalogue: Half = 0, One = 1, OneHalf = 2,
Two = 3. -/
inductive VStopBits where
  | half
  | one
  | oneHalf
  | two
deriving DecidableEq, Repr

def writeVStopBits : VStopBits → Bytes
  | .half => [0]
  | .one => [1]
  | .oneHalf => [2]
  | .two => [3]

def readVStopBits (b : Bytes) : PRes VStopBits :=
  match readU8 b with
  | .ok (r, 0) => .ok (r, .half)
  | .ok (r, 1) => .ok (r, .one)
  | .ok (r, 2) => .ok (r, .oneHalf)
  | .ok (r, 3) => .ok (r, .two)
  | .ok _ => .error .invalid
  | .error e => .error e

/-- `Databits`: Eight = 0, Seven = 1. -/
inductive VDatabits where
  | eight
  | seven
deriving DecidableEq, Repr

def writeVDatabits : VDatabits → Bytes
  | .eight => [0]
  | .seven => [1]

def readVDatabits (b : Bytes) : PRes VDatabits :=
  match readU8 b with
  | .ok (r, 0) => .ok (r, .eight)
  | .ok (r, 1) => .ok (r, .seven)
  | .ok _ => .error .invalid
  | .error e => .error e

/-- `Parity` of the value catalogue: None = 0, Odd = 1, Even = 2. -/
inductive VParity where
  | parNone
  | odd
  | even
deriving DecidableEq, Repr

def writeVParity : VParity → Bytes
  | .parNone => [0]
  | .odd => [1]
  | .even => [2]

def readVParity (b : Bytes) : PRes VParity :=
  match readU8 b with
  | .ok (r, 0) => .ok (r, .parNone)
  | .ok (r, 1) => .ok (r, .odd)
  | .ok (r, 2) => .ok (r, .even)
  | .ok _ => .error .invalid
  | .error e => .error e

/-- `OdoProfile`: Run = 0, Cycl = 1, Swim = 2, Car = 3, Custom = 4. -/
inductive VOdoProfile where
  | run
  | cycl
  | swim
  | car
  | custom
deriving DecidableEq, Repr

def writeVOdoProfile : VOdoProfile → Bytes
  | .run => [0]
  | .cycl => [1]
  | .swim => [2]
  | .car => [3]
  | .custom => [4]

def readVOdoProfile (b : Bytes) : PRes VOdoProfile :=
  match readU8 b with
  | .ok (r, 0) => .ok (r, .run)
  | .ok (r, 1) => .ok (r, .cycl)
  | .ok (r, 2) => .ok (r, .swim)
  | .ok (r, 3) => .ok (r, .car)
  | .ok (r, 4) => .ok (r, .custom)
  | .ok _ => .error .invalid
  | .error e => .error e

/-- `BitFlags<MsgMask>` (`impl_bitfield!`): a u8 whose unknown bits are
truncated on read; the catalogue mask is 0x1F. -/
def readMsgMask (b : Bytes) : PRes Nat :=
  match readU8 b with
  | .ok (r, v) => .ok (r, v &&& 0x1F)
  | .error e => .error e

def writeMsgMask (v : Nat) : Bytes := writeU8 v

theorem readRtkMode_write (v : RtkMode) (r : Bytes) :
    readRtkMode (writeRtkMode v ++ r) = .ok (r, v) := by cases v <;> rfl

theorem readVTmode_write (v : VTmode) (r : Bytes) :
    readVTmode (writeVTmode v ++ r) = .ok (r, v) := by cases v <;> rfl

theorem readVPosType_write (v : VPosType) (r : Bytes) :
    readVPosType (writeVPosType v ++ r) = .ok (r, v) := by cases v <;> rfl

theorem readVStopBits_write (v : VStopBits) (r : Bytes) :
    readVStopBits (writeVStopBits v ++ r) = .ok (r, v) := by cases v <;> rfl

theorem readVDatabits_write (v : VDatabits) (r : Bytes) :
    readVDatabits (writeVDatabits v ++ r) = .ok (r, v) := by cases v <;> rfl

theorem readVParity_write (v : VParity) (r : Bytes) :
    readVParity (writeVParity v ++ r) = .ok (r, v) := by cases v <;> rfl

theorem readVOdoProfile_write (v : VOdoProfile) (r : Bytes) :
    readVOdoProfile (writeVOdoProfile v ++ r) = .ok (r, v) := by
  cases v <;> rfl

theorem readMsgMask_write (v : Nat) (r : Bytes) (h : v &&& 0x1F = v) :
    readMsgMask (writeMsgMask v ++ r) = .ok (r, v) := by
  have hle : v ≤ 0x1F := h ▸ Nat.and_le_right
  unfold readMsgMask writeMsgMask
  rw [readU8_writeU8, Nat.mod_eq_of_lt (by omega)]
  simp [h]

/-- The configuration value catalogue of src/ubx/cfg/value.rs (the
`impl_value!` table): a 32-bit key id with a typed payload. The same
catalogue serves, modelled from the spec ("Configuration Value — 32-bit
key identifier + typed payload ... payload size is implicit in the
key"), for the values module missing from the newer message tree
(src/msg/ubx/cfg.rs declares `mod values`, whose file is absent). -/
inductive Value where
  | rateMeas (v : Nat)
  | rateNav (v : Nat)
  | usbInprotUbx (v : Bool)
  | usbInprotNmea (v : Bool)
  | usbInprotRtcm3x (v : Bool)
  | usbOutprotUbx (v : Bool)
  | usbOutprotNmea (v : Bool)
  | usbOutprotRtcm3x (v : Bool)
  | spiInprotUbx (v : Bool)
  | spiInprotNmea (v : Bool)
  | spiInprotRtcm3x (v : Bool)
  | spiOutprotUbx (v : Bool)
  | spiOutprotNmea (v : Bool)
  | spiOutprotRtcm3x (v : Bool)
  | uart1InprotUbx (v : Bool)
  | uart1InprotNmea (v : Bool)
  | uart1InprotRtcm3x (v : Bool)
  | uart1OutprotUbx (v : Bool)
  | uart1OutprotNmea (v : Bool)
  | uart1OutprotRtcm3x (v : Bool)
  | uart2InprotUbx (v : Bool)
  | uart2InprotNmea (v : Bool)
  | uart2InprotRtcm3x (v : Bool)
  | uart2OutprotUbx (v : Bool)
  | uart2OutprotNmea (v : Bool)
  | uart2OutprotRtcm3x (v : Bool)
  | uart1Baudrate (v : Nat)
  | uart1StopBits (v : VStopBits)
  | uart1Databits (v : VDatabits)
  | uart1Parity (v : VParity)
  | uart1Enabled (v : Bool)
  | uart2Baudrate (v : Nat)
  | uart2StopBits (v : VStopBits)
  | uart2Databits (v : VDatabits)
  | uart2Parity (v : VParity)
  | uart2Enabled (v : Bool)
  | uart2Remap (v : Bool)
  | infmsgUbxUart1 (v : Nat)
  | infmsgUbxUart2 (v : Nat)
  | infmsgUbxUsb (v : Nat)
  | infmsgNmeaUart1 (v : Nat)
  | infmsgNmeaUart2 (v : Nat)
  | infmsgNmeaUsb (v : Nat)
  | msgoutRtcm3xType1005Usb (v : Nat)
  | msgoutRtcm3xType1074Usb (v : Nat)
  | msgoutRtcm3xType1077Usb (v : Nat)
  | msgoutRtcm3xType1084Usb (v : Nat)
  | msgoutRtcm3xType1087Usb (v : Nat)
  | msgoutRtcm3xType1094Usb (v : Nat)
  | msgoutRtcm3xType1097Usb (v : Nat)
  | msgoutRtcm3xType1124Usb (v : Nat)
  | msgoutRtcm3xType1127Usb (v : Nat)
  | msgoutRtcm3xType1230Usb (v : Nat)
  | msgoutRtcm3xType4072_0Usb (v : Nat)
  | msgoutRtcm3xType4072_1Usb (v : Nat)
  | msgoutUbxLogInfoUsb (v : Nat)
  | msgoutUbxMonHw2Usb (v : Nat)
  | msgoutUbxMonHw3Usb (v : Nat)
  | msgoutUbxMonHwUsb (v : Nat)
  | msgoutUbxMonIoUsb (v : Nat)
  | msgoutUbxMonCommsUsb (v : Nat)
  | msgoutUbxMonMsgppUsb (v : Nat)
  | msgoutUbxMonRfUsb (v : Nat)
  | msgoutUbxMonRxbufUsb (v : Nat)
  | msgoutUbxMonRxrUsb (v : Nat)
  | msgoutUbxMonTxbufUsb (v : Nat)
  | msgoutUbxNavClockUsb (v : Nat)
  | msgoutUbxNavDopUsb (v : Nat)
  | msgoutUbxNavEoeUsb (v : Nat)
  | msgoutUbxNavHpposecefUsb (v : Nat)
  | msgoutUbxNavHpposllhUsb (v : Nat)
  | msgoutUbxNavOdoUsb (v : Nat)
  | msgoutUbxNavOrbUsb (v : Nat)
  | msgoutUbxNavPosecefUsb (v : Nat)
  | msgoutUbxNavPosllhUsb (v : Nat)
  | msgoutUbxNavPvtUsb (v : Nat)
  | msgoutUbxNavRelPosNedUsb (v : Nat)
  | msgoutUbxNavSatUsb (v : Nat)
  | msgoutUbxNavSigUsb (v : Nat)
  | msgoutUbxNavStatusUsb (v : Nat)
  | msgoutUbxNavSvinUsb (v : Nat)
  | msgoutUbxNavTimebdsUsb (v : Nat)
  | msgoutUbxNavTimegalUsb (v : Nat)
  | msgoutUbxNavTimegloUsb (v : Nat)
  | msgoutUbxNavTimegpsUsb (v : Nat)
  | msgoutUbxNavTimelsUsb (v : Nat)
  | msgoutUbxNavTimeutcUsb (v : Nat)
  | msgoutUbxNavVelecefUsb (v : Nat)
  | msgoutUbxNavVelnedUsb (v : Nat)
  | msgoutUbxRxmMeasxUsb (v : Nat)
  | msgoutUbxRxmRawxUsb (v : Nat)
  | msgoutUbxRxmRlmUsb (v : Nat)
  | msgoutUbxRxmRtcmUsb (v : Nat)
  | msgoutUbxRxmSfrbxUsb (v : Nat)
  | odoUseOdo (v : Bool)
  | odoUseCog (v : Bool)
  | odoOutlpvel (v : Bool)
  | odoOutlpcog (v : Bool)
  | odoProfile (v : VOdoProfile)
  | odoCogmaxspeed (v : Nat)
  | odoCogmaxposacc (v : Nat)
  | odoVellpgain (v : Nat)
  | odoCoglpgain (v : Nat)
  | navhpgDgnssmode (v : RtkMode)
  | tmodeMode (v : VTmode)
  | tmodePosType (v : VPosType)
  | tmodeEcefX (v : Int)
  | tmodeEcefY (v : Int)
  | tmodeEcefZ (v : Int)
  | tmodeEcefXHp (v : Int)
  | tmodeEcefYHp (v : Int)
  | tmodeEcefZHp (v : Int)
  | tmodeFixedPosAcc (v : Nat)
  | tmodeSvinMinDur (v : Nat)
  | tmodeSvinAccLimit (v : Nat)
  | signalGpsEna (v : Bool)
  | signalGpsL1caEna (v : Bool)
  | signalGpsL2cEna (v : Bool)
  | signalGalEna (v : Bool)
  | signalGalE1Ena (v : Bool)
  | signalGalE5bEna (v : Bool)
  | signalBdsEna (v : Bool)
  | signalBdsB1Ena (v : Bool)
  | signalBdsB2Ena (v : Bool)
  | signalQzssEna (v : Bool)
  | signalQzssL1caEna (v : Bool)
  | signalQzssL2cEna (v : Bool)
  | signalGloEna (v : Bool)
  | signalGloL1Ena (v : Bool)
  | signalGloL2Ena (v : Bool)

/-- `ValueKey`: the keys of the catalogue, with no payload. -/
inductive ValueKey where
  | rateMeas
  | rateNav
  | usbInprotUbx
  | usbInprotNmea
  | usbInprotRtcm3x
  | usbOutprotUbx
  | usbOutprotNmea
  | usbOutprotRtcm3x
  | spiInprotUbx
  | spiInprotNmea
  | spiInprotRtcm3x
  | spiOutprotUbx
  | spiOutprotNmea
  | spiOutprotRtcm3x
  | uart1InprotUbx
  | uart1InprotNmea
  | uart1InprotRtcm3x
  | uart1OutprotUbx
  | uart1OutprotNmea
  | uart1OutprotRtcm3x
  | uart2InprotUbx
  | uart2InprotNmea
  | uart2InprotRtcm3x
  | uart2OutprotUbx
  | uart2OutprotNmea
  | uart2OutprotRtcm3x
  | uart1Baudrate
  | uart1StopBits
  | uart1Databits
  | uart1Parity
  | uart1Enabled
  | uart2Baudrate
  | uart2StopBits
  | uart2Databits
  | uart2Parity
  | uart2Enabled
  | uart2Remap
  | infmsgUbxUart1
  | infmsgUbxUart2
  | infmsgUbxUsb
  | infmsgNmeaUart1
  | infmsgNmeaUart2
  | infmsgNmeaUsb
  | msgoutRtcm3xType1005Usb
  | msgoutRtcm3xType1074Usb
  | msgoutRtcm3xType1077Usb
  | msgoutRtcm3xType1084Usb
  | msgoutRtcm3xType1087Usb
  | msgoutRtcm3xType1094Usb
  | msgoutRtcm3xType1097Usb
  | msgoutRtcm3xType1124Usb
  | msgoutRtcm3xType1127Usb
  | msgoutRtcm3xType1230Usb
  | msgoutRtcm3xType4072_0Usb
  | msgoutRtcm3xType4072_1Usb
  | msgoutUbxLogInfoUsb
  | msgoutUbxMonHw2Usb
  | msgoutUbxMonHw3Usb
  | msgoutUbxMonHwUsb
  | msgoutUbxMonIoUsb
  | msgoutUbxMonCommsUsb
  | msgoutUbxMonMsgppUsb
  | msgoutUbxMonRfUsb
  | msgoutUbxMonRxbufUsb
  | msgoutUbxMonRxrUsb
  | msgoutUbxMonTxbufUsb
  | msgoutUbxNavClockUsb
  | msgoutUbxNavDopUsb
  | msgoutUbxNavEoeUsb
  | msgoutUbxNavHpposecefUsb
  | msgoutUbxNavHpposllhUsb
  | msgoutUbxNavOdoUsb
  | msgoutUbxNavOrbUsb
  | msgoutUbxNavPosecefUsb
  | msgoutUbxNavPosllhUsb
  | msgoutUbxNavPvtUsb
  | msgoutUbxNavRelPosNedUsb
  | msgoutUbxNavSatUsb
  | msgoutUbxNavSigUsb
  | msgoutUbxNavStatusUsb
  | msgoutUbxNavSvinUsb
  | msgoutUbxNavTimebdsUsb
  | msgoutUbxNavTimegalUsb
  | msgoutUbxNavTimegloUsb
  | msgoutUbxNavTimegpsUsb
  | msgoutUbxNavTimelsUsb
  | msgoutUbxNavTimeutcUsb
  | msgoutUbxNavVelecefUsb
  | msgoutUbxNavVelnedUsb
  | msgoutUbxRxmMeasxUsb
  | msgoutUbxRxmRawxUsb
  | msgoutUbxRxmRlmUsb
  | msgoutUbxRxmRtcmUsb
  | msgoutUbxRxmSfrbxUsb
  | odoUseOdo
  | odoUseCog
  | odoOutlpvel
  | odoOutlpcog
  | odoProfile
  | odoCogmaxspeed
  | odoCogmaxposacc
  | odoVellpgain
  | odoCoglpgain
  | navhpgDgnssmode
  | tmodeMode
  | tmodePosType
  | tmodeEcefX
  | tmodeEcefY
  | tmodeEcefZ
  | tmodeEcefXHp
  | tmodeEcefYHp
  | tmodeEcefZHp
  | tmodeFixedPosAcc
  | tmodeSvinMinDur
  | tmodeSvinAccLimit
  | signalGpsEna
  | signalGpsL1caEna
  | signalGpsL2cEna
  | signalGalEna
  | signalGalE1Ena
  | signalGalE5bEna
  | signalBdsEna
  | signalBdsB1Ena
  | signalBdsB2Ena
  | signalQzssEna
  | signalQzssL1caEna
  | signalQzssL2cEna
  | signalGloEna
  | signalGloL1Ena
  | signalGloL2Ena

/-- The 32-bit key id of each catalogue entry. -/
def valueId : Value → Nat
  | .rateMeas _ => 0x30210001
  | .rateNav _ => 0x30210002
  | .usbInprotUbx _ => 0x10770001
  | .usbInprotNmea _ => 0x10770002
  | .usbInprotRtcm3x _ => 0x10770004
  | .usbOutprotUbx _ => 0x10780001
  | .usbOutprotNmea _ => 0x10780002
  | .usbOutprotRtcm3x _ => 0x10780004
  | .spiInprotUbx _ => 0x10790001
  | .spiInprotNmea _ => 0x10790002
  | .spiInprotRtcm3x _ => 0x10790004
  | .spiOutprotUbx _ => 0x107a0001
  | .spiOutprotNmea _ => 0x107a0002
  | .spiOutprotRtcm3x _ => 0x107a0004
  | .uart1InprotUbx _ => 0x10730001
  | .uart1InprotNmea _ => 0x10730002
  | .uart1InprotRtcm3x _ => 0x10730004
  | .uart1OutprotUbx _ => 0x10740001
  | .uart1OutprotNmea _ => 0x10740002
  | .uart1OutprotRtcm3x _ => 0x10740004
  | .uart2InprotUbx _ => 0x10750001
  | .uart2InprotNmea _ => 0x10750002
  | .uart2InprotRtcm3x _ => 0x10750004
  | .uart2OutprotUbx _ => 0x10760001
  | .uart2OutprotNmea _ => 0x10760002
  | .uart2OutprotRtcm3x _ => 0x10760004
  | .uart1Baudrate _ => 0x40520001
  | .uart1StopBits _ => 0x20520002
  | .uart1Databits _ => 0x20520003
  | .uart1Parity _ => 0x20520004
  | .uart1Enabled _ => 0x20520005
  | .uart2Baudrate _ => 0x40530001
  | .uart2StopBits _ => 0x20530002
  | .uart2Databits _ => 0x20530003
  | .uart2Parity _ => 0x20530004
  | .uart2Enabled _ => 0x20530005
  | .uart2Remap _ => 0x20530006
  | .infmsgUbxUart1 _ => 0x20920002
  | .infmsgUbxUart2 _ => 0x20920003
  | .infmsgUbxUsb _ => 0x20920004
  | .infmsgNmeaUart1 _ => 0x20920007
  | .infmsgNmeaUart2 _ => 0x20920008
  | .infmsgNmeaUsb _ => 0x20920009
  | .msgoutRtcm3xType1005Usb _ => 0x209102c0
  | .msgoutRtcm3xType1074Usb _ => 0x20910361
  | .msgoutRtcm3xType1077Usb _ => 0x209102cf
  | .msgoutRtcm3xType1084Usb _ => 0x20910366
  | .msgoutRtcm3xType1087Usb _ => 0x209102d4
  | .msgoutRtcm3xType1094Usb _ => 0x2091036b
  | .msgoutRtcm3xType1097Usb _ => 0x2091031b
  | .msgoutRtcm3xType1124Usb _ => 0x20910370
  | .msgoutRtcm3xType1127Usb _ => 0x209102d9
  | .msgoutRtcm3xType1230Usb _ => 0x20910306
  | .msgoutRtcm3xType4072_0Usb _ => 0x20910301
  | .msgoutRtcm3xType4072_1Usb _ => 0x20910384
  | .msgoutUbxLogInfoUsb _ => 0x2091025b
  | .msgoutUbxMonHw2Usb _ => 0x209101bc
  | .msgoutUbxMonHw3Usb _ => 0x20910357
  | .msgoutUbxMonHwUsb _ => 0x209101b7
  | .msgoutUbxMonIoUsb _ => 0x209101a8
  | .msgoutUbxMonCommsUsb _ => 0x20910352
  | .msgoutUbxMonMsgppUsb _ => 0x20910199
  | .msgoutUbxMonRfUsb _ => 0x2091035c
  | .msgoutUbxMonRxbufUsb _ => 0x209101a3
  | .msgoutUbxMonRxrUsb _ => 0x2091018a
  | .msgoutUbxMonTxbufUsb _ => 0x2091019e
  | .msgoutUbxNavClockUsb _ => 0x20910068
  | .msgoutUbxNavDopUsb _ => 0x2091003b
  | .msgoutUbxNavEoeUsb _ => 0x20910162
  | .msgoutUbxNavHpposecefUsb _ => 0x20910031
  | .msgoutUbxNavHpposllhUsb _ => 0x20910036
  | .msgoutUbxNavOdoUsb _ => 0x20910081
  | .msgoutUbxNavOrbUsb _ => 0x20910013
  | .msgoutUbxNavPosecefUsb _ => 0x20910027
  | .msgoutUbxNavPosllhUsb _ => 0x2091002c
  | .msgoutUbxNavPvtUsb _ => 0x20910009
  | .msgoutUbxNavRelPosNedUsb _ => 0x20910090
  | .msgoutUbxNavSatUsb _ => 0x20910018
  | .msgoutUbxNavSigUsb _ => 0x20910348
  | .msgoutUbxNavStatusUsb _ => 0x2091001d
  | .msgoutUbxNavSvinUsb _ => 0x2091008b
  | .msgoutUbxNavTimebdsUsb _ => 0x20910054
  | .msgoutUbxNavTimegalUsb _ => 0x20910059
  | .msgoutUbxNavTimegloUsb _ => 0x2091004f
  | .msgoutUbxNavTimegpsUsb _ => 0x2091004a
  | .msgoutUbxNavTimelsUsb _ => 0x20910063
  | .msgoutUbxNavTimeutcUsb _ => 0x2091005e
  | .msgoutUbxNavVelecefUsb _ => 0x20910040
  | .msgoutUbxNavVelnedUsb _ => 0x20910045
  | .msgoutUbxRxmMeasxUsb _ => 0x20910207
  | .msgoutUbxRxmRawxUsb _ => 0x209102a7
  | .msgoutUbxRxmRlmUsb _ => 0x20910261
  | .msgoutUbxRxmRtcmUsb _ => 0x2091026b
  | .msgoutUbxRxmSfrbxUsb _ => 0x20910234
  | .odoUseOdo _ => 0x10220001
  | .odoUseCog _ => 0x10220002
  | .odoOutlpvel _ => 0x10220003
  | .odoOutlpcog _ => 0x10220004
  | .odoProfile _ => 0x20220005
  | .odoCogmaxspeed _ => 0x20220021
  | .odoCogmaxposacc _ => 0x20220022
  | .odoVellpgain _ => 0x20220031
  | .odoCoglpgain _ => 0x20220032
  | .navhpgDgnssmode _ => 0x20140011
  | .tmodeMode _ => 0x20030001
  | .tmodePosType _ => 0x20030002
  | .tmodeEcefX _ => 0x20030003
  | .tmodeEcefY _ => 0x20030004
  | .tmodeEcefZ _ => 0x20030005
  | .tmodeEcefXHp _ => 0x20030006
  | .tmodeEcefYHp _ => 0x20030007
  | .tmodeEcefZHp _ => 0x20030008
  | .tmodeFixedPosAcc _ => 0x4003000f
  | .tmodeSvinMinDur _ => 0x40030010
  | .tmodeSvinAccLimit _ => 0x40030011
  | .signalGpsEna _ => 0x1031001f
  | .signalGpsL1caEna _ => 0x10310001
  | .signalGpsL2cEna _ => 0x10310003
  | .signalGalEna _ => 0x10310021
  | .signalGalE1Ena _ => 0x10310007
  | .signalGalE5bEna _ => 0x1031000a
  | .signalBdsEna _ => 0x10310022
  | .signalBdsB1Ena _ => 0x1031000d
  | .signalBdsB2Ena _ => 0x1031000e
  | .signalQzssEna _ => 0x10310024
  | .signalQzssL1caEna _ => 0x10310012
  | .signalQzssL2cEna _ => 0x10310015
  | .signalGloEna _ => 0x10310025
  | .signalGloL1Ena _ => 0x10310018
  | .signalGloL2Ena _ => 0x1031001a

/-- The id written by `ValueKey::write_bytes`. -/
def valueKeyId : ValueKey → Nat
  | .rateMeas => 0x30210001
  | .rateNav => 0x30210002
  | .usbInprotUbx => 0x10770001
  | .usbInprotNmea => 0x10770002
  | .usbInprotRtcm3x => 0x10770004
  | .usbOutprotUbx => 0x10780001
  | .usbOutprotNmea => 0x10780002
  | .usbOutprotRtcm3x => 0x10780004
  | .spiInprotUbx => 0x10790001
  | .spiInprotNmea => 0x10790002
  | .spiInprotRtcm3x => 0x10790004
  | .spiOutprotUbx => 0x107a0001
  | .spiOutprotNmea => 0x107a0002
  | .spiOutprotRtcm3x => 0x107a0004
  | .uart1InprotUbx => 0x10730001
  | .uart1InprotNmea => 0x10730002
  | .uart1InprotRtcm3x => 0x10730004
  | .uart1OutprotUbx => 0x10740001
  | .uart1OutprotNmea => 0x10740002
  | .uart1OutprotRtcm3x => 0x10740004
  | .uart2InprotUbx => 0x10750001
  | .uart2InprotNmea => 0x10750002
  | .uart2InprotRtcm3x => 0x10750004
  | .uart2OutprotUbx => 0x10760001
  | .uart2OutprotNmea => 0x10760002
  | .uart2OutprotRtcm3x => 0x10760004
  | .uart1Baudrate => 0x40520001
  | .uart1StopBits => 0x20520002
  | .uart1Databits => 0x20520003
  | .uart1Parity => 0x20520004
  | .uart1Enabled => 0x20520005
  | .uart2Baudrate => 0x40530001
  | .uart2StopBits => 0x20530002
  | .uart2Databits => 0x20530003
  | .uart2Parity => 0x20530004
  | .uart2Enabled => 0x20530005
  | .uart2Remap => 0x20530006
  | .infmsgUbxUart1 => 0x20920002
  | .infmsgUbxUart2 => 0x20920003
  | .infmsgUbxUsb => 0x20920004
  | .infmsgNmeaUart1 => 0x20920007
  | .infmsgNmeaUart2 => 0x20920008
  | .infmsgNmeaUsb => 0x20920009
  | .msgoutRtcm3xType1005Usb => 0x209102c0
  | .msgoutRtcm3xType1074Usb => 0x20910361
  | .msgoutRtcm3xType1077Usb => 0x209102cf
  | .msgoutRtcm3xType1084Usb => 0x20910366
  | .msgoutRtcm3xType1087Usb => 0x209102d4
  | .msgoutRtcm3xType1094Usb => 0x2091036b
  | .msgoutRtcm3xType1097Usb => 0x2091031b
  | .msgoutRtcm3xType1124Usb => 0x20910370
  | .msgoutRtcm3xType1127Usb => 0x209102d9
  | .msgoutRtcm3xType1230Usb => 0x20910306
  | .msgoutRtcm3xType4072_0Usb => 0x20910301
  | .msgoutRtcm3xType4072_1Usb => 0x20910384
  | .msgoutUbxLogInfoUsb => 0x2091025b
  | .msgoutUbxMonHw2Usb => 0x209101bc
  | .msgoutUbxMonHw3Usb => 0x20910357
  | .msgoutUbxMonHwUsb => 0x209101b7
  | .msgoutUbxMonIoUsb => 0x209101a8
  | .msgoutUbxMonCommsUsb => 0x20910352
  | .msgoutUbxMonMsgppUsb => 0x20910199
  | .msgoutUbxMonRfUsb => 0x2091035c
  | .msgoutUbxMonRxbufUsb => 0x209101a3
  | .msgoutUbxMonRxrUsb => 0x2091018a
  | .msgoutUbxMonTxbufUsb => 0x2091019e
  | .msgoutUbxNavClockUsb => 0x20910068
  | .msgoutUbxNavDopUsb => 0x2091003b
  | .msgoutUbxNavEoeUsb => 0x20910162
  | .msgoutUbxNavHpposecefUsb => 0x20910031
  | .msgoutUbxNavHpposllhUsb => 0x20910036
  | .msgoutUbxNavOdoUsb => 0x20910081
  | .msgoutUbxNavOrbUsb => 0x20910013
  | .msgoutUbxNavPosecefUsb => 0x20910027
  | .msgoutUbxNavPosllhUsb => 0x2091002c
  | .msgoutUbxNavPvtUsb => 0x20910009
  | .msgoutUbxNavRelPosNedUsb => 0x20910090
  | .msgoutUbxNavSatUsb => 0x20910018
  | .msgoutUbxNavSigUsb => 0x20910348
  | .msgoutUbxNavStatusUsb => 0x2091001d
  | .msgoutUbxNavSvinUsb => 0x2091008b
  | .msgoutUbxNavTimebdsUsb => 0x20910054
  | .msgoutUbxNavTimegalUsb => 0x20910059
  | .msgoutUbxNavTimegloUsb => 0x2091004f
  | .msgoutUbxNavTimegpsUsb => 0x2091004a
  | .msgoutUbxNavTimelsUsb => 0x20910063
  | .msgoutUbxNavTimeutcUsb => 0x2091005e
  | .msgoutUbxNavVelecefUsb => 0x20910040
  | .msgoutUbxNavVelnedUsb => 0x20910045
  | .msgoutUbxRxmMeasxUsb => 0x20910207
  | .msgoutUbxRxmRawxUsb => 0x209102a7
  | .msgoutUbxRxmRlmUsb => 0x20910261
  | .msgoutUbxRxmRtcmUsb => 0x2091026b
  | .msgoutUbxRxmSfrbxUsb => 0x20910234
  | .odoUseOdo => 0x10220001
  | .odoUseCog => 0x10220002
  | .odoOutlpvel => 0x10220003
  | .odoOutlpcog => 0x10220004
  | .odoProfile => 0x20220005
  | .odoCogmaxspeed => 0x20220021
  | .odoCogmaxposacc => 0x20220022
  | .odoVellpgain => 0x20220031
  | .odoCoglpgain => 0x20220032
  | .navhpgDgnssmode => 0x20140011
  | .tmodeMode => 0x20030001
  | .tmodePosType => 0x20030002
  | .tmodeEcefX => 0x20030003
  | .tmodeEcefY => 0x20030004
  | .tmodeEcefZ => 0x20030005
  | .tmodeEcefXHp => 0x20030006
  | .tmodeEcefYHp => 0x20030007
  | .tmodeEcefZHp => 0x20030008
  | .tmodeFixedPosAcc => 0x4003000f
  | .tmodeSvinMinDur => 0x40030010
  | .tmodeSvinAccLimit => 0x40030011
  | .signalGpsEna => 0x1031001f
  | .signalGpsL1caEna => 0x10310001
  | .signalGpsL2cEna => 0x10310003
  | .signalGalEna => 0x10310021
  | .signalGalE1Ena => 0x10310007
  | .signalGalE5bEna => 0x1031000a
  | .signalBdsEna => 0x10310022
  | .signalBdsB1Ena => 0x1031000d
  | .signalBdsB2Ena => 0x1031000e
  | .signalQzssEna => 0x10310024
  | .signalQzssL1caEna => 0x10310012
  | .signalQzssL2cEna => 0x10310015
  | .signalGloEna => 0x10310025
  | .signalGloL1Ena => 0x10310018
  | .signalGloL2Ena => 0x1031001a

/-- `Value::write_bytes`: key id as little-endian u32, then payload. -/
def valueWrite : Value → Bytes
  | .rateMeas v => writeU32 0x30210001 ++ writeU16 v
  | .rateNav v => writeU32 0x30210002 ++ writeU16 v
  | .usbInprotUbx v => writeU32 0x10770001 ++ writeBool v
  | .usbInprotNmea v => writeU32 0x10770002 ++ writeBool v
  | .usbInprotRtcm3x v => writeU32 0x10770004 ++ writeBool v
  | .usbOutprotUbx v => writeU32 0x10780001 ++ writeBool v
  | .usbOutprotNmea v => writeU32 0x10780002 ++ writeBool v
  | .usbOutprotRtcm3x v => writeU32 0x10780004 ++ writeBool v
  | .spiInprotUbx v => writeU32 0x10790001 ++ writeBool v
  | .spiInprotNmea v => writeU32 0x10790002 ++ writeBool v
  | .spiInprotRtcm3x v => writeU32 0x10790004 ++ writeBool v
  | .spiOutprotUbx v => writeU32 0x107a0001 ++ writeBool v
  | .spiOutprotNmea v => writeU32 0x107a0002 ++ writeBool v
  | .spiOutprotRtcm3x v => writeU32 0x107a0004 ++ writeBool v
  | .uart1InprotUbx v => writeU32 0x10730001 ++ writeBool v
  | .uart1InprotNmea v => writeU32 0x10730002 ++ writeBool v
  | .uart1InprotRtcm3x v => writeU32 0x10730004 ++ writeBool v
  | .uart1OutprotUbx v => writeU32 0x10740001 ++ writeBool v
  | .uart1OutprotNmea v => writeU32 0x10740002 ++ writeBool v
  | .uart1OutprotRtcm3x v => writeU32 0x10740004 ++ writeBool v
  | .uart2InprotUbx v => writeU32 0x10750001 ++ writeBool v
  | .uart2InprotNmea v => writeU32 0x10750002 ++ writeBool v
  | .uart2InprotRtcm3x v => writeU32 0x10750004 ++ writeBool v
  | .uart2OutprotUbx v => writeU32 0x10760001 ++ writeBool v
  | .uart2OutprotNmea v => writeU32 0x10760002 ++ writeBool v
  | .uart2OutprotRtcm3x v => writeU32 0x10760004 ++ writeBool v
  | .uart1Baudrate v => writeU32 0x40520001 ++ writeU32 v
  | .uart1StopBits v => writeU32 0x20520002 ++ writeVStopBits v
  | .uart1Databits v => writeU32 0x20520003 ++ writeVDatabits v
  | .uart1Parity v => writeU32 0x20520004 ++ writeVParity v
  | .uart1Enabled v => writeU32 0x20520005 ++ writeBool v
  | .uart2Baudrate v => writeU32 0x40530001 ++ writeU32 v
  | .uart2StopBits v => writeU32 0x20530002 ++ writeVStopBits v
  | .uart2Databits v => writeU32 0x20530003 ++ writeVDatabits v
  | .uart2Parity v => writeU32 0x20530004 ++ writeVParity v
  | .uart2Enabled v => writeU32 0x20530005 ++ writeBool v
  | .uart2Remap v => writeU32 0x20530006 ++ writeBool v
  | .infmsgUbxUart1 v => writeU32 0x20920002 ++ writeMsgMask v
  | .infmsgUbxUart2 v => writeU32 0x20920003 ++ writeMsgMask v
  | .infmsgUbxUsb v => writeU32 0x20920004 ++ writeMsgMask v
  | .infmsgNmeaUart1 v => writeU32 0x20920007 ++ writeMsgMask v
  | .infmsgNmeaUart2 v => writeU32 0x20920008 ++ writeMsgMask v
  | .infmsgNmeaUsb v => writeU32 0x20920009 ++ writeMsgMask v
  | .msgoutRtcm3xType1005Usb v => writeU32 0x209102c0 ++ writeU8 v
  | .msgoutRtcm3xType1074Usb v => writeU32 0x20910361 ++ writeU8 v
  | .msgoutRtcm3xType1077Usb v => writeU32 0x209102cf ++ writeU8 v
  | .msgoutRtcm3xType1084Usb v => writeU32 0x20910366 ++ writeU8 v
  | .msgoutRtcm3xType1087Usb v => writeU32 0x209102d4 ++ writeU8 v
  | .msgoutRtcm3xType1094Usb v => writeU32 0x2091036b ++ writeU8 v
  | .msgoutRtcm3xType1097Usb v => writeU32 0x2091031b ++ writeU8 v
  | .msgoutRtcm3xType1124Usb v => writeU32 0x20910370 ++ writeU8 v
  | .msgoutRtcm3xType1127Usb v => writeU32 0x209102d9 ++ writeU8 v
  | .msgoutRtcm3xType1230Usb v => writeU32 0x20910306 ++ writeU8 v
  | .msgoutRtcm3xType4072_0Usb v => writeU32 0x20910301 ++ writeU8 v
  | .msgoutRtcm3xType4072_1Usb v => writeU32 0x20910384 ++ writeU8 v
  | .msgoutUbxLogInfoUsb v => writeU32 0x2091025b ++ writeU8 v
  | .msgoutUbxMonHw2Usb v => writeU32 0x209101bc ++ writeU8 v
  | .msgoutUbxMonHw3Usb v => writeU32 0x20910357 ++ writeU8 v
  | .msgoutUbxMonHwUsb v => writeU32 0x209101b7 ++ writeU8 v
  | .msgoutUbxMonIoUsb v => writeU32 0x209101a8 ++ writeU8 v
  | .msgoutUbxMonCommsUsb v => writeU32 0x20910352 ++ writeU8 v
  | .msgoutUbxMonMsgppUsb v => writeU32 0x20910199 ++ writeU8 v
  | .msgoutUbxMonRfUsb v => writeU32 0x2091035c ++ writeU8 v
  | .msgoutUbxMonRxbufUsb v => writeU32 0x209101a3 ++ writeU8 v
  | .msgoutUbxMonRxrUsb v => writeU32 0x2091018a ++ writeU8 v
  | .msgoutUbxMonTxbufUsb v => writeU32 0x2091019e ++ writeU8 v
  | .msgoutUbxNavClockUsb v => writeU32 0x20910068 ++ writeU8 v
  | .msgoutUbxNavDopUsb v => writeU32 0x2091003b ++ writeU8 v
  | .msgoutUbxNavEoeUsb v => writeU32 0x20910162 ++ writeU8 v
  | .msgoutUbxNavHpposecefUsb v => writeU32 0x20910031 ++ writeU8 v
  | .msgoutUbxNavHpposllhUsb v => writeU32 0x20910036 ++ writeU8 v
  | .msgoutUbxNavOdoUsb v => writeU32 0x20910081 ++ writeU8 v
  | .msgoutUbxNavOrbUsb v => writeU32 0x20910013 ++ writeU8 v
  | .msgoutUbxNavPosecefUsb v => writeU32 0x20910027 ++ writeU8 v
  | .msgoutUbxNavPosllhUsb v => writeU32 0x2091002c ++ writeU8 v
  | .msgoutUbxNavPvtUsb v => writeU32 0x20910009 ++ writeU8 v
  | .msgoutUbxNavRelPosNedUsb v => writeU32 0x20910090 ++ writeU8 v
  | .msgoutUbxNavSatUsb v => writeU32 0x20910018 ++ writeU8 v
  | .msgoutUbxNavSigUsb v => writeU32 0x20910348 ++ writeU8 v
  | .msgoutUbxNavStatusUsb v => writeU32 0x2091001d ++ writeU8 v
  | .msgoutUbxNavSvinUsb v => writeU32 0x2091008b ++ writeU8 v
  | .msgoutUbxNavTimebdsUsb v => writeU32 0x20910054 ++ writeU8 v
  | .msgoutUbxNavTimegalUsb v => writeU32 0x20910059 ++ writeU8 v
  | .msgoutUbxNavTimegloUsb v => writeU32 0x2091004f ++ writeU8 v
  | .msgoutUbxNavTimegpsUsb v => writeU32 0x2091004a ++ writeU8 v
  | .msgoutUbxNavTimelsUsb v => writeU32 0x20910063 ++ writeU8 v
  | .msgoutUbxNavTimeutcUsb v => writeU32 0x2091005e ++ writeU8 v
  | .msgoutUbxNavVelecefUsb v => writeU32 0x20910040 ++ writeU8 v
  | .msgoutUbxNavVelnedUsb v => writeU32 0x20910045 ++ writeU8 v
  | .msgoutUbxRxmMeasxUsb v => writeU32 0x20910207 ++ writeU8 v
  | .msgoutUbxRxmRawxUsb v => writeU32 0x209102a7 ++ writeU8 v
  | .msgoutUbxRxmRlmUsb v => writeU32 0x20910261 ++ writeU8 v
  | .msgoutUbxRxmRtcmUsb v => writeU32 0x2091026b ++ writeU8 v
  | .msgoutUbxRxmSfrbxUsb v => writeU32 0x20910234 ++ writeU8 v
  | .odoUseOdo v => writeU32 0x10220001 ++ writeBool v
  | .odoUseCog v => writeU32 0x10220002 ++ writeBool v
  | .odoOutlpvel v => writeU32 0x10220003 ++ writeBool v
  | .odoOutlpcog v => writeU32 0x10220004 ++ writeBool v
  | .odoProfile v => writeU32 0x20220005 ++ writeVOdoProfile v
  | .odoCogmaxspeed v => writeU32 0x20220021 ++ writeU8 v
  | .odoCogmaxposacc v => writeU32 0x20220022 ++ writeU8 v
  | .odoVellpgain v => writeU32 0x20220031 ++ writeU8 v
  | .odoCoglpgain v => writeU32 0x20220032 ++ writeU8 v
  | .navhpgDgnssmode v => writeU32 0x20140011 ++ writeRtkMode v
  | .tmodeMode v => writeU32 0x20030001 ++ writeVTmode v
  | .tmodePosType v => writeU32 0x20030002 ++ writeVPosType v
  | .tmodeEcefX v => writeU32 0x20030003 ++ writeI32 v
  | .tmodeEcefY v => writeU32 0x20030004 ++ writeI32 v
  | .tmodeEcefZ v => writeU32 0x20030005 ++ writeI32 v
  | .tmodeEcefXHp v => writeU32 0x20030006 ++ writeI8 v
  | .tmodeEcefYHp v => writeU32 0x20030007 ++ writeI8 v
  | .tmodeEcefZHp v => writeU32 0x20030008 ++ writeI8 v
  | .tmodeFixedPosAcc v => writeU32 0x4003000f ++ writeU32 v
  | .tmodeSvinMinDur v => writeU32 0x40030010 ++ writeU32 v
  | .tmodeSvinAccLimit v => writeU32 0x40030011 ++ writeU32 v
  | .signalGpsEna v => writeU32 0x1031001f ++ writeBool v
  | .signalGpsL1caEna v => writeU32 0x10310001 ++ writeBool v
  | .signalGpsL2cEna v => writeU32 0x10310003 ++ writeBool v
  | .signalGalEna v => writeU32 0x10310021 ++ writeBool v
  | .signalGalE1Ena v => writeU32 0x10310007 ++ writeBool v
  | .signalGalE5bEna v => writeU32 0x1031000a ++ writeBool v
  | .signalBdsEna v => writeU32 0x10310022 ++ writeBool v
  | .signalBdsB1Ena v => writeU32 0x1031000d ++ writeBool v
  | .signalBdsB2Ena v => writeU32 0x1031000e ++ writeBool v
  | .signalQzssEna v => writeU32 0x10310024 ++ writeBool v
  | .signalQzssL1caEna v => writeU32 0x10310012 ++ writeBool v
  | .signalQzssL2cEna v => writeU32 0x10310015 ++ writeBool v
  | .signalGloEna v => writeU32 0x10310025 ++ writeBool v
  | .signalGloL1Ena v => writeU32 0x10310018 ++ writeBool v
  | .signalGloL2Ena v => writeU32 0x1031001a ++ writeBool v

/-- `Value::size`: 4 bytes of id plus `size_of` of the payload type. -/
def valueSize : Value → Nat
  | .rateMeas _ => 4 + 2
  | .rateNav _ => 4 + 2
  | .usbInprotUbx _ => 4 + 1
  | .usbInprotNmea _ => 4 + 1
  | .usbInprotRtcm3x _ => 4 + 1
  | .usbOutprotUbx _ => 4 + 1
  | .usbOutprotNmea _ => 4 + 1
  | .usbOutprotRtcm3x _ => 4 + 1
  | .spiInprotUbx _ => 4 + 1
  | .spiInprotNmea _ => 4 + 1
  | .spiInprotRtcm3x _ => 4 + 1
  | .spiOutprotUbx _ => 4 + 1
  | .spiOutprotNmea _ => 4 + 1
  | .spiOutprotRtcm3x _ => 4 + 1
  | .uart1InprotUbx _ => 4 + 1
  | .uart1InprotNmea _ => 4 + 1
  | .uart1InprotRtcm3x _ => 4 + 1
  | .uart1OutprotUbx _ => 4 + 1
  | .uart1OutprotNmea _ => 4 + 1
  | .uart1OutprotRtcm3x _ => 4 + 1
  | .uart2InprotUbx _ => 4 + 1
  | .uart2InprotNmea _ => 4 + 1
  | .uart2InprotRtcm3x _ => 4 + 1
  | .uart2OutprotUbx _ => 4 + 1
  | .uart2OutprotNmea _ => 4 + 1
  | .uart2OutprotRtcm3x _ => 4 + 1
  | .uart1Baudrate _ => 4 + 4
  | .uart1StopBits _ => 4 + 1
  | .uart1Databits _ => 4 + 1
  | .uart1Parity _ => 4 + 1
  | .uart1Enabled _ => 4 + 1
  | .uart2Baudrate _ => 4 + 4
  | .uart2StopBits _ => 4 + 1
  | .uart2Databits _ => 4 + 1
  | .uart2Parity _ => 4 + 1
  | .uart2Enabled _ => 4 + 1
  | .uart2Remap _ => 4 + 1
  | .infmsgUbxUart1 _ => 4 + 1
  | .infmsgUbxUart2 _ => 4 + 1
  | .infmsgUbxUsb _ => 4 + 1
  | .infmsgNmeaUart1 _ => 4 + 1
  | .infmsgNmeaUart2 _ => 4 + 1
  | .infmsgNmeaUsb _ => 4 + 1
  | .msgoutRtcm3xType1005Usb _ => 4 + 1
  | .msgoutRtcm3xType1074Usb _ => 4 + 1
  | .msgoutRtcm3xType1077Usb _ => 4 + 1
  | .msgoutRtcm3xType1084Usb _ => 4 + 1
  | .msgoutRtcm3xType1087Usb _ => 4 + 1
  | .msgoutRtcm3xType1094Usb _ => 4 + 1
  | .msgoutRtcm3xType1097Usb _ => 4 + 1
  | .msgoutRtcm3xType1124Usb _ => 4 + 1
  | .msgoutRtcm3xType1127Usb _ => 4 + 1
  | .msgoutRtcm3xType1230Usb _ => 4 + 1
  | .msgoutRtcm3xType4072_0Usb _ => 4 + 1
  | .msgoutRtcm3xType4072_1Usb _ => 4 + 1
  | .msgoutUbxLogInfoUsb _ => 4 + 1
  | .msgoutUbxMonHw2Usb _ => 4 + 1
  | .msgoutUbxMonHw3Usb _ => 4 + 1
  | .msgoutUbxMonHwUsb _ => 4 + 1
  | .msgoutUbxMonIoUsb _ => 4 + 1
  | .msgoutUbxMonCommsUsb _ => 4 + 1
  | .msgoutUbxMonMsgppUsb _ => 4 + 1
  | .msgoutUbxMonRfUsb _ => 4 + 1
  | .msgoutUbxMonRxbufUsb _ => 4 + 1
  | .msgoutUbxMonRxrUsb _ => 4 + 1
  | .msgoutUbxMonTxbufUsb _ => 4 + 1
  | .msgoutUbxNavClockUsb _ => 4 + 1
  | .msgoutUbxNavDopUsb _ => 4 + 1
  | .msgoutUbxNavEoeUsb _ => 4 + 1
  | .msgoutUbxNavHpposecefUsb _ => 4 + 1
  | .msgoutUbxNavHpposllhUsb _ => 4 + 1
  | .msgoutUbxNavOdoUsb _ => 4 + 1
  | .msgoutUbxNavOrbUsb _ => 4 + 1
  | .msgoutUbxNavPosecefUsb _ => 4 + 1
  | .msgoutUbxNavPosllhUsb _ => 4 + 1
  | .msgoutUbxNavPvtUsb _ => 4 + 1
  | .msgoutUbxNavRelPosNedUsb _ => 4 + 1
  | .msgoutUbxNavSatUsb _ => 4 + 1
  | .msgoutUbxNavSigUsb _ => 4 + 1
  | .msgoutUbxNavStatusUsb _ => 4 + 1
  | .msgoutUbxNavSvinUsb _ => 4 + 1
  | .msgoutUbxNavTimebdsUsb _ => 4 + 1
  | .msgoutUbxNavTimegalUsb _ => 4 + 1
  | .msgoutUbxNavTimegloUsb _ => 4 + 1
  | .msgoutUbxNavTimegpsUsb _ => 4 + 1
  | .msgoutUbxNavTimelsUsb _ => 4 + 1
  | .msgoutUbxNavTimeutcUsb _ => 4 + 1
  | .msgoutUbxNavVelecefUsb _ => 4 + 1
  | .msgoutUbxNavVelnedUsb _ => 4 + 1
  | .msgoutUbxRxmMeasxUsb _ => 4 + 1
  | .msgoutUbxRxmRawxUsb _ => 4 + 1
  | .msgoutUbxRxmRlmUsb _ => 4 + 1
  | .msgoutUbxRxmRtcmUsb _ => 4 + 1
  | .msgoutUbxRxmSfrbxUsb _ => 4 + 1
  | .odoUseOdo _ => 4 + 1
  | .odoUseCog _ => 4 + 1
  | .odoOutlpvel _ => 4 + 1
  | .odoOutlpcog _ => 4 + 1
  | .odoProfile _ => 4 + 1
  | .odoCogmaxspeed _ => 4 + 1
  | .odoCogmaxposacc _ => 4 + 1
  | .odoVellpgain _ => 4 + 1
  | .odoCoglpgain _ => 4 + 1
  | .navhpgDgnssmode _ => 4 + 1
  | .tmodeMode _ => 4 + 1
  | .tmodePosType _ => 4 + 1
  | .tmodeEcefX _ => 4 + 4
  | .tmodeEcefY _ => 4 + 4
  | .tmodeEcefZ _ => 4 + 4
  | .tmodeEcefXHp _ => 4 + 1
  | .tmodeEcefYHp _ => 4 + 1
  | .tmodeEcefZHp _ => 4 + 1
  | .tmodeFixedPosAcc _ => 4 + 4
  | .tmodeSvinMinDur _ => 4 + 4
  | .tmodeSvinAccLimit _ => 4 + 4
  | .signalGpsEna _ => 4 + 1
  | .signalGpsL1caEna _ => 4 + 1
  | .signalGpsL2cEna _ => 4 + 1
  | .signalGalEna _ => 4 + 1
  | .signalGalE1Ena _ => 4 + 1
  | .signalGalE5bEna _ => 4 + 1
  | .signalBdsEna _ => 4 + 1
  | .signalBdsB1Ena _ => 4 + 1
  | .signalBdsB2Ena _ => 4 + 1
  | .signalQzssEna _ => 4 + 1
  | .signalQzssL1caEna _ => 4 + 1
  | .signalQzssL2cEna _ => 4 + 1
  | .signalGloEna _ => 4 + 1
  | .signalGloL1Ena _ => 4 + 1
  | .signalGloL2Ena _ => 4 + 1

/-- The id dispatch of `Value::from_bytes`: the source's match on the
(distinct) key ids, realised as a balanced comparison tree that decides
the same branch as the source's first-match. -/
def valueDecode (id : Nat) (b : Bytes) : PRes Value :=
  if id < 0x20530006 then
    if id < 0x10770002 then
      if id < 0x10310022 then
        if id < 0x1031000d then
          if id < 0x10310001 then
            if id < 0x10220003 then
              if id < 0x10220002 then
                if id = 0x10220001 then
                  match readBool b with
      | .ok (r, v) => .ok (r, Value.odoUseOdo v)
      | .error e => .error e
                else .error .invalid
              else
                if id = 0x10220002 then
                  match readBool b with
      | .ok (r, v) => .ok (r, Value.odoUseCog v)
      | .error e => .error e
                else .error .invalid
            else
              if id < 0x10220004 then
                if id = 0x10220003 then
                  match readBool b with
      | .ok (r, v) => .ok (r, Value.odoOutlpvel v)
      | .error e => .error e
                else .error .invalid
              else
                if id = 0x10220004 then
                  match readBool b with
      | .ok (r, v) => .ok (r, Value.odoOutlpcog v)
      | .error e => .error e
                else .error .invalid
          else
            if id < 0x10310007 then
              if id < 0x10310003 then
                if id = 0x10310001 then
                  match readBool b with
      | .ok (r, v) => .ok (r, Value.signalGpsL1caEna v)
      | .error e => .error e
                else .error .invalid
              else
                if id = 0x10310003 then
                  match readBool b with
      | .ok (r, v) => .ok (r, Value.signalGpsL2cEna v)
      | .error e => .error e
                else .error .invalid
            else
              if id < 0x1031000a then
                if id = 0x10310007 then
                  match readBool b with
      | .ok (r, v) => .ok (r, Value.signalGalE1Ena v)
      | .error e => .error e
                else .error .invalid
              else
                if id = 0x1031000a then
                  match readBool b with
      | .ok (r, v) => .ok (r, Value.signalGalE5bEna v)
      | .error e => .error e
                else .error .invalid
        else
          if id < 0x10310018 then
            if id < 0x10310012 then
              if id < 0x1031000e then
                if id = 0x1031000d then
                  match readBool b with
      | .ok (r, v) => .ok (r, Value.signalBdsB1Ena v)
      | .error e => .error e
                else .error .invalid
              else
                if id = 0x1031000e then
                  match readBool b with
      | .ok (r, v) => .ok (r, Value.signalBdsB2Ena v)
      | .error e => .error e
                else .error .invalid
            else
              if id < 0x10310015 then
                if id = 0x10310012 then
                  match readBool b with
      | .ok (r, v) => .ok (r, Value.signalQzssL1caEna v)
      | .error e => .error e
                else .error .invalid
              else
                if id = 0x10310015 then
                  match readBool b with
      | .ok (r, v) => .ok (r, Value.signalQzssL2cEna v)
      | .error e => .error e
                else .error .invalid
          else
            if id < 0x1031001f then
              if id < 0x1031001a then
                if id = 0x10310018 then
                  match readBool b with
      | .ok (r, v) => .ok (r, Value.signalGloL1Ena v)
      | .error e => .error e
                else .error .invalid
              else
                if id = 0x1031001a then
                  match readBool b with
      | .ok (r, v) => .ok (r, Value.signalGloL2Ena v)
      | .error e => .error e
                else .error .invalid
            else
              if id < 0x10310021 then
                if id = 0x1031001f then
                  match readBool b with
      | .ok (r, v) => .ok (r, Value.signalGpsEna v)
      | .error e => .error e
                else .error .invalid
              else
                if id = 0x10310021 then
                  match readBool b with
      | .ok (r, v) => .ok (r, Value.signalGalEna v)
      | .error e => .error e
                else .error .invalid
      else
        if id < 0x10740004 then
          if id < 0x10730002 then
            if id < 0x10310025 then
              if id < 0x10310024 then
                if id = 0x10310022 then
                  match readBool b with
      | .ok (r, v) => .ok (r, Value.signalBdsEna v)
      | .error e => .error e
                else .error .invalid
              else
                if id = 0x10310024 then
                  match readBool b with
      | .ok (r, v) => .ok (r, Value.signalQzssEna v)
      | .error e => .error e
                else .error .invalid
            else
              if id < 0x10730001 then
                if id = 0x10310025 then
                  match readBool b with
      | .ok (r, v) => .ok (r, Value.signalGloEna v)
      | .error e => .error e
                else .error .invalid
              else
                if id = 0x10730001 then
                  match readBool b with
      | .ok (r, v) => .ok (r, Value.uart1InprotUbx v)
      | .error e => .error e
                else .error .invalid
          else
            if id < 0x10740001 then
              if id < 0x10730004 then
                if id = 0x10730002 then
                  match readBool b with
      | .ok (r, v) => .ok (r, Value.uart1InprotNmea v)
      | .error e => .error e
                else .error .invalid
              else
                if id = 0x10730004 then
                  match readBool b with
      | .ok (r, v) => .ok (r, Value.uart1InprotRtcm3x v)
      | .error e => .error e
                else .error .invalid
            else
              if id < 0x10740002 then
                if id = 0x10740001 then
                  match readBool b with
      | .ok (r, v) => .ok (r, Value.uart1OutprotUbx v)
      | .error e => .error e
                else .error .invalid
              else
                if id = 0x10740002 then
                  match readBool b with
      | .ok (r, v) => .ok (r, Value.uart1OutprotNmea v)
      | .error e => .error e
                else .error .invalid
        else
          if id < 0x10760001 then
            if id < 0x10750002 then
              if id < 0x10750001 then
                if id = 0x10740004 then
                  match readBool b with
      | .ok (r, v) => .ok (r, Value.uart1OutprotRtcm3x v)
      | .error e => .error e
                else .error .invalid
              else
                if id = 0x10750001 then
                  match readBool b with
      | .ok (r, v) => .ok (r, Value.uart2InprotUbx v)
      | .error e => .error e
                else .error .invalid
            else
              if id < 0x10750004 then
                if id = 0x10750002 then
                  match readBool b with
      | .ok (r, v) => .ok (r, Value.uart2InprotNmea v)
      | .error e => .error e
                else .error .invalid
              else
                if id = 0x10750004 then
                  match readBool b with
      | .ok (r, v) => .ok (r, Value.uart2InprotRtcm3x v)
      | .error e => .error e
                else .error .invalid
          else
            if id < 0x10760004 then
              if id < 0x10760002 then
                if id = 0x10760001 then
                  match readBool b with
      | .ok (r, v) => .ok (r, Value.uart2OutprotUbx v)
      | .error e => .error e
                else .error .invalid
              else
                if id = 0x10760002 then
                  match readBool b with
      | .ok (r, v) => .ok (r, Value.uart2OutprotNmea v)
      | .error e => .error e
                else .error .invalid
            else
              if id < 0x10770001 then
                if id = 0x10760004 then
                  match readBool b with
      | .ok (r, v) => .ok (r, Value.uart2OutprotRtcm3x v)
      | .error e => .error e
                else .error .invalid
              else
                if id = 0x10770001 then
                  match readBool b with
      | .ok (r, v) => .ok (r, Value.usbInprotUbx v)
      | .error e => .error e
                else .error .invalid
    else
      if id < 0x20030006 then
        if id < 0x107a0001 then
          if id < 0x10780004 then
            if id < 0x10780001 then
              if id < 0x10770004 then
                if id = 0x10770002 then
                  match readBool b with
      | .ok (r, v) => .ok (r, Value.usbInprotNmea v)
      | .error e => .error e
                else .error .invalid
              else
                if id = 0x10770004 then
                  match readBool b with
      | .ok (r, v) => .ok (r, Value.usbInprotRtcm3x v)
      | .error e => .error e
                else .error .invalid
            else
              if id < 0x10780002 then
                if id = 0x10780001 then
                  match readBool b with
      | .ok (r, v) => .ok (r, Value.usbOutprotUbx v)
      | .error e => .error e
                else .error .invalid
              else
                if id = 0x10780002 then
                  match readBool b with
      | .ok (r, v) => .ok (r, Value.usbOutprotNmea v)
      | .error e => .error e
                else .error .invalid
          else
            if id < 0x10790002 then
              if id < 0x10790001 then
                if id = 0x10780004 then
                  match readBool b with
      | .ok (r, v) => .ok (r, Value.usbOutprotRtcm3x v)
      | .error e => .error e
                else .error .invalid
              else
                if id = 0x10790001 then
                  match readBool b with
      | .ok (r, v) => .ok (r, Value.spiInprotUbx v)
      | .error e => .error e
                else .error .invalid
            else
              if id < 0x10790004 then
                if id = 0x10790002 then
                  match readBool b with
      | .ok (r, v) => .ok (r, Value.spiInprotNmea v)
      | .error e => .error e
                else .error .invalid
              else
                if id = 0x10790004 then
                  match readBool b with
      | .ok (r, v) => .ok (r, Value.spiInprotRtcm3x v)
      | .error e => .error e
                else .error .invalid
        else
          if id < 0x20030002 then
            if id < 0x107a0004 then
              if id < 0x107a0002 then
                if id = 0x107a0001 then
                  match readBool b with
      | .ok (r, v) => .ok (r, Value.spiOutprotUbx v)
      | .error e => .error e
                else .error .invalid
              else
                if id = 0x107a0002 then
                  match readBool b with
      | .ok (r, v) => .ok (r, Value.spiOutprotNmea v)
      | .error e => .error e
                else .error .invalid
            else
              if id < 0x20030001 then
                if id = 0x107a0004 then
                  match readBool b with
      | .ok (r, v) => .ok (r, Value.spiOutprotRtcm3x v)
      | .error e => .error e
                else .error .invalid
              else
                if id = 0x20030001 then
                  match readVTmode b with
      | .ok (r, v) => .ok (r, Value.tmodeMode v)
      | .error e => .error e
                else .error .invalid
          else
            if id < 0x20030004 then
              if id < 0x20030003 then
                if id = 0x20030002 then
                  match readVPosType b with
      | .ok (r, v) => .ok (r, Value.tmodePosType v)
      | .error e => .error e
                else .error .invalid
              else
                if id = 0x20030003 then
                  match readI32 b with
      | .ok (r, v) => .ok (r, Value.tmodeEcefX v)
      | .error e => .error e
                else .error .invalid
            else
              if id < 0x20030005 then
                if id = 0x20030004 then
                  match readI32 b with
      | .ok (r, v) => .ok (r, Value.tmodeEcefY v)
      | .error e => .error e
                else .error .invalid
              else
                if id = 0x20030005 then
                  match readI32 b with
      | .ok (r, v) => .ok (r, Value.tmodeEcefZ v)
      | .error e => .error e
                else .error .invalid
      else
        if id < 0x20220032 then
          if id < 0x20220005 then
            if id < 0x20030008 then
              if id < 0x20030007 then
                if id = 0x20030006 then
                  match readI8 b with
      | .ok (r, v) => .ok (r, Value.tmodeEcefXHp v)
      | .error e => .error e
                else .error .invalid
              else
                if id = 0x20030007 then
                  match readI8 b with
      | .ok (r, v) => .ok (r, Value.tmodeEcefYHp v)
      | .error e => .error e
                else .error .invalid
            else
              if id < 0x20140011 then
                if id = 0x20030008 then
                  match readI8 b with
      | .ok (r, v) => .ok (r, Value.tmodeEcefZHp v)
      | .error e => .error e
                else .error .invalid
              else
                if id = 0x20140011 then
                  match readRtkMode b with
      | .ok (r, v) => .ok (r, Value.navhpgDgnssmode v)
      | .error e => .error e
                else .error .invalid
          else
            if id < 0x20220022 then
              if id < 0x20220021 then
                if id = 0x20220005 then
                  match readVOdoProfile b with
      | .ok (r, v) => .ok (r, Value.odoProfile v)
      | .error e => .error e
                else .error .invalid
              else
                if id = 0x20220021 then
                  match readU8 b with
      | .ok (r, v) => .ok (r, Value.odoCogmaxspeed v)
      | .error e => .error e
                else .error .invalid
            else
              if id < 0x20220031 then
                if id = 0x20220022 then
                  match readU8 b with
      | .ok (r, v) => .ok (r, Value.odoCogmaxposacc v)
      | .error e => .error e
                else .error .invalid
              else
                if id = 0x20220031 then
                  match readU8 b with
      | .ok (r, v) => .ok (r, Value.odoVellpgain v)
      | .error e => .error e
                else .error .invalid
        else
          if id < 0x20520005 then
            if id < 0x20520003 then
              if id < 0x20520002 then
                if id = 0x20220032 then
                  match readU8 b with
      | .ok (r, v) => .ok (r, Value.odoCoglpgain v)
      | .error e => .error e
                else .error .invalid
              else
                if id = 0x20520002 then
                  match readVStopBits b with
      | .ok (r, v) => .ok (r, Value.uart1StopBits v)
      | .error e => .error e
                else .error .invalid
            else
              if id < 0x20520004 then
                if id = 0x20520003 then
                  match readVDatabits b with
      | .ok (r, v) => .ok (r, Value.uart1Databits v)
      | .error e => .error e
                else .error .invalid
              else
                if id = 0x20520004 then
                  match readVParity b with
      | .ok (r, v) => .ok (r, Value.uart1Parity v)
      | .error e => .error e
                else .error .invalid
          else
            if id < 0x20530003 then
              if id < 0x20530002 then
                if id = 0x20520005 then
                  match readBool b with
      | .ok (r, v) => .ok (r, Value.uart1Enabled v)
      | .error e => .error e
                else .error .invalid
              else
                if id = 0x20530002 then
                  match readVStopBits b with
      | .ok (r, v) => .ok (r, Value.uart2StopBits v)
      | .error e => .error e
                else .error .invalid
            else
              if id < 0x20530004 then
                if id = 0x20530003 then
                  match readVDatabits b with
      | .ok (r, v) => .ok (r, Value.uart2Databits v)
      | .error e => .error e
                else .error .invalid
              else
                if id < 0x20530005 then
                  if id = 0x20530004 then
                    match readVParity b with
      | .ok (r, v) => .ok (r, Value.uart2Parity v)
      | .error e => .error e
                  else .error .invalid
                else
                  if id = 0x20530005 then
                    match readBool b with
      | .ok (r, v) => .ok (r, Value.uart2Enabled v)
      | .error e => .error e
                  else .error .invalid
  else
    if id < 0x2091025b then
      if id < 0x2091005e then
        if id < 0x20910036 then
          if id < 0x2091001d then
            if id < 0x20910013 then
              if id < 0x20910009 then
                if id = 0x20530006 then
                  match readBool b with
      | .ok (r, v) => .ok (r, Value.uart2Remap v)
      | .error e => .error e
                else .error .invalid
              else
                if id = 0x20910009 then
                  match readU8 b with
      | .ok (r, v) => .ok (r, Value.msgoutUbxNavPvtUsb v)
      | .error e => .error e
                else .error .invalid
            else
              if id < 0x20910018 then
                if id = 0x20910013 then
                  match readU8 b with
      | .ok (r, v) => .ok (r, Value.msgoutUbxNavOrbUsb v)
      | .error e => .error e
                else .error .invalid
              else
                if id = 0x20910018 then
                  match readU8 b with
      | .ok (r, v) => .ok (r, Value.msgoutUbxNavSatUsb v)
      | .error e => .error e
                else .error .invalid
          else
            if id < 0x2091002c then
              if id < 0x20910027 then
                if id = 0x2091001d then
                  match readU8 b with
      | .ok (r, v) => .ok (r, Value.msgoutUbxNavStatusUsb v)
      | .error e => .error e
                else .error .invalid
              else
                if id = 0x20910027 then
                  match readU8 b with
      | .ok (r, v) => .ok (r, Value.msgoutUbxNavPosecefUsb v)
      | .error e => .error e
                else .error .invalid
            else
              if id < 0x20910031 then
                if id = 0x2091002c then
                  match readU8 b with
      | .ok (r, v) => .ok (r, Value.msgoutUbxNavPosllhUsb v)
      | .error e => .error e
                else .error .invalid
              else
                if id = 0x20910031 then
                  match readU8 b with
      | .ok (r, v) => .ok (r, Value.msgoutUbxNavHpposecefUsb v)
      | .error e => .error e
                else .error .invalid
        else
          if id < 0x2091004a then
            if id < 0x20910040 then
              if id < 0x2091003b then
                if id = 0x20910036 then
                  match readU8 b with
      | .ok (r, v) => .ok (r, Value.msgoutUbxNavHpposllhUsb v)
      | .error e => .error e
                else .error .invalid
              else
                if id = 0x2091003b then
                  match readU8 b with
      | .ok (r, v) => .ok (r, Value.msgoutUbxNavDopUsb v)
      | .error e => .error e
                else .error .invalid
            else
              if id < 0x20910045 then
                if id = 0x20910040 then
                  match readU8 b with
      | .ok (r, v) => .ok (r, Value.msgoutUbxNavVelecefUsb v)
      | .error e => .error e
                else .error .invalid
              else
                if id = 0x20910045 then
                  match readU8 b with
      | .ok (r, v) => .ok (r, Value.msgoutUbxNavVelnedUsb v)
      | .error e => .error e
                else .error .invalid
          else
            if id < 0x20910054 then
              if id < 0x2091004f then
                if id = 0x2091004a then
                  match readU8 b with
      | .ok (r, v) => .ok (r, Value.msgoutUbxNavTimegpsUsb v)
      | .error e => .error e
                else .error .invalid
              else
                if id = 0x2091004f then
                  match readU8 b with
      | .ok (r, v) => .ok (r, Value.msgoutUbxNavTimegloUsb v)
      | .error e => .error e
                else .error .invalid
            else
              if id < 0x20910059 then
                if id = 0x20910054 then
                  match readU8 b with
      | .ok (r, v) => .ok (r, Value.msgoutUbxNavTimebdsUsb v)
      | .error e => .error e
                else .error .invalid
              else
                if id = 0x20910059 then
                  match readU8 b with
      | .ok (r, v) => .ok (r, Value.msgoutUbxNavTimegalUsb v)
      | .error e => .error e
                else .error .invalid
      else
        if id < 0x20910199 then
          if id < 0x2091008b then
            if id < 0x20910068 then
              if id < 0x20910063 then
                if id = 0x2091005e then
                  match readU8 b with
      | .ok (r, v) => .ok (r, Value.msgoutUbxNavTimeutcUsb v)
      | .error e => .error e
                else .error .invalid
              else
                if id = 0x20910063 then
                  match readU8 b with
      | .ok (r, v) => .ok (r, Value.msgoutUbxNavTimelsUsb v)
      | .error e => .error e
                else .error .invalid
            else
              if id < 0x20910081 then
                if id = 0x20910068 then
                  match readU8 b with
      | .ok (r, v) => .ok (r, Value.msgoutUbxNavClockUsb v)
      | .error e => .error e
                else .error .invalid
              else
                if id = 0x20910081 then
                  match readU8 b with
      | .ok (r, v) => .ok (r, Value.msgoutUbxNavOdoUsb v)
      | .error e => .error e
                else .error .invalid
          else
            if id < 0x20910162 then
              if id < 0x20910090 then
                if id = 0x2091008b then
                  match readU8 b with
      | .ok (r, v) => .ok (r, Value.msgoutUbxNavSvinUsb v)
      | .error e => .error e
                else .error .invalid
              else
                if id = 0x20910090 then
                  match readU8 b with
      | .ok (r, v) => .ok (r, Value.msgoutUbxNavRelPosNedUsb v)
      | .error e => .error e
                else .error .invalid
            else
              if id < 0x2091018a then
                if id = 0x20910162 then
                  match readU8 b with
      | .ok (r, v) => .ok (r, Value.msgoutUbxNavEoeUsb v)
      | .error e => .error e
                else .error .invalid
              else
                if id = 0x2091018a then
                  match readU8 b with
      | .ok (r, v) => .ok (r, Value.msgoutUbxMonRxrUsb v)
      | .error e => .error e
                else .error .invalid
        else
          if id < 0x209101b7 then
            if id < 0x209101a3 then
              if id < 0x2091019e then
                if id = 0x20910199 then
                  match readU8 b with
      | .ok (r, v) => .ok (r, Value.msgoutUbxMonMsgppUsb v)
      | .error e => .error e
                else .error .invalid
              else
                if id = 0x2091019e then
                  match readU8 b with
      | .ok (r, v) => .ok (r, Value.msgoutUbxMonTxbufUsb v)
      | .error e => .error e
                else .error .invalid
            else
              if id < 0x209101a8 then
                if id = 0x209101a3 then
                  match readU8 b with
      | .ok (r, v) => .ok (r, Value.msgoutUbxMonRxbufUsb v)
      | .error e => .error e
                else .error .invalid
              else
                if id = 0x209101a8 then
                  match readU8 b with
      | .ok (r, v) => .ok (r, Value.msgoutUbxMonIoUsb v)
      | .error e => .error e
                else .error .invalid
          else
            if id < 0x20910207 then
              if id < 0x209101bc then
                if id = 0x209101b7 then
                  match readU8 b with
      | .ok (r, v) => .ok (r, Value.msgoutUbxMonHwUsb v)
      | .error e => .error e
                else .error .invalid
              else
                if id = 0x209101bc then
                  match readU8 b with
      | .ok (r, v) => .ok (r, Value.msgoutUbxMonHw2Usb v)
      | .error e => .error e
                else .error .invalid
            else
              if id < 0x20910234 then
                if id = 0x20910207 then
                  match readU8 b with
      | .ok (r, v) => .ok (r, Value.msgoutUbxRxmMeasxUsb v)
      | .error e => .error e
                else .error .invalid
              else
                if id = 0x20910234 then
                  match readU8 b with
      | .ok (r, v) => .ok (r, Value.msgoutUbxRxmSfrbxUsb v)
      | .error e => .error e
                else .error .invalid
    else
      if id < 0x20910366 then
        if id < 0x20910301 then
          if id < 0x209102c0 then
            if id < 0x2091026b then
              if id < 0x20910261 then
                if id = 0x2091025b then
                  match readU8 b with
      | .ok (r, v) => .ok (r, Value.msgoutUbxLogInfoUsb v)
      | .error e => .error e
                else .error .invalid
              else
                if id = 0x20910261 then
                  match readU8 b with
      | .ok (r, v) => .ok (r, Value.msgoutUbxRxmRlmUsb v)
      | .error e => .error e
                else .error .invalid
            else
              if id < 0x209102a7 then
                if id = 0x2091026b then
                  match readU8 b with
      | .ok (r, v) => .ok (r, Value.msgoutUbxRxmRtcmUsb v)
      | .error e => .error e
                else .error .invalid
              else
                if id = 0x209102a7 then
                  match readU8 b with
      | .ok (r, v) => .ok (r, Value.msgoutUbxRxmRawxUsb v)
      | .error e => .error e
                else .error .invalid
          else
            if id < 0x209102d4 then
              if id < 0x209102cf then
                if id = 0x209102c0 then
                  match readU8 b with
      | .ok (r, v) => .ok (r, Value.msgoutRtcm3xType1005Usb v)
      | .error e => .error e
                else .error .invalid
              else
                if id = 0x209102cf then
                  match readU8 b with
      | .ok (r, v) => .ok (r, Value.msgoutRtcm3xType1077Usb v)
      | .error e => .error e
                else .error .invalid
            else
              if id < 0x209102d9 then
                if id = 0x209102d4 then
                  match readU8 b with
      | .ok (r, v) => .ok (r, Value.msgoutRtcm3xType1087Usb v)
      | .error e => .error e
                else .error .invalid
              else
                if id = 0x209102d9 then
                  match readU8 b with
      | .ok (r, v) => .ok (r, Value.msgoutRtcm3xType1127Usb v)
      | .error e => .error e
                else .error .invalid
        else
          if id < 0x20910352 then
            if id < 0x2091031b then
              if id < 0x20910306 then
                if id = 0x20910301 then
                  match readU8 b with
      | .ok (r, v) => .ok (r, Value.msgoutRtcm3xType4072_0Usb v)
      | .error e => .error e
                else .error .invalid
              else
                if id = 0x20910306 then
                  match readU8 b with
      | .ok (r, v) => .ok (r, Value.msgoutRtcm3xType1230Usb v)
      | .error e => .error e
                else .error .invalid
            else
              if id < 0x20910348 then
                if id = 0x2091031b then
                  match readU8 b with
      | .ok (r, v) => .ok (r, Value.msgoutRtcm3xType1097Usb v)
      | .error e => .error e
                else .error .invalid
              else
                if id = 0x20910348 then
                  match readU8 b with
      | .ok (r, v) => .ok (r, Value.msgoutUbxNavSigUsb v)
      | .error e => .error e
                else .error .invalid
          else
            if id < 0x2091035c then
              if id < 0x20910357 then
                if id = 0x20910352 then
                  match readU8 b with
      | .ok (r, v) => .ok (r, Value.msgoutUbxMonCommsUsb v)
      | .error e => .error e
                else .error .invalid
              else
                if id = 0x20910357 then
                  match readU8 b with
      | .ok (r, v) => .ok (r, Value.msgoutUbxMonHw3Usb v)
      | .error e => .error e
                else .error .invalid
            else
              if id < 0x20910361 then
                if id = 0x2091035c then
                  match readU8 b with
      | .ok (r, v) => .ok (r, Value.msgoutUbxMonRfUsb v)
      | .error e => .error e
                else .error .invalid
              else
                if id = 0x20910361 then
                  match readU8 b with
      | .ok (r, v) => .ok (r, Value.msgoutRtcm3xType1074Usb v)
      | .error e => .error e
                else .error .invalid
      else
        if id < 0x20920008 then
          if id < 0x20920002 then
            if id < 0x20910370 then
              if id < 0x2091036b then
                if id = 0x20910366 then
                  match readU8 b with
      | .ok (r, v) => .ok (r, Value.msgoutRtcm3xType1084Usb v)
      | .error e => .error e
                else .error .invalid
              else
                if id = 0x2091036b then
                  match readU8 b with
      | .ok (r, v) => .ok (r, Value.msgoutRtcm3xType1094Usb v)
      | .error e => .error e
                else .error .invalid
            else
              if id < 0x20910384 then
                if id = 0x20910370 then
                  match readU8 b with
      | .ok (r, v) => .ok (r, Value.msgoutRtcm3xType1124Usb v)
      | .error e => .error e
                else .error .invalid
              else
                if id = 0x20910384 then
                  match readU8 b with
      | .ok (r, v) => .ok (r, Value.msgoutRtcm3xType4072_1Usb v)
      | .error e => .error e
                else .error .invalid
          else
            if id < 0x20920004 then
              if id < 0x20920003 then
                if id = 0x20920002 then
                  match readMsgMask b with
      | .ok (r, v) => .ok (r, Value.infmsgUbxUart1 v)
      | .error e => .error e
                else .error .invalid
              else
                if id = 0x20920003 then
                  match readMsgMask b with
      | .ok (r, v) => .ok (r, Value.infmsgUbxUart2 v)
      | .error e => .error e
                else .error .invalid
            else
              if id < 0x20920007 then
                if id = 0x20920004 then
                  match readMsgMask b with
      | .ok (r, v) => .ok (r, Value.infmsgUbxUsb v)
      | .error e => .error e
                else .error .invalid
              else
                if id = 0x20920007 then
                  match readMsgMask b with
      | .ok (r, v) => .ok (r, Value.infmsgNmeaUart1 v)
      | .error e => .error e
                else .error .invalid
        else
          if id < 0x4003000f then
            if id < 0x30210001 then
              if id < 0x20920009 then
                if id = 0x20920008 then
                  match readMsgMask b with
      | .ok (r, v) => .ok (r, Value.infmsgNmeaUart2 v)
      | .error e => .error e
                else .error .invalid
              else
                if id = 0x20920009 then
                  match readMsgMask b with
      | .ok (r, v) => .ok (r, Value.infmsgNmeaUsb v)
      | .error e => .error e
                else .error .invalid
            else
              if id < 0x30210002 then
                if id = 0x30210001 then
                  match readU16 b with
      | .ok (r, v) => .ok (r, Value.rateMeas v)
      | .error e => .error e
                else .error .invalid
              else
                if id = 0x30210002 then
                  match readU16 b with
      | .ok (r, v) => .ok (r, Value.rateNav v)
      | .error e => .error e
                else .error .invalid
          else
            if id < 0x40030011 then
              if id < 0x40030010 then
                if id = 0x4003000f then
                  match readU32 b with
      | .ok (r, v) => .ok (r, Value.tmodeFixedPosAcc v)
      | .error e => .error e
                else .error .invalid
              else
                if id = 0x40030010 then
                  match readU32 b with
      | .ok (r, v) => .ok (r, Value.tmodeSvinMinDur v)
      | .error e => .error e
                else .error .invalid
            else
              if id < 0x40520001 then
                if id = 0x40030011 then
                  match readU32 b with
      | .ok (r, v) => .ok (r, Value.tmodeSvinAccLimit v)
      | .error e => .error e
                else .error .invalid
              else
                if id < 0x40530001 then
                  if id = 0x40520001 then
                    match readU32 b with
      | .ok (r, v) => .ok (r, Value.uart1Baudrate v)
      | .error e => .error e
                  else .error .invalid
                else
                  if id = 0x40530001 then
                    match readU32 b with
      | .ok (r, v) => .ok (r, Value.uart2Baudrate v)
      | .error e => .error e
                  else .error .invalid

/-- `Value::from_bytes`: read the u32 key id, dispatch on it, read the
typed payload; an unknown id is `Invalid`. -/
def valueRead (b : Bytes) : PRes Value :=
  match readU32 b with
  | .error e => .error e
  | .ok (b, id) => valueDecode id b

/-- Key id dispatch for `ValueKey`, modelled from the spec for the
missing values module of the newer tree: a key is its u32 id. -/
def valueKeyDecode (id : Nat) (b : Bytes) : PRes ValueKey :=
  if id < 0x20530006 then
    if id < 0x10770002 then
      if id < 0x10310022 then
        if id < 0x1031000d then
          if id < 0x10310001 then
            if id < 0x10220003 then
              if id < 0x10220002 then
                if id = 0x10220001 then .ok (b, ValueKey.odoUseOdo)
                else .error .invalid
              else
                if id = 0x10220002 then .ok (b, ValueKey.odoUseCog)
                else .error .invalid
            else
              if id < 0x10220004 then
                if id = 0x10220003 then .ok (b, ValueKey.odoOutlpvel)
                else .error .invalid
              else
                if id = 0x10220004 then .ok (b, ValueKey.odoOutlpcog)
                else .error .invalid
          else
            if id < 0x10310007 then
              if id < 0x10310003 then
                if id = 0x10310001 then .ok (b, ValueKey.signalGpsL1caEna)
                else .error .invalid
              else
                if id = 0x10310003 then .ok (b, ValueKey.signalGpsL2cEna)
                else .error .invalid
            else
              if id < 0x1031000a then
                if id = 0x10310007 then .ok (b, ValueKey.signalGalE1Ena)
                else .error .invalid
              else
                if id = 0x1031000a then .ok (b, ValueKey.signalGalE5bEna)
                else .error .invalid
        else
          if id < 0x10310018 then
            if id < 0x10310012 then
              if id < 0x1031000e then
                if id = 0x1031000d then .ok (b, ValueKey.signalBdsB1Ena)
                else .error .invalid
              else
                if id = 0x1031000e then .ok (b, ValueKey.signalBdsB2Ena)
                else .error .invalid
            else
              if id < 0x10310015 then
                if id = 0x10310012 then .ok (b, ValueKey.signalQzssL1caEna)
                else .error .invalid
              else
                if id = 0x10310015 then .ok (b, ValueKey.signalQzssL2cEna)
                else .error .invalid
          else
            if id < 0x1031001f then
              if id < 0x1031001a then
                if id = 0x10310018 then .ok (b, ValueKey.signalGloL1Ena)
                else .error .invalid
              else
                if id = 0x1031001a then .ok (b, ValueKey.signalGloL2Ena)
                else .error .invalid
            else
              if id < 0x10310021 then
                if id = 0x1031001f then .ok (b, ValueKey.signalGpsEna)
                else .error .invalid
              else
                if id = 0x10310021 then .ok (b, ValueKey.signalGalEna)
                else .error .invalid
      else
        if id < 0x10740004 then
          if id < 0x10730002 then
            if id < 0x10310025 then
              if id < 0x10310024 then
                if id = 0x10310022 then .ok (b, ValueKey.signalBdsEna)
                else .error .invalid
              else
                if id = 0x10310024 then .ok (b, ValueKey.signalQzssEna)
                else .error .invalid
            else
              if id < 0x10730001 then
                if id = 0x10310025 then .ok (b, ValueKey.signalGloEna)
                else .error .invalid
              else
                if id = 0x10730001 then .ok (b, ValueKey.uart1InprotUbx)
                else .error .invalid
          else
            if id < 0x10740001 then
              if id < 0x10730004 then
                if id = 0x10730002 then .ok (b, ValueKey.uart1InprotNmea)
                else .error .invalid
              else
                if id = 0x10730004 then .ok (b, ValueKey.uart1InprotRtcm3x)
                else .error .invalid
            else
              if id < 0x10740002 then
                if id = 0x10740001 then .ok (b, ValueKey.uart1OutprotUbx)
                else .error .invalid
              else
                if id = 0x10740002 then .ok (b, ValueKey.uart1OutprotNmea)
                else .error .invalid
        else
          if id < 0x10760001 then
            if id < 0x10750002 then
              if id < 0x10750001 then
                if id = 0x10740004 then .ok (b, ValueKey.uart1OutprotRtcm3x)
                else .error .invalid
              else
                if id = 0x10750001 then .ok (b, ValueKey.uart2InprotUbx)
                else .error .invalid
            else
              if id < 0x10750004 then
                if id = 0x10750002 then .ok (b, ValueKey.uart2InprotNmea)
                else .error .invalid
              else
                if id = 0x10750004 then .ok (b, ValueKey.uart2InprotRtcm3x)
                else .error .invalid
          else
            if id < 0x10760004 then
              if id < 0x10760002 then
                if id = 0x10760001 then .ok (b, ValueKey.uart2OutprotUbx)
                else .error .invalid
              else
                if id = 0x10760002 then .ok (b, ValueKey.uart2OutprotNmea)
                else .error .invalid
            else
              if id < 0x10770001 then
                if id = 0x10760004 then .ok (b, ValueKey.uart2OutprotRtcm3x)
                else .error .invalid
              else
                if id = 0x10770001 then .ok (b, ValueKey.usbInprotUbx)
                else .error .invalid
    else
      if id < 0x20030006 then
        if id < 0x107a0001 then
          if id < 0x10780004 then
            if id < 0x10780001 then
              if id < 0x10770004 then
                if id = 0x10770002 then .ok (b, ValueKey.usbInprotNmea)
                else .error .invalid
              else
                if id = 0x10770004 then .ok (b, ValueKey.usbInprotRtcm3x)
                else .error .invalid
            else
              if id < 0x10780002 then
                if id = 0x10780001 then .ok (b, ValueKey.usbOutprotUbx)
                else .error .invalid
              else
                if id = 0x10780002 then .ok (b, ValueKey.usbOutprotNmea)
                else .error .invalid
          else
            if id < 0x10790002 then
              if id < 0x10790001 then
                if id = 0x10780004 then .ok (b, ValueKey.usbOutprotRtcm3x)
                else .error .invalid
              else
                if id = 0x10790001 then .ok (b, ValueKey.spiInprotUbx)
                else .error .invalid
            else
              if id < 0x10790004 then
                if id = 0x10790002 then .ok (b, ValueKey.spiInprotNmea)
                else .error .invalid
              else
                if id = 0x10790004 then .ok (b, ValueKey.spiInprotRtcm3x)
                else .error .invalid
        else
          if id < 0x20030002 then
            if id < 0x107a0004 then
              if id < 0x107a0002 then
                if id = 0x107a0001 then .ok (b, ValueKey.spiOutprotUbx)
                else .error .invalid
              else
                if id = 0x107a0002 then .ok (b, ValueKey.spiOutprotNmea)
                else .error .invalid
            else
              if id < 0x20030001 then
                if id = 0x107a0004 then .ok (b, ValueKey.spiOutprotRtcm3x)
                else .error .invalid
              else
                if id = 0x20030001 then .ok (b, ValueKey.tmodeMode)
                else .error .invalid
          else
            if id < 0x20030004 then
              if id < 0x20030003 then
                if id = 0x20030002 then .ok (b, ValueKey.tmodePosType)
                else .error .invalid
              else
                if id = 0x20030003 then .ok (b, ValueKey.tmodeEcefX)
                else .error .invalid
            else
              if id < 0x20030005 then
                if id = 0x20030004 then .ok (b, ValueKey.tmodeEcefY)
                else .error .invalid
              else
                if id = 0x20030005 then .ok (b, ValueKey.tmodeEcefZ)
                else .error .invalid
      else
        if id < 0x20220032 then
          if id < 0x20220005 then
            if id < 0x20030008 then
              if id < 0x20030007 then
                if id = 0x20030006 then .ok (b, ValueKey.tmodeEcefXHp)
                else .error .invalid
              else
                if id = 0x20030007 then .ok (b, ValueKey.tmodeEcefYHp)
                else .error .invalid
            else
              if id < 0x20140011 then
                if id = 0x20030008 then .ok (b, ValueKey.tmodeEcefZHp)
                else .error .invalid
              else
                if id = 0x20140011 then .ok (b, ValueKey.navhpgDgnssmode)
                else .error .invalid
          else
            if id < 0x20220022 then
              if id < 0x20220021 then
                if id = 0x20220005 then .ok (b, ValueKey.odoProfile)
                else .error .invalid
              else
                if id = 0x20220021 then .ok (b, ValueKey.odoCogmaxspeed)
                else .error .invalid
            else
              if id < 0x20220031 then
                if id = 0x20220022 then .ok (b, ValueKey.odoCogmaxposacc)
                else .error .invalid
              else
                if id = 0x20220031 then .ok (b, ValueKey.odoVellpgain)
                else .error .invalid
        else
          if id < 0x20520005 then
            if id < 0x20520003 then
              if id < 0x20520002 then
                if id = 0x20220032 then .ok (b, ValueKey.odoCoglpgain)
                else .error .invalid
              else
                if id = 0x20520002 then .ok (b, ValueKey.uart1StopBits)
                else .error .invalid
            else
              if id < 0x20520004 then
                if id = 0x20520003 then .ok (b, ValueKey.uart1Databits)
                else .error .invalid
              else
                if id = 0x20520004 then .ok (b, ValueKey.uart1Parity)
                else .error .invalid
          else
            if id < 0x20530003 then
              if id < 0x20530002 then
                if id = 0x20520005 then .ok (b, ValueKey.uart1Enabled)
                else .error .invalid
              else
                if id = 0x20530002 then .ok (b, ValueKey.uart2StopBits)
                else .error .invalid
            else
              if id < 0x20530004 then
                if id = 0x20530003 then .ok (b, ValueKey.uart2Databits)
                else .error .invalid
              else
                if id < 0x20530005 then
                  if id = 0x20530004 then .ok (b, ValueKey.uart2Parity)
                  else .error .invalid
                else
                  if id = 0x20530005 then .ok (b, ValueKey.uart2Enabled)
                  else .error .invalid
  else
    if id < 0x2091025b then
      if id < 0x2091005e then
        if id < 0x20910036 then
          if id < 0x2091001d then
            if id < 0x20910013 then
              if id < 0x20910009 then
                if id = 0x20530006 then .ok (b, ValueKey.uart2Remap)
                else .error .invalid
              else
                if id = 0x20910009 then .ok (b, ValueKey.msgoutUbxNavPvtUsb)
                else .error .invalid
            else
              if id < 0x20910018 then
                if id = 0x20910013 then .ok (b, ValueKey.msgoutUbxNavOrbUsb)
                else .error .invalid
              else
                if id = 0x20910018 then .ok (b, ValueKey.msgoutUbxNavSatUsb)
                else .error .invalid
          else
            if id < 0x2091002c then
              if id < 0x20910027 then
                if id = 0x2091001d then .ok (b, ValueKey.msgoutUbxNavStatusUsb)
                else .error .invalid
              else
                if id = 0x20910027 then .ok (b, ValueKey.msgoutUbxNavPosecefUsb)
                else .error .invalid
            else
              if id < 0x20910031 then
                if id = 0x2091002c then .ok (b, ValueKey.msgoutUbxNavPosllhUsb)
                else .error .invalid
              else
                if id = 0x20910031 then .ok (b, ValueKey.msgoutUbxNavHpposecefUsb)
                else .error .invalid
        else
          if id < 0x2091004a then
            if id < 0x20910040 then
              if id < 0x2091003b then
                if id = 0x20910036 then .ok (b, ValueKey.msgoutUbxNavHpposllhUsb)
                else .error .invalid
              else
                if id = 0x2091003b then .ok (b, ValueKey.msgoutUbxNavDopUsb)
                else .error .invalid
            else
              if id < 0x20910045 then
                if id = 0x20910040 then .ok (b, ValueKey.msgoutUbxNavVelecefUsb)
                else .error .invalid
              else
                if id = 0x20910045 then .ok (b, ValueKey.msgoutUbxNavVelnedUsb)
                else .error .invalid
          else
            if id < 0x20910054 then
              if id < 0x2091004f then
                if id = 0x2091004a then .ok (b, ValueKey.msgoutUbxNavTimegpsUsb)
                else .error .invalid
              else
                if id = 0x2091004f then .ok (b, ValueKey.msgoutUbxNavTimegloUsb)
                else .error .invalid
            else
              if id < 0x20910059 then
                if id = 0x20910054 then .ok (b, ValueKey.msgoutUbxNavTimebdsUsb)
                else .error .invalid
              else
                if id = 0x20910059 then .ok (b, ValueKey.msgoutUbxNavTimegalUsb)
                else .error .invalid
      else
        if id < 0x20910199 then
          if id < 0x2091008b then
            if id < 0x20910068 then
              if id < 0x20910063 then
                if id = 0x2091005e then .ok (b, ValueKey.msgoutUbxNavTimeutcUsb)
                else .error .invalid
              else
                if id = 0x20910063 then .ok (b, ValueKey.msgoutUbxNavTimelsUsb)
                else .error .invalid
            else
              if id < 0x20910081 then
                if id = 0x20910068 then .ok (b, ValueKey.msgoutUbxNavClockUsb)
                else .error .invalid
              else
                if id = 0x20910081 then .ok (b, ValueKey.msgoutUbxNavOdoUsb)
                else .error .invalid
          else
            if id < 0x20910162 then
              if id < 0x20910090 then
                if id = 0x2091008b then .ok (b, ValueKey.msgoutUbxNavSvinUsb)
                else .error .invalid
              else
                if id = 0x20910090 then .ok (b, ValueKey.msgoutUbxNavRelPosNedUsb)
                else .error .invalid
            else
              if id < 0x2091018a then
                if id = 0x20910162 then .ok (b, ValueKey.msgoutUbxNavEoeUsb)
                else .error .invalid
              else
                if id = 0x2091018a then .ok (b, ValueKey.msgoutUbxMonRxrUsb)
                else .error .invalid
        else
          if id < 0x209101b7 then
            if id < 0x209101a3 then
              if id < 0x2091019e then
                if id = 0x20910199 then .ok (b, ValueKey.msgoutUbxMonMsgppUsb)
                else .error .invalid
              else
                if id = 0x2091019e then .ok (b, ValueKey.msgoutUbxMonTxbufUsb)
                else .error .invalid
            else
              if id < 0x209101a8 then
                if id = 0x209101a3 then .ok (b, ValueKey.msgoutUbxMonRxbufUsb)
                else .error .invalid
              else
                if id = 0x209101a8 then .ok (b, ValueKey.msgoutUbxMonIoUsb)
                else .error .invalid
          else
            if id < 0x20910207 then
              if id < 0x209101bc then
                if id = 0x209101b7 then .ok (b, ValueKey.msgoutUbxMonHwUsb)
                else .error .invalid
              else
                if id = 0x209101bc then .ok (b, ValueKey.msgoutUbxMonHw2Usb)
                else .error .invalid
            else
              if id < 0x20910234 then
                if id = 0x20910207 then .ok (b, ValueKey.msgoutUbxRxmMeasxUsb)
                else .error .invalid
              else
                if id = 0x20910234 then .ok (b, ValueKey.msgoutUbxRxmSfrbxUsb)
                else .error .invalid
    else
      if id < 0x20910366 then
        if id < 0x20910301 then
          if id < 0x209102c0 then
            if id < 0x2091026b then
              if id < 0x20910261 then
                if id = 0x2091025b then .ok (b, ValueKey.msgoutUbxLogInfoUsb)
                else .error .invalid
              else
                if id = 0x20910261 then .ok (b, ValueKey.msgoutUbxRxmRlmUsb)
                else .error .invalid
            else
              if id < 0x209102a7 then
                if id = 0x2091026b then .ok (b, ValueKey.msgoutUbxRxmRtcmUsb)
                else .error .invalid
              else
                if id = 0x209102a7 then .ok (b, ValueKey.msgoutUbxRxmRawxUsb)
                else .error .invalid
          else
            if id < 0x209102d4 then
              if id < 0x209102cf then
                if id = 0x209102c0 then .ok (b, ValueKey.msgoutRtcm3xType1005Usb)
                else .error .invalid
              else
                if id = 0x209102cf then .ok (b, ValueKey.msgoutRtcm3xType1077Usb)
                else .error .invalid
            else
              if id < 0x209102d9 then
                if id = 0x209102d4 then .ok (b, ValueKey.msgoutRtcm3xType1087Usb)
                else .error .invalid
              else
                if id = 0x209102d9 then .ok (b, ValueKey.msgoutRtcm3xType1127Usb)
                else .error .invalid
        else
          if id < 0x20910352 then
            if id < 0x2091031b then
              if id < 0x20910306 then
                if id = 0x20910301 then .ok (b, ValueKey.msgoutRtcm3xType4072_0Usb)
                else .error .invalid
              else
                if id = 0x20910306 then .ok (b, ValueKey.msgoutRtcm3xType1230Usb)
                else .error .invalid
            else
              if id < 0x20910348 then
                if id = 0x2091031b then .ok (b, ValueKey.msgoutRtcm3xType1097Usb)
                else .error .invalid
              else
                if id = 0x20910348 then .ok (b, ValueKey.msgoutUbxNavSigUsb)
                else .error .invalid
          else
            if id < 0x2091035c then
              if id < 0x20910357 then
                if id = 0x20910352 then .ok (b, ValueKey.msgoutUbxMonCommsUsb)
                else .error .invalid
              else
                if id = 0x20910357 then .ok (b, ValueKey.msgoutUbxMonHw3Usb)
                else .error .invalid
            else
              if id < 0x20910361 then
                if id = 0x2091035c then .ok (b, ValueKey.msgoutUbxMonRfUsb)
                else .error .invalid
              else
                if id = 0x20910361 then .ok (b, ValueKey.msgoutRtcm3xType1074Usb)
                else .error .invalid
      else
        if id < 0x20920008 then
          if id < 0x20920002 then
            if id < 0x20910370 then
              if id < 0x2091036b then
                if id = 0x20910366 then .ok (b, ValueKey.msgoutRtcm3xType1084Usb)
                else .error .invalid
              else
                if id = 0x2091036b then .ok (b, ValueKey.msgoutRtcm3xType1094Usb)
                else .error .invalid
            else
              if id < 0x20910384 then
                if id = 0x20910370 then .ok (b, ValueKey.msgoutRtcm3xType1124Usb)
                else .error .invalid
              else
                if id = 0x20910384 then .ok (b, ValueKey.msgoutRtcm3xType4072_1Usb)
                else .error .invalid
          else
            if id < 0x20920004 then
              if id < 0x20920003 then
                if id = 0x20920002 then .ok (b, ValueKey.infmsgUbxUart1)
                else .error .invalid
              else
                if id = 0x20920003 then .ok (b, ValueKey.infmsgUbxUart2)
                else .error .invalid
            else
              if id < 0x20920007 then
                if id = 0x20920004 then .ok (b, ValueKey.infmsgUbxUsb)
                else .error .invalid
              else
                if id = 0x20920007 then .ok (b, ValueKey.infmsgNmeaUart1)
                else .error .invalid
        else
          if id < 0x4003000f then
            if id < 0x30210001 then
              if id < 0x20920009 then
                if id = 0x20920008 then .ok (b, ValueKey.infmsgNmeaUart2)
                else .error .invalid
              else
                if id = 0x20920009 then .ok (b, ValueKey.infmsgNmeaUsb)
                else .error .invalid
            else
              if id < 0x30210002 then
                if id = 0x30210001 then .ok (b, ValueKey.rateMeas)
                else .error .invalid
              else
                if id = 0x30210002 then .ok (b, ValueKey.rateNav)
                else .error .invalid
          else
            if id < 0x40030011 then
              if id < 0x40030010 then
                if id = 0x4003000f then .ok (b, ValueKey.tmodeFixedPosAcc)
                else .error .invalid
              else
                if id = 0x40030010 then .ok (b, ValueKey.tmodeSvinMinDur)
                else .error .invalid
            else
              if id < 0x40520001 then
                if id = 0x40030011 then .ok (b, ValueKey.tmodeSvinAccLimit)
                else .error .invalid
              else
                if id < 0x40530001 then
                  if id = 0x40520001 then .ok (b, ValueKey.uart1Baudrate)
                  else .error .invalid
                else
                  if id = 0x40530001 then .ok (b, ValueKey.uart2Baudrate)
                  else .error .invalid

/-- Reading one `ValueKey`. -/
def valueKeyRead (b : Bytes) : PRes ValueKey :=
  match readU32 b with
  | .error e => .error e
  | .ok (b, id) => valueKeyDecode id b

/-- `ValueKey::write_bytes`. -/
def valueKeyWrite (k : ValueKey) : Bytes := writeU32 (valueKeyId k)

/-- Canonical payloads: each payload fits its machine type, and flag
payloads use only the catalogue's mask bits. -/
def valueCanon : Value → Prop
  | .rateMeas v => v < 2 ^ 16
  | .rateNav v => v < 2 ^ 16
  | .usbInprotUbx _ => True
  | .usbInprotNmea _ => True
  | .usbInprotRtcm3x _ => True
  | .usbOutprotUbx _ => True
  | .usbOutprotNmea _ => True
  | .usbOutprotRtcm3x _ => True
  | .spiInprotUbx _ => True
  | .spiInprotNmea _ => True
  | .spiInprotRtcm3x _ => True
  | .spiOutprotUbx _ => True
  | .spiOutprotNmea _ => True
  | .spiOutprotRtcm3x _ => True
  | .uart1InprotUbx _ => True
  | .uart1InprotNmea _ => True
  | .uart1InprotRtcm3x _ => True
  | .uart1OutprotUbx _ => True
  | .uart1OutprotNmea _ => True
  | .uart1OutprotRtcm3x _ => True
  | .uart2InprotUbx _ => True
  | .uart2InprotNmea _ => True
  | .uart2InprotRtcm3x _ => True
  | .uart2OutprotUbx _ => True
  | .uart2OutprotNmea _ => True
  | .uart2OutprotRtcm3x _ => True
  | .uart1Baudrate v => v < 2 ^ 32
  | .uart1StopBits _ => True
  | .uart1Databits _ => True
  | .uart1Parity _ => True
  | .uart1Enabled _ => True
  | .uart2Baudrate v => v < 2 ^ 32
  | .uart2StopBits _ => True
  | .uart2Databits _ => True
  | .uart2Parity _ => True
  | .uart2Enabled _ => True
  | .uart2Remap _ => True
  | .infmsgUbxUart1 v => v &&& 0x1F = v
  | .infmsgUbxUart2 v => v &&& 0x1F = v
  | .infmsgUbxUsb v => v &&& 0x1F = v
  | .infmsgNmeaUart1 v => v &&& 0x1F = v
  | .infmsgNmeaUart2 v => v &&& 0x1F = v
  | .infmsgNmeaUsb v => v &&& 0x1F = v
  | .msgoutRtcm3xType1005Usb v => v < 256
  | .msgoutRtcm3xType1074Usb v => v < 256
  | .msgoutRtcm3xType1077Usb v => v < 256
  | .msgoutRtcm3xType1084Usb v => v < 256
  | .msgoutRtcm3xType1087Usb v => v < 256
  | .msgoutRtcm3xType1094Usb v => v < 256
  | .msgoutRtcm3xType1097Usb v => v < 256
  | .msgoutRtcm3xType1124Usb v => v < 256
  | .msgoutRtcm3xType1127Usb v => v < 256
  | .msgoutRtcm3xType1230Usb v => v < 256
  | .msgoutRtcm3xType4072_0Usb v => v < 256
  | .msgoutRtcm3xType4072_1Usb v => v < 256
  | .msgoutUbxLogInfoUsb v => v < 256
  | .msgoutUbxMonHw2Usb v => v < 256
  | .msgoutUbxMonHw3Usb v => v < 256
  | .msgoutUbxMonHwUsb v => v < 256
  | .msgoutUbxMonIoUsb v => v < 256
  | .msgoutUbxMonCommsUsb v => v < 256
  | .msgoutUbxMonMsgppUsb v => v < 256
  | .msgoutUbxMonRfUsb v => v < 256
  | .msgoutUbxMonRxbufUsb v => v < 256
  | .msgoutUbxMonRxrUsb v => v < 256
  | .msgoutUbxMonTxbufUsb v => v < 256
  | .msgoutUbxNavClockUsb v => v < 256
  | .msgoutUbxNavDopUsb v => v < 256
  | .msgoutUbxNavEoeUsb v => v < 256
  | .msgoutUbxNavHpposecefUsb v => v < 256
  | .msgoutUbxNavHpposllhUsb v => v < 256
  | .msgoutUbxNavOdoUsb v => v < 256
  | .msgoutUbxNavOrbUsb v => v < 256
  | .msgoutUbxNavPosecefUsb v => v < 256
  | .msgoutUbxNavPosllhUsb v => v < 256
  | .msgoutUbxNavPvtUsb v => v < 256
  | .msgoutUbxNavRelPosNedUsb v => v < 256
  | .msgoutUbxNavSatUsb v => v < 256
  | .msgoutUbxNavSigUsb v => v < 256
  | .msgoutUbxNavStatusUsb v => v < 256
  | .msgoutUbxNavSvinUsb v => v < 256
  | .msgoutUbxNavTimebdsUsb v => v < 256
  | .msgoutUbxNavTimegalUsb v => v < 256
  | .msgoutUbxNavTimegloUsb v => v < 256
  | .msgoutUbxNavTimegpsUsb v => v < 256
  | .msgoutUbxNavTimelsUsb v => v < 256
  | .msgoutUbxNavTimeutcUsb v => v < 256
  | .msgoutUbxNavVelecefUsb v => v < 256
  | .msgoutUbxNavVelnedUsb v => v < 256
  | .msgoutUbxRxmMeasxUsb v => v < 256
  | .msgoutUbxRxmRawxUsb v => v < 256
  | .msgoutUbxRxmRlmUsb v => v < 256
  | .msgoutUbxRxmRtcmUsb v => v < 256
  | .msgoutUbxRxmSfrbxUsb v => v < 256
  | .odoUseOdo _ => True
  | .odoUseCog _ => True
  | .odoOutlpvel _ => True
  | .odoOutlpcog _ => True
  | .odoProfile _ => True
  | .odoCogmaxspeed v => v < 256
  | .odoCogmaxposacc v => v < 256
  | .odoVellpgain v => v < 256
  | .odoCoglpgain v => v < 256
  | .navhpgDgnssmode _ => True
  | .tmodeMode _ => True
  | .tmodePosType _ => True
  | .tmodeEcefX v => -(2 ^ 31) ≤ v ∧ v < 2 ^ 31
  | .tmodeEcefY v => -(2 ^ 31) ≤ v ∧ v < 2 ^ 31
  | .tmodeEcefZ v => -(2 ^ 31) ≤ v ∧ v < 2 ^ 31
  | .tmodeEcefXHp v => -128 ≤ v ∧ v < 128
  | .tmodeEcefYHp v => -128 ≤ v ∧ v < 128
  | .tmodeEcefZHp v => -128 ≤ v ∧ v < 128
  | .tmodeFixedPosAcc v => v < 2 ^ 32
  | .tmodeSvinMinDur v => v < 2 ^ 32
  | .tmodeSvinAccLimit v => v < 2 ^ 32
  | .signalGpsEna _ => True
  | .signalGpsL1caEna _ => True
  | .signalGpsL2cEna _ => True
  | .signalGalEna _ => True
  | .signalGalE1Ena _ => True
  | .signalGalE5bEna _ => True
  | .signalBdsEna _ => True
  | .signalBdsB1Ena _ => True
  | .signalBdsB2Ena _ => True
  | .signalQzssEna _ => True
  | .signalQzssL1caEna _ => True
  | .signalQzssL2cEna _ => True
  | .signalGloEna _ => True
  | .signalGloL1Ena _ => True
  | .signalGloL2Ena _ => True

theorem valueRead_step (b rest : Bytes) (id : Nat)
    (h : readU32 b = .ok (rest, id)) :
    valueRead b = valueDecode id rest := by
  unfold valueRead
  rw [h]

theorem valueKeyRead_step (b rest : Bytes) (id : Nat)
    (h : readU32 b = .ok (rest, id)) :
    valueKeyRead b = valueKeyDecode id rest := by
  unfold valueKeyRead
  rw [h]

theorem valueDecode_rateMeas (b : Bytes) :
    valueDecode 0x30210001 b =
      (match readU16 b with
       | .ok (r, v) => .ok (r, Value.rateMeas v)
       | .error e => .error e) := rfl

theorem valueDecode_rateNav (b : Bytes) :
    valueDecode 0x30210002 b =
      (match readU16 b with
       | .ok (r, v) => .ok (r, Value.rateNav v)
       | .error e => .error e) := rfl

theorem valueDecode_usbInprotUbx (b : Bytes) :
    valueDecode 0x10770001 b =
      (match readBool b with
       | .ok (r, v) => .ok (r, Value.usbInprotUbx v)
       | .error e => .error e) := rfl

theorem valueDecode_usbInprotNmea (b : Bytes) :
    valueDecode 0x10770002 b =
      (match readBool b with
       | .ok (r, v) => .ok (r, Value.usbInprotNmea v)
       | .error e => .error e) := rfl

theorem valueDecode_usbInprotRtcm3x (b : Bytes) :
    valueDecode 0x10770004 b =
      (match readBool b with
       | .ok (r, v) => .ok (r, Value.usbInprotRtcm3x v)
       | .error e => .error e) := rfl

theorem valueDecode_usbOutprotUbx (b : Bytes) :
    valueDecode 0x10780001 b =
      (match readBool b with
       | .ok (r, v) => .ok (r, Value.usbOutprotUbx v)
       | .error e => .error e) := rfl

theorem valueDecode_usbOutprotNmea (b : Bytes) :
    valueDecode 0x10780002 b =
      (match readBool b with
       | .ok (r, v) => .ok (r, Value.usbOutprotNmea v)
       | .error e => .error e) := rfl

theorem valueDecode_usbOutprotRtcm3x (b : Bytes) :
    valueDecode 0x10780004 b =
      (match readBool b with
       | .ok (r, v) => .ok (r, Value.usbOutprotRtcm3x v)
       | .error e => .error e) := rfl

theorem valueDecode_spiInprotUbx (b : Bytes) :
    valueDecode 0x10790001 b =
      (match readBool b with
       | .ok (r, v) => .ok (r, Value.spiInprotUbx v)
       | .error e => .error e) := rfl

theorem valueDecode_spiInprotNmea (b : Bytes) :
    valueDecode 0x10790002 b =
      (match readBool b with
       | .ok (r, v) => .ok (r, Value.spiInprotNmea v)
       | .error e => .error e) := rfl

theorem valueDecode_spiInprotRtcm3x (b : Bytes) :
    valueDecode 0x10790004 b =
      (match readBool b with
       | .ok (r, v) => .ok (r, Value.spiInprotRtcm3x v)
       | .error e => .error e) := rfl

theorem valueDecode_spiOutprotUbx (b : Bytes) :
    valueDecode 0x107a0001 b =
      (match readBool b with
       | .ok (r, v) => .ok (r, Value.spiOutprotUbx v)
       | .error e => .error e) := rfl

theorem valueDecode_spiOutprotNmea (b : Bytes) :
    valueDecode 0x107a0002 b =
      (match readBool b with
       | .ok (r, v) => .ok (r, Value.spiOutprotNmea v)
       | .error e => .error e) := rfl

theorem valueDecode_spiOutprotRtcm3x (b : Bytes) :
    valueDecode 0x107a0004 b =
      (match readBool b with
       | .ok (r, v) => .ok (r, Value.spiOutprotRtcm3x v)
       | .error e => .error e) := rfl

theorem valueDecode_uart1InprotUbx (b : Bytes) :
    valueDecode 0x10730001 b =
      (match readBool b with
       | .ok (r, v) => .ok (r, Value.uart1InprotUbx v)
       | .error e => .error e) := rfl

theorem valueDecode_uart1InprotNmea (b : Bytes) :
    valueDecode 0x10730002 b =
      (match readBool b with
       | .ok (r, v) => .ok (r, Value.uart1InprotNmea v)
       | .error e => .error e) := rfl

theorem valueDecode_uart1InprotRtcm3x (b : Bytes) :
    valueDecode 0x10730004 b =
      (match readBool b with
       | .ok (r, v) => .ok (r, Value.uart1InprotRtcm3x v)
       | .error e => .error e) := rfl

theorem valueDecode_uart1OutprotUbx (b : Bytes) :
    valueDecode 0x10740001 b =
      (match readBool b with
       | .ok (r, v) => .ok (r, Value.uart1OutprotUbx v)
       | .error e => .error e) := rfl

theorem valueDecode_uart1OutprotNmea (b : Bytes) :
    valueDecode 0x10740002 b =
      (match readBool b with
       | .ok (r, v) => .ok (r, Value.uart1OutprotNmea v)
       | .error e => .error e) := rfl

theorem valueDecode_uart1OutprotRtcm3x (b : Bytes) :
    valueDecode 0x10740004 b =
      (match readBool b with
       | .ok (r, v) => .ok (r, Value.uart1OutprotRtcm3x v)
       | .error e => .error e) := rfl

theorem valueDecode_uart2InprotUbx (b : Bytes) :
    valueDecode 0x10750001 b =
      (match readBool b with
       | .ok (r, v) => .ok (r, Value.uart2InprotUbx v)
       | .error e => .error e) := rfl

theorem valueDecode_uart2InprotNmea (b : Bytes) :
    valueDecode 0x10750002 b =
      (match readBool b with
       | .ok (r, v) => .ok (r, Value.uart2InprotNmea v)
       | .error e => .error e) := rfl

theorem valueDecode_uart2InprotRtcm3x (b : Bytes) :
    valueDecode 0x10750004 b =
      (match readBool b with
       | .ok (r, v) => .ok (r, Value.uart2InprotRtcm3x v)
       | .error e => .error e) := rfl

theorem valueDecode_uart2OutprotUbx (b : Bytes) :
    valueDecode 0x10760001 b =
      (match readBool b with
       | .ok (r, v) => .ok (r, Value.uart2OutprotUbx v)
       | .error e => .error e) := rfl

theorem valueDecode_uart2OutprotNmea (b : Bytes) :
    valueDecode 0x10760002 b =
      (match readBool b with
       | .ok (r, v) => .ok (r, Value.uart2OutprotNmea v)
       | .error e => .error e) := rfl

theorem valueDecode_uart2OutprotRtcm3x (b : Bytes) :
    valueDecode 0x10760004 b =
      (match readBool b with
       | .ok (r, v) => .ok (r, Value.uart2OutprotRtcm3x v)
       | .error e => .error e) := rfl

theorem valueDecode_uart1Baudrate (b : Bytes) :
    valueDecode 0x40520001 b =
      (match readU32 b with
       | .ok (r, v) => .ok (r, Value.uart1Baudrate v)
       | .error e => .error e) := rfl

theorem valueDecode_uart1StopBits (b : Bytes) :
    valueDecode 0x20520002 b =
      (match readVStopBits b with
       | .ok (r, v) => .ok (r, Value.uart1StopBits v)
       | .error e => .error e) := rfl

theorem valueDecode_uart1Databits (b : Bytes) :
    valueDecode 0x20520003 b =
      (match readVDatabits b with
       | .ok (r, v) => .ok (r, Value.uart1Databits v)
       | .error e => .error e) := rfl

theorem valueDecode_uart1Parity (b : Bytes) :
    valueDecode 0x20520004 b =
      (match readVParity b with
       | .ok (r, v) => .ok (r, Value.uart1Parity v)
       | .error e => .error e) := rfl

theorem valueDecode_uart1Enabled (b : Bytes) :
    valueDecode 0x20520005 b =
      (match readBool b with
       | .ok (r, v) => .ok (r, Value.uart1Enabled v)
       | .error e => .error e) := rfl

theorem valueDecode_uart2Baudrate (b : Bytes) :
    valueDecode 0x40530001 b =
      (match readU32 b with
       | .ok (r, v) => .ok (r, Value.uart2Baudrate v)
       | .error e => .error e) := rfl

theorem valueDecode_uart2StopBits (b : Bytes) :
    valueDecode 0x20530002 b =
      (match readVStopBits b with
       | .ok (r, v) => .ok (r, Value.uart2StopBits v)
       | .error e => .error e) := rfl

theorem valueDecode_uart2Databits (b : Bytes) :
    valueDecode 0x20530003 b =
      (match readVDatabits b with
       | .ok (r, v) => .ok (r, Value.uart2Databits v)
       | .error e => .error e) := rfl

theorem valueDecode_uart2Parity (b : Bytes) :
    valueDecode 0x20530004 b =
      (match readVParity b with
       | .ok (r, v) => .ok (r, Value.uart2Parity v)
       | .error e => .error e) := rfl

theorem valueDecode_uart2Enabled (b : Bytes) :
    valueDecode 0x20530005 b =
      (match readBool b with
       | .ok (r, v) => .ok (r, Value.uart2Enabled v)
       | .error e => .error e) := rfl

theorem valueDecode_uart2Remap (b : Bytes) :
    valueDecode 0x20530006 b =
      (match readBool b with
       | .ok (r, v) => .ok (r, Value.uart2Remap v)
       | .error e => .error e) := rfl

theorem valueDecode_infmsgUbxUart1 (b : Bytes) :
    valueDecode 0x20920002 b =
      (match readMsgMask b with
       | .ok (r, v) => .ok (r, Value.infmsgUbxUart1 v)
       | .error e => .error e) := rfl

theorem valueDecode_infmsgUbxUart2 (b : Bytes) :
    valueDecode 0x20920003 b =
      (match readMsgMask b with
       | .ok (r, v) => .ok (r, Value.infmsgUbxUart2 v)
       | .error e => .error e) := rfl

theorem valueDecode_infmsgUbxUsb (b : Bytes) :
    valueDecode 0x20920004 b =
      (match readMsgMask b with
       | .ok (r, v) => .ok (r, Value.infmsgUbxUsb v)
       | .error e => .error e) := rfl

theorem valueDecode_infmsgNmeaUart1 (b : Bytes) :
    valueDecode 0x20920007 b =
      (match readMsgMask b with
       | .ok (r, v) => .ok (r, Value.infmsgNmeaUart1 v)
       | .error e => .error e) := rfl

theorem valueDecode_infmsgNmeaUart2 (b : Bytes) :
    valueDecode 0x20920008 b =
      (match readMsgMask b with
       | .ok (r, v) => .ok (r, Value.infmsgNmeaUart2 v)
       | .error e => .error e) := rfl

theorem valueDecode_infmsgNmeaUsb (b : Bytes) :
    valueDecode 0x20920009 b =
      (match readMsgMask b with
       | .ok (r, v) => .ok (r, Value.infmsgNmeaUsb v)
       | .error e => .error e) := rfl

theorem valueDecode_msgoutRtcm3xType1005Usb (b : Bytes) :
    valueDecode 0x209102c0 b =
      (match readU8 b with
       | .ok (r, v) => .ok (r, Value.msgoutRtcm3xType1005Usb v)
       | .error e => .error e) := rfl

theorem valueDecode_msgoutRtcm3xType1074Usb (b : Bytes) :
    valueDecode 0x20910361 b =
      (match readU8 b with
       | .ok (r, v) => .ok (r, Value.msgoutRtcm3xType1074Usb v)
       | .error e => .error e) := rfl

theorem valueDecode_msgoutRtcm3xType1077Usb (b : Bytes) :
    valueDecode 0x209102cf b =
      (match readU8 b with
       | .ok (r, v) => .ok (r, Value.msgoutRtcm3xType1077Usb v)
       | .error e => .error e) := rfl

theorem valueDecode_msgoutRtcm3xType1084Usb (b : Bytes) :
    valueDecode 0x20910366 b =
      (match readU8 b with
       | .ok (r, v) => .ok (r, Value.msgoutRtcm3xType1084Usb v)
       | .error e => .error e) := rfl

theorem valueDecode_msgoutRtcm3xType1087Usb (b : Bytes) :
    valueDecode 0x209102d4 b =
      (match readU8 b with
       | .ok (r, v) => .ok (r, Value.msgoutRtcm3xType1087Usb v)
       | .error e => .error e) := rfl

theorem valueDecode_msgoutRtcm3xType1094Usb (b : Bytes) :
    valueDecode 0x2091036b b =
      (match readU8 b with
       | .ok (r, v) => .ok (r, Value.msgoutRtcm3xType1094Usb v)
       | .error e => .error e) := rfl

theorem valueDecode_msgoutRtcm3xType1097Usb (b : Bytes) :
    valueDecode 0x2091031b b =
      (match readU8 b with
       | .ok (r, v) => .ok (r, Value.msgoutRtcm3xType1097Usb v)
       | .error e => .error e) := rfl

theorem valueDecode_msgoutRtcm3xType1124Usb (b : Bytes) :
    valueDecode 0x20910370 b =
      (match readU8 b with
       | .ok (r, v) => .ok (r, Value.msgoutRtcm3xType1124Usb v)
       | .error e => .error e) := rfl

theorem valueDecode_msgoutRtcm3xType1127Usb (b : Bytes) :
    valueDecode 0x209102d9 b =
      (match readU8 b with
       | .ok (r, v) => .ok (r, Value.msgoutRtcm3xType1127Usb v)
       | .error e => .error e) := rfl

theorem valueDecode_msgoutRtcm3xType1230Usb (b : Bytes) :
    valueDecode 0x20910306 b =
      (match readU8 b with
       | .ok (r, v) => .ok (r, Value.msgoutRtcm3xType1230Usb v)
       | .error e => .error e) := rfl

theorem valueDecode_msgoutRtcm3xType4072_0Usb (b : Bytes) :
    valueDecode 0x20910301 b =
      (match readU8 b with
       | .ok (r, v) => .ok (r, Value.msgoutRtcm3xType4072_0Usb v)
       | .error e => .error e) := rfl

theorem valueDecode_msgoutRtcm3xType4072_1Usb (b : Bytes) :
    valueDecode 0x20910384 b =
      (match readU8 b with
       | .ok (r, v) => .ok (r, Value.msgoutRtcm3xType4072_1Usb v)
       | .error e => .error e) := rfl

theorem valueDecode_msgoutUbxLogInfoUsb (b : Bytes) :
    valueDecode 0x2091025b b =
      (match readU8 b with
       | .ok (r, v) => .ok (r, Value.msgoutUbxLogInfoUsb v)
       | .error e => .error e) := rfl

theorem valueDecode_msgoutUbxMonHw2Usb (b : Bytes) :
    valueDecode 0x209101bc b =
      (match readU8 b with
       | .ok (r, v) => .ok (r, Value.msgoutUbxMonHw2Usb v)
       | .error e => .error e) := rfl

theorem valueDecode_msgoutUbxMonHw3Usb (b : Bytes) :
    valueDecode 0x20910357 b =
      (match readU8 b with
       | .ok (r, v) => .ok (r, Value.msgoutUbxMonHw3Usb v)
       | .error e => .error e) := rfl

theorem valueDecode_msgoutUbxMonHwUsb (b : Bytes) :
    valueDecode 0x209101b7 b =
      (match readU8 b with
       | .ok (r, v) => .ok (r, Value.msgoutUbxMonHwUsb v)
       | .error e => .error e) := rfl

theorem valueDecode_msgoutUbxMonIoUsb (b : Bytes) :
    valueDecode 0x209101a8 b =
      (match readU8 b with
       | .ok (r, v) => .ok (r, Value.msgoutUbxMonIoUsb v)
       | .error e => .error e) := rfl

theorem valueDecode_msgoutUbxMonCommsUsb (b : Bytes) :
    valueDecode 0x20910352 b =
      (match readU8 b with
       | .ok (r, v) => .ok (r, Value.msgoutUbxMonCommsUsb v)
       | .error e => .error e) := rfl

theorem valueDecode_msgoutUbxMonMsgppUsb (b : Bytes) :
    valueDecode 0x20910199 b =
      (match readU8 b with
       | .ok (r, v) => .ok (r, Value.msgoutUbxMonMsgppUsb v)
       | .error e => .error e) := rfl

theorem valueDecode_msgoutUbxMonRfUsb (b : Bytes) :
    valueDecode 0x2091035c b =
      (match readU8 b with
       | .ok (r, v) => .ok (r, Value.msgoutUbxMonRfUsb v)
       | .error e => .error e) := rfl

theorem valueDecode_msgoutUbxMonRxbufUsb (b : Bytes) :
    valueDecode 0x209101a3 b =
      (match readU8 b with
       | .ok (r, v) => .ok (r, Value.msgoutUbxMonRxbufUsb v)
       | .error e => .error e) := rfl

theorem valueDecode_msgoutUbxMonRxrUsb (b : Bytes) :
    valueDecode 0x2091018a b =
      (match readU8 b with
       | .ok (r, v) => .ok (r, Value.msgoutUbxMonRxrUsb v)
       | .error e => .error e) := rfl

theorem valueDecode_msgoutUbxMonTxbufUsb (b : Bytes) :
    valueDecode 0x2091019e b =
      (match readU8 b with
       | .ok (r, v) => .ok (r, Value.msgoutUbxMonTxbufUsb v)
       | .error e => .error e) := rfl

theorem valueDecode_msgoutUbxNavClockUsb (b : Bytes) :
    valueDecode 0x20910068 b =
      (match readU8 b with
       | .ok (r, v) => .ok (r, Value.msgoutUbxNavClockUsb v)
       | .error e => .error e) := rfl

theorem valueDecode_msgoutUbxNavDopUsb (b : Bytes) :
    valueDecode 0x2091003b b =
      (match readU8 b with
       | .ok (r, v) => .ok (r, Value.msgoutUbxNavDopUsb v)
       | .error e => .error e) := rfl

theorem valueDecode_msgoutUbxNavEoeUsb (b : Bytes) :
    valueDecode 0x20910162 b =
      (match readU8 b with
       | .ok (r, v) => .ok (r, Value.msgoutUbxNavEoeUsb v)
       | .error e => .error e) := rfl

theorem valueDecode_msgoutUbxNavHpposecefUsb (b : Bytes) :
    valueDecode 0x20910031 b =
      (match readU8 b with
       | .ok (r, v) => .ok (r, Value.msgoutUbxNavHpposecefUsb v)
       | .error e => .error e) := rfl

theorem valueDecode_msgoutUbxNavHpposllhUsb (b : Bytes) :
    valueDecode 0x20910036 b =
      (match readU8 b with
       | .ok (r, v) => .ok (r, Value.msgoutUbxNavHpposllhUsb v)
       | .error e => .error e) := rfl

theorem valueDecode_msgoutUbxNavOdoUsb (b : Bytes) :
    valueDecode 0x20910081 b =
      (match readU8 b with
       | .ok (r, v) => .ok (r, Value.msgoutUbxNavOdoUsb v)
       | .error e => .error e) := rfl

theorem valueDecode_msgoutUbxNavOrbUsb (b : Bytes) :
    valueDecode 0x20910013 b =
      (match readU8 b with
       | .ok (r, v) => .ok (r, Value.msgoutUbxNavOrbUsb v)
       | .error e => .error e) := rfl

theorem valueDecode_msgoutUbxNavPosecefUsb (b : Bytes) :
    valueDecode 0x20910027 b =
      (match readU8 b with
       | .ok (r, v) => .ok (r, Value.msgoutUbxNavPosecefUsb v)
       | .error e => .error e) := rfl

theorem valueDecode_msgoutUbxNavPosllhUsb (b : Bytes) :
    valueDecode 0x2091002c b =
      (match readU8 b with
       | .ok (r, v) => .ok (r, Value.msgoutUbxNavPosllhUsb v)
       | .error e => .error e) := rfl

theorem valueDecode_msgoutUbxNavPvtUsb (b : Bytes) :
    valueDecode 0x20910009 b =
      (match readU8 b with
       | .ok (r, v) => .ok (r, Value.msgoutUbxNavPvtUsb v)
       | .error e => .error e) := rfl

theorem valueDecode_msgoutUbxNavRelPosNedUsb (b : Bytes) :
    valueDecode 0x20910090 b =
      (match readU8 b with
       | .ok (r, v) => .ok (r, Value.msgoutUbxNavRelPosNedUsb v)
       | .error e => .error e) := rfl

theorem valueDecode_msgoutUbxNavSatUsb (b : Bytes) :
    valueDecode 0x20910018 b =
      (match readU8 b with
       | .ok (r, v) => .ok (r, Value.msgoutUbxNavSatUsb v)
       | .error e => .error e) := rfl

theorem valueDecode_msgoutUbxNavSigUsb (b : Bytes) :
    valueDecode 0x20910348 b =
      (match readU8 b with
       | .ok (r, v) => .ok (r, Value.msgoutUbxNavSigUsb v)
       | .error e => .error e) := rfl

theorem valueDecode_msgoutUbxNavStatusUsb (b : Bytes) :
    valueDecode 0x2091001d b =
      (match readU8 b with
       | .ok (r, v) => .ok (r, Value.msgoutUbxNavStatusUsb v)
       | .error e => .error e) := rfl

theorem valueDecode_msgoutUbxNavSvinUsb (b : Bytes) :
    valueDecode 0x2091008b b =
      (match readU8 b with
       | .ok (r, v) => .ok (r, Value.msgoutUbxNavSvinUsb v)
       | .error e => .error e) := rfl

theorem valueDecode_msgoutUbxNavTimebdsUsb (b : Bytes) :
    valueDecode 0x20910054 b =
      (match readU8 b with
       | .ok (r, v) => .ok (r, Value.msgoutUbxNavTimebdsUsb v)
       | .error e => .error e) := rfl

theorem valueDecode_msgoutUbxNavTimegalUsb (b : Bytes) :
    valueDecode 0x20910059 b =
      (match readU8 b with
       | .ok (r, v) => .ok (r, Value.msgoutUbxNavTimegalUsb v)
       | .error e => .error e) := rfl

theorem valueDecode_msgoutUbxNavTimegloUsb (b : Bytes) :
    valueDecode 0x2091004f b =
      (match readU8 b with
       | .ok (r, v) => .ok (r, Value.msgoutUbxNavTimegloUsb v)
       | .error e => .error e) := rfl

theorem valueDecode_msgoutUbxNavTimegpsUsb (b : Bytes) :
    valueDecode 0x2091004a b =
      (match readU8 b with
       | .ok (r, v) => .ok (r, Value.msgoutUbxNavTimegpsUsb v)
       | .error e => .error e) := rfl

theorem valueDecode_msgoutUbxNavTimelsUsb (b : Bytes) :
    valueDecode 0x20910063 b =
      (match readU8 b with
       | .ok (r, v) => .ok (r, Value.msgoutUbxNavTimelsUsb v)
       | .error e => .error e) := rfl

theorem valueDecode_msgoutUbxNavTimeutcUsb (b : Bytes) :
    valueDecode 0x2091005e b =
      (match readU8 b with
       | .ok (r, v) => .ok (r, Value.msgoutUbxNavTimeutcUsb v)
       | .error e => .error e) := rfl

theorem valueDecode_msgoutUbxNavVelecefUsb (b : Bytes) :
    valueDecode 0x20910040 b =
      (match readU8 b with
       | .ok (r, v) => .ok (r, Value.msgoutUbxNavVelecefUsb v)
       | .error e => .error e) := rfl

theorem valueDecode_msgoutUbxNavVelnedUsb (b : Bytes) :
    valueDecode 0x20910045 b =
      (match readU8 b with
       | .ok (r, v) => .ok (r, Value.msgoutUbxNavVelnedUsb v)
       | .error e => .error e) := rfl

theorem valueDecode_msgoutUbxRxmMeasxUsb (b : Bytes) :
    valueDecode 0x20910207 b =
      (match readU8 b with
       | .ok (r, v) => .ok (r, Value.msgoutUbxRxmMeasxUsb v)
       | .error e => .error e) := rfl

theorem valueDecode_msgoutUbxRxmRawxUsb (b : Bytes) :
    valueDecode 0x209102a7 b =
      (match readU8 b with
       | .ok (r, v) => .ok (r, Value.msgoutUbxRxmRawxUsb v)
       | .error e => .error e) := rfl

theorem valueDecode_msgoutUbxRxmRlmUsb (b : Bytes) :
    valueDecode 0x20910261 b =
      (match readU8 b with
       | .ok (r, v) => .ok (r, Value.msgoutUbxRxmRlmUsb v)
       | .error e => .error e) := rfl

theorem valueDecode_msgoutUbxRxmRtcmUsb (b : Bytes) :
    valueDecode 0x2091026b b =
      (match readU8 b with
       | .ok (r, v) => .ok (r, Value.msgoutUbxRxmRtcmUsb v)
       | .error e => .error e) := rfl

theorem valueDecode_msgoutUbxRxmSfrbxUsb (b : Bytes) :
    valueDecode 0x20910234 b =
      (match readU8 b with
       | .ok (r, v) => .ok (r, Value.msgoutUbxRxmSfrbxUsb v)
       | .error e => .error e) := rfl

theorem valueDecode_odoUseOdo (b : Bytes) :
    valueDecode 0x10220001 b =
      (match readBool b with
       | .ok (r, v) => .ok (r, Value.odoUseOdo v)
       | .error e => .error e) := rfl

theorem valueDecode_odoUseCog (b : Bytes) :
    valueDecode 0x10220002 b =
      (match readBool b with
       | .ok (r, v) => .ok (r, Value.odoUseCog v)
       | .error e => .error e) := rfl

theorem valueDecode_odoOutlpvel (b : Bytes) :
    valueDecode 0x10220003 b =
      (match readBool b with
       | .ok (r, v) => .ok (r, Value.odoOutlpvel v)
       | .error e => .error e) := rfl

theorem valueDecode_odoOutlpcog (b : Bytes) :
    valueDecode 0x10220004 b =
      (match readBool b with
       | .ok (r, v) => .ok (r, Value.odoOutlpcog v)
       | .error e => .error e) := rfl

theorem valueDecode_odoProfile (b : Bytes) :
    valueDecode 0x20220005 b =
      (match readVOdoProfile b with
       | .ok (r, v) => .ok (r, Value.odoProfile v)
       | .error e => .error e) := rfl

theorem valueDecode_odoCogmaxspeed (b : Bytes) :
    valueDecode 0x20220021 b =
      (match readU8 b with
       | .ok (r, v) => .ok (r, Value.odoCogmaxspeed v)
       | .error e => .error e) := rfl

theorem valueDecode_odoCogmaxposacc (b : Bytes) :
    valueDecode 0x20220022 b =
      (match readU8 b with
       | .ok (r, v) => .ok (r, Value.odoCogmaxposacc v)
       | .error e => .error e) := rfl

theorem valueDecode_odoVellpgain (b : Bytes) :
    valueDecode 0x20220031 b =
      (match readU8 b with
       | .ok (r, v) => .ok (r, Value.odoVellpgain v)
       | .error e => .error e) := rfl

theorem valueDecode_odoCoglpgain (b : Bytes) :
    valueDecode 0x20220032 b =
      (match readU8 b with
       | .ok (r, v) => .ok (r, Value.odoCoglpgain v)
       | .error e => .error e) := rfl

theorem valueDecode_navhpgDgnssmode (b : Bytes) :
    valueDecode 0x20140011 b =
      (match readRtkMode b with
       | .ok (r, v) => .ok (r, Value.navhpgDgnssmode v)
       | .error e => .error e) := rfl

theorem valueDecode_tmodeMode (b : Bytes) :
    valueDecode 0x20030001 b =
      (match readVTmode b with
       | .ok (r, v) => .ok (r, Value.tmodeMode v)
       | .error e => .error e) := rfl

theorem valueDecode_tmodePosType (b : Bytes) :
    valueDecode 0x20030002 b =
      (match readVPosType b with
       | .ok (r, v) => .ok (r, Value.tmodePosType v)
       | .error e => .error e) := rfl

theorem valueDecode_tmodeEcefX (b : Bytes) :
    valueDecode 0x20030003 b =
      (match readI32 b with
       | .ok (r, v) => .ok (r, Value.tmodeEcefX v)
       | .error e => .error e) := rfl

theorem valueDecode_tmodeEcefY (b : Bytes) :
    valueDecode 0x20030004 b =
      (match readI32 b with
       | .ok (r, v) => .ok (r, Value.tmodeEcefY v)
       | .error e => .error e) := rfl

theorem valueDecode_tmodeEcefZ (b : Bytes) :
    valueDecode 0x20030005 b =
      (match readI32 b with
       | .ok (r, v) => .ok (r, Value.tmodeEcefZ v)
       | .error e => .error e) := rfl

theorem valueDecode_tmodeEcefXHp (b : Bytes) :
    valueDecode 0x20030006 b =
      (match readI8 b with
       | .ok (r, v) => .ok (r, Value.tmodeEcefXHp v)
       | .error e => .error e) := rfl

theorem valueDecode_tmodeEcefYHp (b : Bytes) :
    valueDecode 0x20030007 b =
      (match readI8 b with
       | .ok (r, v) => .ok (r, Value.tmodeEcefYHp v)
       | .error e => .error e) := rfl

theorem valueDecode_tmodeEcefZHp (b : Bytes) :
    valueDecode 0x20030008 b =
      (match readI8 b with
       | .ok (r, v) => .ok (r, Value.tmodeEcefZHp v)
       | .error e => .error e) := rfl

theorem valueDecode_tmodeFixedPosAcc (b : Bytes) :
    valueDecode 0x4003000f b =
      (match readU32 b with
       | .ok (r, v) => .ok (r, Value.tmodeFixedPosAcc v)
       | .error e => .error e) := rfl

theorem valueDecode_tmodeSvinMinDur (b : Bytes) :
    valueDecode 0x40030010 b =
      (match readU32 b with
       | .ok (r, v) => .ok (r, Value.tmodeSvinMinDur v)
       | .error e => .error e) := rfl

theorem valueDecode_tmodeSvinAccLimit (b : Bytes) :
    valueDecode 0x40030011 b =
      (match readU32 b with
       | .ok (r, v) => .ok (r, Value.tmodeSvinAccLimit v)
       | .error e => .error e) := rfl

theorem valueDecode_signalGpsEna (b : Bytes) :
    valueDecode 0x1031001f b =
      (match readBool b with
       | .ok (r, v) => .ok (r, Value.signalGpsEna v)
       | .error e => .error e) := rfl

theorem valueDecode_signalGpsL1caEna (b : Bytes) :
    valueDecode 0x10310001 b =
      (match readBool b with
       | .ok (r, v) => .ok (r, Value.signalGpsL1caEna v)
       | .error e => .error e) := rfl

theorem valueDecode_signalGpsL2cEna (b : Bytes) :
    valueDecode 0x10310003 b =
      (match readBool b with
       | .ok (r, v) => .ok (r, Value.signalGpsL2cEna v)
       | .error e => .error e) := rfl

theorem valueDecode_signalGalEna (b : Bytes) :
    valueDecode 0x10310021 b =
      (match readBool b with
       | .ok (r, v) => .ok (r, Value.signalGalEna v)
       | .error e => .error e) := rfl

theorem valueDecode_signalGalE1Ena (b : Bytes) :
    valueDecode 0x10310007 b =
      (match readBool b with
       | .ok (r, v) => .ok (r, Value.signalGalE1Ena v)
       | .error e => .error e) := rfl

theorem valueDecode_signalGalE5bEna (b : Bytes) :
    valueDecode 0x1031000a b =
      (match readBool b with
       | .ok (r, v) => .ok (r, Value.signalGalE5bEna v)
       | .error e => .error e) := rfl

theorem valueDecode_signalBdsEna (b : Bytes) :
    valueDecode 0x10310022 b =
      (match readBool b with
       | .ok (r, v) => .ok (r, Value.signalBdsEna v)
       | .error e => .error e) := rfl

theorem valueDecode_signalBdsB1Ena (b : Bytes) :
    valueDecode 0x1031000d b =
      (match readBool b with
       | .ok (r, v) => .ok (r, Value.signalBdsB1Ena v)
       | .error e => .error e) := rfl

theorem valueDecode_signalBdsB2Ena (b : Bytes) :
    valueDecode 0x1031000e b =
      (match readBool b with
       | .ok (r, v) => .ok (r, Value.signalBdsB2Ena v)
       | .error e => .error e) := rfl

theorem valueDecode_signalQzssEna (b : Bytes) :
    valueDecode 0x10310024 b =
      (match readBool b with
       | .ok (r, v) => .ok (r, Value.signalQzssEna v)
       | .error e => .error e) := rfl

theorem valueDecode_signalQzssL1caEna (b : Bytes) :
    valueDecode 0x10310012 b =
      (match readBool b with
       | .ok (r, v) => .ok (r, Value.signalQzssL1caEna v)
       | .error e => .error e) := rfl

theorem valueDecode_signalQzssL2cEna (b : Bytes) :
    valueDecode 0x10310015 b =
      (match readBool b with
       | .ok (r, v) => .ok (r, Value.signalQzssL2cEna v)
       | .error e => .error e) := rfl

theorem valueDecode_signalGloEna (b : Bytes) :
    valueDecode 0x10310025 b =
      (match readBool b with
       | .ok (r, v) => .ok (r, Value.signalGloEna v)
       | .error e => .error e) := rfl

theorem valueDecode_signalGloL1Ena (b : Bytes) :
    valueDecode 0x10310018 b =
      (match readBool b with
       | .ok (r, v) => .ok (r, Value.signalGloL1Ena v)
       | .error e => .error e) := rfl

theorem valueDecode_signalGloL2Ena (b : Bytes) :
    valueDecode 0x1031001a b =
      (match readBool b with
       | .ok (r, v) => .ok (r, Value.signalGloL2Ena v)
       | .error e => .error e) := rfl

/-- Round trip of one catalogue entry: `from_bytes` after `write_bytes`
returns the value and consumes exactly its encoding. -/
theorem valueRead_valueWrite (v : Value) (r : Bytes) (hc : valueCanon v) :
    valueRead (valueWrite v ++ r) = .ok (r, v) := by
  cases v with
  | rateMeas v =>
    simp only [valueCanon] at hc
    simp only [valueWrite]
    rw [valueRead_step _ _ _ (show readU32 ((writeU32 0x30210001 ++ writeU16 v) ++ r) =
        .ok (writeU16 v ++ r, 0x30210001) by
      rw [List.append_assoc, readU32_writeU32]; norm_num),
      valueDecode_rateMeas]
    simp only [readU16_writeU16]
    rw [Nat.mod_eq_of_lt (by omega)]
  | rateNav v =>
    simp only [valueCanon] at hc
    simp only [valueWrite]
    rw [valueRead_step _ _ _ (show readU32 ((writeU32 0x30210002 ++ writeU16 v) ++ r) =
        .ok (writeU16 v ++ r, 0x30210002) by
      rw [List.append_assoc, readU32_writeU32]; norm_num),
      valueDecode_rateNav]
    simp only [readU16_writeU16]
    rw [Nat.mod_eq_of_lt (by omega)]
  | usbInprotUbx v =>
    simp only [valueCanon] at hc
    simp only [valueWrite]
    rw [valueRead_step _ _ _ (show readU32 ((writeU32 0x10770001 ++ writeBool v) ++ r) =
        .ok (writeBool v ++ r, 0x10770001) by
      rw [List.append_assoc, readU32_writeU32]; norm_num),
      valueDecode_usbInprotUbx]
    simp only [readBool_writeBool]
  | usbInprotNmea v =>
    simp only [valueCanon] at hc
    simp only [valueWrite]
    rw [valueRead_step _ _ _ (show readU32 ((writeU32 0x10770002 ++ writeBool v) ++ r) =
        .ok (writeBool v ++ r, 0x10770002) by
      rw [List.append_assoc, readU32_writeU32]; norm_num),
      valueDecode_usbInprotNmea]
    simp only [readBool_writeBool]
  | usbInprotRtcm3x v =>
    simp only [valueCanon] at hc
    simp only [valueWrite]
    rw [valueRead_step _ _ _ (show readU32 ((writeU32 0x10770004 ++ writeBool v) ++ r) =
        .ok (writeBool v ++ r, 0x10770004) by
      rw [List.append_assoc, readU32_writeU32]; norm_num),
      valueDecode_usbInprotRtcm3x]
    simp only [readBool_writeBool]
  | usbOutprotUbx v =>
    simp only [valueCanon] at hc
    simp only [valueWrite]
    rw [valueRead_step _ _ _ (show readU32 ((writeU32 0x10780001 ++ writeBool v) ++ r) =
        .ok (writeBool v ++ r, 0x10780001) by
      rw [List.append_assoc, readU32_writeU32]; norm_num),
      valueDecode_usbOutprotUbx]
    simp only [readBool_writeBool]
  | usbOutprotNmea v =>
    simp only [valueCanon] at hc
    simp only [valueWrite]
    rw [valueRead_step _ _ _ (show readU32 ((writeU32 0x10780002 ++ writeBool v) ++ r) =
        .ok (writeBool v ++ r, 0x10780002) by
      rw [List.append_assoc, readU32_writeU32]; norm_num),
      valueDecode_usbOutprotNmea]
    simp only [readBool_writeBool]
  | usbOutprotRtcm3x v =>
    simp only [valueCanon] at hc
    simp only [valueWrite]
    rw [valueRead_step _ _ _ (show readU32 ((writeU32 0x10780004 ++ writeBool v) ++ r) =
        .ok (writeBool v ++ r, 0x10780004) by
      rw [List.append_assoc, readU32_writeU32]; norm_num),
      valueDecode_usbOutprotRtcm3x]
    simp only [readBool_writeBool]
  | spiInprotUbx v =>
    simp only [valueCanon] at hc
    simp only [valueWrite]
    rw [valueRead_step _ _ _ (show readU32 ((writeU32 0x10790001 ++ writeBool v) ++ r) =
        .ok (writeBool v ++ r, 0x10790001) by
      rw [List.append_assoc, readU32_writeU32]; norm_num),
      valueDecode_spiInprotUbx]
    simp only [readBool_writeBool]
  | spiInprotNmea v =>
    simp only [valueCanon] at hc
    simp only [valueWrite]
    rw [valueRead_step _ _ _ (show readU32 ((writeU32 0x10790002 ++ writeBool v) ++ r) =
        .ok (writeBool v ++ r, 0x10790002) by
      rw [List.append_assoc, readU32_writeU32]; norm_num),
      valueDecode_spiInprotNmea]
    simp only [readBool_writeBool]
  | spiInprotRtcm3x v =>
    simp only [valueCanon] at hc
    simp only [valueWrite]
    rw [valueRead_step _ _ _ (show readU32 ((writeU32 0x10790004 ++ writeBool v) ++ r) =
        .ok (writeBool v ++ r, 0x10790004) by
      rw [List.append_assoc, readU32_writeU32]; norm_num),
      valueDecode_spiInprotRtcm3x]
    simp only [readBool_writeBool]
  | spiOutprotUbx v =>
    simp only [valueCanon] at hc
    simp only [valueWrite]
    rw [valueRead_step _ _ _ (show readU32 ((writeU32 0x107a0001 ++ writeBool v) ++ r) =
        .ok (writeBool v ++ r, 0x107a0001) by
      rw [List.append_assoc, readU32_writeU32]; norm_num),
      valueDecode_spiOutprotUbx]
    simp only [readBool_writeBool]
  | spiOutprotNmea v =>
    simp only [valueCanon] at hc
    simp only [valueWrite]
    rw [valueRead_step _ _ _ (show readU32 ((writeU32 0x107a0002 ++ writeBool v) ++ r) =
        .ok (writeBool v ++ r, 0x107a0002) by
      rw [List.append_assoc, readU32_writeU32]; norm_num),
      valueDecode_spiOutprotNmea]
    simp only [readBool_writeBool]
  | spiOutprotRtcm3x v =>
    simp only [valueCanon] at hc
    simp only [valueWrite]
    rw [valueRead_step _ _ _ (show readU32 ((writeU32 0x107a0004 ++ writeBool v) ++ r) =
        .ok (writeBool v ++ r, 0x107a0004) by
      rw [List.append_assoc, readU32_writeU32]; norm_num),
      valueDecode_spiOutprotRtcm3x]
    simp only [readBool_writeBool]
  | uart1InprotUbx v =>
    simp only [valueCanon] at hc
    simp only [valueWrite]
    rw [valueRead_step _ _ _ (show readU32 ((writeU32 0x10730001 ++ writeBool v) ++ r) =
        .ok (writeBool v ++ r, 0x10730001) by
      rw [List.append_assoc, readU32_writeU32]; norm_num),
      valueDecode_uart1InprotUbx]
    simp only [readBool_writeBool]
  | uart1InprotNmea v =>
    simp only [valueCanon] at hc
    simp only [valueWrite]
    rw [valueRead_step _ _ _ (show readU32 ((writeU32 0x10730002 ++ writeBool v) ++ r) =
        .ok (writeBool v ++ r, 0x10730002) by
      rw [List.append_assoc, readU32_writeU32]; norm_num),
      valueDecode_uart1InprotNmea]
    simp only [readBool_writeBool]
  | uart1InprotRtcm3x v =>
    simp only [valueCanon] at hc
    simp only [valueWrite]
    rw [valueRead_step _ _ _ (show readU32 ((writeU32 0x10730004 ++ writeBool v) ++ r) =
        .ok (writeBool v ++ r, 0x10730004) by
      rw [List.append_assoc, readU32_writeU32]; norm_num),
      valueDecode_uart1InprotRtcm3x]
    simp only [readBool_writeBool]
  | uart1OutprotUbx v =>
    simp only [valueCanon] at hc
    simp only [valueWrite]
    rw [valueRead_step _ _ _ (show readU32 ((writeU32 0x10740001 ++ writeBool v) ++ r) =
        .ok (writeBool v ++ r, 0x10740001) by
      rw [List.append_assoc, readU32_writeU32]; norm_num),
      valueDecode_uart1OutprotUbx]
    simp only [readBool_writeBool]
  | uart1OutprotNmea v =>
    simp only [valueCanon] at hc
    simp only [valueWrite]
    rw [valueRead_step _ _ _ (show readU32 ((writeU32 0x10740002 ++ writeBool v) ++ r) =
        .ok (writeBool v ++ r, 0x10740002) by
      rw [List.append_assoc, readU32_writeU32]; norm_num),
      valueDecode_uart1OutprotNmea]
    simp only [readBool_writeBool]
  | uart1OutprotRtcm3x v =>
    simp only [valueCanon] at hc
    simp only [valueWrite]
    rw [valueRead_step _ _ _ (show readU32 ((writeU32 0x10740004 ++ writeBool v) ++ r) =
        .ok (writeBool v ++ r, 0x10740004) by
      rw [List.append_assoc, readU32_writeU32]; norm_num),
      valueDecode_uart1OutprotRtcm3x]
    simp only [readBool_writeBool]
  | uart2InprotUbx v =>
    simp only [valueCanon] at hc
    simp only [valueWrite]
    rw [valueRead_step _ _ _ (show readU32 ((writeU32 0x10750001 ++ writeBool v) ++ r) =
        .ok (writeBool v ++ r, 0x10750001) by
      rw [List.append_assoc, readU32_writeU32]; norm_num),
      valueDecode_uart2InprotUbx]
    simp only [readBool_writeBool]
  | uart2InprotNmea v =>
    simp only [valueCanon] at hc
    simp only [valueWrite]
    rw [valueRead_step _ _ _ (show readU32 ((writeU32 0x10750002 ++ writeBool v) ++ r) =
        .ok (writeBool v ++ r, 0x10750002) by
      rw [List.append_assoc, readU32_writeU32]; norm_num),
      valueDecode_uart2InprotNmea]
    simp only [readBool_writeBool]
  | uart2InprotRtcm3x v =>
    simp only [valueCanon] at hc
    simp only [valueWrite]
    rw [valueRead_step _ _ _ (show readU32 ((writeU32 0x10750004 ++ writeBool v) ++ r) =
        .ok (writeBool v ++ r, 0x10750004) by
      rw [List.append_assoc, readU32_writeU32]; norm_num),
      valueDecode_uart2InprotRtcm3x]
    simp only [readBool_writeBool]
  | uart2OutprotUbx v =>
    simp only [valueCanon] at hc
    simp only [valueWrite]
    rw [valueRead_step _ _ _ (show readU32 ((writeU32 0x10760001 ++ writeBool v) ++ r) =
        .ok (writeBool v ++ r, 0x10760001) by
      rw [List.append_assoc, readU32_writeU32]; norm_num),
      valueDecode_uart2OutprotUbx]
    simp only [readBool_writeBool]
  | uart2OutprotNmea v =>
    simp only [valueCanon] at hc
    simp only [valueWrite]
    rw [valueRead_step _ _ _ (show readU32 ((writeU32 0x10760002 ++ writeBool v) ++ r) =
        .ok (writeBool v ++ r, 0x10760002) by
      rw [List.append_assoc, readU32_writeU32]; norm_num),
      valueDecode_uart2OutprotNmea]
    simp only [readBool_writeBool]
  | uart2OutprotRtcm3x v =>
    simp only [valueCanon] at hc
    simp only [valueWrite]
    rw [valueRead_step _ _ _ (show readU32 ((writeU32 0x10760004 ++ writeBool v) ++ r) =
        .ok (writeBool v ++ r, 0x10760004) by
      rw [List.append_assoc, readU32_writeU32]; norm_num),
      valueDecode_uart2OutprotRtcm3x]
    simp only [readBool_writeBool]
  | uart1Baudrate v =>
    simp only [valueCanon] at hc
    simp only [valueWrite]
    rw [valueRead_step _ _ _ (show readU32 ((writeU32 0x40520001 ++ writeU32 v) ++ r) =
        .ok (writeU32 v ++ r, 0x40520001) by
      rw [List.append_assoc, readU32_writeU32]; norm_num),
      valueDecode_uart1Baudrate]
    simp only [readU32_writeU32]
    rw [Nat.mod_eq_of_lt (by omega)]
  | uart1StopBits v =>
    simp only [valueCanon] at hc
    simp only [valueWrite]
    rw [valueRead_step _ _ _ (show readU32 ((writeU32 0x20520002 ++ writeVStopBits v) ++ r) =
        .ok (writeVStopBits v ++ r, 0x20520002) by
      rw [List.append_assoc, readU32_writeU32]; norm_num),
      valueDecode_uart1StopBits]
    simp only [readVStopBits_write]
  | uart1Databits v =>
    simp only [valueCanon] at hc
    simp only [valueWrite]
    rw [valueRead_step _ _ _ (show readU32 ((writeU32 0x20520003 ++ writeVDatabits v) ++ r) =
        .ok (writeVDatabits v ++ r, 0x20520003) by
      rw [List.append_assoc, readU32_writeU32]; norm_num),
      valueDecode_uart1Databits]
    simp only [readVDatabits_write]
  | uart1Parity v =>
    simp only [valueCanon] at hc
    simp only [valueWrite]
    rw [valueRead_step _ _ _ (show readU32 ((writeU32 0x20520004 ++ writeVParity v) ++ r) =
        .ok (writeVParity v ++ r, 0x20520004) by
      rw [List.append_assoc, readU32_writeU32]; norm_num),
      valueDecode_uart1Parity]
    simp only [readVParity_write]
  | uart1Enabled v =>
    simp only [valueCanon] at hc
    simp only [valueWrite]
    rw [valueRead_step _ _ _ (show readU32 ((writeU32 0x20520005 ++ writeBool v) ++ r) =
        .ok (writeBool v ++ r, 0x20520005) by
      rw [List.append_assoc, readU32_writeU32]; norm_num),
      valueDecode_uart1Enabled]
    simp only [readBool_writeBool]
  | uart2Baudrate v =>
    simp only [valueCanon] at hc
    simp only [valueWrite]
    rw [valueRead_step _ _ _ (show readU32 ((writeU32 0x40530001 ++ writeU32 v) ++ r) =
        .ok (writeU32 v ++ r, 0x40530001) by
      rw [List.append_assoc, readU32_writeU32]; norm_num),
      valueDecode_uart2Baudrate]
    simp only [readU32_writeU32]
    rw [Nat.mod_eq_of_lt (by omega)]
  | uart2StopBits v =>
    simp only [valueCanon] at hc
    simp only [valueWrite]
    rw [valueRead_step _ _ _ (show readU32 ((writeU32 0x20530002 ++ writeVStopBits v) ++ r) =
        .ok (writeVStopBits v ++ r, 0x20530002) by
      rw [List.append_assoc, readU32_writeU32]; norm_num),
      valueDecode_uart2StopBits]
    simp only [readVStopBits_write]
  | uart2Databits v =>
    simp only [valueCanon] at hc
    simp only [valueWrite]
    rw [valueRead_step _ _ _ (show readU32 ((writeU32 0x20530003 ++ writeVDatabits v) ++ r) =
        .ok (writeVDatabits v ++ r, 0x20530003) by
      rw [List.append_assoc, readU32_writeU32]; norm_num),
      valueDecode_uart2Databits]
    simp only [readVDatabits_write]
  | uart2Parity v =>
    simp only [valueCanon] at hc
    simp only [valueWrite]
    rw [valueRead_step _ _ _ (show readU32 ((writeU32 0x20530004 ++ writeVParity v) ++ r) =
        .ok (writeVParity v ++ r, 0x20530004) by
      rw [List.append_assoc, readU32_writeU32]; norm_num),
      valueDecode_uart2Parity]
    simp only [readVParity_write]
  | uart2Enabled v =>
    simp only [valueCanon] at hc
    simp only [valueWrite]
    rw [valueRead_step _ _ _ (show readU32 ((writeU32 0x20530005 ++ writeBool v) ++ r) =
        .ok (writeBool v ++ r, 0x20530005) by
      rw [List.append_assoc, readU32_writeU32]; norm_num),
      valueDecode_uart2Enabled]
    simp only [readBool_writeBool]
  | uart2Remap v =>
    simp only [valueCanon] at hc
    simp only [valueWrite]
    rw [valueRead_step _ _ _ (show readU32 ((writeU32 0x20530006 ++ writeBool v) ++ r) =
        .ok (writeBool v ++ r, 0x20530006) by
      rw [List.append_assoc, readU32_writeU32]; norm_num),
      valueDecode_uart2Remap]
    simp only [readBool_writeBool]
  | infmsgUbxUart1 v =>
    simp only [valueCanon] at hc
    simp only [valueWrite]
    rw [valueRead_step _ _ _ (show readU32 ((writeU32 0x20920002 ++ writeMsgMask v) ++ r) =
        .ok (writeMsgMask v ++ r, 0x20920002) by
      rw [List.append_assoc, readU32_writeU32]; norm_num),
      valueDecode_infmsgUbxUart1]
    simp only [readMsgMask_write v r hc]
  | infmsgUbxUart2 v =>
    simp only [valueCanon] at hc
    simp only [valueWrite]
    rw [valueRead_step _ _ _ (show readU32 ((writeU32 0x20920003 ++ writeMsgMask v) ++ r) =
        .ok (writeMsgMask v ++ r, 0x20920003) by
      rw [List.append_assoc, readU32_writeU32]; norm_num),
      valueDecode_infmsgUbxUart2]
    simp only [readMsgMask_write v r hc]
  | infmsgUbxUsb v =>
    simp only [valueCanon] at hc
    simp only [valueWrite]
    rw [valueRead_step _ _ _ (show readU32 ((writeU32 0x20920004 ++ writeMsgMask v) ++ r) =
        .ok (writeMsgMask v ++ r, 0x20920004) by
      rw [List.append_assoc, readU32_writeU32]; norm_num),
      valueDecode_infmsgUbxUsb]
    simp only [readMsgMask_write v r hc]
  | infmsgNmeaUart1 v =>
    simp only [valueCanon] at hc
    simp only [valueWrite]
    rw [valueRead_step _ _ _ (show readU32 ((writeU32 0x20920007 ++ writeMsgMask v) ++ r) =
        .ok (writeMsgMask v ++ r, 0x20920007) by
      rw [List.append_assoc, readU32_writeU32]; norm_num),
      valueDecode_infmsgNmeaUart1]
    simp only [readMsgMask_write v r hc]
  | infmsgNmeaUart2 v =>
    simp only [valueCanon] at hc
    simp only [valueWrite]
    rw [valueRead_step _ _ _ (show readU32 ((writeU32 0x20920008 ++ writeMsgMask v) ++ r) =
        .ok (writeMsgMask v ++ r, 0x20920008) by
      rw [List.append_assoc, readU32_writeU32]; norm_num),
      valueDecode_infmsgNmeaUart2]
    simp only [readMsgMask_write v r hc]
  | infmsgNmeaUsb v =>
    simp only [valueCanon] at hc
    simp only [valueWrite]
    rw [valueRead_step _ _ _ (show readU32 ((writeU32 0x20920009 ++ writeMsgMask v) ++ r) =
        .ok (writeMsgMask v ++ r, 0x20920009) by
      rw [List.append_assoc, readU32_writeU32]; norm_num),
      valueDecode_infmsgNmeaUsb]
    simp only [readMsgMask_write v r hc]
  | msgoutRtcm3xType1005Usb v =>
    simp only [valueCanon] at hc
    simp only [valueWrite]
    rw [valueRead_step _ _ _ (show readU32 ((writeU32 0x209102c0 ++ writeU8 v) ++ r) =
        .ok (writeU8 v ++ r, 0x209102c0) by
      rw [List.append_assoc, readU32_writeU32]; norm_num),
      valueDecode_msgoutRtcm3xType1005Usb]
    simp only [readU8_writeU8]
    rw [Nat.mod_eq_of_lt (by omega)]
  | msgoutRtcm3xType1074Usb v =>
    simp only [valueCanon] at hc
    simp only [valueWrite]
    rw [valueRead_step _ _ _ (show readU32 ((writeU32 0x20910361 ++ writeU8 v) ++ r) =
        .ok (writeU8 v ++ r, 0x20910361) by
      rw [List.append_assoc, readU32_writeU32]; norm_num),
      valueDecode_msgoutRtcm3xType1074Usb]
    simp only [readU8_writeU8]
    rw [Nat.mod_eq_of_lt (by omega)]
  | msgoutRtcm3xType1077Usb v =>
    simp only [valueCanon] at hc
    simp only [valueWrite]
    rw [valueRead_step _ _ _ (show readU32 ((writeU32 0x209102cf ++ writeU8 v) ++ r) =
        .ok (writeU8 v ++ r, 0x209102cf) by
      rw [List.append_assoc, readU32_writeU32]; norm_num),
      valueDecode_msgoutRtcm3xType1077Usb]
    simp only [readU8_writeU8]
    rw [Nat.mod_eq_of_lt (by omega)]
  | msgoutRtcm3xType1084Usb v =>
    simp only [valueCanon] at hc
    simp only [valueWrite]
    rw [valueRead_step _ _ _ (show readU32 ((writeU32 0x20910366 ++ writeU8 v) ++ r) =
        .ok (writeU8 v ++ r, 0x20910366) by
      rw [List.append_assoc, readU32_writeU32]; norm_num),
      valueDecode_msgoutRtcm3xType1084Usb]
    simp only [readU8_writeU8]
    rw [Nat.mod_eq_of_lt (by omega)]
  | msgoutRtcm3xType1087Usb v =>
    simp only [valueCanon] at hc
    simp only [valueWrite]
    rw [valueRead_step _ _ _ (show readU32 ((writeU32 0x209102d4 ++ writeU8 v) ++ r) =
        .ok (writeU8 v ++ r, 0x209102d4) by
      rw [List.append_assoc, readU32_writeU32]; norm_num),
      valueDecode_msgoutRtcm3xType1087Usb]
    simp only [readU8_writeU8]
    rw [Nat.mod_eq_of_lt (by omega)]
  | msgoutRtcm3xType1094Usb v =>
    simp only [valueCanon] at hc
    simp only [valueWrite]
    rw [valueRead_step _ _ _ (show readU32 ((writeU32 0x2091036b ++ writeU8 v) ++ r) =
        .ok (writeU8 v ++ r, 0x2091036b) by
      rw [List.append_assoc, readU32_writeU32]; norm_num),
      valueDecode_msgoutRtcm3xType1094Usb]
    simp only [readU8_writeU8]
    rw [Nat.mod_eq_of_lt (by omega)]
  | msgoutRtcm3xType1097Usb v =>
    simp only [valueCanon] at hc
    simp only [valueWrite]
    rw [valueRead_step _ _ _ (show readU32 ((writeU32 0x2091031b ++ writeU8 v) ++ r) =
        .ok (writeU8 v ++ r, 0x2091031b) by
      rw [List.append_assoc, readU32_writeU32]; norm_num),
      valueDecode_msgoutRtcm3xType1097Usb]
    simp only [readU8_writeU8]
    rw [Nat.mod_eq_of_lt (by omega)]
  | msgoutRtcm3xType1124Usb v =>
    simp only [valueCanon] at hc
    simp only [valueWrite]
    rw [valueRead_step _ _ _ (show readU32 ((writeU32 0x20910370 ++ writeU8 v) ++ r) =
        .ok (writeU8 v ++ r, 0x20910370) by
      rw [List.append_assoc, readU32_writeU32]; norm_num),
      valueDecode_msgoutRtcm3xType1124Usb]
    simp only [readU8_writeU8]
    rw [Nat.mod_eq_of_lt (by omega)]
  | msgoutRtcm3xType1127Usb v =>
    simp only [valueCanon] at hc
    simp only [valueWrite]
    rw [valueRead_step _ _ _ (show readU32 ((writeU32 0x209102d9 ++ writeU8 v) ++ r) =
        .ok (writeU8 v ++ r, 0x209102d9) by
      rw [List.append_assoc, readU32_writeU32]; norm_num),
      valueDecode_msgoutRtcm3xType1127Usb]
    simp only [readU8_writeU8]
    rw [Nat.mod_eq_of_lt (by omega)]
  | msgoutRtcm3xType1230Usb v =>
    simp only [valueCanon] at hc
    simp only [valueWrite]
    rw [valueRead_step _ _ _ (show readU32 ((writeU32 0x20910306 ++ writeU8 v) ++ r) =
        .ok (writeU8 v ++ r, 0x20910306) by
      rw [List.append_assoc, readU32_writeU32]; norm_num),
      valueDecode_msgoutRtcm3xType1230Usb]
    simp only [readU8_writeU8]
    rw [Nat.mod_eq_of_lt (by omega)]
  | msgoutRtcm3xType4072_0Usb v =>
    simp only [valueCanon] at hc
    simp only [valueWrite]
    rw [valueRead_step _ _ _ (show readU32 ((writeU32 0x20910301 ++ writeU8 v) ++ r) =
        .ok (writeU8 v ++ r, 0x20910301) by
      rw [List.append_assoc, readU32_writeU32]; norm_num),
      valueDecode_msgoutRtcm3xType4072_0Usb]
    simp only [readU8_writeU8]
    rw [Nat.mod_eq_of_lt (by omega)]
  | msgoutRtcm3xType4072_1Usb v =>
    simp only [valueCanon] at hc
    simp only [valueWrite]
    rw [valueRead_step _ _ _ (show readU32 ((writeU32 0x20910384 ++ writeU8 v) ++ r) =
        .ok (writeU8 v ++ r, 0x20910384) by
      rw [List.append_assoc, readU32_writeU32]; norm_num),
      valueDecode_msgoutRtcm3xType4072_1Usb]
    simp only [readU8_writeU8]
    rw [Nat.mod_eq_of_lt (by omega)]
  | msgoutUbxLogInfoUsb v =>
    simp only [valueCanon] at hc
    simp only [valueWrite]
    rw [valueRead_step _ _ _ (show readU32 ((writeU32 0x2091025b ++ writeU8 v) ++ r) =
        .ok (writeU8 v ++ r, 0x2091025b) by
      rw [List.append_assoc, readU32_writeU32]; norm_num),
      valueDecode_msgoutUbxLogInfoUsb]
    simp only [readU8_writeU8]
    rw [Nat.mod_eq_of_lt (by omega)]
  | msgoutUbxMonHw2Usb v =>
    simp only [valueCanon] at hc
    simp only [valueWrite]
    rw [valueRead_step _ _ _ (show readU32 ((writeU32 0x209101bc ++ writeU8 v) ++ r) =
        .ok (writeU8 v ++ r, 0x209101bc) by
      rw [List.append_assoc, readU32_writeU32]; norm_num),
      valueDecode_msgoutUbxMonHw2Usb]
    simp only [readU8_writeU8]
    rw [Nat.mod_eq_of_lt (by omega)]
  | msgoutUbxMonHw3Usb v =>
    simp only [valueCanon] at hc
    simp only [valueWrite]
    rw [valueRead_step _ _ _ (show readU32 ((writeU32 0x20910357 ++ writeU8 v) ++ r) =
        .ok (writeU8 v ++ r, 0x20910357) by
      rw [List.append_assoc, readU32_writeU32]; norm_num),
      valueDecode_msgoutUbxMonHw3Usb]
    simp only [readU8_writeU8]
    rw [Nat.mod_eq_of_lt (by omega)]
  | msgoutUbxMonHwUsb v =>
    simp only [valueCanon] at hc
    simp only [valueWrite]
    rw [valueRead_step _ _ _ (show readU32 ((writeU32 0x209101b7 ++ writeU8 v) ++ r) =
        .ok (writeU8 v ++ r, 0x209101b7) by
      rw [List.append_assoc, readU32_writeU32]; norm_num),
      valueDecode_msgoutUbxMonHwUsb]
    simp only [readU8_writeU8]
    rw [Nat.mod_eq_of_lt (by omega)]
  | msgoutUbxMonIoUsb v =>
    simp only [valueCanon] at hc
    simp only [valueWrite]
    rw [valueRead_step _ _ _ (show readU32 ((writeU32 0x209101a8 ++ writeU8 v) ++ r) =
        .ok (writeU8 v ++ r, 0x209101a8) by
      rw [List.append_assoc, readU32_writeU32]; norm_num),
      valueDecode_msgoutUbxMonIoUsb]
    simp only [readU8_writeU8]
    rw [Nat.mod_eq_of_lt (by omega)]
  | msgoutUbxMonCommsUsb v =>
    simp only [valueCanon] at hc
    simp only [valueWrite]
    rw [valueRead_step _ _ _ (show readU32 ((writeU32 0x20910352 ++ writeU8 v) ++ r) =
        .ok (writeU8 v ++ r, 0x20910352) by
      rw [List.append_assoc, readU32_writeU32]; norm_num),
      valueDecode_msgoutUbxMonCommsUsb]
    simp only [readU8_writeU8]
    rw [Nat.mod_eq_of_lt (by omega)]
  | msgoutUbxMonMsgppUsb v =>
    simp only [valueCanon] at hc
    simp only [valueWrite]
    rw [valueRead_step _ _ _ (show readU32 ((writeU32 0x20910199 ++ writeU8 v) ++ r) =
        .ok (writeU8 v ++ r, 0x20910199) by
      rw [List.append_assoc, readU32_writeU32]; norm_num),
      valueDecode_msgoutUbxMonMsgppUsb]
    simp only [readU8_writeU8]
    rw [Nat.mod_eq_of_lt (by omega)]
  | msgoutUbxMonRfUsb v =>
    simp only [valueCanon] at hc
    simp only [valueWrite]
    rw [valueRead_step _ _ _ (show readU32 ((writeU32 0x2091035c ++ writeU8 v) ++ r) =
        .ok (writeU8 v ++ r, 0x2091035c) by
      rw [List.append_assoc, readU32_writeU32]; norm_num),
      valueDecode_msgoutUbxMonRfUsb]
    simp only [readU8_writeU8]
    rw [Nat.mod_eq_of_lt (by omega)]
  | msgoutUbxMonRxbufUsb v =>
    simp only [valueCanon] at hc
    simp only [valueWrite]
    rw [valueRead_step _ _ _ (show readU32 ((writeU32 0x209101a3 ++ writeU8 v) ++ r) =
        .ok (writeU8 v ++ r, 0x209101a3) by
      rw [List.append_assoc, readU32_writeU32]; norm_num),
      valueDecode_msgoutUbxMonRxbufUsb]
    simp only [readU8_writeU8]
    rw [Nat.mod_eq_of_lt (by omega)]
  | msgoutUbxMonRxrUsb v =>
    simp only [valueCanon] at hc
    simp only [valueWrite]
    rw [valueRead_step _ _ _ (show readU32 ((writeU32 0x2091018a ++ writeU8 v) ++ r) =
        .ok (writeU8 v ++ r, 0x2091018a) by
      rw [List.append_assoc, readU32_writeU32]; norm_num),
      valueDecode_msgoutUbxMonRxrUsb]
    simp only [readU8_writeU8]
    rw [Nat.mod_eq_of_lt (by omega)]
  | msgoutUbxMonTxbufUsb v =>
    simp only [valueCanon] at hc
    simp only [valueWrite]
    rw [valueRead_step _ _ _ (show readU32 ((writeU32 0x2091019e ++ writeU8 v) ++ r) =
        .ok (writeU8 v ++ r, 0x2091019e) by
      rw [List.append_assoc, readU32_writeU32]; norm_num),
      valueDecode_msgoutUbxMonTxbufUsb]
    simp only [readU8_writeU8]
    rw [Nat.mod_eq_of_lt (by omega)]
  | msgoutUbxNavClockUsb v =>
    simp only [valueCanon] at hc
    simp only [valueWrite]
    rw [valueRead_step _ _ _ (show readU32 ((writeU32 0x20910068 ++ writeU8 v) ++ r) =
        .ok (writeU8 v ++ r, 0x20910068) by
      rw [List.append_assoc, readU32_writeU32]; norm_num),
      valueDecode_msgoutUbxNavClockUsb]
    simp only [readU8_writeU8]
    rw [Nat.mod_eq_of_lt (by omega)]
  | msgoutUbxNavDopUsb v =>
    simp only [valueCanon] at hc
    simp only [valueWrite]
    rw [valueRead_step _ _ _ (show readU32 ((writeU32 0x2091003b ++ writeU8 v) ++ r) =
        .ok (writeU8 v ++ r, 0x2091003b) by
      rw [List.append_assoc, readU32_writeU32]; norm_num),
      valueDecode_msgoutUbxNavDopUsb]
    simp only [readU8_writeU8]
    rw [Nat.mod_eq_of_lt (by omega)]
  | msgoutUbxNavEoeUsb v =>
    simp only [valueCanon] at hc
    simp only [valueWrite]
    rw [valueRead_step _ _ _ (show readU32 ((writeU32 0x20910162 ++ writeU8 v) ++ r) =
        .ok (writeU8 v ++ r, 0x20910162) by
      rw [List.append_assoc, readU32_writeU32]; norm_num),
      valueDecode_msgoutUbxNavEoeUsb]
    simp only [readU8_writeU8]
    rw [Nat.mod_eq_of_lt (by omega)]
  | msgoutUbxNavHpposecefUsb v =>
    simp only [valueCanon] at hc
    simp only [valueWrite]
    rw [valueRead_step _ _ _ (show readU32 ((writeU32 0x20910031 ++ writeU8 v) ++ r) =
        .ok (writeU8 v ++ r, 0x20910031) by
      rw [List.append_assoc, readU32_writeU32]; norm_num),
      valueDecode_msgoutUbxNavHpposecefUsb]
    simp only [readU8_writeU8]
    rw [Nat.mod_eq_of_lt (by omega)]
  | msgoutUbxNavHpposllhUsb v =>
    simp only [valueCanon] at hc
    simp only [valueWrite]
    rw [valueRead_step _ _ _ (show readU32 ((writeU32 0x20910036 ++ writeU8 v) ++ r) =
        .ok (writeU8 v ++ r, 0x20910036) by
      rw [List.append_assoc, readU32_writeU32]; norm_num),
      valueDecode_msgoutUbxNavHpposllhUsb]
    simp only [readU8_writeU8]
    rw [Nat.mod_eq_of_lt (by omega)]
  | msgoutUbxNavOdoUsb v =>
    simp only [valueCanon] at hc
    simp only [valueWrite]
    rw [valueRead_step _ _ _ (show readU32 ((writeU32 0x20910081 ++ writeU8 v) ++ r) =
        .ok (writeU8 v ++ r, 0x20910081) by
      rw [List.append_assoc, readU32_writeU32]; norm_num),
      valueDecode_msgoutUbxNavOdoUsb]
    simp only [readU8_writeU8]
    rw [Nat.mod_eq_of_lt (by omega)]
  | msgoutUbxNavOrbUsb v =>
    simp only [valueCanon] at hc
    simp only [valueWrite]
    rw [valueRead_step _ _ _ (show readU32 ((writeU32 0x20910013 ++ writeU8 v) ++ r) =
        .ok (writeU8 v ++ r, 0x20910013) by
      rw [List.append_assoc, readU32_writeU32]; norm_num),
      valueDecode_msgoutUbxNavOrbUsb]
    simp only [readU8_writeU8]
    rw [Nat.mod_eq_of_lt (by omega)]
  | msgoutUbxNavPosecefUsb v =>
    simp only [valueCanon] at hc
    simp only [valueWrite]
    rw [valueRead_step _ _ _ (show readU32 ((writeU32 0x20910027 ++ writeU8 v) ++ r) =
        .ok (writeU8 v ++ r, 0x20910027) by
      rw [List.append_assoc, readU32_writeU32]; norm_num),
      valueDecode_msgoutUbxNavPosecefUsb]
    simp only [readU8_writeU8]
    rw [Nat.mod_eq_of_lt (by omega)]
  | msgoutUbxNavPosllhUsb v =>
    simp only [valueCanon] at hc
    simp only [valueWrite]
    rw [valueRead_step _ _ _ (show readU32 ((writeU32 0x2091002c ++ writeU8 v) ++ r) =
        .ok (writeU8 v ++ r, 0x2091002c) by
      rw [List.append_assoc, readU32_writeU32]; norm_num),
      valueDecode_msgoutUbxNavPosllhUsb]
    simp only [readU8_writeU8]
    rw [Nat.mod_eq_of_lt (by omega)]
  | msgoutUbxNavPvtUsb v =>
    simp only [valueCanon] at hc
    simp only [valueWrite]
    rw [valueRead_step _ _ _ (show readU32 ((writeU32 0x20910009 ++ writeU8 v) ++ r) =
        .ok (writeU8 v ++ r, 0x20910009) by
      rw [List.append_assoc, readU32_writeU32]; norm_num),
      valueDecode_msgoutUbxNavPvtUsb]
    simp only [readU8_writeU8]
    rw [Nat.mod_eq_of_lt (by omega)]
  | msgoutUbxNavRelPosNedUsb v =>
    simp only [valueCanon] at hc
    simp only [valueWrite]
    rw [valueRead_step _ _ _ (show readU32 ((writeU32 0x20910090 ++ writeU8 v) ++ r) =
        .ok (writeU8 v ++ r, 0x20910090) by
      rw [List.append_assoc, readU32_writeU32]; norm_num),
      valueDecode_msgoutUbxNavRelPosNedUsb]
    simp only [readU8_writeU8]
    rw [Nat.mod_eq_of_lt (by omega)]
  | msgoutUbxNavSatUsb v =>
    simp only [valueCanon] at hc
    simp only [valueWrite]
    rw [valueRead_step _ _ _ (show readU32 ((writeU32 0x20910018 ++ writeU8 v) ++ r) =
        .ok (writeU8 v ++ r, 0x20910018) by
      rw [List.append_assoc, readU32_writeU32]; norm_num),
      valueDecode_msgoutUbxNavSatUsb]
    simp only [readU8_writeU8]
    rw [Nat.mod_eq_of_lt (by omega)]
  | msgoutUbxNavSigUsb v =>
    simp only [valueCanon] at hc
    simp only [valueWrite]
    rw [valueRead_step _ _ _ (show readU32 ((writeU32 0x20910348 ++ writeU8 v) ++ r) =
        .ok (writeU8 v ++ r, 0x20910348) by
      rw [List.append_assoc, readU32_writeU32]; norm_num),
      valueDecode_msgoutUbxNavSigUsb]
    simp only [readU8_writeU8]
    rw [Nat.mod_eq_of_lt (by omega)]
  | msgoutUbxNavStatusUsb v =>
    simp only [valueCanon] at hc
    simp only [valueWrite]
    rw [valueRead_step _ _ _ (show readU32 ((writeU32 0x2091001d ++ writeU8 v) ++ r) =
        .ok (writeU8 v ++ r, 0x2091001d) by
      rw [List.append_assoc, readU32_writeU32]; norm_num),
      valueDecode_msgoutUbxNavStatusUsb]
    simp only [readU8_writeU8]
    rw [Nat.mod_eq_of_lt (by omega)]
  | msgoutUbxNavSvinUsb v =>
    simp only [valueCanon] at hc
    simp only [valueWrite]
    rw [valueRead_step _ _ _ (show readU32 ((writeU32 0x2091008b ++ writeU8 v) ++ r) =
        .ok (writeU8 v ++ r, 0x2091008b) by
      rw [List.append_assoc, readU32_writeU32]; norm_num),
      valueDecode_msgoutUbxNavSvinUsb]
    simp only [readU8_writeU8]
    rw [Nat.mod_eq_of_lt (by omega)]
  | msgoutUbxNavTimebdsUsb v =>
    simp only [valueCanon] at hc
    simp only [valueWrite]
    rw [valueRead_step _ _ _ (show readU32 ((writeU32 0x20910054 ++ writeU8 v) ++ r) =
        .ok (writeU8 v ++ r, 0x20910054) by
      rw [List.append_assoc, readU32_writeU32]; norm_num),
      valueDecode_msgoutUbxNavTimebdsUsb]
    simp only [readU8_writeU8]
    rw [Nat.mod_eq_of_lt (by omega)]
  | msgoutUbxNavTimegalUsb v =>
    simp only [valueCanon] at hc
    simp only [valueWrite]
    rw [valueRead_step _ _ _ (show readU32 ((writeU32 0x20910059 ++ writeU8 v) ++ r) =
        .ok (writeU8 v ++ r, 0x20910059) by
      rw [List.append_assoc, readU32_writeU32]; norm_num),
      valueDecode_msgoutUbxNavTimegalUsb]
    simp only [readU8_writeU8]
    rw [Nat.mod_eq_of_lt (by omega)]
  | msgoutUbxNavTimegloUsb v =>
    simp only [valueCanon] at hc
    simp only [valueWrite]
    rw [valueRead_step _ _ _ (show readU32 ((writeU32 0x2091004f ++ writeU8 v) ++ r) =
        .ok (writeU8 v ++ r, 0x2091004f) by
      rw [List.append_assoc, readU32_writeU32]; norm_num),
      valueDecode_msgoutUbxNavTimegloUsb]
    simp only [readU8_writeU8]
    rw [Nat.mod_eq_of_lt (by omega)]
  | msgoutUbxNavTimegpsUsb v =>
    simp only [valueCanon] at hc
    simp only [valueWrite]
    rw [valueRead_step _ _ _ (show readU32 ((writeU32 0x2091004a ++ writeU8 v) ++ r) =
        .ok (writeU8 v ++ r, 0x2091004a) by
      rw [List.append_assoc, readU32_writeU32]; norm_num),
      valueDecode_msgoutUbxNavTimegpsUsb]
    simp only [readU8_writeU8]
    rw [Nat.mod_eq_of_lt (by omega)]
  | msgoutUbxNavTimelsUsb v =>
    simp only [valueCanon] at hc
    simp only [valueWrite]
    rw [valueRead_step _ _ _ (show readU32 ((writeU32 0x20910063 ++ writeU8 v) ++ r) =
        .ok (writeU8 v ++ r, 0x20910063) by
      rw [List.append_assoc, readU32_writeU32]; norm_num),
      valueDecode_msgoutUbxNavTimelsUsb]
    simp only [readU8_writeU8]
    rw [Nat.mod_eq_of_lt (by omega)]
  | msgoutUbxNavTimeutcUsb v =>
    simp only [valueCanon] at hc
    simp only [valueWrite]
    rw [valueRead_step _ _ _ (show readU32 ((writeU32 0x2091005e ++ writeU8 v) ++ r) =
        .ok (writeU8 v ++ r, 0x2091005e) by
      rw [List.append_assoc, readU32_writeU32]; norm_num),
      valueDecode_msgoutUbxNavTimeutcUsb]
    simp only [readU8_writeU8]
    rw [Nat.mod_eq_of_lt (by omega)]
  | msgoutUbxNavVelecefUsb v =>
    simp only [valueCanon] at hc
    simp only [valueWrite]
    rw [valueRead_step _ _ _ (show readU32 ((writeU32 0x20910040 ++ writeU8 v) ++ r) =
        .ok (writeU8 v ++ r, 0x20910040) by
      rw [List.append_assoc, readU32_writeU32]; norm_num),
      valueDecode_msgoutUbxNavVelecefUsb]
    simp only [readU8_writeU8]
    rw [Nat.mod_eq_of_lt (by omega)]
  | msgoutUbxNavVelnedUsb v =>
    simp only [valueCanon] at hc
    simp only [valueWrite]
    rw [valueRead_step _ _ _ (show readU32 ((writeU32 0x20910045 ++ writeU8 v) ++ r) =
        .ok (writeU8 v ++ r, 0x20910045) by
      rw [List.append_assoc, readU32_writeU32]; norm_num),
      valueDecode_msgoutUbxNavVelnedUsb]
    simp only [readU8_writeU8]
    rw [Nat.mod_eq_of_lt (by omega)]
  | msgoutUbxRxmMeasxUsb v =>
    simp only [valueCanon] at hc
    simp only [valueWrite]
    rw [valueRead_step _ _ _ (show readU32 ((writeU32 0x20910207 ++ writeU8 v) ++ r) =
        .ok (writeU8 v ++ r, 0x20910207) by
      rw [List.append_assoc, readU32_writeU32]; norm_num),
      valueDecode_msgoutUbxRxmMeasxUsb]
    simp only [readU8_writeU8]
    rw [Nat.mod_eq_of_lt (by omega)]
  | msgoutUbxRxmRawxUsb v =>
    simp only [valueCanon] at hc
    simp only [valueWrite]
    rw [valueRead_step _ _ _ (show readU32 ((writeU32 0x209102a7 ++ writeU8 v) ++ r) =
        .ok (writeU8 v ++ r, 0x209102a7) by
      rw [List.append_assoc, readU32_writeU32]; norm_num),
      valueDecode_msgoutUbxRxmRawxUsb]
    simp only [readU8_writeU8]
    rw [Nat.mod_eq_of_lt (by omega)]
  | msgoutUbxRxmRlmUsb v =>
    simp only [valueCanon] at hc
    simp only [valueWrite]
    rw [valueRead_step _ _ _ (show readU32 ((writeU32 0x20910261 ++ writeU8 v) ++ r) =
        .ok (writeU8 v ++ r, 0x20910261) by
      rw [List.append_assoc, readU32_writeU32]; norm_num),
      valueDecode_msgoutUbxRxmRlmUsb]
    simp only [readU8_writeU8]
    rw [Nat.mod_eq_of_lt (by omega)]
  | msgoutUbxRxmRtcmUsb v =>
    simp only [valueCanon] at hc
    simp only [valueWrite]
    rw [valueRead_step _ _ _ (show readU32 ((writeU32 0x2091026b ++ writeU8 v) ++ r) =
        .ok (writeU8 v ++ r, 0x2091026b) by
      rw [List.append_assoc, readU32_writeU32]; norm_num),
      valueDecode_msgoutUbxRxmRtcmUsb]
    simp only [readU8_writeU8]
    rw [Nat.mod_eq_of_lt (by omega)]
  | msgoutUbxRxmSfrbxUsb v =>
    simp only [valueCanon] at hc
    simp only [valueWrite]
    rw [valueRead_step _ _ _ (show readU32 ((writeU32 0x20910234 ++ writeU8 v) ++ r) =
        .ok (writeU8 v ++ r, 0x20910234) by
      rw [List.append_assoc, readU32_writeU32]; norm_num),
      valueDecode_msgoutUbxRxmSfrbxUsb]
    simp only [readU8_writeU8]
    rw [Nat.mod_eq_of_lt (by omega)]
  | odoUseOdo v =>
    simp only [valueCanon] at hc
    simp only [valueWrite]
    rw [valueRead_step _ _ _ (show readU32 ((writeU32 0x10220001 ++ writeBool v) ++ r) =
        .ok (writeBool v ++ r, 0x10220001) by
      rw [List.append_assoc, readU32_writeU32]; norm_num),
      valueDecode_odoUseOdo]
    simp only [readBool_writeBool]
  | odoUseCog v =>
    simp only [valueCanon] at hc
    simp only [valueWrite]
    rw [valueRead_step _ _ _ (show readU32 ((writeU32 0x10220002 ++ writeBool v) ++ r) =
        .ok (writeBool v ++ r, 0x10220002) by
      rw [List.append_assoc, readU32_writeU32]; norm_num),
      valueDecode_odoUseCog]
    simp only [readBool_writeBool]
  | odoOutlpvel v =>
    simp only [valueCanon] at hc
    simp only [valueWrite]
    rw [valueRead_step _ _ _ (show readU32 ((writeU32 0x10220003 ++ writeBool v) ++ r) =
        .ok (writeBool v ++ r, 0x10220003) by
      rw [List.append_assoc, readU32_writeU32]; norm_num),
      valueDecode_odoOutlpvel]
    simp only [readBool_writeBool]
  | odoOutlpcog v =>
    simp only [valueCanon] at hc
    simp only [valueWrite]
    rw [valueRead_step _ _ _ (show readU32 ((writeU32 0x10220004 ++ writeBool v) ++ r) =
        .ok (writeBool v ++ r, 0x10220004) by
      rw [List.append_assoc, readU32_writeU32]; norm_num),
      valueDecode_odoOutlpcog]
    simp only [readBool_writeBool]
  | odoProfile v =>
    simp only [valueCanon] at hc
    simp only [valueWrite]
    rw [valueRead_step _ _ _ (show readU32 ((writeU32 0x20220005 ++ writeVOdoProfile v) ++ r) =
        .ok (writeVOdoProfile v ++ r, 0x20220005) by
      rw [List.append_assoc, readU32_writeU32]; norm_num),
      valueDecode_odoProfile]
    simp only [readVOdoProfile_write]
  | odoCogmaxspeed v =>
    simp only [valueCanon] at hc
    simp only [valueWrite]
    rw [valueRead_step _ _ _ (show readU32 ((writeU32 0x20220021 ++ writeU8 v) ++ r) =
        .ok (writeU8 v ++ r, 0x20220021) by
      rw [List.append_assoc, readU32_writeU32]; norm_num),
      valueDecode_odoCogmaxspeed]
    simp only [readU8_writeU8]
    rw [Nat.mod_eq_of_lt (by omega)]
  | odoCogmaxposacc v =>
    simp only [valueCanon] at hc
    simp only [valueWrite]
    rw [valueRead_step _ _ _ (show readU32 ((writeU32 0x20220022 ++ writeU8 v) ++ r) =
        .ok (writeU8 v ++ r, 0x20220022) by
      rw [List.append_assoc, readU32_writeU32]; norm_num),
      valueDecode_odoCogmaxposacc]
    simp only [readU8_writeU8]
    rw [Nat.mod_eq_of_lt (by omega)]
  | odoVellpgain v =>
    simp only [valueCanon] at hc
    simp only [valueWrite]
    rw [valueRead_step _ _ _ (show readU32 ((writeU32 0x20220031 ++ writeU8 v) ++ r) =
        .ok (writeU8 v ++ r, 0x20220031) by
      rw [List.append_assoc, readU32_writeU32]; norm_num),
      valueDecode_odoVellpgain]
    simp only [readU8_writeU8]
    rw [Nat.mod_eq_of_lt (by omega)]
  | odoCoglpgain v =>
    simp only [valueCanon] at hc
    simp only [valueWrite]
    rw [valueRead_step _ _ _ (show readU32 ((writeU32 0x20220032 ++ writeU8 v) ++ r) =
        .ok (writeU8 v ++ r, 0x20220032) by
      rw [List.append_assoc, readU32_writeU32]; norm_num),
      valueDecode_odoCoglpgain]
    simp only [readU8_writeU8]
    rw [Nat.mod_eq_of_lt (by omega)]
  | navhpgDgnssmode v =>
    simp only [valueCanon] at hc
    simp only [valueWrite]
    rw [valueRead_step _ _ _ (show readU32 ((writeU32 0x20140011 ++ writeRtkMode v) ++ r) =
        .ok (writeRtkMode v ++ r, 0x20140011) by
      rw [List.append_assoc, readU32_writeU32]; norm_num),
      valueDecode_navhpgDgnssmode]
    simp only [readRtkMode_write]
  | tmodeMode v =>
    simp only [valueCanon] at hc
    simp only [valueWrite]
    rw [valueRead_step _ _ _ (show readU32 ((writeU32 0x20030001 ++ writeVTmode v) ++ r) =
        .ok (writeVTmode v ++ r, 0x20030001) by
      rw [List.append_assoc, readU32_writeU32]; norm_num),
      valueDecode_tmodeMode]
    simp only [readVTmode_write]
  | tmodePosType v =>
    simp only [valueCanon] at hc
    simp only [valueWrite]
    rw [valueRead_step _ _ _ (show readU32 ((writeU32 0x20030002 ++ writeVPosType v) ++ r) =
        .ok (writeVPosType v ++ r, 0x20030002) by
      rw [List.append_assoc, readU32_writeU32]; norm_num),
      valueDecode_tmodePosType]
    simp only [readVPosType_write]
  | tmodeEcefX v =>
    simp only [valueCanon] at hc
    simp only [valueWrite]
    rw [valueRead_step _ _ _ (show readU32 ((writeU32 0x20030003 ++ writeI32 v) ++ r) =
        .ok (writeI32 v ++ r, 0x20030003) by
      rw [List.append_assoc, readU32_writeU32]; norm_num),
      valueDecode_tmodeEcefX]
    simp only [readI32_writeI32 v r hc.1 hc.2]
  | tmodeEcefY v =>
    simp only [valueCanon] at hc
    simp only [valueWrite]
    rw [valueRead_step _ _ _ (show readU32 ((writeU32 0x20030004 ++ writeI32 v) ++ r) =
        .ok (writeI32 v ++ r, 0x20030004) by
      rw [List.append_assoc, readU32_writeU32]; norm_num),
      valueDecode_tmodeEcefY]
    simp only [readI32_writeI32 v r hc.1 hc.2]
  | tmodeEcefZ v =>
    simp only [valueCanon] at hc
    simp only [valueWrite]
    rw [valueRead_step _ _ _ (show readU32 ((writeU32 0x20030005 ++ writeI32 v) ++ r) =
        .ok (writeI32 v ++ r, 0x20030005) by
      rw [List.append_assoc, readU32_writeU32]; norm_num),
      valueDecode_tmodeEcefZ]
    simp only [readI32_writeI32 v r hc.1 hc.2]
  | tmodeEcefXHp v =>
    simp only [valueCanon] at hc
    simp only [valueWrite]
    rw [valueRead_step _ _ _ (show readU32 ((writeU32 0x20030006 ++ writeI8 v) ++ r) =
        .ok (writeI8 v ++ r, 0x20030006) by
      rw [List.append_assoc, readU32_writeU32]; norm_num),
      valueDecode_tmodeEcefXHp]
    simp only [readI8_writeI8 v r hc.1 hc.2]
  | tmodeEcefYHp v =>
    simp only [valueCanon] at hc
    simp only [valueWrite]
    rw [valueRead_step _ _ _ (show readU32 ((writeU32 0x20030007 ++ writeI8 v) ++ r) =
        .ok (writeI8 v ++ r, 0x20030007) by
      rw [List.append_assoc, readU32_writeU32]; norm_num),
      valueDecode_tmodeEcefYHp]
    simp only [readI8_writeI8 v r hc.1 hc.2]
  | tmodeEcefZHp v =>
    simp only [valueCanon] at hc
    simp only [valueWrite]
    rw [valueRead_step _ _ _ (show readU32 ((writeU32 0x20030008 ++ writeI8 v) ++ r) =
        .ok (writeI8 v ++ r, 0x20030008) by
      rw [List.append_assoc, readU32_writeU32]; norm_num),
      valueDecode_tmodeEcefZHp]
    simp only [readI8_writeI8 v r hc.1 hc.2]
  | tmodeFixedPosAcc v =>
    simp only [valueCanon] at hc
    simp only [valueWrite]
    rw [valueRead_step _ _ _ (show readU32 ((writeU32 0x4003000f ++ writeU32 v) ++ r) =
        .ok (writeU32 v ++ r, 0x4003000f) by
      rw [List.append_assoc, readU32_writeU32]; norm_num),
      valueDecode_tmodeFixedPosAcc]
    simp only [readU32_writeU32]
    rw [Nat.mod_eq_of_lt (by omega)]
  | tmodeSvinMinDur v =>
    simp only [valueCanon] at hc
    simp only [valueWrite]
    rw [valueRead_step _ _ _ (show readU32 ((writeU32 0x40030010 ++ writeU32 v) ++ r) =
        .ok (writeU32 v ++ r, 0x40030010) by
      rw [List.append_assoc, readU32_writeU32]; norm_num),
      valueDecode_tmodeSvinMinDur]
    simp only [readU32_writeU32]
    rw [Nat.mod_eq_of_lt (by omega)]
  | tmodeSvinAccLimit v =>
    simp only [valueCanon] at hc
    simp only [valueWrite]
    rw [valueRead_step _ _ _ (show readU32 ((writeU32 0x40030011 ++ writeU32 v) ++ r) =
        .ok (writeU32 v ++ r, 0x40030011) by
      rw [List.append_assoc, readU32_writeU32]; norm_num),
      valueDecode_tmodeSvinAccLimit]
    simp only [readU32_writeU32]
    rw [Nat.mod_eq_of_lt (by omega)]
  | signalGpsEna v =>
    simp only [valueCanon] at hc
    simp only [valueWrite]
    rw [valueRead_step _ _ _ (show readU32 ((writeU32 0x1031001f ++ writeBool v) ++ r) =
        .ok (writeBool v ++ r, 0x1031001f) by
      rw [List.append_assoc, readU32_writeU32]; norm_num),
      valueDecode_signalGpsEna]
    simp only [readBool_writeBool]
  | signalGpsL1caEna v =>
    simp only [valueCanon] at hc
    simp only [valueWrite]
    rw [valueRead_step _ _ _ (show readU32 ((writeU32 0x10310001 ++ writeBool v) ++ r) =
        .ok (writeBool v ++ r, 0x10310001) by
      rw [List.append_assoc, readU32_writeU32]; norm_num),
      valueDecode_signalGpsL1caEna]
    simp only [readBool_writeBool]
  | signalGpsL2cEna v =>
    simp only [valueCanon] at hc
    simp only [valueWrite]
    rw [valueRead_step _ _ _ (show readU32 ((writeU32 0x10310003 ++ writeBool v) ++ r) =
        .ok (writeBool v ++ r, 0x10310003) by
      rw [List.append_assoc, readU32_writeU32]; norm_num),
      valueDecode_signalGpsL2cEna]
    simp only [readBool_writeBool]
  | signalGalEna v =>
    simp only [valueCanon] at hc
    simp only [valueWrite]
    rw [valueRead_step _ _ _ (show readU32 ((writeU32 0x10310021 ++ writeBool v) ++ r) =
        .ok (writeBool v ++ r, 0x10310021) by
      rw [List.append_assoc, readU32_writeU32]; norm_num),
      valueDecode_signalGalEna]
    simp only [readBool_writeBool]
  | signalGalE1Ena v =>
    simp only [valueCanon] at hc
    simp only [valueWrite]
    rw [valueRead_step _ _ _ (show readU32 ((writeU32 0x10310007 ++ writeBool v) ++ r) =
        .ok (writeBool v ++ r, 0x10310007) by
      rw [List.append_assoc, readU32_writeU32]; norm_num),
      valueDecode_signalGalE1Ena]
    simp only [readBool_writeBool]
  | signalGalE5bEna v =>
    simp only [valueCanon] at hc
    simp only [valueWrite]
    rw [valueRead_step _ _ _ (show readU32 ((writeU32 0x1031000a ++ writeBool v) ++ r) =
        .ok (writeBool v ++ r, 0x1031000a) by
      rw [List.append_assoc, readU32_writeU32]; norm_num),
      valueDecode_signalGalE5bEna]
    simp only [readBool_writeBool]
  | signalBdsEna v =>
    simp only [valueCanon] at hc
    simp only [valueWrite]
    rw [valueRead_step _ _ _ (show readU32 ((writeU32 0x10310022 ++ writeBool v) ++ r) =
        .ok (writeBool v ++ r, 0x10310022) by
      rw [List.append_assoc, readU32_writeU32]; norm_num),
      valueDecode_signalBdsEna]
    simp only [readBool_writeBool]
  | signalBdsB1Ena v =>
    simp only [valueCanon] at hc
    simp only [valueWrite]
    rw [valueRead_step _ _ _ (show readU32 ((writeU32 0x1031000d ++ writeBool v) ++ r) =
        .ok (writeBool v ++ r, 0x1031000d) by
      rw [List.append_assoc, readU32_writeU32]; norm_num),
      valueDecode_signalBdsB1Ena]
    simp only [readBool_writeBool]
  | signalBdsB2Ena v =>
    simp only [valueCanon] at hc
    simp only [valueWrite]
    rw [valueRead_step _ _ _ (show readU32 ((writeU32 0x1031000e ++ writeBool v) ++ r) =
        .ok (writeBool v ++ r, 0x1031000e) by
      rw [List.append_assoc, readU32_writeU32]; norm_num),
      valueDecode_signalBdsB2Ena]
    simp only [readBool_writeBool]
  | signalQzssEna v =>
    simp only [valueCanon] at hc
    simp only [valueWrite]
    rw [valueRead_step _ _ _ (show readU32 ((writeU32 0x10310024 ++ writeBool v) ++ r) =
        .ok (writeBool v ++ r, 0x10310024) by
      rw [List.append_assoc, readU32_writeU32]; norm_num),
      valueDecode_signalQzssEna]
    simp only [readBool_writeBool]
  | signalQzssL1caEna v =>
    simp only [valueCanon] at hc
    simp only [valueWrite]
    rw [valueRead_step _ _ _ (show readU32 ((writeU32 0x10310012 ++ writeBool v) ++ r) =
        .ok (writeBool v ++ r, 0x10310012) by
      rw [List.append_assoc, readU32_writeU32]; norm_num),
      valueDecode_signalQzssL1caEna]
    simp only [readBool_writeBool]
  | signalQzssL2cEna v =>
    simp only [valueCanon] at hc
    simp only [valueWrite]
    rw [valueRead_step _ _ _ (show readU32 ((writeU32 0x10310015 ++ writeBool v) ++ r) =
        .ok (writeBool v ++ r, 0x10310015) by
      rw [List.append_assoc, readU32_writeU32]; norm_num),
      valueDecode_signalQzssL2cEna]
    simp only [readBool_writeBool]
  | signalGloEna v =>
    simp only [valueCanon] at hc
    simp only [valueWrite]
    rw [valueRead_step _ _ _ (show readU32 ((writeU32 0x10310025 ++ writeBool v) ++ r) =
        .ok (writeBool v ++ r, 0x10310025) by
      rw [List.append_assoc, readU32_writeU32]; norm_num),
      valueDecode_signalGloEna]
    simp only [readBool_writeBool]
  | signalGloL1Ena v =>
    simp only [valueCanon] at hc
    simp only [valueWrite]
    rw [valueRead_step _ _ _ (show readU32 ((writeU32 0x10310018 ++ writeBool v) ++ r) =
        .ok (writeBool v ++ r, 0x10310018) by
      rw [List.append_assoc, readU32_writeU32]; norm_num),
      valueDecode_signalGloL1Ena]
    simp only [readBool_writeBool]
  | signalGloL2Ena v =>
    simp only [valueCanon] at hc
    simp only [valueWrite]
    rw [valueRead_step _ _ _ (show readU32 ((writeU32 0x1031001a ++ writeBool v) ++ r) =
        .ok (writeBool v ++ r, 0x1031001a) by
      rw [List.append_assoc, readU32_writeU32]; norm_num),
      valueDecode_signalGloL2Ena]
    simp only [readBool_writeBool]

/-- Round trip of one catalogue key. -/
theorem valueKeyRead_write (k : ValueKey) (r : Bytes) :
    valueKeyRead (valueKeyWrite k ++ r) = .ok (r, k) := by
  cases k with
  | rateMeas =>
    rw [show valueKeyWrite .rateMeas = writeU32 0x30210001 from rfl,
      valueKeyRead_step _ _ _ (show readU32 (writeU32 0x30210001 ++ r) =
        .ok (r, 0x30210001) by rw [readU32_writeU32]; norm_num)]
    rfl
  | rateNav =>
    rw [show valueKeyWrite .rateNav = writeU32 0x30210002 from rfl,
      valueKeyRead_step _ _ _ (show readU32 (writeU32 0x30210002 ++ r) =
        .ok (r, 0x30210002) by rw [readU32_writeU32]; norm_num)]
    rfl
  | usbInprotUbx =>
    rw [show valueKeyWrite .usbInprotUbx = writeU32 0x10770001 from rfl,
      valueKeyRead_step _ _ _ (show readU32 (writeU32 0x10770001 ++ r) =
        .ok (r, 0x10770001) by rw [readU32_writeU32]; norm_num)]
    rfl
  | usbInprotNmea =>
    rw [show valueKeyWrite .usbInprotNmea = writeU32 0x10770002 from rfl,
      valueKeyRead_step _ _ _ (show readU32 (writeU32 0x10770002 ++ r) =
        .ok (r, 0x10770002) by rw [readU32_writeU32]; norm_num)]
    rfl
  | usbInprotRtcm3x =>
    rw [show valueKeyWrite .usbInprotRtcm3x = writeU32 0x10770004 from rfl,
      valueKeyRead_step _ _ _ (show readU32 (writeU32 0x10770004 ++ r) =
        .ok (r, 0x10770004) by rw [readU32_writeU32]; norm_num)]
    rfl
  | usbOutprotUbx =>
    rw [show valueKeyWrite .usbOutprotUbx = writeU32 0x10780001 from rfl,
      valueKeyRead_step _ _ _ (show readU32 (writeU32 0x10780001 ++ r) =
        .ok (r, 0x10780001) by rw [readU32_writeU32]; norm_num)]
    rfl
  | usbOutprotNmea =>
    rw [show valueKeyWrite .usbOutprotNmea = writeU32 0x10780002 from rfl,
      valueKeyRead_step _ _ _ (show readU32 (writeU32 0x10780002 ++ r) =
        .ok (r, 0x10780002) by rw [readU32_writeU32]; norm_num)]
    rfl
  | usbOutprotRtcm3x =>
    rw [show valueKeyWrite .usbOutprotRtcm3x = writeU32 0x10780004 from rfl,
      valueKeyRead_step _ _ _ (show readU32 (writeU32 0x10780004 ++ r) =
        .ok (r, 0x10780004) by rw [readU32_writeU32]; norm_num)]
    rfl
  | spiInprotUbx =>
    rw [show valueKeyWrite .spiInprotUbx = writeU32 0x10790001 from rfl,
      valueKeyRead_step _ _ _ (show readU32 (writeU32 0x10790001 ++ r) =
        .ok (r, 0x10790001) by rw [readU32_writeU32]; norm_num)]
    rfl
  | spiInprotNmea =>
    rw [show valueKeyWrite .spiInprotNmea = writeU32 0x10790002 from rfl,
      valueKeyRead_step _ _ _ (show readU32 (writeU32 0x10790002 ++ r) =
        .ok (r, 0x10790002) by rw [readU32_writeU32]; norm_num)]
    rfl
  | spiInprotRtcm3x =>
    rw [show valueKeyWrite .spiInprotRtcm3x = writeU32 0x10790004 from rfl,
      valueKeyRead_step _ _ _ (show readU32 (writeU32 0x10790004 ++ r) =
        .ok (r, 0x10790004) by rw [readU32_writeU32]; norm_num)]
    rfl
  | spiOutprotUbx =>
    rw [show valueKeyWrite .spiOutprotUbx = writeU32 0x107a0001 from rfl,
      valueKeyRead_step _ _ _ (show readU32 (writeU32 0x107a0001 ++ r) =
        .ok (r, 0x107a0001) by rw [readU32_writeU32]; norm_num)]
    rfl
  | spiOutprotNmea =>
    rw [show valueKeyWrite .spiOutprotNmea = writeU32 0x107a0002 from rfl,
      valueKeyRead_step _ _ _ (show readU32 (writeU32 0x107a0002 ++ r) =
        .ok (r, 0x107a0002) by rw [readU32_writeU32]; norm_num)]
    rfl
  | spiOutprotRtcm3x =>
    rw [show valueKeyWrite .spiOutprotRtcm3x = writeU32 0x107a0004 from rfl,
      valueKeyRead_step _ _ _ (show readU32 (writeU32 0x107a0004 ++ r) =
        .ok (r, 0x107a0004) by rw [readU32_writeU32]; norm_num)]
    rfl
  | uart1InprotUbx =>
    rw [show valueKeyWrite .uart1InprotUbx = writeU32 0x10730001 from rfl,
      valueKeyRead_step _ _ _ (show readU32 (writeU32 0x10730001 ++ r) =
        .ok (r, 0x10730001) by rw [readU32_writeU32]; norm_num)]
    rfl
  | uart1InprotNmea =>
    rw [show valueKeyWrite .uart1InprotNmea = writeU32 0x10730002 from rfl,
      valueKeyRead_step _ _ _ (show readU32 (writeU32 0x10730002 ++ r) =
        .ok (r, 0x10730002) by rw [readU32_writeU32]; norm_num)]
    rfl
  | uart1InprotRtcm3x =>
    rw [show valueKeyWrite .uart1InprotRtcm3x = writeU32 0x10730004 from rfl,
      valueKeyRead_step _ _ _ (show readU32 (writeU32 0x10730004 ++ r) =
        .ok (r, 0x10730004) by rw [readU32_writeU32]; norm_num)]
    rfl
  | uart1OutprotUbx =>
    rw [show valueKeyWrite .uart1OutprotUbx = writeU32 0x10740001 from rfl,
      valueKeyRead_step _ _ _ (show readU32 (writeU32 0x10740001 ++ r) =
        .ok (r, 0x10740001) by rw [readU32_writeU32]; norm_num)]
    rfl
  | uart1OutprotNmea =>
    rw [show valueKeyWrite .uart1OutprotNmea = writeU32 0x10740002 from rfl,
      valueKeyRead_step _ _ _ (show readU32 (writeU32 0x10740002 ++ r) =
        .ok (r, 0x10740002) by rw [readU32_writeU32]; norm_num)]
    rfl
  | uart1OutprotRtcm3x =>
    rw [show valueKeyWrite .uart1OutprotRtcm3x = writeU32 0x10740004 from rfl,
      valueKeyRead_step _ _ _ (show readU32 (writeU32 0x10740004 ++ r) =
        .ok (r, 0x10740004) by rw [readU32_writeU32]; norm_num)]
    rfl
  | uart2InprotUbx =>
    rw [show valueKeyWrite .uart2InprotUbx = writeU32 0x10750001 from rfl,
      valueKeyRead_step _ _ _ (show readU32 (writeU32 0x10750001 ++ r) =
        .ok (r, 0x10750001) by rw [readU32_writeU32]; norm_num)]
    rfl
  | uart2InprotNmea =>
    rw [show valueKeyWrite .uart2InprotNmea = writeU32 0x10750002 from rfl,
      valueKeyRead_step _ _ _ (show readU32 (writeU32 0x10750002 ++ r) =
        .ok (r, 0x10750002) by rw [readU32_writeU32]; norm_num)]
    rfl
  | uart2InprotRtcm3x =>
    rw [show valueKeyWrite .uart2InprotRtcm3x = writeU32 0x10750004 from rfl,
      valueKeyRead_step _ _ _ (show readU32 (writeU32 0x10750004 ++ r) =
        .ok (r, 0x10750004) by rw [readU32_writeU32]; norm_num)]
    rfl
  | uart2OutprotUbx =>
    rw [show valueKeyWrite .uart2OutprotUbx = writeU32 0x10760001 from rfl,
      valueKeyRead_step _ _ _ (show readU32 (writeU32 0x10760001 ++ r) =
        .ok (r, 0x10760001) by rw [readU32_writeU32]; norm_num)]
    rfl
  | uart2OutprotNmea =>
    rw [show valueKeyWrite .uart2OutprotNmea = writeU32 0x10760002 from rfl,
      valueKeyRead_step _ _ _ (show readU32 (writeU32 0x10760002 ++ r) =
        .ok (r, 0x10760002) by rw [readU32_writeU32]; norm_num)]
    rfl
  | uart2OutprotRtcm3x =>
    rw [show valueKeyWrite .uart2OutprotRtcm3x = writeU32 0x10760004 from rfl,
      valueKeyRead_step _ _ _ (show readU32 (writeU32 0x10760004 ++ r) =
        .ok (r, 0x10760004) by rw [readU32_writeU32]; norm_num)]
    rfl
  | uart1Baudrate =>
    rw [show valueKeyWrite .uart1Baudrate = writeU32 0x40520001 from rfl,
      valueKeyRead_step _ _ _ (show readU32 (writeU32 0x40520001 ++ r) =
        .ok (r, 0x40520001) by rw [readU32_writeU32]; norm_num)]
    rfl
  | uart1StopBits =>
    rw [show valueKeyWrite .uart1StopBits = writeU32 0x20520002 from rfl,
      valueKeyRead_step _ _ _ (show readU32 (writeU32 0x20520002 ++ r) =
        .ok (r, 0x20520002) by rw [readU32_writeU32]; norm_num)]
    rfl
  | uart1Databits =>
    rw [show valueKeyWrite .uart1Databits = writeU32 0x20520003 from rfl,
      valueKeyRead_step _ _ _ (show readU32 (writeU32 0x20520003 ++ r) =
        .ok (r, 0x20520003) by rw [readU32_writeU32]; norm_num)]
    rfl
  | uart1Parity =>
    rw [show valueKeyWrite .uart1Parity = writeU32 0x20520004 from rfl,
      valueKeyRead_step _ _ _ (show readU32 (writeU32 0x20520004 ++ r) =
        .ok (r, 0x20520004) by rw [readU32_writeU32]; norm_num)]
    rfl
  | uart1Enabled =>
    rw [show valueKeyWrite .uart1Enabled = writeU32 0x20520005 from rfl,
      valueKeyRead_step _ _ _ (show readU32 (writeU32 0x20520005 ++ r) =
        .ok (r, 0x20520005) by rw [readU32_writeU32]; norm_num)]
    rfl
  | uart2Baudrate =>
    rw [show valueKeyWrite .uart2Baudrate = writeU32 0x40530001 from rfl,
      valueKeyRead_step _ _ _ (show readU32 (writeU32 0x40530001 ++ r) =
        .ok (r, 0x40530001) by rw [readU32_writeU32]; norm_num)]
    rfl
  | uart2StopBits =>
    rw [show valueKeyWrite .uart2StopBits = writeU32 0x20530002 from rfl,
      valueKeyRead_step _ _ _ (show readU32 (writeU32 0x20530002 ++ r) =
        .ok (r, 0x20530002) by rw [readU32_writeU32]; norm_num)]
    rfl
  | uart2Databits =>
    rw [show valueKeyWrite .uart2Databits = writeU32 0x20530003 from rfl,
      valueKeyRead_step _ _ _ (show readU32 (writeU32 0x20530003 ++ r) =
        .ok (r, 0x20530003) by rw [readU32_writeU32]; norm_num)]
    rfl
  | uart2Parity =>
    rw [show valueKeyWrite .uart2Parity = writeU32 0x20530004 from rfl,
      valueKeyRead_step _ _ _ (show readU32 (writeU32 0x20530004 ++ r) =
        .ok (r, 0x20530004) by rw [readU32_writeU32]; norm_num)]
    rfl
  | uart2Enabled =>
    rw [show valueKeyWrite .uart2Enabled = writeU32 0x20530005 from rfl,
      valueKeyRead_step _ _ _ (show readU32 (writeU32 0x20530005 ++ r) =
        .ok (r, 0x20530005) by rw [readU32_writeU32]; norm_num)]
    rfl
  | uart2Remap =>
    rw [show valueKeyWrite .uart2Remap = writeU32 0x20530006 from rfl,
      valueKeyRead_step _ _ _ (show readU32 (writeU32 0x20530006 ++ r) =
        .ok (r, 0x20530006) by rw [readU32_writeU32]; norm_num)]
    rfl
  | infmsgUbxUart1 =>
    rw [show valueKeyWrite .infmsgUbxUart1 = writeU32 0x20920002 from rfl,
      valueKeyRead_step _ _ _ (show readU32 (writeU32 0x20920002 ++ r) =
        .ok (r, 0x20920002) by rw [readU32_writeU32]; norm_num)]
    rfl
  | infmsgUbxUart2 =>
    rw [show valueKeyWrite .infmsgUbxUart2 = writeU32 0x20920003 from rfl,
      valueKeyRead_step _ _ _ (show readU32 (writeU32 0x20920003 ++ r) =
        .ok (r, 0x20920003) by rw [readU32_writeU32]; norm_num)]
    rfl
  | infmsgUbxUsb =>
    rw [show valueKeyWrite .infmsgUbxUsb = writeU32 0x20920004 from rfl,
      valueKeyRead_step _ _ _ (show readU32 (writeU32 0x20920004 ++ r) =
        .ok (r, 0x20920004) by rw [readU32_writeU32]; norm_num)]
    rfl
  | infmsgNmeaUart1 =>
    rw [show valueKeyWrite .infmsgNmeaUart1 = writeU32 0x20920007 from rfl,
      valueKeyRead_step _ _ _ (show readU32 (writeU32 0x20920007 ++ r) =
        .ok (r, 0x20920007) by rw [readU32_writeU32]; norm_num)]
    rfl
  | infmsgNmeaUart2 =>
    rw [show valueKeyWrite .infmsgNmeaUart2 = writeU32 0x20920008 from rfl,
      valueKeyRead_step _ _ _ (show readU32 (writeU32 0x20920008 ++ r) =
        .ok (r, 0x20920008) by rw [readU32_writeU32]; norm_num)]
    rfl
  | infmsgNmeaUsb =>
    rw [show valueKeyWrite .infmsgNmeaUsb = writeU32 0x20920009 from rfl,
      valueKeyRead_step _ _ _ (show readU32 (writeU32 0x20920009 ++ r) =
        .ok (r, 0x20920009) by rw [readU32_writeU32]; norm_num)]
    rfl
  | msgoutRtcm3xType1005Usb =>
    rw [show valueKeyWrite .msgoutRtcm3xType1005Usb = writeU32 0x209102c0 from rfl,
      valueKeyRead_step _ _ _ (show readU32 (writeU32 0x209102c0 ++ r) =
        .ok (r, 0x209102c0) by rw [readU32_writeU32]; norm_num)]
    rfl
  | msgoutRtcm3xType1074Usb =>
    rw [show valueKeyWrite .msgoutRtcm3xType1074Usb = writeU32 0x20910361 from rfl,
      valueKeyRead_step _ _ _ (show readU32 (writeU32 0x20910361 ++ r) =
        .ok (r, 0x20910361) by rw [readU32_writeU32]; norm_num)]
    rfl
  | msgoutRtcm3xType1077Usb =>
    rw [show valueKeyWrite .msgoutRtcm3xType1077Usb = writeU32 0x209102cf from rfl,
      valueKeyRead_step _ _ _ (show readU32 (writeU32 0x209102cf ++ r) =
        .ok (r, 0x209102cf) by rw [readU32_writeU32]; norm_num)]
    rfl
  | msgoutRtcm3xType1084Usb =>
    rw [show valueKeyWrite .msgoutRtcm3xType1084Usb = writeU32 0x20910366 from rfl,
      valueKeyRead_step _ _ _ (show readU32 (writeU32 0x20910366 ++ r) =
        .ok (r, 0x20910366) by rw [readU32_writeU32]; norm_num)]
    rfl
  | msgoutRtcm3xType1087Usb =>
    rw [show valueKeyWrite .msgoutRtcm3xType1087Usb = writeU32 0x209102d4 from rfl,
      valueKeyRead_step _ _ _ (show readU32 (writeU32 0x209102d4 ++ r) =
        .ok (r, 0x209102d4) by rw [readU32_writeU32]; norm_num)]
    rfl
  | msgoutRtcm3xType1094Usb =>
    rw [show valueKeyWrite .msgoutRtcm3xType1094Usb = writeU32 0x2091036b from rfl,
      valueKeyRead_step _ _ _ (show readU32 (writeU32 0x2091036b ++ r) =
        .ok (r, 0x2091036b) by rw [readU32_writeU32]; norm_num)]
    rfl
  | msgoutRtcm3xType1097Usb =>
    rw [show valueKeyWrite .msgoutRtcm3xType1097Usb = writeU32 0x2091031b from rfl,
      valueKeyRead_step _ _ _ (show readU32 (writeU32 0x2091031b ++ r) =
        .ok (r, 0x2091031b) by rw [readU32_writeU32]; norm_num)]
    rfl
  | msgoutRtcm3xType1124Usb =>
    rw [show valueKeyWrite .msgoutRtcm3xType1124Usb = writeU32 0x20910370 from rfl,
      valueKeyRead_step _ _ _ (show readU32 (writeU32 0x20910370 ++ r) =
        .ok (r, 0x20910370) by rw [readU32_writeU32]; norm_num)]
    rfl
  | msgoutRtcm3xType1127Usb =>
    rw [show valueKeyWrite .msgoutRtcm3xType1127Usb = writeU32 0x209102d9 from rfl,
      valueKeyRead_step _ _ _ (show readU32 (writeU32 0x209102d9 ++ r) =
        .ok (r, 0x209102d9) by rw [readU32_writeU32]; norm_num)]
    rfl
  | msgoutRtcm3xType1230Usb =>
    rw [show valueKeyWrite .msgoutRtcm3xType1230Usb = writeU32 0x20910306 from rfl,
      valueKeyRead_step _ _ _ (show readU32 (writeU32 0x20910306 ++ r) =
        .ok (r, 0x20910306) by rw [readU32_writeU32]; norm_num)]
    rfl
  | msgoutRtcm3xType4072_0Usb =>
    rw [show valueKeyWrite .msgoutRtcm3xType4072_0Usb = writeU32 0x20910301 from rfl,
      valueKeyRead_step _ _ _ (show readU32 (writeU32 0x20910301 ++ r) =
        .ok (r, 0x20910301) by rw [readU32_writeU32]; norm_num)]
    rfl
  | msgoutRtcm3xType4072_1Usb =>
    rw [show valueKeyWrite .msgoutRtcm3xType4072_1Usb = writeU32 0x20910384 from rfl,
      valueKeyRead_step _ _ _ (show readU32 (writeU32 0x20910384 ++ r) =
        .ok (r, 0x20910384) by rw [readU32_writeU32]; norm_num)]
    rfl
  | msgoutUbxLogInfoUsb =>
    rw [show valueKeyWrite .msgoutUbxLogInfoUsb = writeU32 0x2091025b from rfl,
      valueKeyRead_step _ _ _ (show readU32 (writeU32 0x2091025b ++ r) =
        .ok (r, 0x2091025b) by rw [readU32_writeU32]; norm_num)]
    rfl
  | msgoutUbxMonHw2Usb =>
    rw [show valueKeyWrite .msgoutUbxMonHw2Usb = writeU32 0x209101bc from rfl,
      valueKeyRead_step _ _ _ (show readU32 (writeU32 0x209101bc ++ r) =
        .ok (r, 0x209101bc) by rw [readU32_writeU32]; norm_num)]
    rfl
  | msgoutUbxMonHw3Usb =>
    rw [show valueKeyWrite .msgoutUbxMonHw3Usb = writeU32 0x20910357 from rfl,
      valueKeyRead_step _ _ _ (show readU32 (writeU32 0x20910357 ++ r) =
        .ok (r, 0x20910357) by rw [readU32_writeU32]; norm_num)]
    rfl
  | msgoutUbxMonHwUsb =>
    rw [show valueKeyWrite .msgoutUbxMonHwUsb = writeU32 0x209101b7 from rfl,
      valueKeyRead_step _ _ _ (show readU32 (writeU32 0x209101b7 ++ r) =
        .ok (r, 0x209101b7) by rw [readU32_writeU32]; norm_num)]
    rfl
  | msgoutUbxMonIoUsb =>
    rw [show valueKeyWrite .msgoutUbxMonIoUsb = writeU32 0x209101a8 from rfl,
      valueKeyRead_step _ _ _ (show readU32 (writeU32 0x209101a8 ++ r) =
        .ok (r, 0x209101a8) by rw [readU32_writeU32]; norm_num)]
    rfl
  | msgoutUbxMonCommsUsb =>
    rw [show valueKeyWrite .msgoutUbxMonCommsUsb = writeU32 0x20910352 from rfl,
      valueKeyRead_step _ _ _ (show readU32 (writeU32 0x20910352 ++ r) =
        .ok (r, 0x20910352) by rw [readU32_writeU32]; norm_num)]
    rfl
  | msgoutUbxMonMsgppUsb =>
    rw [show valueKeyWrite .msgoutUbxMonMsgppUsb = writeU32 0x20910199 from rfl,
      valueKeyRead_step _ _ _ (show readU32 (writeU32 0x20910199 ++ r) =
        .ok (r, 0x20910199) by rw [readU32_writeU32]; norm_num)]
    rfl
  | msgoutUbxMonRfUsb =>
    rw [show valueKeyWrite .msgoutUbxMonRfUsb = writeU32 0x2091035c from rfl,
      valueKeyRead_step _ _ _ (show readU32 (writeU32 0x2091035c ++ r) =
        .ok (r, 0x2091035c) by rw [readU32_writeU32]; norm_num)]
    rfl
  | msgoutUbxMonRxbufUsb =>
    rw [show valueKeyWrite .msgoutUbxMonRxbufUsb = writeU32 0x209101a3 from rfl,
      valueKeyRead_step _ _ _ (show readU32 (writeU32 0x209101a3 ++ r) =
        .ok (r, 0x209101a3) by rw [readU32_writeU32]; norm_num)]
    rfl
  | msgoutUbxMonRxrUsb =>
    rw [show valueKeyWrite .msgoutUbxMonRxrUsb = writeU32 0x2091018a from rfl,
      valueKeyRead_step _ _ _ (show readU32 (writeU32 0x2091018a ++ r) =
        .ok (r, 0x2091018a) by rw [readU32_writeU32]; norm_num)]
    rfl
  | msgoutUbxMonTxbufUsb =>
    rw [show valueKeyWrite .msgoutUbxMonTxbufUsb = writeU32 0x2091019e from rfl,
      valueKeyRead_step _ _ _ (show readU32 (writeU32 0x2091019e ++ r) =
        .ok (r, 0x2091019e) by rw [readU32_writeU32]; norm_num)]
    rfl
  | msgoutUbxNavClockUsb =>
    rw [show valueKeyWrite .msgoutUbxNavClockUsb = writeU32 0x20910068 from rfl,
      valueKeyRead_step _ _ _ (show readU32 (writeU32 0x20910068 ++ r) =
        .ok (r, 0x20910068) by rw [readU32_writeU32]; norm_num)]
    rfl
  | msgoutUbxNavDopUsb =>
    rw [show valueKeyWrite .msgoutUbxNavDopUsb = writeU32 0x2091003b from rfl,
      valueKeyRead_step _ _ _ (show readU32 (writeU32 0x2091003b ++ r) =
        .ok (r, 0x2091003b) by rw [readU32_writeU32]; norm_num)]
    rfl
  | msgoutUbxNavEoeUsb =>
    rw [show valueKeyWrite .msgoutUbxNavEoeUsb = writeU32 0x20910162 from rfl,
      valueKeyRead_step _ _ _ (show readU32 (writeU32 0x20910162 ++ r) =
        .ok (r, 0x20910162) by rw [readU32_writeU32]; norm_num)]
    rfl
  | msgoutUbxNavHpposecefUsb =>
    rw [show valueKeyWrite .msgoutUbxNavHpposecefUsb = writeU32 0x20910031 from rfl,
      valueKeyRead_step _ _ _ (show readU32 (writeU32 0x20910031 ++ r) =
        .ok (r, 0x20910031) by rw [readU32_writeU32]; norm_num)]
    rfl
  | msgoutUbxNavHpposllhUsb =>
    rw [show valueKeyWrite .msgoutUbxNavHpposllhUsb = writeU32 0x20910036 from rfl,
      valueKeyRead_step _ _ _ (show readU32 (writeU32 0x20910036 ++ r) =
        .ok (r, 0x20910036) by rw [readU32_writeU32]; norm_num)]
    rfl
  | msgoutUbxNavOdoUsb =>
    rw [show valueKeyWrite .msgoutUbxNavOdoUsb = writeU32 0x20910081 from rfl,
      valueKeyRead_step _ _ _ (show readU32 (writeU32 0x20910081 ++ r) =
        .ok (r, 0x20910081) by rw [readU32_writeU32]; norm_num)]
    rfl
  | msgoutUbxNavOrbUsb =>
    rw [show valueKeyWrite .msgoutUbxNavOrbUsb = writeU32 0x20910013 from rfl,
      valueKeyRead_step _ _ _ (show readU32 (writeU32 0x20910013 ++ r) =
        .ok (r, 0x20910013) by rw [readU32_writeU32]; norm_num)]
    rfl
  | msgoutUbxNavPosecefUsb =>
    rw [show valueKeyWrite .msgoutUbxNavPosecefUsb = writeU32 0x20910027 from rfl,
      valueKeyRead_step _ _ _ (show readU32 (writeU32 0x20910027 ++ r) =
        .ok (r, 0x20910027) by rw [readU32_writeU32]; norm_num)]
    rfl
  | msgoutUbxNavPosllhUsb =>
    rw [show valueKeyWrite .msgoutUbxNavPosllhUsb = writeU32 0x2091002c from rfl,
      valueKeyRead_step _ _ _ (show readU32 (writeU32 0x2091002c ++ r) =
        .ok (r, 0x2091002c) by rw [readU32_writeU32]; norm_num)]
    rfl
  | msgoutUbxNavPvtUsb =>
    rw [show valueKeyWrite .msgoutUbxNavPvtUsb = writeU32 0x20910009 from rfl,
      valueKeyRead_step _ _ _ (show readU32 (writeU32 0x20910009 ++ r) =
        .ok (r, 0x20910009) by rw [readU32_writeU32]; norm_num)]
    rfl
  | msgoutUbxNavRelPosNedUsb =>
    rw [show valueKeyWrite .msgoutUbxNavRelPosNedUsb = writeU32 0x20910090 from rfl,
      valueKeyRead_step _ _ _ (show readU32 (writeU32 0x20910090 ++ r) =
        .ok (r, 0x20910090) by rw [readU32_writeU32]; norm_num)]
    rfl
  | msgoutUbxNavSatUsb =>
    rw [show valueKeyWrite .msgoutUbxNavSatUsb = writeU32 0x20910018 from rfl,
      valueKeyRead_step _ _ _ (show readU32 (writeU32 0x20910018 ++ r) =
        .ok (r, 0x20910018) by rw [readU32_writeU32]; norm_num)]
    rfl
  | msgoutUbxNavSigUsb =>
    rw [show valueKeyWrite .msgoutUbxNavSigUsb = writeU32 0x20910348 from rfl,
      valueKeyRead_step _ _ _ (show readU32 (writeU32 0x20910348 ++ r) =
        .ok (r, 0x20910348) by rw [readU32_writeU32]; norm_num)]
    rfl
  | msgoutUbxNavStatusUsb =>
    rw [show valueKeyWrite .msgoutUbxNavStatusUsb = writeU32 0x2091001d from rfl,
      valueKeyRead_step _ _ _ (show readU32 (writeU32 0x2091001d ++ r) =
        .ok (r, 0x2091001d) by rw [readU32_writeU32]; norm_num)]
    rfl
  | msgoutUbxNavSvinUsb =>
    rw [show valueKeyWrite .msgoutUbxNavSvinUsb = writeU32 0x2091008b from rfl,
      valueKeyRead_step _ _ _ (show readU32 (writeU32 0x2091008b ++ r) =
        .ok (r, 0x2091008b) by rw [readU32_writeU32]; norm_num)]
    rfl
  | msgoutUbxNavTimebdsUsb =>
    rw [show valueKeyWrite .msgoutUbxNavTimebdsUsb = writeU32 0x20910054 from rfl,
      valueKeyRead_step _ _ _ (show readU32 (writeU32 0x20910054 ++ r) =
        .ok (r, 0x20910054) by rw [readU32_writeU32]; norm_num)]
    rfl
  | msgoutUbxNavTimegalUsb =>
    rw [show valueKeyWrite .msgoutUbxNavTimegalUsb = writeU32 0x20910059 from rfl,
      valueKeyRead_step _ _ _ (show readU32 (writeU32 0x20910059 ++ r) =
        .ok (r, 0x20910059) by rw [readU32_writeU32]; norm_num)]
    rfl
  | msgoutUbxNavTimegloUsb =>
    rw [show valueKeyWrite .msgoutUbxNavTimegloUsb = writeU32 0x2091004f from rfl,
      valueKeyRead_step _ _ _ (show readU32 (writeU32 0x2091004f ++ r) =
        .ok (r, 0x2091004f) by rw [readU32_writeU32]; norm_num)]
    rfl
  | msgoutUbxNavTimegpsUsb =>
    rw [show valueKeyWrite .msgoutUbxNavTimegpsUsb = writeU32 0x2091004a from rfl,
      valueKeyRead_step _ _ _ (show readU32 (writeU32 0x2091004a ++ r) =
        .ok (r, 0x2091004a) by rw [readU32_writeU32]; norm_num)]
    rfl
  | msgoutUbxNavTimelsUsb =>
    rw [show valueKeyWrite .msgoutUbxNavTimelsUsb = writeU32 0x20910063 from rfl,
      valueKeyRead_step _ _ _ (show readU32 (writeU32 0x20910063 ++ r) =
        .ok (r, 0x20910063) by rw [readU32_writeU32]; norm_num)]
    rfl
  | msgoutUbxNavTimeutcUsb =>
    rw [show valueKeyWrite .msgoutUbxNavTimeutcUsb = writeU32 0x2091005e from rfl,
      valueKeyRead_step _ _ _ (show readU32 (writeU32 0x2091005e ++ r) =
        .ok (r, 0x2091005e) by rw [readU32_writeU32]; norm_num)]
    rfl
  | msgoutUbxNavVelecefUsb =>
    rw [show valueKeyWrite .msgoutUbxNavVelecefUsb = writeU32 0x20910040 from rfl,
      valueKeyRead_step _ _ _ (show readU32 (writeU32 0x20910040 ++ r) =
        .ok (r, 0x20910040) by rw [readU32_writeU32]; norm_num)]
    rfl
  | msgoutUbxNavVelnedUsb =>
    rw [show valueKeyWrite .msgoutUbxNavVelnedUsb = writeU32 0x20910045 from rfl,
      valueKeyRead_step _ _ _ (show readU32 (writeU32 0x20910045 ++ r) =
        .ok (r, 0x20910045) by rw [readU32_writeU32]; norm_num)]
    rfl
  | msgoutUbxRxmMeasxUsb =>
    rw [show valueKeyWrite .msgoutUbxRxmMeasxUsb = writeU32 0x20910207 from rfl,
      valueKeyRead_step _ _ _ (show readU32 (writeU32 0x20910207 ++ r) =
        .ok (r, 0x20910207) by rw [readU32_writeU32]; norm_num)]
    rfl
  | msgoutUbxRxmRawxUsb =>
    rw [show valueKeyWrite .msgoutUbxRxmRawxUsb = writeU32 0x209102a7 from rfl,
      valueKeyRead_step _ _ _ (show readU32 (writeU32 0x209102a7 ++ r) =
        .ok (r, 0x209102a7) by rw [readU32_writeU32]; norm_num)]
    rfl
  | msgoutUbxRxmRlmUsb =>
    rw [show valueKeyWrite .msgoutUbxRxmRlmUsb = writeU32 0x20910261 from rfl,
      valueKeyRead_step _ _ _ (show readU32 (writeU32 0x20910261 ++ r) =
        .ok (r, 0x20910261) by rw [readU32_writeU32]; norm_num)]
    rfl
  | msgoutUbxRxmRtcmUsb =>
    rw [show valueKeyWrite .msgoutUbxRxmRtcmUsb = writeU32 0x2091026b from rfl,
      valueKeyRead_step _ _ _ (show readU32 (writeU32 0x2091026b ++ r) =
        .ok (r, 0x2091026b) by rw [readU32_writeU32]; norm_num)]
    rfl
  | msgoutUbxRxmSfrbxUsb =>
    rw [show valueKeyWrite .msgoutUbxRxmSfrbxUsb = writeU32 0x20910234 from rfl,
      valueKeyRead_step _ _ _ (show readU32 (writeU32 0x20910234 ++ r) =
        .ok (r, 0x20910234) by rw [readU32_writeU32]; norm_num)]
    rfl
  | odoUseOdo =>
    rw [show valueKeyWrite .odoUseOdo = writeU32 0x10220001 from rfl,
      valueKeyRead_step _ _ _ (show readU32 (writeU32 0x10220001 ++ r) =
        .ok (r, 0x10220001) by rw [readU32_writeU32]; norm_num)]
    rfl
  | odoUseCog =>
    rw [show valueKeyWrite .odoUseCog = writeU32 0x10220002 from rfl,
      valueKeyRead_step _ _ _ (show readU32 (writeU32 0x10220002 ++ r) =
        .ok (r, 0x10220002) by rw [readU32_writeU32]; norm_num)]
    rfl
  | odoOutlpvel =>
    rw [show valueKeyWrite .odoOutlpvel = writeU32 0x10220003 from rfl,
      valueKeyRead_step _ _ _ (show readU32 (writeU32 0x10220003 ++ r) =
        .ok (r, 0x10220003) by rw [readU32_writeU32]; norm_num)]
    rfl
  | odoOutlpcog =>
    rw [show valueKeyWrite .odoOutlpcog = writeU32 0x10220004 from rfl,
      valueKeyRead_step _ _ _ (show readU32 (writeU32 0x10220004 ++ r) =
        .ok (r, 0x10220004) by rw [readU32_writeU32]; norm_num)]
    rfl
  | odoProfile =>
    rw [show valueKeyWrite .odoProfile = writeU32 0x20220005 from rfl,
      valueKeyRead_step _ _ _ (show readU32 (writeU32 0x20220005 ++ r) =
        .ok (r, 0x20220005) by rw [readU32_writeU32]; norm_num)]
    rfl
  | odoCogmaxspeed =>
    rw [show valueKeyWrite .odoCogmaxspeed = writeU32 0x20220021 from rfl,
      valueKeyRead_step _ _ _ (show readU32 (writeU32 0x20220021 ++ r) =
        .ok (r, 0x20220021) by rw [readU32_writeU32]; norm_num)]
    rfl
  | odoCogmaxposacc =>
    rw [show valueKeyWrite .odoCogmaxposacc = writeU32 0x20220022 from rfl,
      valueKeyRead_step _ _ _ (show readU32 (writeU32 0x20220022 ++ r) =
        .ok (r, 0x20220022) by rw [readU32_writeU32]; norm_num)]
    rfl
  | odoVellpgain =>
    rw [show valueKeyWrite .odoVellpgain = writeU32 0x20220031 from rfl,
      valueKeyRead_step _ _ _ (show readU32 (writeU32 0x20220031 ++ r) =
        .ok (r, 0x20220031) by rw [readU32_writeU32]; norm_num)]
    rfl
  | odoCoglpgain =>
    rw [show valueKeyWrite .odoCoglpgain = writeU32 0x20220032 from rfl,
      valueKeyRead_step _ _ _ (show readU32 (writeU32 0x20220032 ++ r) =
        .ok (r, 0x20220032) by rw [readU32_writeU32]; norm_num)]
    rfl
  | navhpgDgnssmode =>
    rw [show valueKeyWrite .navhpgDgnssmode = writeU32 0x20140011 from rfl,
      valueKeyRead_step _ _ _ (show readU32 (writeU32 0x20140011 ++ r) =
        .ok (r, 0x20140011) by rw [readU32_writeU32]; norm_num)]
    rfl
  | tmodeMode =>
    rw [show valueKeyWrite .tmodeMode = writeU32 0x20030001 from rfl,
      valueKeyRead_step _ _ _ (show readU32 (writeU32 0x20030001 ++ r) =
        .ok (r, 0x20030001) by rw [readU32_writeU32]; norm_num)]
    rfl
  | tmodePosType =>
    rw [show valueKeyWrite .tmodePosType = writeU32 0x20030002 from rfl,
      valueKeyRead_step _ _ _ (show readU32 (writeU32 0x20030002 ++ r) =
        .ok (r, 0x20030002) by rw [readU32_writeU32]; norm_num)]
    rfl
  | tmodeEcefX =>
    rw [show valueKeyWrite .tmodeEcefX = writeU32 0x20030003 from rfl,
      valueKeyRead_step _ _ _ (show readU32 (writeU32 0x20030003 ++ r) =
        .ok (r, 0x20030003) by rw [readU32_writeU32]; norm_num)]
    rfl
  | tmodeEcefY =>
    rw [show valueKeyWrite .tmodeEcefY = writeU32 0x20030004 from rfl,
      valueKeyRead_step _ _ _ (show readU32 (writeU32 0x20030004 ++ r) =
        .ok (r, 0x20030004) by rw [readU32_writeU32]; norm_num)]
    rfl
  | tmodeEcefZ =>
    rw [show valueKeyWrite .tmodeEcefZ = writeU32 0x20030005 from rfl,
      valueKeyRead_step _ _ _ (show readU32 (writeU32 0x20030005 ++ r) =
        .ok (r, 0x20030005) by rw [readU32_writeU32]; norm_num)]
    rfl
  | tmodeEcefXHp =>
    rw [show valueKeyWrite .tmodeEcefXHp = writeU32 0x20030006 from rfl,
      valueKeyRead_step _ _ _ (show readU32 (writeU32 0x20030006 ++ r) =
        .ok (r, 0x20030006) by rw [readU32_writeU32]; norm_num)]
    rfl
  | tmodeEcefYHp =>
    rw [show valueKeyWrite .tmodeEcefYHp = writeU32 0x20030007 from rfl,
      valueKeyRead_step _ _ _ (show readU32 (writeU32 0x20030007 ++ r) =
        .ok (r, 0x20030007) by rw [readU32_writeU32]; norm_num)]
    rfl
  | tmodeEcefZHp =>
    rw [show valueKeyWrite .tmodeEcefZHp = writeU32 0x20030008 from rfl,
      valueKeyRead_step _ _ _ (show readU32 (writeU32 0x20030008 ++ r) =
        .ok (r, 0x20030008) by rw [readU32_writeU32]; norm_num)]
    rfl
  | tmodeFixedPosAcc =>
    rw [show valueKeyWrite .tmodeFixedPosAcc = writeU32 0x4003000f from rfl,
      valueKeyRead_step _ _ _ (show readU32 (writeU32 0x4003000f ++ r) =
        .ok (r, 0x4003000f) by rw [readU32_writeU32]; norm_num)]
    rfl
  | tmodeSvinMinDur =>
    rw [show valueKeyWrite .tmodeSvinMinDur = writeU32 0x40030010 from rfl,
      valueKeyRead_step _ _ _ (show readU32 (writeU32 0x40030010 ++ r) =
        .ok (r, 0x40030010) by rw [readU32_writeU32]; norm_num)]
    rfl
  | tmodeSvinAccLimit =>
    rw [show valueKeyWrite .tmodeSvinAccLimit = writeU32 0x40030011 from rfl,
      valueKeyRead_step _ _ _ (show readU32 (writeU32 0x40030011 ++ r) =
        .ok (r, 0x40030011) by rw [readU32_writeU32]; norm_num)]
    rfl
  | signalGpsEna =>
    rw [show valueKeyWrite .signalGpsEna = writeU32 0x1031001f from rfl,
      valueKeyRead_step _ _ _ (show readU32 (writeU32 0x1031001f ++ r) =
        .ok (r, 0x1031001f) by rw [readU32_writeU32]; norm_num)]
    rfl
  | signalGpsL1caEna =>
    rw [show valueKeyWrite .signalGpsL1caEna = writeU32 0x10310001 from rfl,
      valueKeyRead_step _ _ _ (show readU32 (writeU32 0x10310001 ++ r) =
        .ok (r, 0x10310001) by rw [readU32_writeU32]; norm_num)]
    rfl
  | signalGpsL2cEna =>
    rw [show valueKeyWrite .signalGpsL2cEna = writeU32 0x10310003 from rfl,
      valueKeyRead_step _ _ _ (show readU32 (writeU32 0x10310003 ++ r) =
        .ok (r, 0x10310003) by rw [readU32_writeU32]; norm_num)]
    rfl
  | signalGalEna =>
    rw [show valueKeyWrite .signalGalEna = writeU32 0x10310021 from rfl,
      valueKeyRead_step _ _ _ (show readU32 (writeU32 0x10310021 ++ r) =
        .ok (r, 0x10310021) by rw [readU32_writeU32]; norm_num)]
    rfl
  | signalGalE1Ena =>
    rw [show valueKeyWrite .signalGalE1Ena = writeU32 0x10310007 from rfl,
      valueKeyRead_step _ _ _ (show readU32 (writeU32 0x10310007 ++ r) =
        .ok (r, 0x10310007) by rw [readU32_writeU32]; norm_num)]
    rfl
  | signalGalE5bEna =>
    rw [show valueKeyWrite .signalGalE5bEna = writeU32 0x1031000a from rfl,
      valueKeyRead_step _ _ _ (show readU32 (writeU32 0x1031000a ++ r) =
        .ok (r, 0x1031000a) by rw [readU32_writeU32]; norm_num)]
    rfl
  | signalBdsEna =>
    rw [show valueKeyWrite .signalBdsEna = writeU32 0x10310022 from rfl,
      valueKeyRead_step _ _ _ (show readU32 (writeU32 0x10310022 ++ r) =
        .ok (r, 0x10310022) by rw [readU32_writeU32]; norm_num)]
    rfl
  | signalBdsB1Ena =>
    rw [show valueKeyWrite .signalBdsB1Ena = writeU32 0x1031000d from rfl,
      valueKeyRead_step _ _ _ (show readU32 (writeU32 0x1031000d ++ r) =
        .ok (r, 0x1031000d) by rw [readU32_writeU32]; norm_num)]
    rfl
  | signalBdsB2Ena =>
    rw [show valueKeyWrite .signalBdsB2Ena = writeU32 0x1031000e from rfl,
      valueKeyRead_step _ _ _ (show readU32 (writeU32 0x1031000e ++ r) =
        .ok (r, 0x1031000e) by rw [readU32_writeU32]; norm_num)]
    rfl
  | signalQzssEna =>
    rw [show valueKeyWrite .signalQzssEna = writeU32 0x10310024 from rfl,
      valueKeyRead_step _ _ _ (show readU32 (writeU32 0x10310024 ++ r) =
        .ok (r, 0x10310024) by rw [readU32_writeU32]; norm_num)]
    rfl
  | signalQzssL1caEna =>
    rw [show valueKeyWrite .signalQzssL1caEna = writeU32 0x10310012 from rfl,
      valueKeyRead_step _ _ _ (show readU32 (writeU32 0x10310012 ++ r) =
        .ok (r, 0x10310012) by rw [readU32_writeU32]; norm_num)]
    rfl
  | signalQzssL2cEna =>
    rw [show valueKeyWrite .signalQzssL2cEna = writeU32 0x10310015 from rfl,
      valueKeyRead_step _ _ _ (show readU32 (writeU32 0x10310015 ++ r) =
        .ok (r, 0x10310015) by rw [readU32_writeU32]; norm_num)]
    rfl
  | signalGloEna =>
    rw [show valueKeyWrite .signalGloEna = writeU32 0x10310025 from rfl,
      valueKeyRead_step _ _ _ (show readU32 (writeU32 0x10310025 ++ r) =
        .ok (r, 0x10310025) by rw [readU32_writeU32]; norm_num)]
    rfl
  | signalGloL1Ena =>
    rw [show valueKeyWrite .signalGloL1Ena = writeU32 0x10310018 from rfl,
      valueKeyRead_step _ _ _ (show readU32 (writeU32 0x10310018 ++ r) =
        .ok (r, 0x10310018) by rw [readU32_writeU32]; norm_num)]
    rfl
  | signalGloL2Ena =>
    rw [show valueKeyWrite .signalGloL2Ena = writeU32 0x1031001a from rfl,
      valueKeyRead_step _ _ _ (show readU32 (writeU32 0x1031001a ++ r) =
        .ok (r, 0x1031001a) by rw [readU32_writeU32]; norm_num)]
    rfl

theorem valueWrite_ne_nil (v : Value) : valueWrite v ≠ [] := by
  cases v <;> simp [valueWrite, writeU32, leBytes]

theorem valueKeyWrite_ne_nil (k : ValueKey) : valueKeyWrite k ≠ [] := by
  cases k <;> simp [valueKeyWrite, writeU32, leBytes]

/-- Every catalogue payload is at most four bytes. -/
theorem valueSize_le (v : Value) : valueSize v ≤ 8 := by
  cases v <;> simp [valueSize]

/-! ## The configuration SET transaction (src/cmd/config.rs) -/

/-- `values.chunks(64)`: split a list into chunks of at most 64. -/
def chunks64 {α : Type} : List α → List (List α)
  | [] => []
  | x :: xs => (x :: xs).take 64 :: chunks64 ((x :: xs).drop 64)
termination_by l => l.length
decreasing_by
  simp only [List.length_drop, List.length_cons]
  omega

theorem chunks64_nil {α : Type} : chunks64 ([] : List α) = [] := by
  rw [chunks64]

theorem chunks64_cons {α : Type} (x : α) (xs : List α) :
    chunks64 (x :: xs) =
      (x :: xs).take 64 :: chunks64 ((x :: xs).drop 64) := by
  rw [chunks64]

/-- The per-chunk wait of `set`: the select loop resolves when the
transaction's completion fires (messages read meanwhile are only
logged). `ack n` is the completion outcome for the n-th CFG-VALSET sent:
true on ACK, false on NAK, none when the sender is dropped. The result
pairs the outcome of `set` with the number of VALSET messages sent.
As in the source, a chunk's ACK leads to `return Ok(())` — not to the
next chunk. -/
def setGo : List (List Value) → Nat → (Nat → Option Bool) →
    Except String Unit × Nat
  | [], n, _ => (.ok (), n)
  | _ :: _, n, ack =>
    if ack n = some false then (.error "config not ack'd", n + 1)
    else (.ok (), n + 1)

/-- `set`: partition the values into chunks of 64 and drive the
transaction loop. -/
def setRun (values : List Value) (ack : Nat → Option Bool) :
    Except String Unit × Nat :=
  setGo (chunks64 values) 0 ack

/-- C6: with 65 values there are two chunks, but `set` reports success
after the first chunk's ACK — the `else` branch of the ack arm returns
`Ok(())` from `set` instead of continuing with the next chunk — so only
one CFG-VALSET is ever sent, refuting the claim that success is
reported only after every chunk has been sent and acknowledged. -/
theorem c6_set_returns_after_first_acked_chunk :
    (chunks64 (List.replicate 65 (Value.rateMeas 0))).length = 2 ∧
    setRun (List.replicate 65 (Value.rateMeas 0)) (fun _ => some true) =
      (.ok (), 1) ∧
    (1 : Nat) ≠ 2 := by
  have h65 : List.replicate 65 (Value.rateMeas 0) =
      Value.rateMeas 0 :: List.replicate 64 (Value.rateMeas 0) := by
    rw [show (65 : Nat) = 64 + 1 from rfl, List.replicate_succ]
  have hchunks : chunks64 (List.replicate 65 (Value.rateMeas 0)) =
      List.replicate 64 (Value.rateMeas 0) ::
        chunks64 [Value.rateMeas 0] := by
    rw [h65, chunks64_cons, ← h65, List.take_replicate, List.drop_replicate]
    norm_num
  refine ⟨?_, ?_, by simp⟩
  · rw [hchunks, chunks64_cons]
    simp [chunks64_nil]
  · unfold setRun
    rw [hchunks]
    simp [setGo]

/-! ## The older CFG message writer (src/ubx/cfg.rs) -/

/-- `Layer` (`impl_enum!`): Ram = 0, Bbr = 1, Flash = 2, Default = 7. -/
inductive Layer where
  | ram
  | bbr
  | flash
  | default
deriving DecidableEq, Repr

def writeLayer : Layer → Bytes
  | .ram => [0]
  | .bbr => [1]
  | .flash => [2]
  | .default => [7]

def readLayer (b : Bytes) : PRes Layer :=
  match readU8 b with
  | .ok (r, 0) => .ok (r, .ram)
  | .ok (r, 1) => .ok (r, .bbr)
  | .ok (r, 2) => .ok (r, .flash)
  | .ok (r, 7) => .ok (r, .default)
  | .ok _ => .error .invalid
  | .error e => .error e

theorem readLayer_write (v : Layer) (r : Bytes) :
    readLayer (writeLayer v ++ r) = .ok (r, v) := by cases v <;> rfl

/-- `CharLen` of the old serial-port mode field. -/
inductive OCharLen where
  | bit5
  | bit6
  | bit7
  | bit8
deriving DecidableEq, Repr

def oCharLenVal : OCharLen → Nat
  | .bit5 => 0
  | .bit6 => 1
  | .bit7 => 2
  | .bit8 => 3

/-- `Parity` of the old serial-port mode field. -/
inductive OParity where
  | even
  | odd
  | parNone
  | reserved
deriving DecidableEq, Repr

/-- `StopBits` of the old serial-port mode field. -/
inductive OStopBits where
  | bit1
  | bit1_5
  | bit2
  | bit0_5
deriving DecidableEq, Repr

def oStopBitsVal : OStopBits → Nat
  | .bit1 => 0
  | .bit1_5 => 1
  | .bit2 => 2
  | .bit0_5 => 3

/-- `Mode`: UART character length, parity and stop bits. -/
structure ModeO where
  char_len : OCharLen
  parity : OParity
  stop_bits : OStopBits
deriving DecidableEq, Repr

/-- `Mode::to_u32`. -/
def modeToU32 (m : ModeO) : Nat :=
  (oStopBitsVal m.stop_bits <<< 12) |||
  ((match m.parity with
    | .even => 0
    | .odd => 1
    | .parNone => 4
    | .reserved => 2) <<< 9) |||
  (oCharLenVal m.char_len <<< 6)

/-- `TMode` of the old cfg module. -/
inductive TModeO where
  | disabled
  | survayIn
  | fixedMode
  | reserved (x : Nat)
deriving DecidableEq, Repr

/-- `TModeFlags` of the old cfg module. -/
structure TModeFlagsO where
  lla : Bool
  mode : TModeO
deriving DecidableEq, Repr

/-- `TModeFlags::parse_write` (old): `((lla as u16) << 8) | mode`. -/
def writeTModeFlagsO (f : TModeFlagsO) : Bytes :=
  writeU16 ((((if f.lla then 1 else 0) <<< 8) : Nat) |||
    (match f.mode with
     | .disabled => 0
     | .survayIn => 1
     | .fixedMode => 2
     | .reserved x => x % 256))

/-- The old `Cfg` enum of src/ubx/cfg.rs. `in_proto`/`out_proto` and the
ValSet/ValDel layer are bitflag fields carried as their raw bits. -/
inductive CfgO where
  | ant (flags pins : Nat)
  | cfg (clear_mask save_mask load_mask : Nat) (dev_mask : Option Nat)
  | prtPoll (port_id : Nat)
  | prtUart (port_id tx_ready : Nat) (mode : ModeO) (baud_rate : Nat)
      (in_proto out_proto flags : Nat)
  | prtUsb (port_id tx_ready in_proto out_proto : Nat)
  | valGetRes (version : Nat) (layer : Layer) (values : List Value)
  | valGetReq (version : Nat) (layer : Layer) (values : List ValueKey)
  | valSet (version layer : Nat) (values : List Value)
  | valDel (version layer : Nat) (values : List ValueKey)
  | tMode3 (version : Nat) (flags : TModeFlagsO)
      (ecefx_or_lat ecefy_or_lon ecefz_or_alt : Int)
      (ecefx_or_lat_hp ecefy_or_lon_hp ecefz_or_alt_hp : Int)
      (fixed_pos_acc svin_min_dur svin_accl_limit : Nat)

/-- `Cfg::id`. -/
def cfgId : CfgO → Nat
  | .ant .. => 0x13
  | .cfg .. => 0x09
  | .prtPoll .. => 0x0
  | .valGetRes .. => 0x8b
  | .valGetReq .. => 0x8b
  | .valSet .. => 0x8a
  | .valDel .. => 0x8c
  | .prtUart .. => 0x0
  | .prtUsb .. => 0x0
  | .tMode3 .. => 0x71

/-- `Cfg::write_bytes`. `none` models a panic: the `ValGetRes` arm's
explicit `panic!`, and the `.unwrap()` on `u16::try_from` of the
computed payload length in the ValGetReq/ValSet/ValDel arms. The
TMode3 arm writes no message-id byte, exactly as the source. -/
def cfgWriteBytes : CfgO → Option Bytes
  | .ant flags pins =>
    some (writeU8 0x13 ++ writeU16 4 ++ writeU16 flags ++ writeU16 pins)
  | .cfg clear save load dev =>
    some (writeU8 0x09 ++ writeU16 (if dev.isSome then 13 else 12) ++
      writeU32 clear ++ writeU32 save ++ writeU32 load ++
      (match dev with
       | some d => [d % 256]
       | none => []))
  | .prtPoll port_id =>
    some (writeU8 0x00 ++ writeU16 1 ++ writeU8 port_id)
  | .valGetReq version layer values =>
    if values.length * 4 + 4 > 65535 then none
    else
      some (writeU8 0x8B ++ writeU16 (values.length * 4 + 4) ++
        writeU8 version ++ writeLayer layer ++ [0, 0] ++
        writeListP valueKeyWrite values)
  | .valGetRes _ _ _ => none
  | .valSet version layer values =>
    if (values.map valueSize).sum + 4 > 65535 then none
    else
      some (writeU8 0x8a ++ writeU16 ((values.map valueSize).sum + 4) ++
        writeU8 version ++ writeU8 layer ++ writeU16 0 ++
        writeListP valueWrite values)
  | .valDel version layer values =>
    if values.length * 4 + 4 > 65535 then none
    else
      some (writeU8 0x8c ++ writeU16 (values.length * 4 + 4) ++
        writeU8 version ++ writeU8 layer ++ writeU16 0 ++
        writeListP valueKeyWrite values)
  | .prtUart port_id tx_ready mode baud in_p out_p flags =>
    some (writeU8 0x00 ++ writeU16 20 ++ writeU8 port_id ++ writeU8 0 ++
      writeU16 tx_ready ++ writeU32 (modeToU32 mode) ++ writeU32 baud ++
      writeU16 in_p ++ writeU16 out_p ++ writeU16 flags ++ writeU16 0)
  | .prtUsb port_id tx_ready in_p out_p =>
    some (writeU8 0x0 ++ writeU16 20 ++ writeU8 port_id ++ writeU8 0 ++
      writeU16 tx_ready ++ List.replicate 8 0 ++ writeU16 in_p ++
      writeU16 out_p ++ [0, 0] ++ [0, 0])
  | .tMode3 version flags ex ey ez exh eyh ezh acc mindur acclim =>
    some (writeU16 40 ++ writeU8 version ++ writeU8 0 ++
      writeTModeFlagsO flags ++ writeI32 ex ++ writeI32 ey ++ writeI32 ez ++
      writeI8 exh ++ writeI8 eyh ++ writeI8 ezh ++ writeU8 0 ++
      writeU32 acc ++ writeU32 mindur ++ writeU32 acclim ++
      List.replicate 8 0)

/-- The length preconditions under which the ValGetReq/ValSet/ValDel
arms' `u16::try_from(..).unwrap()` cannot panic. -/
def cfgLenFits : CfgO → Prop
  | .valGetReq _ _ vs => vs.length * 4 + 4 ≤ 65535
  | .valDel _ _ vs => vs.length * 4 + 4 ≤ 65535
  | .valSet _ _ vs => (vs.map valueSize).sum + 4 ≤ 65535
  | _ => True

/-- C10 counterexample: a CFG-VALGET request for 16383 keys is not a
`ValGetRes`, yet `write_bytes` panics on it: the computed u16 payload
length 16383 * 4 + 4 = 65536 overflows `u16::try_from(..).unwrap()`. -/
theorem c10_valgetreq_16383_keys_overflows :
    cfgWriteBytes
      (.valGetReq 0 .ram (List.replicate 16383 ValueKey.rateMeas)) =
      none ∧
    (∀ ver l vs,
      CfgO.valGetReq 0 .ram (List.replicate 16383 ValueKey.rateMeas) ≠
        .valGetRes ver l vs) := by
  constructor
  · simp only [cfgWriteBytes]
    rw [if_pos (by simp only [List.length_replicate]; omega)]
  · intro ver l vs h
    exact CfgO.noConfusion h

/-- C10 amended: writing a `ValGetRes` unconditionally panics; every
other variant serialises without panicking provided its computed u16
payload length fits (ValGetReq/ValDel: 4·#keys + 4 ≤ 65535; ValSet:
sum of value sizes + 4 ≤ 65535; the remaining variants always fit). -/
theorem c10_valgetres_panics_others_write :
    (∀ ver l vs, cfgWriteBytes (.valGetRes ver l vs) = none) ∧
    (∀ c : CfgO, (∀ ver l vs, c ≠ .valGetRes ver l vs) → cfgLenFits c →
      (cfgWriteBytes c).isSome = true) := by
  constructor
  · intro ver l vs
    rfl
  · intro c hne hfit
    cases c with
    | valGetRes ver l vs => exact absurd rfl (hne ver l vs)
    | valGetReq ver l vs =>
      simp only [cfgWriteBytes]
      rw [if_neg (by simp only [cfgLenFits] at hfit; omega)]
      rfl
    | valDel ver l vs =>
      simp only [cfgWriteBytes]
      rw [if_neg (by simp only [cfgLenFits] at hfit; omega)]
      rfl
    | valSet ver l vs =>
      simp only [cfgWriteBytes]
      rw [if_neg (by simp only [cfgLenFits] at hfit; omega)]
      rfl
    | ant flags pins => rfl
    | cfg a b c d => rfl
    | prtPoll p => rfl
    | prtUart a b c d e f g => rfl
    | prtUsb a b c d => rfl
    | tMode3 a b c d e f g h i j k => rfl

/-- Witness for C10 at a concrete CFG-ANT value. -/
theorem c10_cfg_write_witness :
    (∀ ver l vs, CfgO.ant 0 0 ≠ CfgO.valGetRes ver l vs) ∧
    cfgLenFits (.ant 0 0) ∧
    (cfgWriteBytes (.ant 0 0)).isSome = true :=
  ⟨fun _ _ _ h => CfgO.noConfusion h, trivial,
   c10_valgetres_panics_others_write.2 (.ant 0 0)
     (fun _ _ _ h => CfgO.noConfusion h) trivial⟩

/-! ## The connection pool broadcast sink (src/connection.rs) -/

/-- A pooled connection as the broadcast sink sees it: whether its
`poll_ready`/`start_send` fail, and the payloads delivered to it. -/
structure ConnSim where
  failing : Bool
  received : List Bytes
deriving DecidableEq, Repr

/-- `Vec::swap_remove`: replace index `i` with the last element and pop. -/
def swapRemove {α : Type} (l : List α) (i : Nat) : List α :=
  match l.getLast? with
  | none => []
  | some last => (l.set i last).dropLast

/-- `ConnectionPool::start_send`: record the payload with a cursor of
`connections.len() - 1`. The subtraction is on `usize`: on an empty pool
it wraps to 2^64 - 1 (and panics outright in a debug build). -/
def poolStartSend (conns : List ConnSim) (item : Bytes) : Nat × Bytes :=
  ((conns.length + (2 ^ 64 - 1)) % 2 ^ 64, item)

/-- The drain loop of `ConnectionPool::poll_ready`: while a broadcast is
pending, index the cursor's connection — out-of-bounds indexing is a
panic, modelled as `.error ()` — deliver the payload (or swap-remove a
failing connection), then decrement the cursor, finishing at zero. -/
def poolDrain (data : Bytes) : List ConnSim → Nat → Except Unit (List ConnSim)
  | conns, idx =>
    if h : idx < conns.length then
      let c := conns.get ⟨idx, h⟩
      let conns' :=
        if c.failing then swapRemove conns idx
        else conns.set idx ⟨c.failing, c.received ++ [data]⟩
      match idx with
      | 0 => .ok conns'
      | i + 1 => poolDrain data conns' i
    else .error ()

/-- One full broadcast: `start_send` then the `poll_ready` drain. -/
def poolBroadcast (conns : List ConnSim) (item : Bytes) :
    Except Unit (List ConnSim) :=
  let (idx, data) := poolStartSend conns item
  poolDrain data conns idx

/-- C7: broadcasting to an empty pool does not complete — `start_send`
computes the cursor `connections.len() - 1 = 0 - 1`, which wraps to
2^64 - 1 on `usize`, and the following `poll_ready` indexes
`connections[2^64 - 1]`, a panic (in a debug build the subtraction
itself panics). On a two-connection pool the same broadcast delivers
the payload to both, so the machinery itself is not at fault. -/
theorem c7_empty_pool_broadcast_panics :
    poolBroadcast [] [0x61] = .error () ∧
    poolStartSend [] [0x61] = (2 ^ 64 - 1, [0x61]) ∧
    poolBroadcast [⟨false, []⟩, ⟨false, []⟩] [0x61] =
      .ok [⟨false, [[0x61]]⟩, ⟨false, [[0x61]]⟩] := by
  refine ⟨rfl, rfl, rfl⟩

/-! ## The framed envelope layer (src/connection.rs: Connection as
Stream and Sink) -/

/-- The read-side state of a `Connection`: the pending length (never
cleared by the source) and the accumulation buffer. -/
structure ConnState where
  pending : Option Nat
  buffer : Bytes
deriving DecidableEq, Repr

/-- One iteration of `Connection::poll_next`'s loop after a successful
read of `chunk`: extend the buffer; if no length is pending, parse one
only when the buffer is exactly four bytes (`<[u8; 4]>::try_from` on
the whole buffer succeeds only at length 4), consuming them; then, if a
length `n` is pending and the buffer holds at least `n` bytes, split
off and yield the first `n` — leaving `pending` untouched. -/
def connStep (s : ConnState) (chunk : Bytes) : ConnState × Option Bytes :=
  let buf := s.buffer ++ chunk
  match s.pending with
  | none =>
    if buf.length = 4 then
      let n := leDecode buf
      if n = 0 then (⟨some n, []⟩, some [])
      else (⟨some n, []⟩, none)
    else (⟨none, buf⟩, none)
  | some n =>
    if n ≤ buf.length then (⟨some n, buf.drop n⟩, some (buf.take n))
    else (⟨some n, buf⟩, none)

/-- The stream of messages yielded over a sequence of reads; an empty
read is end-of-stream (`Ready(None)`), and the stream yields at most
one message per read (the loop returns upon a yield and every new poll
begins with a read). -/
def connStream : ConnState → List Bytes → List Bytes
  | _, [] => []
  | s, chunk :: rest =>
    if chunk = [] then []
    else
      match connStep s chunk with
      | (s', some m) => m :: connStream s' rest
      | (s', none) => connStream s' rest

/-- `MessageSink`: each payload is written as its 4-byte little-endian
length followed by the payload (`Connection::start_send` +
`poll_ready`, with complete writes). -/
def messageSink (xs : List Bytes) : Bytes :=
  (xs.map (fun x => leBytes 4 x.length ++ x)).flatten

/-- C2: the envelope round trip fails: (i) when the
sink's bytes for xs = [[0x61]] arrive in a single 5-byte read, the
stream never parses the length (the buffer is never exactly 4 bytes)
and yields nothing; (ii) even under the friendliest split — the length
alone, then the payload, then the next envelope — the second yielded
message is [0x01], the first byte of the next length prefix, because
`pending` is never cleared after a message is yielded. -/
theorem c2_envelope_stream_loses_messages :
    messageSink [[0x61]] = [1, 0, 0, 0, 0x61] ∧
    connStream ⟨none, []⟩ [[1, 0, 0, 0, 0x61]] = [] ∧
    ([[1, 0, 0, 0], [0x61], [1, 0, 0, 0, 0x62]] : List Bytes).flatten =
      messageSink [[0x61], [0x62]] ∧
    connStream ⟨none, []⟩ [[1, 0, 0, 0], [0x61], [1, 0, 0, 0, 0x62]] =
      [[0x61], [0x01]] ∧
    ([[0x61], [0x01]] : List Bytes) ≠ [[0x61], [0x62]] := by
  refine ⟨rfl, rfl, rfl, rfl, by simp⟩

/-! ## The newer message tree (src/msg): shared helpers -/

/-- `Ubx::checksum`: the 8-bit Fletcher checksum over a byte slice. -/
def fletcher (bs : Bytes) : Nat × Nat :=
  bs.foldl (fun (p : Nat × Nat) x =>
    (((p.1 + x) % 256), ((p.2 + ((p.1 + x) % 256)) % 256))) (0, 0)

/-- `Ubx::checksum_valid`. -/
def checksumValid (data : Bytes) (cka ckb : Nat) : Bool :=
  (fletcher data).1 == cka && (fletcher data).2 == ckb

/-- Sequencing of readers (the `?`-chains of the source). -/
def pbind {α β : Type} (x : PRes α) (f : Bytes → α → PRes β) : PRes β :=
  match x with
  | .ok (r, a) => f r a
  | .error e => .error e

theorem pbind_ok {α β : Type} (r : Bytes) (a : α) (f : Bytes → α → PRes β) :
    pbind (.ok (r, a)) f = f r a := rfl

theorem pbind_err {α β : Type} (e : PErr) (f : Bytes → α → PRes β) :
    pbind (.error e) f = .error e := rfl

theorem readU8_lt (v : Nat) (r : Bytes) (h : v < 256) :
    readU8 (writeU8 v ++ r) = .ok (r, v) := by
  rw [readU8_writeU8, Nat.mod_eq_of_lt h]

theorem readU16_lt (v : Nat) (r : Bytes) (h : v < 2 ^ 16) :
    readU16 (writeU16 v ++ r) = .ok (r, v) := by
  rw [readU16_writeU16, Nat.mod_eq_of_lt h]

theorem readU32_lt (v : Nat) (r : Bytes) (h : v < 2 ^ 32) :
    readU32 (writeU32 v ++ r) = .ok (r, v) := by
  rw [readU32_writeU32, Nat.mod_eq_of_lt h]

/-- `[u8; N]::parse_read`: N one-byte reads. -/
def readArrU8 (n : Nat) (b : Bytes) : PRes Bytes := collectP readU8 b n

/-- `[u8; N]::parse_write`. -/
def writeArrU8 (l : Bytes) : Bytes := writeListP writeU8 l

/-- `[u16; N]::parse_read`. -/
def readArrU16 (n : Nat) (b : Bytes) : PRes (List Nat) :=
  collectP readU16 b n

/-- `[u16; N]::parse_write`. -/
def writeArrU16 (l : List Nat) : Bytes := writeListP writeU16 l

theorem readArrU8_write (n : Nat) (l : Bytes) (r : Bytes)
    (hlen : l.length = n) (h : ∀ x ∈ l, x < 256) :
    readArrU8 n (writeArrU8 l ++ r) = .ok (r, l) := by
  subst hlen
  exact collectP_writeListP readU8 writeU8 (· < 256)
    (fun v rr hv => readU8_lt v rr hv) l r h

theorem readArrU16_write (n : Nat) (l : List Nat) (r : Bytes)
    (hlen : l.length = n) (h : ∀ x ∈ l, x < 2 ^ 16) :
    readArrU16 n (writeArrU16 l ++ r) = .ok (r, l) := by
  subst hlen
  exact collectP_writeListP readU16 writeU16 (· < 2 ^ 16)
    (fun v rr hv => readU16_lt v rr hv) l r h

/-- `impl_bitfield!` over a u8 repr: read the byte, truncate to the
flag mask (`from_bits_truncate`). -/
def readFlagsU8 (mask : Nat) (b : Bytes) : PRes Nat :=
  match readU8 b with
  | .ok (r, v) => .ok (r, v &&& mask)
  | .error e => .error e

/-- `impl_bitfield!` over a u32 repr. -/
def readFlagsU32 (mask : Nat) (b : Bytes) : PRes Nat :=
  match readU32 b with
  | .ok (r, v) => .ok (r, v &&& mask)
  | .error e => .error e

theorem readFlagsU8_write (mask v : Nat) (r : Bytes)
    (hmask : mask < 256) (h : v &&& mask = v) :
    readFlagsU8 mask (writeU8 v ++ r) = .ok (r, v) := by
  have hle : v ≤ mask := h ▸ Nat.and_le_right
  unfold readFlagsU8
  rw [readU8_lt v r (by omega)]
  simp [h]

theorem readFlagsU32_write (mask v : Nat) (r : Bytes)
    (hmask : mask < 2 ^ 32) (h : v &&& mask = v) :
    readFlagsU32 mask (writeU32 v ++ r) = .ok (r, v) := by
  have hle : v ≤ mask := h ▸ Nat.and_le_right
  unfold readFlagsU32
  rw [readU32_lt v r (by omega)]
  simp [h]

/-- Reading exactly the bytes of `s` (`parse::collect::<u8>`). -/
theorem collectP_bytes (s r : Bytes) :
    collectP readU8 (s ++ r) s.length = .ok (r, s) := by
  induction s with
  | nil => rfl
  | cons x xs ih => simp only [List.cons_append, List.length_cons, collectP,
      readU8, ih]

/-! ## INF payload strings (src/msg/ubx/inf.rs) -/

/-- Is `y` a UTF-8 continuation byte? -/
def utf8Cont (y : Nat) : Bool := 0x80 ≤ y && y ≤ 0xBF

/-- `String::from_utf8` validity over byte values, per RFC 3629 (the
well-formed byte sequences accepted by Rust's std). -/
def validUtf8 : Bytes → Bool
  | [] => true
  | x :: r =>
    if x < 0x80 then validUtf8 r
    else if 0xC2 ≤ x ∧ x ≤ 0xDF then
      match r with
      | y :: r2 => utf8Cont y && validUtf8 r2
      | [] => false
    else if x = 0xE0 then
      match r with
      | y :: z :: r2 => (0xA0 ≤ y && y ≤ 0xBF) && utf8Cont z && validUtf8 r2
      | _ => false
    else if (0xE1 ≤ x ∧ x ≤ 0xEC) ∨ (0xEE ≤ x ∧ x ≤ 0xEF) then
      match r with
      | y :: z :: r2 => utf8Cont y && utf8Cont z && validUtf8 r2
      | _ => false
    else if x = 0xED then
      match r with
      | y :: z :: r2 => (0x80 ≤ y && y ≤ 0x9F) && utf8Cont z && validUtf8 r2
      | _ => false
    else if x = 0xF0 then
      match r with
      | y :: z :: w :: r2 =>
        (0x90 ≤ y && y ≤ 0xBF) && utf8Cont z && utf8Cont w && validUtf8 r2
      | _ => false
    else if 0xF1 ≤ x ∧ x ≤ 0xF3 then
      match r with
      | y :: z :: w :: r2 =>
        utf8Cont y && utf8Cont z && utf8Cont w && validUtf8 r2
      | _ => false
    else if x = 0xF4 then
      match r with
      | y :: z :: w :: r2 =>
        (0x80 ≤ y && y ≤ 0x8F) && utf8Cont z && utf8Cont w && validUtf8 r2
      | _ => false
    else false

/-- One INF payload string (`impl_inf!`), carried as the String's UTF-8
bytes: read a u16 length, collect that many bytes, require them to be
valid UTF-8. -/
def readInfStr (b : Bytes) : PRes Bytes :=
  pbind (readU16 b) fun b len =>
  pbind (collectP readU8 b len) fun b s =>
  if validUtf8 s then .ok (b, s) else .error .invalid

/-- `impl_inf!` write: the u16 byte length (`u16::try_from(..)` fails
with `Invalid` past 65535, which the enclosing Ubx writer unwraps into
a panic, modelled as `none`), then the bytes. -/
def writeInfStr (s : Bytes) : Option Bytes :=
  if s.length ≤ 65535 then some (writeU16 s.length ++ s)
  else none

/-- Canonical INF strings: byte-valued, valid UTF-8, length in u16. -/
def infStrCanon (s : Bytes) : Prop :=
  (∀ x ∈ s, x < 256) ∧ validUtf8 s = true ∧ s.length ≤ 65535

theorem readInfStr_write (s : Bytes) (r : Bytes) (hc : infStrCanon s) :
    writeInfStr s = some (writeU16 s.length ++ s) ∧
    readInfStr ((writeU16 s.length ++ s) ++ r) = .ok (r, s) := by
  obtain ⟨hb, hu, hl⟩ := hc
  constructor
  · unfold writeInfStr
    rw [if_pos hl]
  · unfold readInfStr
    rw [List.append_assoc, readU16_lt _ _ (by omega), pbind_ok,
      collectP_bytes, pbind_ok, if_pos hu]

/-! ## CFG messages of the newer tree (src/msg/ubx/cfg.rs) -/

theorem or_mod_two_pow (a b n : Nat) :
    (a ||| b) % 2 ^ n = (a % 2 ^ n) ||| (b % 2 ^ n) := by
  apply Nat.eq_of_testBit_eq
  intro i
  simp only [Nat.testBit_mod_two_pow, Nat.testBit_or]
  cases h : decide (i < n) <;> simp

theorem or_shiftRight (x y k : Nat) :
    (x ||| y) >>> k = (x >>> k) ||| (y >>> k) := by
  apply Nat.eq_of_testBit_eq
  intro i
  simp only [Nat.testBit_shiftRight, Nat.testBit_or]

theorem and255_eq_mod (x : Nat) : x &&& 255 = x % 256 := by
  have h := Nat.and_pow_two_sub_one_eq_mod x 8
  norm_num at h
  exact h

/-- `TModeFlags::parse_read` (shared shape between the old and new cfg
modules): a u16 whose low byte selects the mode and whose bit 8 is the
`lla` flag. -/
def readTModeFlagsO (b : Bytes) : PRes TModeFlagsO :=
  pbind (readU16 b) fun b d =>
  let mode :=
    match d &&& 0xff with
    | 0 => TModeO.disabled
    | 1 => TModeO.survayIn
    | 2 => TModeO.fixedMode
    | x => TModeO.reserved x
  .ok (b, ⟨(d >>> 8) &&& 1 ≠ 0, mode⟩)

/-- `TMode3` of the newer cfg module (a 40-byte payload). -/
structure TMode3N where
  version : Nat
  res1 : Nat
  flags : TModeFlagsO
  ecefx_or_lat : Int
  ecefy_or_lon : Int
  ecefz_or_alt : Int
  ecefx_or_lat_hp : Int
  ecefy_or_lon_hp : Int
  ecefz_or_alt_hp : Int
  res2 : Nat
  fixed_pos_acc : Nat
  svin_min_dur : Nat
  svin_accl_limit : Nat
  res3 : Bytes

/-- `TMode3::parse_read` (via `impl_struct!`). -/
def readTMode3 (b : Bytes) : PRes TMode3N :=
  pbind (readU8 b) fun b version =>
  pbind (readU8 b) fun b res1 =>
  pbind (readTModeFlagsO b) fun b flags =>
  pbind (readI32 b) fun b ex =>
  pbind (readI32 b) fun b ey =>
  pbind (readI32 b) fun b ez =>
  pbind (readI8 b) fun b exh =>
  pbind (readI8 b) fun b eyh =>
  pbind (readI8 b) fun b ezh =>
  pbind (readU8 b) fun b res2 =>
  pbind (readU32 b) fun b acc =>
  pbind (readU32 b) fun b mindur =>
  pbind (readU32 b) fun b acclim =>
  pbind (readArrU8 8 b) fun b res3 =>
  .ok (b, ⟨version, res1, flags, ex, ey, ez, exh, eyh, ezh, res2,
    acc, mindur, acclim, res3⟩)

/-- `TMode3::parse_write`. -/
def writeTMode3 (v : TMode3N) : Bytes :=
  writeU8 v.version ++ writeU8 v.res1 ++ writeTModeFlagsO v.flags ++
  writeI32 v.ecefx_or_lat ++ writeI32 v.ecefy_or_lon ++
  writeI32 v.ecefz_or_alt ++ writeI8 v.ecefx_or_lat_hp ++
  writeI8 v.ecefy_or_lon_hp ++ writeI8 v.ecefz_or_alt_hp ++
  writeU8 v.res2 ++ writeU32 v.fixed_pos_acc ++ writeU32 v.svin_min_dur ++
  writeU32 v.svin_accl_limit ++ writeArrU8 v.res3

/-- `ValGetRequest`: layer, two reserved bytes, keys to end of payload. -/
structure ValGetRequest where
  layer : Layer
  res1 : Bytes
  keys : List ValueKey

def readValGetRequest (b : Bytes) : PRes ValGetRequest :=
  pbind (readLayer b) fun b layer =>
  pbind (readArrU8 2 b) fun b res1 =>
  pbind (readListP valueKeyRead b.length b) fun b keys =>
  .ok (b, ⟨layer, res1, keys⟩)

def writeValGetRequest (v : ValGetRequest) : Bytes :=
  writeLayer v.layer ++ writeArrU8 v.res1 ++ writeListP valueKeyWrite v.keys

/-- `ValGetResponse`: layer, two reserved bytes, values to end. -/
structure ValGetResponse where
  layer : Layer
  res1 : Bytes
  keys : List Value

def readValGetResponse (b : Bytes) : PRes ValGetResponse :=
  pbind (readLayer b) fun b layer =>
  pbind (readArrU8 2 b) fun b res1 =>
  pbind (readListP valueRead b.length b) fun b keys =>
  .ok (b, ⟨layer, res1, keys⟩)

def writeValGetResponse (v : ValGetResponse) : Bytes :=
  writeLayer v.layer ++ writeArrU8 v.res1 ++ writeListP valueWrite v.keys

/-- `ValGet`: a version-0 request or a version-1 response, framed by its
own u16 payload length. -/
inductive ValGet where
  | request (x : ValGetRequest)
  | response (x : ValGetResponse)

/-- `ValGet::parse_read`: read the u16 length, split the payload off,
dispatch on the leading version byte; the remainder within the payload
is discarded and parsing resumes after the payload. -/
def readValGet (b : Bytes) : PRes ValGet :=
  pbind (readU16 b) fun b len =>
  if b.length < len then .error .notEnoughData
  else
    match readU8 (b.take len) with
    | .error e => .error e
    | .ok (p, version) =>
      if version = 0 then
        match readValGetRequest p with
        | .ok (_, res) => .ok (b.drop len, .request res)
        | .error e => .error e
      else if version = 1 then
        match readValGetResponse p with
        | .ok (_, res) => .ok (b.drop len, .response res)
        | .error e => .error e
      else .error .invalid

/-- `ValGet::parse_write`: version byte and body into a buffer, then the
u16 length (whose overflow error the Ubx writer unwraps — `none`). -/
def writeValGet (v : ValGet) : Option Bytes :=
  let buffer :=
    match v with
    | .request x => writeU8 0 ++ writeValGetRequest x
    | .response x => writeU8 1 ++ writeValGetResponse x
  if buffer.length ≤ 65535 then some (writeU16 buffer.length ++ buffer)
  else none

/-- `ValSet` of the newer tree. `layers` carries the BitLayer bits. -/
structure ValSetN where
  version : Nat
  layers : Nat
  res1 : Bytes
  values : List Value

/-- `ValSet::parse_read`: length-framed like ValGet; the version must
be 0. -/
def readValSet (b : Bytes) : PRes ValSetN :=
  pbind (readU16 b) fun b len =>
  if b.length < len then .error .notEnoughData
  else
    match readU8 (b.take len) with
    | .error e => .error e
    | .ok (p, version) =>
      if version ≠ 0 then .error .invalid
      else
        match readFlagsU8 7 p with
        | .error e => .error e
        | .ok (p, layers) =>
          match readArrU8 2 p with
          | .error e => .error e
          | .ok (p, res1) =>
            match readListP valueRead p.length p with
            | .ok (_, values) =>
              .ok (b.drop len, ⟨version, layers, res1, values⟩)
            | .error e => .error e

/-- `ValSet::parse_write`. -/
def writeValSet (v : ValSetN) : Option Bytes :=
  let buffer := writeU8 v.version ++ writeU8 v.layers ++
    writeArrU8 v.res1 ++ writeListP valueWrite v.values
  if buffer.length ≤ 65535 then some (writeU16 buffer.length ++ buffer)
  else none

/-- The CFG class of the newer tree (`impl_class!`). -/
inductive CfgN where
  | tMode3 (x : TMode3N)
  | valGet (x : ValGet)
  | valSet (x : ValSetN)
  | unknown (id : Nat) (payload : Bytes)

/-- CFG class reader: message id, then the length-tagged TMode3 (the tag
mismatch maps to `InvalidLen`), the self-framed ValGet/ValSet, or the
generic unknown-id branch reading a u16 length and that many bytes. -/
def cfgRead (b : Bytes) : PRes CfgN :=
  pbind (readU8 b) fun b msg =>
  if msg = 0x71 then
    match mapInvalid (tagU16 b 40) .invalidLen with
    | .error e => .error e
    | .ok b =>
      pbind (readTMode3 b) fun b x => .ok (b, .tMode3 x)
  else if msg = 0x8b then
    pbind (readValGet b) fun b x => .ok (b, .valGet x)
  else if msg = 0x8a then
    pbind (readValSet b) fun b x => .ok (b, .valSet x)
  else
    pbind (readU16 b) fun b len =>
    pbind (collectP readU8 b len) fun b payload =>
    .ok (b, .unknown msg payload)

/-- CFG class writer: the id byte then the variant's own write — the
length tag of the TMode3 arm is not written, exactly as the macro has
it. -/
def cfgWrite : CfgN → Option Bytes
  | .tMode3 x => some (writeU8 0x71 ++ writeTMode3 x)
  | .valGet x => (writeValGet x).map (fun w => writeU8 0x8b ++ w)
  | .valSet x => (writeValSet x).map (fun w => writeU8 0x8a ++ w)
  | .unknown id payload =>
    some (writeU8 id ++ writeU16 payload.length ++ writeListP writeU8 payload)

/-- A `[u8; n]` field value: n byte-sized entries. -/
def bytesCanon (n : Nat) (l : Bytes) : Prop :=
  l.length = n ∧ ∀ x ∈ l, x < 256

theorem le_length_writeListP {α : Type} (wr : α → Bytes) (cn : α → Prop)
    (Hne : ∀ v, cn v → wr v ≠ []) :
    ∀ vs : List α, (∀ v ∈ vs, cn v) → vs.length ≤ (writeListP wr vs).length := by
  intro vs
  induction vs with
  | nil => intro _; simp [writeListP_nil]
  | cons v vs ih =>
    intro hc
    rw [writeListP_cons]
    have h1 : (wr v).length ≥ 1 := by
      have := Hne v (hc v (by simp))
      cases hw : wr v with
      | nil => exact absurd hw this
      | cons a l => simp
    have := ih (fun x hx => hc x (by simp [hx]))
    simp only [List.length_cons, List.length_append]
    omega

def valGetRequestCanon (v : ValGetRequest) : Prop := bytesCanon 2 v.res1

def valGetResponseCanon (v : ValGetResponse) : Prop :=
  bytesCanon 2 v.res1 ∧ ∀ x ∈ v.keys, valueCanon x

def valGetCanon : ValGet → Prop
  | .request x => valGetRequestCanon x ∧
      (writeU8 0 ++ writeValGetRequest x).length ≤ 65535
  | .response x => valGetResponseCanon x ∧
      (writeU8 1 ++ writeValGetResponse x).length ≤ 65535

def valSetCanon (v : ValSetN) : Prop :=
  v.version = 0 ∧ v.layers &&& 7 = v.layers ∧ bytesCanon 2 v.res1 ∧
  (∀ x ∈ v.values, valueCanon x) ∧
  (writeU8 v.version ++ writeU8 v.layers ++ writeArrU8 v.res1 ++
    writeListP valueWrite v.values).length ≤ 65535

theorem readListP_keys (keys : List ValueKey) :
    readListP valueKeyRead (writeListP valueKeyWrite keys).length
      (writeListP valueKeyWrite keys) = .ok ([], keys) :=
  readListP_writeListP valueKeyRead valueKeyWrite (fun _ => True)
    (fun v r _ => valueKeyRead_write v r)
    (fun v _ => valueKeyWrite_ne_nil v) keys _
    (le_length_writeListP valueKeyWrite (fun _ => True)
      (fun v _ => valueKeyWrite_ne_nil v) keys (fun _ _ => trivial))
    (fun _ _ => trivial)

theorem readListP_values (vs : List Value) (hc : ∀ x ∈ vs, valueCanon x) :
    readListP valueRead (writeListP valueWrite vs).length
      (writeListP valueWrite vs) = .ok ([], vs) :=
  readListP_writeListP valueRead valueWrite valueCanon
    (fun v r hv => valueRead_valueWrite v r hv)
    (fun v _ => valueWrite_ne_nil v) vs _
    (le_length_writeListP valueWrite valueCanon
      (fun v _ => valueWrite_ne_nil v) vs hc) hc

theorem readValGetRequest_write (v : ValGetRequest)
    (hc : valGetRequestCanon v) :
    readValGetRequest (writeValGetRequest v) = .ok ([], v) := by
  obtain ⟨layer, res1, keys⟩ := v
  obtain ⟨hlen, hbnd⟩ := hc
  unfold readValGetRequest writeValGetRequest
  simp only [List.append_assoc]
  rw [readLayer_write, pbind_ok, readArrU8_write 2 res1 _ hlen hbnd, pbind_ok,
    readListP_keys, pbind_ok]

theorem readValGetResponse_write (v : ValGetResponse)
    (hc : valGetResponseCanon v) :
    readValGetResponse (writeValGetResponse v) = .ok ([], v) := by
  obtain ⟨layer, res1, keys⟩ := v
  obtain ⟨⟨hlen, hbnd⟩, hkeys⟩ := hc
  unfold readValGetResponse writeValGetResponse
  simp only [List.append_assoc]
  rw [readLayer_write, pbind_ok, readArrU8_write 2 res1 _ hlen hbnd, pbind_ok,
    readListP_values keys hkeys, pbind_ok]

theorem readValGet_write (v : ValGet) (hc : valGetCanon v) :
    ∃ w, writeValGet v = some w ∧
      ∀ rest, readValGet (w ++ rest) = .ok (rest, v) := by
  cases v with
  | request x =>
    obtain ⟨hcx, hlen⟩ := hc
    refine ⟨writeU16 (writeU8 0 ++ writeValGetRequest x).length ++
      (writeU8 0 ++ writeValGetRequest x), ?_, ?_⟩
    · simp only [writeValGet]
      rw [if_pos hlen]
    · intro rest
      unfold readValGet
      rw [List.append_assoc, readU16_lt _ _ (by omega)]
      simp only [pbind_ok]
      rw [if_neg (by simp only [List.length_append]; omega)]
      rw [take_len _ _ _ rfl, drop_len _ _ _ rfl]
      have h0 : readU8 (writeU8 0 ++ writeValGetRequest x) =
          .ok (writeValGetRequest x, 0) := rfl
      rw [h0]
      simp only [readValGetRequest_write x hcx, if_pos]
  | response x =>
    obtain ⟨hcx, hlen⟩ := hc
    refine ⟨writeU16 (writeU8 1 ++ writeValGetResponse x).length ++
      (writeU8 1 ++ writeValGetResponse x), ?_, ?_⟩
    · simp only [writeValGet]
      rw [if_pos hlen]
    · intro rest
      unfold readValGet
      rw [List.append_assoc, readU16_lt _ _ (by omega)]
      simp only [pbind_ok]
      rw [if_neg (by simp only [List.length_append]; omega)]
      rw [take_len _ _ _ rfl, drop_len _ _ _ rfl]
      have h0 : readU8 (writeU8 1 ++ writeValGetResponse x) =
          .ok (writeValGetResponse x, 1) := rfl
      rw [h0]
      simp only [readValGetResponse_write x hcx]
      norm_num

theorem readValSet_write (v : ValSetN) (hc : valSetCanon v) :
    ∃ w, writeValSet v = some w ∧
      ∀ rest, readValSet (w ++ rest) = .ok (rest, v) := by
  obtain ⟨version, layers, res1, values⟩ := v
  obtain ⟨hver, hlay, ⟨hrlen, hrbnd⟩, hvals, hlen⟩ := hc
  simp only at hver hlay hvals hlen hrlen hrbnd ⊢
  subst hver
  refine ⟨writeU16 (writeU8 0 ++ writeU8 layers ++ writeArrU8 res1 ++
      writeListP valueWrite values).length ++
    (writeU8 0 ++ writeU8 layers ++ writeArrU8 res1 ++
      writeListP valueWrite values), ?_, ?_⟩
  · simp only [writeValSet]
    rw [if_pos hlen]
  · intro rest
    unfold readValSet
    rw [List.append_assoc, readU16_lt _ _ (by omega)]
    simp only [pbind_ok]
    rw [if_neg (by simp only [List.length_append]; omega)]
    rw [take_len _ _ _ rfl, drop_len _ _ _ rfl]
    have h0 : readU8 (writeU8 0 ++ writeU8 layers ++ writeArrU8 res1 ++
        writeListP valueWrite values) =
        .ok (writeU8 layers ++ writeArrU8 res1 ++
          writeListP valueWrite values, 0) := by
      simp only [List.append_assoc]
      rfl
    rw [h0]
    simp only [if_neg (by norm_num : ¬(0 : Nat) ≠ 0)]
    rw [show writeU8 layers ++ writeArrU8 res1 ++ writeListP valueWrite values =
      writeU8 layers ++ (writeArrU8 res1 ++ writeListP valueWrite values) by
        simp [List.append_assoc]]
    simp only [readFlagsU8_write 7 layers _ (by norm_num) hlay,
      readArrU8_write 2 res1 _ hrlen hrbnd, readListP_values values hvals]

theorem cfgRead_valGet (x : ValGet) (w : Bytes)
    (hread : ∀ rest, readValGet (w ++ rest) = .ok (rest, x)) :
    ∀ rest, cfgRead ((writeU8 0x8b ++ w) ++ rest) = .ok (rest, .valGet x) := by
  intro rest
  unfold cfgRead
  rw [List.append_assoc, readU8_lt 0x8b _ (by norm_num)]
  simp only [pbind_ok]
  norm_num
  simp only [hread rest, pbind_ok]

theorem cfgRead_valSet (x : ValSetN) (w : Bytes)
    (hread : ∀ rest, readValSet (w ++ rest) = .ok (rest, x)) :
    ∀ rest, cfgRead ((writeU8 0x8a ++ w) ++ rest) = .ok (rest, .valSet x) := by
  intro rest
  unfold cfgRead
  rw [List.append_assoc, readU8_lt 0x8a _ (by norm_num)]
  simp only [pbind_ok]
  norm_num
  simp only [hread rest, pbind_ok]

theorem cfgRead_unknown (id : Nat) (payload : Bytes)
    (hid71 : id ≠ 0x71) (hid8b : id ≠ 0x8b) (hid8a : id ≠ 0x8a)
    (hidlt : id < 256) (hplen : payload.length ≤ 65535)
    (hpb : ∀ x ∈ payload, x < 256) :
    ∀ rest, cfgRead ((writeU8 id ++ writeU16 payload.length ++
      writeListP writeU8 payload) ++ rest) = .ok (rest, .unknown id payload) := by
  intro rest
  unfold cfgRead
  simp only [List.append_assoc]
  rw [readU8_lt id _ hidlt]
  simp only [pbind_ok, if_neg hid71, if_neg hid8b, if_neg hid8a]
  rw [readU16_lt _ _ (by omega)]
  simp only [pbind_ok]
  have harr := collectP_writeListP readU8 writeU8 (· < 256)
    (fun v rr hv => readU8_lt v rr hv) payload rest hpb
  rw [harr, pbind_ok]

/-! ## NAV messages of the newer tree (src/msg/ubx/nav.rs) -/

/-- `FixType`: six named codes; every other byte is `Reserved`. -/
inductive FixType where
  | noFix
  | deadReckoning
  | fix2D
  | fix3D
  | gnss
  | time
  | reserved (x : Nat)

def readFixType (b : Bytes) : PRes FixType :=
  pbind (readU8 b) fun b d =>
  .ok (b,
    match d with
    | 0 => .noFix
    | 1 => .deadReckoning
    | 2 => .fix2D
    | 3 => .fix3D
    | 4 => .gnss
    | 5 => .time
    | x => .reserved x)

def writeFixType : FixType → Bytes
  | .noFix => writeU8 0
  | .deadReckoning => writeU8 1
  | .fix2D => writeU8 2
  | .fix3D => writeU8 3
  | .gnss => writeU8 4
  | .time => writeU8 5
  | .reserved x => writeU8 x

/-- `PsmState`. -/
inductive PsmState where
  | notActive
  | enabled
  | acquisition
  | tracking
  | powerOptimizedTracking
  | inactive

/-- `CarrierPhaseSol`. -/
inductive CarrierPhaseSol where
  | noSolution
  | float
  | fixed

/-- `FixStatus`: the NAV-PVT flags byte, decoded fieldwise. -/
structure FixStatus where
  car_sol : CarrierPhaseSol
  head_veh_valid : Bool
  psm_state : PsmState
  diff_soln : Bool
  gnss_fix_ok : Bool

def readFixStatus (b : Bytes) : PRes FixStatus :=
  pbind (readU8 b) fun b data =>
  match (data >>> 2) &&& 0b111 with
  | 0 => cont b data PsmState.notActive
  | 1 => cont b data .enabled
  | 2 => cont b data .acquisition
  | 3 => cont b data .tracking
  | 4 => cont b data .powerOptimizedTracking
  | 5 => cont b data .inactive
  | _ => .error .invalid
where
  cont (b : Bytes) (data : Nat) (psm : PsmState) : PRes FixStatus :=
    match (data >>> 6) &&& 0b11 with
    | 0 => fin b data psm .noSolution
    | 1 => fin b data psm .float
    | 2 => fin b data psm .fixed
    | _ => .error .invalid
  fin (b : Bytes) (data : Nat) (psm : PsmState) (car : CarrierPhaseSol) :
      PRes FixStatus :=
    .ok (b, ⟨car, (data >>> 5) &&& 1 ≠ 0, psm, (data >>> 1) &&& 1 ≠ 0,
      data &&& 1 ≠ 0⟩)

def psmVal : PsmState → Nat
  | .notActive => 0
  | .enabled => 1
  | .acquisition => 2
  | .tracking => 3
  | .powerOptimizedTracking => 4
  | .inactive => 5

def carVal : CarrierPhaseSol → Nat
  | .noSolution => 0
  | .float => 1
  | .fixed => 2

def writeFixStatus (v : FixStatus) : Bytes :=
  writeU8 ((carVal v.car_sol <<< 6) |||
    ((if v.head_veh_valid then 1 else 0) <<< 5) |||
    (psmVal v.psm_state <<< 2) |||
    ((if v.diff_soln then 1 else 0) <<< 1) |||
    (if v.gnss_fix_ok then 1 else 0))
/-- NAV `Clock` (src/msg/ubx/nav.rs, via `impl_struct!`). -/
structure ClockN where
  i_tow : Nat
  clk_b : Int
  clk_d : Int
  t_acc : Nat
  f_acc : Nat

def readClock (b : Bytes) : PRes ClockN :=
  pbind (readU32 b) fun b x0 =>
  pbind (readI32 b) fun b x1 =>
  pbind (readI32 b) fun b x2 =>
  pbind (readU32 b) fun b x3 =>
  pbind (readU32 b) fun b x4 =>
  .ok (b, ⟨x0, x1, x2, x3, x4⟩)

def writeClock (v : ClockN) : Bytes :=
  writeU32 v.i_tow ++ writeI32 v.clk_b ++ writeI32 v.clk_d ++ writeU32 v.t_acc ++ writeU32 v.f_acc

/-- NAV `Dop` (src/msg/ubx/nav.rs, via `impl_struct!`). -/
structure DopN where
  i_tow : Nat
  g_dop : Nat
  p_dop : Nat
  t_dop : Nat
  v_dop : Nat
  h_dop : Nat
  n_dop : Nat
  e_dop : Nat

def readDop (b : Bytes) : PRes DopN :=
  pbind (readU32 b) fun b x0 =>
  pbind (readU16 b) fun b x1 =>
  pbind (readU16 b) fun b x2 =>
  pbind (readU16 b) fun b x3 =>
  pbind (readU16 b) fun b x4 =>
  pbind (readU16 b) fun b x5 =>
  pbind (readU16 b) fun b x6 =>
  pbind (readU16 b) fun b x7 =>
  .ok (b, ⟨x0, x1, x2, x3, x4, x5, x6, x7⟩)

def writeDop (v : DopN) : Bytes :=
  writeU32 v.i_tow ++ writeU16 v.g_dop ++ writeU16 v.p_dop ++ writeU16 v.t_dop ++ writeU16 v.v_dop ++ writeU16 v.h_dop ++ writeU16 v.n_dop ++ writeU16 v.e_dop

/-- NAV `Eoe` (src/msg/ubx/nav.rs, via `impl_struct!`). -/
structure EoeN where
  i_tow : Nat

def readEoe (b : Bytes) : PRes EoeN :=
  pbind (readU32 b) fun b x0 =>
  .ok (b, ⟨x0⟩)

def writeEoe (v : EoeN) : Bytes :=
  writeU32 v.i_tow

/-- NAV `Hpposecef` (src/msg/ubx/nav.rs, via `impl_struct!`). -/
structure HpposecefN where
  version : Nat
  res1 : Bytes
  i_tow : Nat
  ecef_x : Int
  ecef_y : Int
  ecef_z : Int
  ecef_x_hp : Int
  ecef_y_hp : Int
  ecef_z_hp : Int
  res2 : Nat
  p_acc : Int

def readHpposecef (b : Bytes) : PRes HpposecefN :=
  pbind (readU8 b) fun b x0 =>
  pbind (readArrU8 3 b) fun b x1 =>
  pbind (readU32 b) fun b x2 =>
  pbind (readI32 b) fun b x3 =>
  pbind (readI32 b) fun b x4 =>
  pbind (readI32 b) fun b x5 =>
  pbind (readI8 b) fun b x6 =>
  pbind (readI8 b) fun b x7 =>
  pbind (readI8 b) fun b x8 =>
  pbind (readU8 b) fun b x9 =>
  pbind (readI32 b) fun b x10 =>
  .ok (b, ⟨x0, x1, x2, x3, x4, x5, x6, x7, x8, x9, x10⟩)

def writeHpposecef (v : HpposecefN) : Bytes :=
  writeU8 v.version ++ writeArrU8 v.res1 ++ writeU32 v.i_tow ++ writeI32 v.ecef_x ++ writeI32 v.ecef_y ++ writeI32 v.ecef_z ++ writeI8 v.ecef_x_hp ++ writeI8 v.ecef_y_hp ++ writeI8 v.ecef_z_hp ++ writeU8 v.res2 ++ writeI32 v.p_acc

/-- NAV `Hpposllh` (src/msg/ubx/nav.rs, via `impl_struct!`). -/
structure HpposllhN where
  version : Nat
  res1 : Bytes
  i_tow : Nat
  lon : Int
  lat : Int
  height : Int
  h_msl : Int
  lon_hp : Int
  lat_hp : Int
  height_hp : Int
  h_msl_hp : Int
  h_acc : Int
  v_acc : Int

def readHpposllh (b : Bytes) : PRes HpposllhN :=
  pbind (readU8 b) fun b x0 =>
  pbind (readArrU8 3 b) fun b x1 =>
  pbind (readU32 b) fun b x2 =>
  pbind (readI32 b) fun b x3 =>
  pbind (readI32 b) fun b x4 =>
  pbind (readI32 b) fun b x5 =>
  pbind (readI32 b) fun b x6 =>
  pbind (readI8 b) fun b x7 =>
  pbind (readI8 b) fun b x8 =>
  pbind (readI8 b) fun b x9 =>
  pbind (readI8 b) fun b x10 =>
  pbind (readI32 b) fun b x11 =>
  pbind (readI32 b) fun b x12 =>
  .ok (b, ⟨x0, x1, x2, x3, x4, x5, x6, x7, x8, x9, x10, x11, x12⟩)

def writeHpposllh (v : HpposllhN) : Bytes :=
  writeU8 v.version ++ writeArrU8 v.res1 ++ writeU32 v.i_tow ++ writeI32 v.lon ++ writeI32 v.lat ++ writeI32 v.height ++ writeI32 v.h_msl ++ writeI8 v.lon_hp ++ writeI8 v.lat_hp ++ writeI8 v.height_hp ++ writeI8 v.h_msl_hp ++ writeI32 v.h_acc ++ writeI32 v.v_acc

/-- NAV `Odo` (src/msg/ubx/nav.rs, via `impl_struct!`). -/
structure OdoN where
  version : Nat
  res1 : Bytes
  i_tow : Nat
  distance : Nat
  total_distance : Nat
  distance_std : Nat

def readOdo (b : Bytes) : PRes OdoN :=
  pbind (readU8 b) fun b x0 =>
  pbind (readArrU8 3 b) fun b x1 =>
  pbind (readU32 b) fun b x2 =>
  pbind (readU32 b) fun b x3 =>
  pbind (readU32 b) fun b x4 =>
  pbind (readU32 b) fun b x5 =>
  .ok (b, ⟨x0, x1, x2, x3, x4, x5⟩)

def writeOdo (v : OdoN) : Bytes :=
  writeU8 v.version ++ writeArrU8 v.res1 ++ writeU32 v.i_tow ++ writeU32 v.distance ++ writeU32 v.total_distance ++ writeU32 v.distance_std

/-- NAV `Posecef` (src/msg/ubx/nav.rs, via `impl_struct!`). -/
structure PosecefN where
  i_tow : Nat
  ecef_x : Int
  ecef_y : Int
  ecef_z : Int
  p_acc : Nat

def readPosecef (b : Bytes) : PRes PosecefN :=
  pbind (readU32 b) fun b x0 =>
  pbind (readI32 b) fun b x1 =>
  pbind (readI32 b) fun b x2 =>
  pbind (readI32 b) fun b x3 =>
  pbind (readU32 b) fun b x4 =>
  .ok (b, ⟨x0, x1, x2, x3, x4⟩)

def writePosecef (v : PosecefN) : Bytes :=
  writeU32 v.i_tow ++ writeI32 v.ecef_x ++ writeI32 v.ecef_y ++ writeI32 v.ecef_z ++ writeU32 v.p_acc

/-- NAV `Posllh` (src/msg/ubx/nav.rs, via `impl_struct!`). -/
structure PosllhN where
  i_tow : Nat
  lon : Int
  lat : Int
  height : Int
  h_msl : Int
  h_acc : Nat

def readPosllh (b : Bytes) : PRes PosllhN :=
  pbind (readU32 b) fun b x0 =>
  pbind (readI32 b) fun b x1 =>
  pbind (readI32 b) fun b x2 =>
  pbind (readI32 b) fun b x3 =>
  pbind (readI32 b) fun b x4 =>
  pbind (readU32 b) fun b x5 =>
  .ok (b, ⟨x0, x1, x2, x3, x4, x5⟩)

def writePosllh (v : PosllhN) : Bytes :=
  writeU32 v.i_tow ++ writeI32 v.lon ++ writeI32 v.lat ++ writeI32 v.height ++ writeI32 v.h_msl ++ writeU32 v.h_acc

/-- NAV `Pvt` (src/msg/ubx/nav.rs, via `impl_struct!`). -/
structure PvtN where
  i_tow : Nat
  year : Nat
  month : Nat
  day : Nat
  hour : Nat
  min : Nat
  sec : Nat
  valid : Nat
  t_acc : Nat
  nano : Int
  fix_type : FixType
  flags : FixStatus
  flags2 : Nat
  numsv : Nat
  lon : Int
  lat : Int
  height : Int
  height_sea : Int
  h_acc : Nat
  v_acc : Nat
  vel_n : Int
  vel_e : Int
  vel_d : Int
  g_speed : Int
  heading_mot : Int
  s_acc : Nat
  head_acc : Nat
  p_dop : Nat
  flags3 : Nat
  res1 : Bytes
  head_veh : Int
  mag_dec : Int
  mag_acc : Nat

def readPvt (b : Bytes) : PRes PvtN :=
  pbind (readU32 b) fun b x0 =>
  pbind (readU16 b) fun b x1 =>
  pbind (readU8 b) fun b x2 =>
  pbind (readU8 b) fun b x3 =>
  pbind (readU8 b) fun b x4 =>
  pbind (readU8 b) fun b x5 =>
  pbind (readU8 b) fun b x6 =>
  pbind (readFlagsU8 0xF b) fun b x7 =>
  pbind (readU32 b) fun b x8 =>
  pbind (readI32 b) fun b x9 =>
  pbind (readFixType b) fun b x10 =>
  pbind (readFixStatus b) fun b x11 =>
  pbind (readU8 b) fun b x12 =>
  pbind (readU8 b) fun b x13 =>
  pbind (readI32 b) fun b x14 =>
  pbind (readI32 b) fun b x15 =>
  pbind (readI32 b) fun b x16 =>
  pbind (readI32 b) fun b x17 =>
  pbind (readU32 b) fun b x18 =>
  pbind (readU32 b) fun b x19 =>
  pbind (readI32 b) fun b x20 =>
  pbind (readI32 b) fun b x21 =>
  pbind (readI32 b) fun b x22 =>
  pbind (readI32 b) fun b x23 =>
  pbind (readI32 b) fun b x24 =>
  pbind (readU32 b) fun b x25 =>
  pbind (readU32 b) fun b x26 =>
  pbind (readU16 b) fun b x27 =>
  pbind (readU8 b) fun b x28 =>
  pbind (readArrU8 5 b) fun b x29 =>
  pbind (readI32 b) fun b x30 =>
  pbind (readI16 b) fun b x31 =>
  pbind (readU16 b) fun b x32 =>
  .ok (b, ⟨x0, x1, x2, x3, x4, x5, x6, x7, x8, x9, x10, x11, x12, x13, x14, x15, x16, x17, x18, x19, x20, x21, x22, x23, x24, x25, x26, x27, x28, x29, x30, x31, x32⟩)

def writePvt (v : PvtN) : Bytes :=
  writeU32 v.i_tow ++ writeU16 v.year ++ writeU8 v.month ++ writeU8 v.day ++ writeU8 v.hour ++ writeU8 v.min ++ writeU8 v.sec ++ writeU8 v.valid ++ writeU32 v.t_acc ++ writeI32 v.nano ++ writeFixType v.fix_type ++ writeFixStatus v.flags ++ writeU8 v.flags2 ++ writeU8 v.numsv ++ writeI32 v.lon ++ writeI32 v.lat ++ writeI32 v.height ++ writeI32 v.height_sea ++ writeU32 v.h_acc ++ writeU32 v.v_acc ++ writeI32 v.vel_n ++ writeI32 v.vel_e ++ writeI32 v.vel_d ++ writeI32 v.g_speed ++ writeI32 v.heading_mot ++ writeU32 v.s_acc ++ writeU32 v.head_acc ++ writeU16 v.p_dop ++ writeU8 v.flags3 ++ writeArrU8 v.res1 ++ writeI32 v.head_veh ++ writeI16 v.mag_dec ++ writeU16 v.mag_acc

/-- NAV `RelPosNed` (src/msg/ubx/nav.rs, via `impl_struct!`). -/
structure RelPosNedN where
  version : Nat
  res1 : Nat
  ref_station_id : Nat
  i_tow : Nat
  rel_pos_n : Int
  rel_pos_e : Int
  rel_pos_d : Int
  rel_pos_length : Int
  rel_pos_heading : Int
  res2 : Bytes
  rel_pos_n_hp : Int
  rel_pos_e_hp : Int
  rel_pos_d_hp : Int
  rel_pos_length_hp : Int
  acc_n : Int
  acc_e : Int
  acc_d : Int
  acc_length : Int
  acc_heading : Int
  res3 : Bytes
  flags : Nat

def readRelPosNed (b : Bytes) : PRes RelPosNedN :=
  pbind (readU8 b) fun b x0 =>
  pbind (readU8 b) fun b x1 =>
  pbind (readU16 b) fun b x2 =>
  pbind (readU32 b) fun b x3 =>
  pbind (readI32 b) fun b x4 =>
  pbind (readI32 b) fun b x5 =>
  pbind (readI32 b) fun b x6 =>
  pbind (readI32 b) fun b x7 =>
  pbind (readI32 b) fun b x8 =>
  pbind (readArrU8 4 b) fun b x9 =>
  pbind (readI8 b) fun b x10 =>
  pbind (readI8 b) fun b x11 =>
  pbind (readI8 b) fun b x12 =>
  pbind (readI8 b) fun b x13 =>
  pbind (readI32 b) fun b x14 =>
  pbind (readI32 b) fun b x15 =>
  pbind (readI32 b) fun b x16 =>
  pbind (readI32 b) fun b x17 =>
  pbind (readI32 b) fun b x18 =>
  pbind (readArrU8 4 b) fun b x19 =>
  pbind (readFlagsU32 0x3FF b) fun b x20 =>
  .ok (b, ⟨x0, x1, x2, x3, x4, x5, x6, x7, x8, x9, x10, x11, x12, x13, x14, x15, x16, x17, x18, x19, x20⟩)

def writeRelPosNed (v : RelPosNedN) : Bytes :=
  writeU8 v.version ++ writeU8 v.res1 ++ writeU16 v.ref_station_id ++ writeU32 v.i_tow ++ writeI32 v.rel_pos_n ++ writeI32 v.rel_pos_e ++ writeI32 v.rel_pos_d ++ writeI32 v.rel_pos_length ++ writeI32 v.rel_pos_heading ++ writeArrU8 v.res2 ++ writeI8 v.rel_pos_n_hp ++ writeI8 v.rel_pos_e_hp ++ writeI8 v.rel_pos_d_hp ++ writeI8 v.rel_pos_length_hp ++ writeI32 v.acc_n ++ writeI32 v.acc_e ++ writeI32 v.acc_d ++ writeI32 v.acc_length ++ writeI32 v.acc_heading ++ writeArrU8 v.res3 ++ writeU32 v.flags

/-- The NAV class (`impl_class!`): ten length-tagged message ids plus
the unknown-id branch. -/
inductive NavN where
  | clock (x : ClockN)
  | dop (x : DopN)
  | eoe (x : EoeN)
  | hpposecef (x : HpposecefN)
  | hpposllh (x : HpposllhN)
  | odo (x : OdoN)
  | posecef (x : PosecefN)
  | posllh (x : PosllhN)
  | pvt (x : PvtN)
  | relPosNed (x : RelPosNedN)
  | unknown (id : Nat) (payload : Bytes)

def navRead (b : Bytes) : PRes NavN :=
  pbind (readU8 b) fun b msg =>
  if msg = 0x22 then
    match mapInvalid (tagU16 b 20) .invalidLen with
    | .error e => .error e
    | .ok b => pbind (readClock b) fun b x => .ok (b, .clock x)
  else if msg = 0x04 then
    match mapInvalid (tagU16 b 18) .invalidLen with
    | .error e => .error e
    | .ok b => pbind (readDop b) fun b x => .ok (b, .dop x)
  else if msg = 0x61 then
    match mapInvalid (tagU16 b 4) .invalidLen with
    | .error e => .error e
    | .ok b => pbind (readEoe b) fun b x => .ok (b, .eoe x)
  else if msg = 0x13 then
    match mapInvalid (tagU16 b 28) .invalidLen with
    | .error e => .error e
    | .ok b => pbind (readHpposecef b) fun b x => .ok (b, .hpposecef x)
  else if msg = 0x14 then
    match mapInvalid (tagU16 b 36) .invalidLen with
    | .error e => .error e
    | .ok b => pbind (readHpposllh b) fun b x => .ok (b, .hpposllh x)
  else if msg = 0x09 then
    match mapInvalid (tagU16 b 20) .invalidLen with
    | .error e => .error e
    | .ok b => pbind (readOdo b) fun b x => .ok (b, .odo x)
  else if msg = 0x01 then
    match mapInvalid (tagU16 b 20) .invalidLen with
    | .error e => .error e
    | .ok b => pbind (readPosecef b) fun b x => .ok (b, .posecef x)
  else if msg = 0x02 then
    match mapInvalid (tagU16 b 28) .invalidLen with
    | .error e => .error e
    | .ok b => pbind (readPosllh b) fun b x => .ok (b, .posllh x)
  else if msg = 0x07 then
    match mapInvalid (tagU16 b 92) .invalidLen with
    | .error e => .error e
    | .ok b => pbind (readPvt b) fun b x => .ok (b, .pvt x)
  else if msg = 0x3C then
    match mapInvalid (tagU16 b 64) .invalidLen with
    | .error e => .error e
    | .ok b => pbind (readRelPosNed b) fun b x => .ok (b, .relPosNed x)
  else
    pbind (readU16 b) fun b len =>
    pbind (collectP readU8 b len) fun b payload =>
    .ok (b, .unknown msg payload)

def navWrite : NavN → Bytes
  | .clock x => writeU8 0x22 ++ writeClock x
  | .dop x => writeU8 0x04 ++ writeDop x
  | .eoe x => writeU8 0x61 ++ writeEoe x
  | .hpposecef x => writeU8 0x13 ++ writeHpposecef x
  | .hpposllh x => writeU8 0x14 ++ writeHpposllh x
  | .odo x => writeU8 0x09 ++ writeOdo x
  | .posecef x => writeU8 0x01 ++ writePosecef x
  | .posllh x => writeU8 0x02 ++ writePosllh x
  | .pvt x => writeU8 0x07 ++ writePvt x
  | .relPosNed x => writeU8 0x3C ++ writeRelPosNed x
  | .unknown id payload =>
    writeU8 id ++ writeU16 payload.length ++ writeListP writeU8 payload

/-- NAV unknown-id round trip (the only NAV shape whose write matches
its read: the known arms never write the length their read demands). -/
theorem navRead_unknown (id : Nat) (payload : Bytes)
    (hid : id ∉ [0x22, 0x04, 0x61, 0x13, 0x14, 0x09, 0x01, 0x02, 0x07, 0x3C])
    (hidlt : id < 256) (hplen : payload.length ≤ 65535)
    (hpb : ∀ x ∈ payload, x < 256) :
    ∀ rest, navRead (navWrite (.unknown id payload) ++ rest) =
      .ok (rest, .unknown id payload) := by
  intro rest
  simp only [List.mem_cons, not_or] at hid
  obtain ⟨h1, h2, h3, h4, h5, h6, h7, h8, h9, h10, _⟩ := hid
  unfold navRead navWrite
  simp only [List.append_assoc]
  rw [readU8_lt id _ hidlt]
  simp only [pbind_ok, if_neg h1, if_neg h2, if_neg h3, if_neg h4, if_neg h5,
    if_neg h6, if_neg h7, if_neg h8, if_neg h9, if_neg h10]
  rw [readU16_lt _ _ (by omega)]
  simp only [pbind_ok]
  rw [collectP_writeListP readU8 writeU8 (· < 256)
    (fun v rr hv => readU8_lt v rr hv) payload rest hpb, pbind_ok]

/-! ## ACK / MON / RXM / INF classes of the newer tree -/

/-- `AckData` (src/msg/ubx/ack.rs). -/
structure AckData where
  cls_id : Nat
  msg_id : Nat

def readAckData (b : Bytes) : PRes AckData :=
  pbind (readU8 b) fun b c =>
  pbind (readU8 b) fun b m =>
  .ok (b, ⟨c, m⟩)

def writeAckData (v : AckData) : Bytes := writeU8 v.cls_id ++ writeU8 v.msg_id

/-- The ACK class: `Ack = 0x01`, `Nak = 0x00`, both length-tagged `[2]`. -/
inductive AckN where
  | ack (x : AckData)
  | nak (x : AckData)
  | unknown (id : Nat) (payload : Bytes)

def ackRead (b : Bytes) : PRes AckN :=
  pbind (readU8 b) fun b msg =>
  if msg = 0x01 then
    match mapInvalid (tagU16 b 2) .invalidLen with
    | .error e => .error e
    | .ok b => pbind (readAckData b) fun b x => .ok (b, .ack x)
  else if msg = 0x00 then
    match mapInvalid (tagU16 b 2) .invalidLen with
    | .error e => .error e
    | .ok b => pbind (readAckData b) fun b x => .ok (b, .nak x)
  else
    pbind (readU16 b) fun b len =>
    pbind (collectP readU8 b len) fun b payload =>
    .ok (b, .unknown msg payload)

def ackWrite : AckN → Bytes
  | .ack x => writeU8 0x01 ++ writeAckData x
  | .nak x => writeU8 0x00 ++ writeAckData x
  | .unknown id payload =>
    writeU8 id ++ writeU16 payload.length ++ writeListP writeU8 payload

/-- `CommBlock` (src/msg/ubx/mon.rs): 40 bytes. -/
structure CommBlock where
  port_id : Nat
  tx_pending : Nat
  tx_bytes : Nat
  tx_usage : Nat
  tx_peak_usage : Nat
  rx_pending : Nat
  rx_bytes : Nat
  rx_usage : Nat
  rx_peak_usage : Nat
  overrun_errs : Nat
  msgs : List Nat
  res2 : Bytes
  skipped : Nat

def readCommBlock (b : Bytes) : PRes CommBlock :=
  pbind (readU16 b) fun b x0 =>
  pbind (readU16 b) fun b x1 =>
  pbind (readU32 b) fun b x2 =>
  pbind (readU8 b) fun b x3 =>
  pbind (readU8 b) fun b x4 =>
  pbind (readU16 b) fun b x5 =>
  pbind (readU32 b) fun b x6 =>
  pbind (readU8 b) fun b x7 =>
  pbind (readU8 b) fun b x8 =>
  pbind (readU16 b) fun b x9 =>
  pbind (readArrU16 4 b) fun b x10 =>
  pbind (readArrU8 8 b) fun b x11 =>
  pbind (readU32 b) fun b x12 =>
  .ok (b, ⟨x0, x1, x2, x3, x4, x5, x6, x7, x8, x9, x10, x11, x12⟩)

def writeCommBlock (v : CommBlock) : Bytes :=
  writeU16 v.port_id ++ writeU16 v.tx_pending ++ writeU32 v.tx_bytes ++
  writeU8 v.tx_usage ++ writeU8 v.tx_peak_usage ++ writeU16 v.rx_pending ++
  writeU32 v.rx_bytes ++ writeU8 v.rx_usage ++ writeU8 v.rx_peak_usage ++
  writeU16 v.overrun_errs ++ writeArrU16 v.msgs ++ writeArrU8 v.res2 ++
  writeU32 v.skipped

/-- Canonical `CommBlock`s: every field within its machine width and the
two arrays of the declared lengths. -/
def commBlockCanon (v : CommBlock) : Prop :=
  v.port_id < 2 ^ 16 ∧ v.tx_pending < 2 ^ 16 ∧ v.tx_bytes < 2 ^ 32 ∧
  v.tx_usage < 256 ∧ v.tx_peak_usage < 256 ∧ v.rx_pending < 2 ^ 16 ∧
  v.rx_bytes < 2 ^ 32 ∧ v.rx_usage < 256 ∧ v.rx_peak_usage < 256 ∧
  v.overrun_errs < 2 ^ 16 ∧
  (v.msgs.length = 4 ∧ ∀ x ∈ v.msgs, x < 2 ^ 16) ∧
  (v.res2.length = 8 ∧ ∀ x ∈ v.res2, x < 256) ∧ v.skipped < 2 ^ 32

theorem readCommBlock_write (v : CommBlock) (r : Bytes)
    (hc : commBlockCanon v) :
    readCommBlock (writeCommBlock v ++ r) = .ok (r, v) := by
  obtain ⟨h0, h1, h2, h3, h4, h5, h6, h7, h8, h9, ⟨h10l, h10b⟩,
    ⟨h11l, h11b⟩, h12⟩ := hc
  unfold readCommBlock writeCommBlock
  simp only [List.append_assoc]
  rw [readU16_lt _ _ h0]
  simp only [pbind_ok]
  rw [readU16_lt _ _ h1]
  simp only [pbind_ok]
  rw [readU32_lt _ _ h2]
  simp only [pbind_ok]
  rw [readU8_lt _ _ h3]
  simp only [pbind_ok]
  rw [readU8_lt _ _ h4]
  simp only [pbind_ok]
  rw [readU16_lt _ _ h5]
  simp only [pbind_ok]
  rw [readU32_lt _ _ h6]
  simp only [pbind_ok]
  rw [readU8_lt _ _ h7]
  simp only [pbind_ok]
  rw [readU8_lt _ _ h8]
  simp only [pbind_ok]
  rw [readU16_lt _ _ h9]
  simp only [pbind_ok]
  rw [readArrU16_write 4 v.msgs _ h10l h10b]
  simp only [pbind_ok]
  rw [readArrU8_write 8 v.res2 _ h11l h11b]
  simp only [pbind_ok]
  rw [readU32_lt _ _ h12]
  simp only [pbind_ok]

/-- `Comms` (src/msg/ubx/mon.rs): hand-written `ParseData`. The reader
discards a leading u16 `_len` and then collects `n_ports` blocks; the
writer emits `blocks.len() * 40 + 8` as the length. -/
structure Comms where
  version : Nat
  n_ports : Nat
  tx_errors : Nat
  res1 : Nat
  prot_ids : Bytes
  blocks : List CommBlock

def readComms (b : Bytes) : PRes Comms :=
  pbind (readU16 b) fun b _len =>
  pbind (readU8 b) fun b version =>
  pbind (readU8 b) fun b n_ports =>
  pbind (readU8 b) fun b tx_errors =>
  pbind (readU8 b) fun b res1 =>
  pbind (readArrU8 4 b) fun b prot_ids =>
  pbind (collectP readCommBlock b n_ports) fun b blocks =>
  .ok (b, ⟨version, n_ports, tx_errors, res1, prot_ids, blocks⟩)

def writeComms (v : Comms) : Option Bytes :=
  if v.blocks.length * 40 + 8 ≤ 65535 then
    some (writeU16 (v.blocks.length * 40 + 8) ++ writeU8 v.version ++
      writeU8 v.n_ports ++ writeU8 v.tx_errors ++ writeU8 v.res1 ++
      writeArrU8 v.prot_ids ++ writeListP writeCommBlock v.blocks)
  else none

/-- Canonical `Comms`: fields in width, `prot_ids` of length 4,
`n_ports = blocks.len()` (what the writer's output makes the reader
collect) and canonical blocks; `n_ports < 256` bounds the block count. -/
def commsCanon (v : Comms) : Prop :=
  v.version < 256 ∧ v.n_ports < 256 ∧ v.tx_errors < 256 ∧ v.res1 < 256 ∧
  (v.prot_ids.length = 4 ∧ ∀ x ∈ v.prot_ids, x < 256) ∧
  v.n_ports = v.blocks.length ∧ ∀ x ∈ v.blocks, commBlockCanon x

theorem readComms_write (v : Comms) (r : Bytes) (hc : commsCanon v) :
    ∃ bs, writeComms v = some bs ∧ readComms (bs ++ r) = .ok (r, v) := by
  obtain ⟨h0, h1, h2, h3, ⟨h4l, h4b⟩, h5, h6⟩ := hc
  have hlen : v.blocks.length * 40 + 8 ≤ 65535 := by omega
  refine ⟨_, by unfold writeComms; rw [if_pos hlen], ?_⟩
  unfold readComms
  simp only [List.append_assoc]
  rw [readU16_lt _ _ (by omega)]
  simp only [pbind_ok]
  rw [readU8_lt _ _ h0]
  simp only [pbind_ok]
  rw [readU8_lt _ _ h1]
  simp only [pbind_ok]
  rw [readU8_lt _ _ h2]
  simp only [pbind_ok]
  rw [readU8_lt _ _ h3]
  simp only [pbind_ok]
  rw [readArrU8_write 4 v.prot_ids _ h4l h4b]
  simp only [pbind_ok]
  rw [h5, collectP_writeListP readCommBlock writeCommBlock commBlockCanon
    (fun x rr hx => readCommBlock_write x rr hx) v.blocks r h6]
  simp only [pbind_ok]
  rw [← h5]

/-- `Msgpp` (src/msg/ubx/mon.rs): five `[u16; 8]` counters and a
`[u16; 6]` skipped array, 120 bytes. -/
structure Msgpp where
  msg1 : List Nat
  msg2 : List Nat
  msg3 : List Nat
  msg4 : List Nat
  msg5 : List Nat
  skipped : List Nat

def readMsgpp (b : Bytes) : PRes Msgpp :=
  pbind (readArrU16 8 b) fun b x0 =>
  pbind (readArrU16 8 b) fun b x1 =>
  pbind (readArrU16 8 b) fun b x2 =>
  pbind (readArrU16 8 b) fun b x3 =>
  pbind (readArrU16 8 b) fun b x4 =>
  pbind (readArrU16 6 b) fun b x5 =>
  .ok (b, ⟨x0, x1, x2, x3, x4, x5⟩)

def writeMsgpp (v : Msgpp) : Bytes :=
  writeArrU16 v.msg1 ++ writeArrU16 v.msg2 ++ writeArrU16 v.msg3 ++
  writeArrU16 v.msg4 ++ writeArrU16 v.msg5 ++ writeArrU16 v.skipped

/-- The MON class: `Msgpp = 0x06` length-tagged `[120]`, `Comms = 0x36`
untagged (its own reader handles the length word). -/
inductive MonN where
  | msgpp (x : Msgpp)
  | comms (x : Comms)
  | unknown (id : Nat) (payload : Bytes)

def monRead (b : Bytes) : PRes MonN :=
  pbind (readU8 b) fun b msg =>
  if msg = 0x06 then
    match mapInvalid (tagU16 b 120) .invalidLen with
    | .error e => .error e
    | .ok b => pbind (readMsgpp b) fun b x => .ok (b, .msgpp x)
  else if msg = 0x36 then
    pbind (readComms b) fun b x => .ok (b, .comms x)
  else
    pbind (readU16 b) fun b len =>
    pbind (collectP readU8 b len) fun b payload =>
    .ok (b, .unknown msg payload)

def monWrite : MonN → Option Bytes
  | .msgpp x => some (writeU8 0x06 ++ writeMsgpp x)
  | .comms x => (writeComms x).map (writeU8 0x36 ++ ·)
  | .unknown id payload =>
    some (writeU8 id ++ writeU16 payload.length ++ writeListP writeU8 payload)

/-- `Rtcm` of the RXM class (src/msg/ubx/rxm.rs). -/
structure RxmRtcm where
  version : Nat
  flags : Nat
  res1 : Bytes
  ref_stations : Nat
  msg_type : Nat

def readRxmRtcm (b : Bytes) : PRes RxmRtcm :=
  pbind (readU8 b) fun b version =>
  pbind (readFlagsU8 0b1 b) fun b flags =>
  pbind (readArrU8 2 b) fun b res1 =>
  pbind (readU16 b) fun b refs =>
  pbind (readU16 b) fun b mt =>
  .ok (b, ⟨version, flags, res1, refs, mt⟩)

def writeRxmRtcm (v : RxmRtcm) : Bytes :=
  writeU8 v.version ++ writeU8 v.flags ++ writeArrU8 v.res1 ++
  writeU16 v.ref_stations ++ writeU16 v.msg_type

/-- The RXM class: `Rtcm = 0x32`, length-tagged `[8]`. -/
inductive RxmN where
  | rtcm (x : RxmRtcm)
  | unknown (id : Nat) (payload : Bytes)

def rxmRead (b : Bytes) : PRes RxmN :=
  pbind (readU8 b) fun b msg =>
  if msg = 0x32 then
    match mapInvalid (tagU16 b 8) .invalidLen with
    | .error e => .error e
    | .ok b => pbind (readRxmRtcm b) fun b x => .ok (b, .rtcm x)
  else
    pbind (readU16 b) fun b len =>
    pbind (collectP readU8 b len) fun b payload =>
    .ok (b, .unknown msg payload)

def rxmWrite : RxmN → Bytes
  | .rtcm x => writeU8 0x32 ++ writeRxmRtcm x
  | .unknown id payload =>
    writeU8 id ++ writeU16 payload.length ++ writeListP writeU8 payload

/-- The INF class (src/msg/ubx/inf.rs): untagged string payloads.
`Debug` and `Warning` are both declared with id `0x04`; the reader's
match tries `Debug` first, so the `Warning` arm is unreachable. -/
inductive InfN where
  | debug (s : Bytes)
  | error (s : Bytes)
  | notice (s : Bytes)
  | test (s : Bytes)
  | warning (s : Bytes)
  | unknown (id : Nat) (payload : Bytes)

def infRead (b : Bytes) : PRes InfN :=
  pbind (readU8 b) fun b msg =>
  if msg = 0x04 then
    pbind (readInfStr b) fun b s => .ok (b, .debug s)
  else if msg = 0x00 then
    pbind (readInfStr b) fun b s => .ok (b, .error s)
  else if msg = 0x02 then
    pbind (readInfStr b) fun b s => .ok (b, .notice s)
  else if msg = 0x03 then
    pbind (readInfStr b) fun b s => .ok (b, .test s)
  else
    pbind (readU16 b) fun b len =>
    pbind (collectP readU8 b len) fun b payload =>
    .ok (b, .unknown msg payload)

def infWrite : InfN → Option Bytes
  | .debug s => (writeInfStr s).map (writeU8 0x04 ++ ·)
  | .error s => (writeInfStr s).map (writeU8 0x00 ++ ·)
  | .notice s => (writeInfStr s).map (writeU8 0x02 ++ ·)
  | .test s => (writeInfStr s).map (writeU8 0x03 ++ ·)
  | .warning s => (writeInfStr s).map (writeU8 0x04 ++ ·)
  | .unknown id payload =>
    some (writeU8 id ++ writeU16 payload.length ++ writeListP writeU8 payload)

/-! ## Poll enums (generated alongside each class by `impl_class!`) -/

/-- `PollCfg`. -/
inductive PollCfg where
  | tMode3
  | valGet
  | valSet

def pollCfgRead (b : Bytes) : PRes PollCfg :=
  pbind (readU8 b) fun b msg =>
  if msg = 0x71 then .ok (b, .tMode3)
  else if msg = 0x8b then .ok (b, .valGet)
  else if msg = 0x8a then .ok (b, .valSet)
  else .error .invalid

def pollCfgWrite : PollCfg → Bytes
  | .tMode3 => writeU8 0x71 ++ writeU16 0
  | .valGet => writeU8 0x8b ++ writeU16 0
  | .valSet => writeU8 0x8a ++ writeU16 0

/-- `PollNav`. -/
inductive PollNav where
  | clock
  | dop
  | eoe
  | hpposecef
  | hpposllh
  | odo
  | posecef
  | posllh
  | pvt
  | relPosNed

def pollNavRead (b : Bytes) : PRes PollNav :=
  pbind (readU8 b) fun b msg =>
  if msg = 0x22 then .ok (b, .clock)
  else if msg = 0x04 then .ok (b, .dop)
  else if msg = 0x61 then .ok (b, .eoe)
  else if msg = 0x13 then .ok (b, .hpposecef)
  else if msg = 0x14 then .ok (b, .hpposllh)
  else if msg = 0x09 then .ok (b, .odo)
  else if msg = 0x01 then .ok (b, .posecef)
  else if msg = 0x02 then .ok (b, .posllh)
  else if msg = 0x07 then .ok (b, .pvt)
  else if msg = 0x3C then .ok (b, .relPosNed)
  else .error .invalid

def pollNavWrite : PollNav → Bytes
  | .clock => writeU8 0x22 ++ writeU16 0
  | .dop => writeU8 0x04 ++ writeU16 0
  | .eoe => writeU8 0x61 ++ writeU16 0
  | .hpposecef => writeU8 0x13 ++ writeU16 0
  | .hpposllh => writeU8 0x14 ++ writeU16 0
  | .odo => writeU8 0x09 ++ writeU16 0
  | .posecef => writeU8 0x01 ++ writeU16 0
  | .posllh => writeU8 0x02 ++ writeU16 0
  | .pvt => writeU8 0x07 ++ writeU16 0
  | .relPosNed => writeU8 0x3C ++ writeU16 0

/-- `PollAck`. -/
inductive PollAck where
  | ack
  | nak

def pollAckRead (b : Bytes) : PRes PollAck :=
  pbind (readU8 b) fun b msg =>
  if msg = 0x01 then .ok (b, .ack)
  else if msg = 0x00 then .ok (b, .nak)
  else .error .invalid

def pollAckWrite : PollAck → Bytes
  | .ack => writeU8 0x01 ++ writeU16 0
  | .nak => writeU8 0x00 ++ writeU16 0

/-- `PollMon`. -/
inductive PollMon where
  | msgpp
  | comms

def pollMonRead (b : Bytes) : PRes PollMon :=
  pbind (readU8 b) fun b msg =>
  if msg = 0x06 then .ok (b, .msgpp)
  else if msg = 0x36 then .ok (b, .comms)
  else .error .invalid

def pollMonWrite : PollMon → Bytes
  | .msgpp => writeU8 0x06 ++ writeU16 0
  | .comms => writeU8 0x36 ++ writeU16 0

/-- `PollRxm`. -/
inductive PollRxm where
  | rtcm

def pollRxmRead (b : Bytes) : PRes PollRxm :=
  pbind (readU8 b) fun b msg =>
  if msg = 0x32 then .ok (b, .rtcm)
  else .error .invalid

def pollRxmWrite : PollRxm → Bytes
  | .rtcm => writeU8 0x32 ++ writeU16 0

/-- `PollInf`: `debug` and `warning` both carry id `0x04`; the reader's
first match wins, so `warning` is never produced. -/
inductive PollInf where
  | debug
  | error
  | notice
  | test
  | warning

def pollInfRead (b : Bytes) : PRes PollInf :=
  pbind (readU8 b) fun b msg =>
  if msg = 0x04 then .ok (b, .debug)
  else if msg = 0x00 then .ok (b, .error)
  else if msg = 0x02 then .ok (b, .notice)
  else if msg = 0x03 then .ok (b, .test)
  else .error .invalid

def pollInfWrite : PollInf → Bytes
  | .debug => writeU8 0x04 ++ writeU16 0
  | .error => writeU8 0x00 ++ writeU16 0
  | .notice => writeU8 0x02 ++ writeU16 0
  | .test => writeU8 0x03 ++ writeU16 0
  | .warning => writeU8 0x04 ++ writeU16 0

/-! ## The top-level `Ubx` and `UbxPoll` frames (src/msg/ubx.rs,
`impl_ubx!`) -/

/-- `Ubx`: one variant per class, plus the raw `Unknown` record. -/
inductive Ubx where
  | cfg (x : CfgN)
  | nav (x : NavN)
  | ack (x : AckN)
  | mon (x : MonN)
  | rxm (x : RxmN)
  | inf (x : InfN)
  | unknown (cls msg len : Nat) (payload : Bytes) (ck_a ck_b : Nat)

/-- The tail of every `Ubx::parse_read` arm: the consumed slice
`&c[..c.len() - b.len()]`, the two checksum bytes, and the Fletcher
check. -/
def ubxFinish (c b : Bytes) (mk : Nat → Nat → Ubx) : PRes Ubx :=
  pbind (readU8 b) fun b1 cka =>
  pbind (readU8 b1) fun b2 ckb =>
  if checksumValid (c.take (c.length - b.length)) cka ckb then
    .ok (b2, mk cka ckb)
  else .error .invalidChecksum

def ubxRead (b : Bytes) : PRes Ubx :=
  match mapInvalid (tagU8 b 0xb5) .invalidHeader with
  | .error e => .error e
  | .ok b =>
  match mapInvalid (tagU8 b 0x62) .invalidHeader with
  | .error e => .error e
  | .ok c =>
  pbind (readU8 c) fun b cls =>
  if cls = 0x06 then
    pbind (cfgRead b) fun b x => ubxFinish c b (fun _ _ => .cfg x)
  else if cls = 0x01 then
    pbind (navRead b) fun b x => ubxFinish c b (fun _ _ => .nav x)
  else if cls = 0x05 then
    pbind (ackRead b) fun b x => ubxFinish c b (fun _ _ => .ack x)
  else if cls = 0x0A then
    pbind (monRead b) fun b x => ubxFinish c b (fun _ _ => .mon x)
  else if cls = 0x02 then
    pbind (rxmRead b) fun b x => ubxFinish c b (fun _ _ => .rxm x)
  else if cls = 0x04 then
    pbind (infRead b) fun b x => ubxFinish c b (fun _ _ => .inf x)
  else
    pbind (readU8 b) fun b msg =>
    pbind (readU16 b) fun b len =>
    pbind (collectP readU8 b len) fun b payload =>
    ubxFinish c b (fun cka ckb => .unknown cls msg len payload cka ckb)

/-- `Ubx::parse_write` of a known variant: magic, the buffered class
byte and body, then the Fletcher pair of the buffer. -/
def frameUbx (body : Bytes) : Bytes :=
  0xb5 :: 0x62 :: (body ++ [(fletcher body).1, (fletcher body).2])

/-- `Ubx::parse_write`; `none` models the `.unwrap()` panics on a
failing inner write. The `Unknown` variant re-emits its stored length
and checksum fields verbatim. -/
def ubxWrite : Ubx → Option Bytes
  | .cfg x => (cfgWrite x).map (fun p => frameUbx (writeU8 0x06 ++ p))
  | .nav x => some (frameUbx (writeU8 0x01 ++ navWrite x))
  | .ack x => some (frameUbx (writeU8 0x05 ++ ackWrite x))
  | .mon x => (monWrite x).map (fun p => frameUbx (writeU8 0x0A ++ p))
  | .rxm x => some (frameUbx (writeU8 0x02 ++ rxmWrite x))
  | .inf x => (infWrite x).map (fun p => frameUbx (writeU8 0x04 ++ p))
  | .unknown cls msg len payload cka ckb =>
    some (0xb5 :: 0x62 :: (writeU8 cls ++ writeU8 msg ++ writeU16 len ++
      writeListP writeU8 payload ++ writeU8 cka ++ writeU8 ckb))

/-- `UbxPoll`: the zero-length poll frames. -/
inductive UbxPoll where
  | cfg (x : PollCfg)
  | nav (x : PollNav)
  | ack (x : PollAck)
  | mon (x : PollMon)
  | rxm (x : PollRxm)
  | inf (x : PollInf)
  | unknown (cls msg ck_a ck_b : Nat)

/-- The tail of a known-class `UbxPoll::parse_read` arm: the `0u16`
length tag, the consumed slice, the checksum bytes and the check. -/
def pollFinish (c b : Bytes) (m : UbxPoll) : PRes UbxPoll :=
  match tagU16 b 0 with
  | .error e => .error e
  | .ok b0 =>
  pbind (readU8 b0) fun b1 cka =>
  pbind (readU8 b1) fun b2 ckb =>
  if checksumValid (c.take (c.length - b0.length)) cka ckb then .ok (b2, m)
  else .error .invalidChecksum

/-- `UbxPoll::parse_read`: note the unknown-class arm reads the two
checksum bytes but never validates them. -/
def ubxPollRead (b : Bytes) : PRes UbxPoll :=
  match mapInvalid (tagU8 b 0xb5) .invalidHeader with
  | .error e => .error e
  | .ok b =>
  match mapInvalid (tagU8 b 0x62) .invalidHeader with
  | .error e => .error e
  | .ok c =>
  pbind (readU8 c) fun b cls =>
  if cls = 0x06 then
    pbind (pollCfgRead b) fun b x => pollFinish c b (.cfg x)
  else if cls = 0x01 then
    pbind (pollNavRead b) fun b x => pollFinish c b (.nav x)
  else if cls = 0x05 then
    pbind (pollAckRead b) fun b x => pollFinish c b (.ack x)
  else if cls = 0x0A then
    pbind (pollMonRead b) fun b x => pollFinish c b (.mon x)
  else if cls = 0x02 then
    pbind (pollRxmRead b) fun b x => pollFinish c b (.rxm x)
  else if cls = 0x04 then
    pbind (pollInfRead b) fun b x => pollFinish c b (.inf x)
  else
    pbind (readU8 b) fun b msg =>
    match tagU16 b 0 with
    | .error e => .error e
    | .ok b =>
    pbind (readU8 b) fun b cka =>
    pbind (readU8 b) fun b ckb =>
    .ok (b, .unknown cls msg cka ckb)

/-- `UbxPoll::parse_write`: always succeeds (poll bodies are
infallible). -/
def ubxPollWrite : UbxPoll → Bytes
  | .cfg x => frameUbx (writeU8 0x06 ++ pollCfgWrite x)
  | .nav x => frameUbx (writeU8 0x01 ++ pollNavWrite x)
  | .ack x => frameUbx (writeU8 0x05 ++ pollAckWrite x)
  | .mon x => frameUbx (writeU8 0x0A ++ pollMonWrite x)
  | .rxm x => frameUbx (writeU8 0x02 ++ pollRxmWrite x)
  | .inf x => frameUbx (writeU8 0x04 ++ pollInfWrite x)
  | .unknown cls msg cka ckb =>
    0xb5 :: 0x62 :: (writeU8 cls ++ writeU8 msg ++ writeU16 0 ++
      writeU8 cka ++ writeU8 ckb)

/-! ## NMEA sentences (src/msg/nmea.rs) -/

/-- `Nmea`: a `String`, held as its list of Unicode code points (the
reader pushes one `char` per byte via the infallible `u8 → char`
conversion). -/
structure Nmea where
  chars : List Nat

/-- UTF-8 encoding of one code point (`String::as_bytes` per char). -/
def utf8Enc (n : Nat) : Bytes :=
  if n < 0x80 then [n]
  else if n < 0x800 then
    [0xC0 ||| (n >>> 6), 0x80 ||| (n &&& 0x3F)]
  else if n < 0x10000 then
    [0xE0 ||| (n >>> 12), 0x80 ||| ((n >>> 6) &&& 0x3F),
     0x80 ||| (n &&& 0x3F)]
  else
    [0xF0 ||| (n >>> 18), 0x80 ||| ((n >>> 12) &&& 0x3F),
     0x80 ||| ((n >>> 6) &&& 0x3F), 0x80 ||| (n &&& 0x3F)]

/-- `Nmea::parse_write`: the string's UTF-8 bytes. -/
def nmeaWrite (v : Nmea) : Bytes := (v.chars.map utf8Enc).flatten

/-- The reader's loop: push bytes until a `\r` immediately followed by
`\n`; a `\r` followed by anything else keeps both and continues. -/
def nmeaLoop : Bytes → PRes (List Nat)
  | [] => .error .notEnoughData
  | c :: b =>
    if c = 13 then
      match b with
      | [] => .error .notEnoughData
      | c2 :: b2 =>
        if c2 = 10 then .ok (b2, [13, 10])
        else
          match nmeaLoop b2 with
          | .ok (r, s) => .ok (r, 13 :: c2 :: s)
          | .error e => .error e
    else
      match nmeaLoop b with
      | .ok (r, s) => .ok (r, c :: s)
      | .error e => .error e

/-- `Nmea::parse_read`: the `$` tag, then the loop; the result string
starts with the pushed `$`. -/
def nmeaRead (b : Bytes) : PRes Nmea :=
  match tagU8 b 36 with
  | .error e => .error e
  | .ok b =>
    match nmeaLoop b with
    | .ok (r, s) => .ok (r, ⟨36 :: s⟩)
    | .error e => .error e

/-- Canonical NMEA sentences: `$`, an ASCII body free of `\r`, and the
final `\r\n`. -/
def nmeaCanon (v : Nmea) : Prop :=
  ∃ body, v.chars = 36 :: (body ++ [13, 10]) ∧
    (∀ x ∈ body, x < 128) ∧ 13 ∉ body

theorem utf8Enc_ascii (n : Nat) (h : n < 128) : utf8Enc n = [n] := by
  unfold utf8Enc
  rw [if_pos h]

theorem flatten_utf8_ascii (l : List Nat) (h : ∀ x ∈ l, x < 128) :
    (l.map utf8Enc).flatten = l := by
  induction l with
  | nil => rfl
  | cons x xs ih =>
    simp only [List.map_cons, List.flatten_cons,
      utf8Enc_ascii x (h x (by simp)), List.singleton_append, List.cons.injEq,
      true_and]
    exact ih (fun y hy => h y (by simp [hy]))

theorem nmeaLoop_cons_ok (c : Nat) (b r : Bytes) (s : List Nat)
    (hc : ¬ c = 13) (h : nmeaLoop b = .ok (r, s)) :
    nmeaLoop (c :: b) = .ok (r, c :: s) := by
  unfold nmeaLoop
  rw [if_neg hc, h]

theorem nmeaLoop_body (body : Bytes) (r : Bytes) (hcr : 13 ∉ body) :
    nmeaLoop (body ++ 13 :: 10 :: r) = .ok (r, body ++ [13, 10]) := by
  induction body with
  | nil => rfl
  | cons x xs ih =>
    have hx : ¬ x = 13 := by
      intro h
      exact hcr (by simp [h])
    rw [List.cons_append]
    exact nmeaLoop_cons_ok x _ r (xs ++ [13, 10]) hx
      (ih (fun h => hcr (by simp [h])))

theorem nmeaRead_write (v : Nmea) (r : Bytes) (hc : nmeaCanon v) :
    nmeaRead (nmeaWrite v ++ r) = .ok (r, v) := by
  obtain ⟨body, hch, hascii, hcr⟩ := hc
  have hw : nmeaWrite v = 36 :: (body ++ [13, 10]) := by
    unfold nmeaWrite
    rw [hch]
    exact flatten_utf8_ascii _ (by
      simp only [List.forall_mem_cons, List.forall_mem_append,
        List.forall_mem_singleton]
      exact ⟨by decide, hascii, by decide, by decide⟩)
  rw [hw]
  unfold nmeaRead
  have htag : tagU8 ((36 :: (body ++ [13, 10])) ++ r) 36 =
      .ok ((body ++ [13, 10]) ++ r) := by
    unfold tagU8 readU8
    simp
  rw [htag]
  have heq : (body ++ [13, 10]) ++ r = body ++ 13 :: 10 :: r := by simp
  simp only [heq, nmeaLoop_body body r hcr, ← hch]

/-! ## RTCM frames as a `GpsMsg` variant -/

/-- Modelled from the spec: the `Rtcm` codec of src/msg/rtcm.rs, a file
absent from the tree. Per §3 and §4.3: preamble `0xD3`; 10-bit payload
length in the low two bits of byte 1 and all of byte 2; the frame is
`length + 6` bytes; the CRC-24Q residue over the whole frame must be
zero; the message type is the high 12 bits of bytes 3–4; the raw frame
bytes are kept. -/
structure RtcmM where
  message_type : Nat
  data : Bytes

/-- Modelled from the spec: `Rtcm::parse_read` (§4.3). -/
def rtcmMRead (b : Bytes) : PRes RtcmM :=
  if b.length < 6 then .error .notEnoughData
  else if b.getD 0 0 ≠ 0xD3 then .error .invalidHeader
  else
    let size := (b.getD 1 0 &&& 0b11) * 2 ^ 8 + b.getD 2 0 + 6
    if b.length < size then .error .notEnoughData
    else if crc24qRef (b.take size) ≠ 0 then .error .invalidChecksum
    else .ok (b.drop size,
      ⟨(b.getD 3 0) <<< 4 ||| (b.getD 4 0) >>> 4, b.take size⟩)

/-- Modelled from the spec: `Rtcm::parse_write` reproduces the raw
bytes exactly (§8.2). -/
def rtcmMWrite (v : RtcmM) : Bytes := v.data

/-- Canonical RTCM frames: a whole well-formed frame with zero CRC
residue and the matching message type. -/
def rtcmMCanon (v : RtcmM) : Prop :=
  6 ≤ v.data.length ∧ v.data.getD 0 0 = 0xD3 ∧
  (v.data.getD 1 0 &&& 0b11) * 2 ^ 8 + v.data.getD 2 0 + 6 =
    v.data.length ∧
  crc24qRef v.data = 0 ∧
  v.message_type = (v.data.getD 3 0) <<< 4 ||| (v.data.getD 4 0) >>> 4

theorem rtcmMRead_write (v : RtcmM) (r : Bytes) (hc : rtcmMCanon v) :
    rtcmMRead (rtcmMWrite v ++ r) = .ok (r, v) := by
  obtain ⟨hlen, h0, hsz, hcrc, hmt⟩ := hc
  unfold rtcmMRead rtcmMWrite
  have hg0 : (v.data ++ r).getD 0 0 = v.data.getD 0 0 :=
    List.getD_append _ _ _ _ (by omega)
  have hg1 : (v.data ++ r).getD 1 0 = v.data.getD 1 0 :=
    List.getD_append _ _ _ _ (by omega)
  have hg2 : (v.data ++ r).getD 2 0 = v.data.getD 2 0 :=
    List.getD_append _ _ _ _ (by omega)
  have hg3 : (v.data ++ r).getD 3 0 = v.data.getD 3 0 :=
    List.getD_append _ _ _ _ (by omega)
  have hg4 : (v.data ++ r).getD 4 0 = v.data.getD 4 0 :=
    List.getD_append _ _ _ _ (by omega)
  rw [if_neg (by simp only [List.length_append]; omega)]
  rw [if_neg (by rw [hg0, h0]; intro h; exact h rfl)]
  simp only [hg1, hg2, hg3, hg4, hsz]
  rw [take_len _ _ _ rfl, drop_len _ _ _ rfl]
  rw [if_neg (by simp only [List.length_append]; omega)]
  rw [if_neg (by rw [hcrc]; intro h; exact h rfl)]
  rw [← hmt]

/-! ## The `GpsMsg` union (src/msg/mod.rs) -/

/-- `Ubx::contains_prefix`. -/
def ubxHasMagic (b : Bytes) : Bool :=
  decide (2 ≤ b.length) && b.getD 0 0 == 0xb5 && b.getD 1 0 == 0x62

/-- `Rtcm::contains_prefix` (spec §4.3: first byte `0xD3`). -/
def rtcmHasMagic (b : Bytes) : Bool :=
  ¬ b.isEmpty && b.getD 0 0 == 0xD3

/-- `Nmea::contains_prefix`: first byte `$`. -/
def nmeaHasMagic (b : Bytes) : Bool :=
  ¬ b.isEmpty && b.getD 0 0 == 36

/-- `GpsMsg`. -/
inductive GpsMsg where
  | ubx (x : Ubx)
  | ubxPoll (x : UbxPoll)
  | rtcm3 (x : RtcmM)
  | nmea (x : Nmea)
  | server (x : Server)

/-- `GpsMsg::parse_gps_msg`: try `Ubx`, and on `Invalid` or
`InvalidLen` retry as `UbxPoll`. -/
def gpsMsgParse (b : Bytes) : PRes GpsMsg :=
  match ubxRead b with
  | .ok (r, x) => .ok (r, .ubx x)
  | .error e =>
    match e with
    | .invalid | .invalidLen =>
      (match ubxPollRead b with
       | .ok (r, x) => .ok (r, .ubxPoll x)
       | .error e2 => .error e2)
    | e => .error e

/-- `GpsMsg::parse_read`: prefix dispatch UBX → RTCM → NMEA → Server. -/
def gpsMsgRead (b : Bytes) : PRes GpsMsg :=
  if ubxHasMagic b then gpsMsgParse b
  else if rtcmHasMagic b then
    match rtcmMRead b with
    | .ok (r, x) => .ok (r, .rtcm3 x)
    | .error e => .error e
  else if nmeaHasMagic b then
    match nmeaRead b with
    | .ok (r, x) => .ok (r, .nmea x)
    | .error e => .error e
  else if serverHasMagic b then
    match serverRead b with
    | .ok (r, x) => .ok (r, .server x)
    | .error e => .error e
  else .error .invalid

/-- `GpsMsg::parse_write`: delegate to the variant; `none` models a
panicking inner write. -/
def gpsMsgWrite : GpsMsg → Option Bytes
  | .ubx x => ubxWrite x
  | .ubxPoll x => some (ubxPollWrite x)
  | .rtcm3 x => some (rtcmMWrite x)
  | .nmea x => some (nmeaWrite x)
  | .server x => some (serverWrite x)

/-! ## Frame-level round-trip machinery -/

theorem fletcher_lt (bs : Bytes) :
    (fletcher bs).1 < 256 ∧ (fletcher bs).2 < 256 := by
  have key : ∀ (l : Bytes) (p : Nat × Nat), p.1 < 256 → p.2 < 256 →
      (l.foldl (fun (p : Nat × Nat) x =>
        (((p.1 + x) % 256), ((p.2 + ((p.1 + x) % 256)) % 256))) p).1 < 256 ∧
      (l.foldl (fun (p : Nat × Nat) x =>
        (((p.1 + x) % 256), ((p.2 + ((p.1 + x) % 256)) % 256))) p).2 < 256 := by
    intro l
    induction l with
    | nil => intro p h1 h2; exact ⟨h1, h2⟩
    | cons x xs ih =>
      intro p h1 h2
      simp only [List.foldl_cons]
      exact ih _ (Nat.mod_lt _ (by norm_num)) (Nat.mod_lt _ (by norm_num))
  unfold fletcher
  exact key bs (0, 0) (by norm_num) (by norm_num)

theorem checksumValid_self (body : Bytes) :
    checksumValid body (fletcher body).1 (fletcher body).2 = true := by
  unfold checksumValid
  simp

theorem readU8_cons_append (x : Nat) (l r : Bytes) :
    readU8 ((x :: l) ++ r) = .ok (l ++ r, x) := rfl

theorem tagU8_eq_self (t : Nat) (r : Bytes) : tagU8 (t :: r) t = .ok r := by
  rw [tagU8_cons]
  simp

theorem mapInvalid_ok (b : Bytes) (e : PErr) :
    mapInvalid (.ok b) e = .ok b := rfl

/-- The consumed-slice arithmetic of a well-formed frame tail: when the
unread part is exactly the two Fletcher bytes of the consumed body plus
a remainder, the checksum check passes. -/
theorem ubxFinish_eq (c body rest : Bytes) (mk : Nat → Nat → Ubx)
    (hc : c = body ++ (fletcher body).1 :: (fletcher body).2 :: rest) :
    ubxFinish c ((fletcher body).1 :: (fletcher body).2 :: rest) mk =
      .ok (rest, mk (fletcher body).1 (fletcher body).2) := by
  subst hc
  unfold ubxFinish
  simp only [readU8, pbind_ok]
  have hlen : (body ++ (fletcher body).1 :: (fletcher body).2 :: rest).length -
      ((fletcher body).1 :: (fletcher body).2 :: rest).length = body.length := by
    simp
  rw [hlen, take_len _ _ _ rfl, checksumValid_self]
  simp

theorem ubxRead_frame_cfg (x : CfgN) (p : Bytes)
    (hr : ∀ rest, cfgRead (p ++ rest) = .ok (rest, x)) :
    ubxRead (frameUbx (0x06 :: p)) = .ok ([], Ubx.cfg x) := by
  unfold ubxRead frameUbx
  simp only [tagU8_eq_self, mapInvalid_ok, readU8_cons_append, pbind_ok]
  norm_num
  simp only [hr, pbind_ok]
  exact ubxFinish_eq _ (0x06 :: p) [] _ rfl

theorem ubxRead_frame_nav (x : NavN) (p : Bytes)
    (hr : ∀ rest, navRead (p ++ rest) = .ok (rest, x)) :
    ubxRead (frameUbx (0x01 :: p)) = .ok ([], Ubx.nav x) := by
  unfold ubxRead frameUbx
  simp only [tagU8_eq_self, mapInvalid_ok, readU8_cons_append, pbind_ok]
  norm_num
  simp only [hr, pbind_ok]
  exact ubxFinish_eq _ (0x01 :: p) [] _ rfl

theorem ubxRead_frame_ack (x : AckN) (p : Bytes)
    (hr : ∀ rest, ackRead (p ++ rest) = .ok (rest, x)) :
    ubxRead (frameUbx (0x05 :: p)) = .ok ([], Ubx.ack x) := by
  unfold ubxRead frameUbx
  simp only [tagU8_eq_self, mapInvalid_ok, readU8_cons_append, pbind_ok]
  norm_num
  simp only [hr, pbind_ok]
  exact ubxFinish_eq _ (0x05 :: p) [] _ rfl

theorem ubxRead_frame_mon (x : MonN) (p : Bytes)
    (hr : ∀ rest, monRead (p ++ rest) = .ok (rest, x)) :
    ubxRead (frameUbx (0x0A :: p)) = .ok ([], Ubx.mon x) := by
  unfold ubxRead frameUbx
  simp only [tagU8_eq_self, mapInvalid_ok, readU8_cons_append, pbind_ok]
  norm_num
  simp only [hr, pbind_ok]
  exact ubxFinish_eq _ (0x0A :: p) [] _ rfl

theorem ubxRead_frame_rxm (x : RxmN) (p : Bytes)
    (hr : ∀ rest, rxmRead (p ++ rest) = .ok (rest, x)) :
    ubxRead (frameUbx (0x02 :: p)) = .ok ([], Ubx.rxm x) := by
  unfold ubxRead frameUbx
  simp only [tagU8_eq_self, mapInvalid_ok, readU8_cons_append, pbind_ok]
  norm_num
  simp only [hr, pbind_ok]
  exact ubxFinish_eq _ (0x02 :: p) [] _ rfl

theorem ubxRead_frame_inf (x : InfN) (p : Bytes)
    (hr : ∀ rest, infRead (p ++ rest) = .ok (rest, x)) :
    ubxRead (frameUbx (0x04 :: p)) = .ok ([], Ubx.inf x) := by
  unfold ubxRead frameUbx
  simp only [tagU8_eq_self, mapInvalid_ok, readU8_cons_append, pbind_ok]
  norm_num
  simp only [hr, pbind_ok]
  exact ubxFinish_eq _ (0x04 :: p) [] _ rfl

theorem ackRead_unknown (id : Nat) (payload : Bytes)
    (h1 : id ≠ 0x01) (h0 : id ≠ 0x00) (hidlt : id < 256)
    (hplen : payload.length ≤ 65535) (hpb : ∀ x ∈ payload, x < 256) :
    ∀ rest, ackRead ((writeU8 id ++ writeU16 payload.length ++
      writeListP writeU8 payload) ++ rest) = .ok (rest, .unknown id payload) := by
  intro rest
  unfold ackRead
  simp only [List.append_assoc]
  rw [readU8_lt id _ hidlt]
  simp only [pbind_ok, if_neg h1, if_neg h0]
  rw [readU16_lt _ _ (by omega)]
  simp only [pbind_ok]
  rw [collectP_writeListP readU8 writeU8 (· < 256)
    (fun v rr hv => readU8_lt v rr hv) payload rest hpb, pbind_ok]

theorem monRead_unknown (id : Nat) (payload : Bytes)
    (h6 : id ≠ 0x06) (h36 : id ≠ 0x36) (hidlt : id < 256)
    (hplen : payload.length ≤ 65535) (hpb : ∀ x ∈ payload, x < 256) :
    ∀ rest, monRead ((writeU8 id ++ writeU16 payload.length ++
      writeListP writeU8 payload) ++ rest) = .ok (rest, .unknown id payload) := by
  intro rest
  unfold monRead
  simp only [List.append_assoc]
  rw [readU8_lt id _ hidlt]
  simp only [pbind_ok, if_neg h6, if_neg h36]
  rw [readU16_lt _ _ (by omega)]
  simp only [pbind_ok]
  rw [collectP_writeListP readU8 writeU8 (· < 256)
    (fun v rr hv => readU8_lt v rr hv) payload rest hpb, pbind_ok]

theorem rxmRead_unknown (id : Nat) (payload : Bytes)
    (h32 : id ≠ 0x32) (hidlt : id < 256)
    (hplen : payload.length ≤ 65535) (hpb : ∀ x ∈ payload, x < 256) :
    ∀ rest, rxmRead ((writeU8 id ++ writeU16 payload.length ++
      writeListP writeU8 payload) ++ rest) = .ok (rest, .unknown id payload) := by
  intro rest
  unfold rxmRead
  simp only [List.append_assoc]
  rw [readU8_lt id _ hidlt]
  simp only [pbind_ok, if_neg h32]
  rw [readU16_lt _ _ (by omega)]
  simp only [pbind_ok]
  rw [collectP_writeListP readU8 writeU8 (· < 256)
    (fun v rr hv => readU8_lt v rr hv) payload rest hpb, pbind_ok]

theorem infRead_unknown (id : Nat) (payload : Bytes)
    (h4 : id ≠ 0x04) (h0 : id ≠ 0x00) (h2 : id ≠ 0x02) (h3 : id ≠ 0x03)
    (hidlt : id < 256)
    (hplen : payload.length ≤ 65535) (hpb : ∀ x ∈ payload, x < 256) :
    ∀ rest, infRead ((writeU8 id ++ writeU16 payload.length ++
      writeListP writeU8 payload) ++ rest) = .ok (rest, .unknown id payload) := by
  intro rest
  unfold infRead
  simp only [List.append_assoc]
  rw [readU8_lt id _ hidlt]
  simp only [pbind_ok, if_neg h4, if_neg h0, if_neg h2, if_neg h3]
  rw [readU16_lt _ _ (by omega)]
  simp only [pbind_ok]
  rw [collectP_writeListP readU8 writeU8 (· < 256)
    (fun v rr hv => readU8_lt v rr hv) payload rest hpb, pbind_ok]

theorem monRead_comms (x : Comms) (w : Bytes)
    (hr : ∀ rest, readComms (w ++ rest) = .ok (rest, x)) :
    ∀ rest, monRead ((writeU8 0x36 ++ w) ++ rest) = .ok (rest, .comms x) := by
  intro rest
  unfold monRead
  rw [List.append_assoc, readU8_lt 0x36 _ (by norm_num)]
  simp only [pbind_ok]
  norm_num
  simp only [hr, pbind_ok]

theorem infRead_debug (s : Bytes) (hc : infStrCanon s) :
    ∀ rest, infRead ((writeU8 0x04 ++ (writeU16 s.length ++ s)) ++ rest) =
      .ok (rest, .debug s) := by
  intro rest
  unfold infRead
  rw [List.append_assoc, readU8_lt 0x04 _ (by norm_num)]
  simp only [pbind_ok]
  norm_num
  have h := (readInfStr_write s rest hc).2
  rw [List.append_assoc] at h
  simp only [h, pbind_ok]

theorem infRead_error (s : Bytes) (hc : infStrCanon s) :
    ∀ rest, infRead ((writeU8 0x00 ++ (writeU16 s.length ++ s)) ++ rest) =
      .ok (rest, .error s) := by
  intro rest
  unfold infRead
  rw [List.append_assoc, readU8_lt 0x00 _ (by norm_num)]
  simp only [pbind_ok]
  norm_num
  have h := (readInfStr_write s rest hc).2
  rw [List.append_assoc] at h
  simp only [h, pbind_ok]

theorem infRead_notice (s : Bytes) (hc : infStrCanon s) :
    ∀ rest, infRead ((writeU8 0x02 ++ (writeU16 s.length ++ s)) ++ rest) =
      .ok (rest, .notice s) := by
  intro rest
  unfold infRead
  rw [List.append_assoc, readU8_lt 0x02 _ (by norm_num)]
  simp only [pbind_ok]
  norm_num
  have h := (readInfStr_write s rest hc).2
  rw [List.append_assoc] at h
  simp only [h, pbind_ok]

theorem infRead_test (s : Bytes) (hc : infStrCanon s) :
    ∀ rest, infRead ((writeU8 0x03 ++ (writeU16 s.length ++ s)) ++ rest) =
      .ok (rest, .test s) := by
  intro rest
  unfold infRead
  rw [List.append_assoc, readU8_lt 0x03 _ (by norm_num)]
  simp only [pbind_ok]
  norm_num
  have h := (readInfStr_write s rest hc).2
  rw [List.append_assoc] at h
  simp only [h, pbind_ok]

/-- The buffered body of `Ubx::parse_write` for the `Unknown` variant
with a canonical length field. -/
def ubxUnknownBody (cls msg : Nat) (payload : Bytes) : Bytes :=
  writeU8 cls ++ writeU8 msg ++ writeU16 payload.length ++
    writeListP writeU8 payload

theorem ubxRead_frame_unknown (cls msg : Nat) (payload : Bytes)
    (h06 : cls ≠ 0x06) (h01 : cls ≠ 0x01) (h05 : cls ≠ 0x05)
    (h0A : cls ≠ 0x0A) (h02 : cls ≠ 0x02) (h04 : cls ≠ 0x04)
    (hcls : cls < 256) (hmsg : msg < 256)
    (hplen : payload.length ≤ 65535) (hpb : ∀ y ∈ payload, y < 256) :
    ubxRead (frameUbx (ubxUnknownBody cls msg payload)) =
      .ok ([], .unknown cls msg payload.length payload
        (fletcher (ubxUnknownBody cls msg payload)).1
        (fletcher (ubxUnknownBody cls msg payload)).2) := by
  unfold ubxRead frameUbx
  simp only [tagU8_eq_self, mapInvalid_ok]
  simp only [ubxUnknownBody, List.append_assoc]
  rw [readU8_lt cls _ hcls]
  simp only [pbind_ok, if_neg h06, if_neg h01, if_neg h05, if_neg h0A,
    if_neg h02, if_neg h04]
  rw [readU8_lt msg _ hmsg]
  simp only [pbind_ok]
  rw [readU16_lt _ _ (by omega)]
  simp only [pbind_ok]
  rw [collectP_writeListP readU8 writeU8 (· < 256)
    (fun v rr hv => readU8_lt v rr hv) payload _ hpb]
  simp only [pbind_ok]
  exact ubxFinish_eq _
    (writeU8 cls ++ (writeU8 msg ++ (writeU16 payload.length ++
      writeListP writeU8 payload))) [] _ (by simp)

theorem readComms_write_forall (v : Comms) (hc : commsCanon v) :
    ∃ bs, writeComms v = some bs ∧
      ∀ r, readComms (bs ++ r) = .ok (r, v) := by
  obtain ⟨h0, h1, h2, h3, ⟨h4l, h4b⟩, h5, h6⟩ := hc
  have hlen : v.blocks.length * 40 + 8 ≤ 65535 := by omega
  refine ⟨_, by unfold writeComms; rw [if_pos hlen], ?_⟩
  intro r
  unfold readComms
  simp only [List.append_assoc]
  rw [readU16_lt _ _ (by omega)]
  simp only [pbind_ok]
  rw [readU8_lt _ _ h0]
  simp only [pbind_ok]
  rw [readU8_lt _ _ h1]
  simp only [pbind_ok]
  rw [readU8_lt _ _ h2]
  simp only [pbind_ok]
  rw [readU8_lt _ _ h3]
  simp only [pbind_ok]
  rw [readArrU8_write 4 v.prot_ids _ h4l h4b]
  simp only [pbind_ok]
  rw [h5, collectP_writeListP readCommBlock writeCommBlock commBlockCanon
    (fun x rr hx => readCommBlock_write x rr hx) v.blocks r h6]
  simp only [pbind_ok]
  rw [← h5]

theorem nmeaWrite_shape (v : Nmea) (body : List Nat)
    (hch : v.chars = 36 :: (body ++ [13, 10]))
    (hascii : ∀ x ∈ body, x < 128) :
    nmeaWrite v = 36 :: (body ++ [13, 10]) := by
  unfold nmeaWrite
  rw [hch]
  exact flatten_utf8_ascii _ (by
    simp only [List.forall_mem_cons, List.forall_mem_append,
      List.forall_mem_singleton]
    exact ⟨by decide, hascii, by decide, by decide⟩)

theorem gpsMsgRead_ubxFrame (bs : Bytes) (x : Ubx)
    (hm : ubxHasMagic bs = true)
    (hread : ubxRead bs = .ok ([], x)) :
    gpsMsgRead bs = .ok ([], .ubx x) := by
  unfold gpsMsgRead
  rw [if_pos hm]
  unfold gpsMsgParse
  rw [hread]

/-! ## Canonical encodings of the `GpsMsg` variants -/

/-- CFG values whose class write matches its read: the `TMode3` arm is
excluded because the writer omits the `[40]` length tag the reader
demands. -/
def cfgNCanon : CfgN → Prop
  | .tMode3 _ => False
  | .valGet x => valGetCanon x
  | .valSet x => valSetCanon x
  | .unknown id payload =>
    id ≠ 0x71 ∧ id ≠ 0x8b ∧ id ≠ 0x8a ∧ id < 256 ∧
    payload.length ≤ 65535 ∧ ∀ y ∈ payload, y < 256

/-- All ten known NAV arms are length-tagged, so only the unknown arm
round-trips. -/
def navNCanon : NavN → Prop
  | .unknown id payload =>
    id ∉ [0x22, 0x04, 0x61, 0x13, 0x14, 0x09, 0x01, 0x02, 0x07, 0x3C] ∧
    id < 256 ∧ payload.length ≤ 65535 ∧ ∀ y ∈ payload, y < 256
  | _ => False

def ackNCanon : AckN → Prop
  | .unknown id payload =>
    id ≠ 0x01 ∧ id ≠ 0x00 ∧ id < 256 ∧
    payload.length ≤ 65535 ∧ ∀ y ∈ payload, y < 256
  | _ => False

/-- `Comms` carries its own length word, so it survives the macro's
missing tag; `Msgpp` is tagged and does not. -/
def monNCanon : MonN → Prop
  | .msgpp _ => False
  | .comms x => commsCanon x
  | .unknown id payload =>
    id ≠ 0x06 ∧ id ≠ 0x36 ∧ id < 256 ∧
    payload.length ≤ 65535 ∧ ∀ y ∈ payload, y < 256

def rxmNCanon : RxmN → Prop
  | .rtcm _ => False
  | .unknown id payload =>
    id ≠ 0x32 ∧ id < 256 ∧
    payload.length ≤ 65535 ∧ ∀ y ∈ payload, y < 256

/-- INF strings carry their own length word; `Warning` shares id `0x04`
with `Debug` and reads back as `Debug`, so it is excluded. -/
def infNCanon : InfN → Prop
  | .debug s => infStrCanon s
  | .error s => infStrCanon s
  | .notice s => infStrCanon s
  | .test s => infStrCanon s
  | .warning _ => False
  | .unknown id payload =>
    id ≠ 0x04 ∧ id ≠ 0x00 ∧ id ≠ 0x02 ∧ id ≠ 0x03 ∧ id < 256 ∧
    payload.length ≤ 65535 ∧ ∀ y ∈ payload, y < 256

/-- Canonical `Ubx` values. The `Unknown` record must store the length
of its payload and the Fletcher pair of its own buffered body, because
the writer re-emits the stored fields verbatim and the reader checks
them. -/
def ubxCanon : Ubx → Prop
  | .cfg x => cfgNCanon x
  | .nav x => navNCanon x
  | .ack x => ackNCanon x
  | .mon x => monNCanon x
  | .rxm x => rxmNCanon x
  | .inf x => infNCanon x
  | .unknown cls msg len payload cka ckb =>
    cls ∉ [0x06, 0x01, 0x05, 0x0A, 0x02, 0x04] ∧ cls < 256 ∧ msg < 256 ∧
    len = payload.length ∧ payload.length ≤ 65535 ∧
    (∀ y ∈ payload, y < 256) ∧
    cka = (fletcher (ubxUnknownBody cls msg payload)).1 ∧
    ckb = (fletcher (ubxUnknownBody cls msg payload)).2

/-- Canonical `UbxPoll` values: exactly the polls whose frame makes the
eager `Ubx` parse fail with `InvalidLen` so that the retry fires. Polls
of the untagged arms (`ValGet`, `ValSet`, `Comms`, the INF strings) and
the unknown record do not round-trip: their frames either parse as an
`Ubx` value or fail with a non-retryable error. -/
def ubxPollCanon : UbxPoll → Prop
  | .cfg .tMode3 => True
  | .cfg .valGet => False
  | .cfg .valSet => False
  | .nav _ => True
  | .ack _ => True
  | .mon .msgpp => True
  | .mon .comms => False
  | .rxm _ => True
  | .inf _ => False
  | .unknown _ _ _ _ => False

/-- The canonical domain of the `GpsMsg` round trip. -/
def gpsCanon : GpsMsg → Prop
  | .ubx x => ubxCanon x
  | .ubxPoll x => ubxPollCanon x
  | .rtcm3 x => rtcmMCanon x
  | .nmea x => nmeaCanon x
  | .server _ => True

/-- C1: For every value of the `GpsMsg` tagged union, parsing the bytes
produced by writing it returns the same value with no input remaining —
amended: this holds exactly on the canonical encodings `gpsCanon`
(writes that reproduce the fields the corresponding reader demands);
the length-tagged UBX arms, `Inf::Warning`, and the polls of untagged
arms fail the round trip, as the separate counterexample shows. -/
theorem c1_gps_roundtrip_on_canonical (m : GpsMsg) (hc : gpsCanon m) :
    ∃ bs, gpsMsgWrite m = some bs ∧ gpsMsgRead bs = .ok ([], m) := by
  cases m with
  | server s =>
    obtain ⟨msg⟩ := s
    cases msg with
    | resetPort => exact ⟨_, rfl, rfl⟩
    | quit => exact ⟨_, rfl, rfl⟩
  | ubxPoll p =>
    cases p with
    | cfg x =>
      cases x with
      | tMode3 => exact ⟨_, rfl, rfl⟩
      | valGet => exact hc.elim
      | valSet => exact hc.elim
    | nav x => cases x <;> exact ⟨_, rfl, rfl⟩
    | ack x => cases x <;> exact ⟨_, rfl, rfl⟩
    | mon x =>
      cases x with
      | msgpp => exact ⟨_, rfl, rfl⟩
      | comms => exact hc.elim
    | rxm x => cases x with | rtcm => exact ⟨_, rfl, rfl⟩
    | inf x => cases x <;> exact hc.elim
    | unknown a b c d => exact hc.elim
  | rtcm3 v =>
    obtain ⟨hlen, h0, hsz, hcrc, hmt⟩ := hc
    refine ⟨rtcmMWrite v, rfl, ?_⟩
    have hread := rtcmMRead_write v [] ⟨hlen, h0, hsz, hcrc, hmt⟩
    rw [List.append_nil] at hread
    unfold gpsMsgRead
    have hub : ubxHasMagic (rtcmMWrite v) = false := by
      unfold ubxHasMagic rtcmMWrite
      rw [h0]
      simp
    rw [if_neg (by rw [hub]; exact Bool.false_ne_true)]
    have hrt : rtcmHasMagic (rtcmMWrite v) = true := by
      unfold rtcmHasMagic rtcmMWrite
      have hne : v.data.isEmpty = false := by
        cases hd : v.data with
        | nil => rw [hd] at hlen; simp at hlen
        | cons a l => rfl
      rw [hne, h0]
      simp
    rw [if_pos hrt, hread]
  | nmea v =>
    obtain ⟨body, hch, hascii, hcr⟩ := hc
    refine ⟨nmeaWrite v, rfl, ?_⟩
    have hread := nmeaRead_write v [] ⟨body, hch, hascii, hcr⟩
    rw [List.append_nil] at hread
    have hw := nmeaWrite_shape v body hch hascii
    rw [hw] at hread
    unfold gpsMsgRead
    rw [hw]
    have hub : ubxHasMagic (36 :: (body ++ [13, 10])) = false := by
      unfold ubxHasMagic
      simp
    rw [if_neg (by rw [hub]; exact Bool.false_ne_true)]
    have hrt : rtcmHasMagic (36 :: (body ++ [13, 10])) = false := by
      unfold rtcmHasMagic
      simp
    rw [if_neg (by rw [hrt]; exact Bool.false_ne_true)]
    have hnm : nmeaHasMagic (36 :: (body ++ [13, 10])) = true := by
      unfold nmeaHasMagic
      simp
    rw [if_pos hnm, hread]
  | ubx x =>
    cases x with
    | cfg y =>
      cases y with
      | tMode3 z => exact hc.elim
      | valGet z =>
        obtain ⟨w, hw, hr⟩ := readValGet_write z hc
        have hcw : cfgWrite (.valGet z) = some (writeU8 0x8b ++ w) := by
          simp only [cfgWrite]
          rw [hw]
          rfl
        refine ⟨frameUbx (0x06 :: (writeU8 0x8b ++ w)), ?_, ?_⟩
        · show ubxWrite (.cfg (.valGet z)) = _
          simp only [ubxWrite]
          rw [hcw]
          rfl
        · exact gpsMsgRead_ubxFrame _ _ rfl
            (ubxRead_frame_cfg (.valGet z) _ (cfgRead_valGet z w hr))
      | valSet z =>
        obtain ⟨w, hw, hr⟩ := readValSet_write z hc
        have hcw : cfgWrite (.valSet z) = some (writeU8 0x8a ++ w) := by
          simp only [cfgWrite]
          rw [hw]
          rfl
        refine ⟨frameUbx (0x06 :: (writeU8 0x8a ++ w)), ?_, ?_⟩
        · show ubxWrite (.cfg (.valSet z)) = _
          simp only [ubxWrite]
          rw [hcw]
          rfl
        · exact gpsMsgRead_ubxFrame _ _ rfl
            (ubxRead_frame_cfg (.valSet z) _ (cfgRead_valSet z w hr))
      | unknown id payload =>
        obtain ⟨h71, h8b, h8a, hlt, hplen, hpb⟩ := hc
        refine ⟨frameUbx (0x06 :: (writeU8 id ++ writeU16 payload.length ++
          writeListP writeU8 payload)), rfl, ?_⟩
        exact gpsMsgRead_ubxFrame _ _ rfl
          (ubxRead_frame_cfg (.unknown id payload) _
            (cfgRead_unknown id payload h71 h8b h8a hlt hplen hpb))
    | nav y =>
      cases y with
      | unknown id payload =>
        obtain ⟨hni, hlt, hplen, hpb⟩ := hc
        refine ⟨frameUbx (0x01 :: (writeU8 id ++ writeU16 payload.length ++
          writeListP writeU8 payload)), rfl, ?_⟩
        exact gpsMsgRead_ubxFrame _ _ rfl
          (ubxRead_frame_nav (.unknown id payload) _
            (navRead_unknown id payload hni hlt hplen hpb))
      | clock z => exact hc.elim
      | dop z => exact hc.elim
      | eoe z => exact hc.elim
      | hpposecef z => exact hc.elim
      | hpposllh z => exact hc.elim
      | odo z => exact hc.elim
      | posecef z => exact hc.elim
      | posllh z => exact hc.elim
      | pvt z => exact hc.elim
      | relPosNed z => exact hc.elim
    | ack y =>
      cases y with
      | ack z => exact hc.elim
      | nak z => exact hc.elim
      | unknown id payload =>
        obtain ⟨h1, h0, hlt, hplen, hpb⟩ := hc
        refine ⟨frameUbx (0x05 :: (writeU8 id ++ writeU16 payload.length ++
          writeListP writeU8 payload)), rfl, ?_⟩
        exact gpsMsgRead_ubxFrame _ _ rfl
          (ubxRead_frame_ack (.unknown id payload) _
            (ackRead_unknown id payload h1 h0 hlt hplen hpb))
    | mon y =>
      cases y with
      | msgpp z => exact hc.elim
      | comms z =>
        obtain ⟨w, hw, hr⟩ := readComms_write_forall z hc
        have hmw : monWrite (.comms z) = some (writeU8 0x36 ++ w) := by
          simp only [monWrite]
          rw [hw]
          rfl
        refine ⟨frameUbx (0x0A :: (writeU8 0x36 ++ w)), ?_, ?_⟩
        · show ubxWrite (.mon (.comms z)) = _
          simp only [ubxWrite]
          rw [hmw]
          rfl
        · exact gpsMsgRead_ubxFrame _ _ rfl
            (ubxRead_frame_mon (.comms z) _ (monRead_comms z w hr))
      | unknown id payload =>
        obtain ⟨h6, h36, hlt, hplen, hpb⟩ := hc
        refine ⟨frameUbx (0x0A :: (writeU8 id ++ writeU16 payload.length ++
          writeListP writeU8 payload)), rfl, ?_⟩
        exact gpsMsgRead_ubxFrame _ _ rfl
          (ubxRead_frame_mon (.unknown id payload) _
            (monRead_unknown id payload h6 h36 hlt hplen hpb))
    | rxm y =>
      cases y with
      | rtcm z => exact hc.elim
      | unknown id payload =>
        obtain ⟨h32, hlt, hplen, hpb⟩ := hc
        refine ⟨frameUbx (0x02 :: (writeU8 id ++ writeU16 payload.length ++
          writeListP writeU8 payload)), rfl, ?_⟩
        exact gpsMsgRead_ubxFrame _ _ rfl
          (ubxRead_frame_rxm (.unknown id payload) _
            (rxmRead_unknown id payload h32 hlt hplen hpb))
    | inf y =>
      cases y with
      | debug s =>
        have hws : writeInfStr s = some (writeU16 s.length ++ s) :=
          (readInfStr_write s [] hc).1
        have hiw : infWrite (.debug s) =
            some (writeU8 0x04 ++ (writeU16 s.length ++ s)) := by
          simp only [infWrite]
          rw [hws]
          rfl
        refine ⟨frameUbx (0x04 :: (writeU8 0x04 ++ (writeU16 s.length ++ s))),
          ?_, ?_⟩
        · show ubxWrite (.inf (.debug s)) = _
          simp only [ubxWrite]
          rw [hiw]
          rfl
        · exact gpsMsgRead_ubxFrame _ _ rfl
            (ubxRead_frame_inf (.debug s) _ (infRead_debug s hc))
      | error s =>
        have hws : writeInfStr s = some (writeU16 s.length ++ s) :=
          (readInfStr_write s [] hc).1
        have hiw : infWrite (.error s) =
            some (writeU8 0x00 ++ (writeU16 s.length ++ s)) := by
          simp only [infWrite]
          rw [hws]
          rfl
        refine ⟨frameUbx (0x04 :: (writeU8 0x00 ++ (writeU16 s.length ++ s))),
          ?_, ?_⟩
        · show ubxWrite (.inf (.error s)) = _
          simp only [ubxWrite]
          rw [hiw]
          rfl
        · exact gpsMsgRead_ubxFrame _ _ rfl
            (ubxRead_frame_inf (.error s) _ (infRead_error s hc))
      | notice s =>
        have hws : writeInfStr s = some (writeU16 s.length ++ s) :=
          (readInfStr_write s [] hc).1
        have hiw : infWrite (.notice s) =
            some (writeU8 0x02 ++ (writeU16 s.length ++ s)) := by
          simp only [infWrite]
          rw [hws]
          rfl
        refine ⟨frameUbx (0x04 :: (writeU8 0x02 ++ (writeU16 s.length ++ s))),
          ?_, ?_⟩
        · show ubxWrite (.inf (.notice s)) = _
          simp only [ubxWrite]
          rw [hiw]
          rfl
        · exact gpsMsgRead_ubxFrame _ _ rfl
            (ubxRead_frame_inf (.notice s) _ (infRead_notice s hc))
      | test s =>
        have hws : writeInfStr s = some (writeU16 s.length ++ s) :=
          (readInfStr_write s [] hc).1
        have hiw : infWrite (.test s) =
            some (writeU8 0x03 ++ (writeU16 s.length ++ s)) := by
          simp only [infWrite]
          rw [hws]
          rfl
        refine ⟨frameUbx (0x04 :: (writeU8 0x03 ++ (writeU16 s.length ++ s))),
          ?_, ?_⟩
        · show ubxWrite (.inf (.test s)) = _
          simp only [ubxWrite]
          rw [hiw]
          rfl
        · exact gpsMsgRead_ubxFrame _ _ rfl
            (ubxRead_frame_inf (.test s) _ (infRead_test s hc))
      | warning s => exact hc.elim
      | unknown id payload =>
        obtain ⟨h4, h0, h2, h3, hlt, hplen, hpb⟩ := hc
        refine ⟨frameUbx (0x04 :: (writeU8 id ++ writeU16 payload.length ++
          writeListP writeU8 payload)), rfl, ?_⟩
        exact gpsMsgRead_ubxFrame _ _ rfl
          (ubxRead_frame_inf (.unknown id payload) _
            (infRead_unknown id payload h4 h0 h2 h3 hlt hplen hpb))
    | unknown cls msg len payload cka ckb =>
      obtain ⟨hni, hcls, hmsg, hleneq, hplen, hpb, hcka, hckb⟩ := hc
      simp only [List.mem_cons, not_or] at hni
      obtain ⟨h06, h01, h05, h0A, h02, h04, _⟩ := hni
      subst hleneq
      subst hcka
      subst hckb
      have hf := fletcher_lt (ubxUnknownBody cls msg payload)
      have hm1 : (fletcher (ubxUnknownBody cls msg payload)).1 % 256 =
          (fletcher (ubxUnknownBody cls msg payload)).1 :=
        Nat.mod_eq_of_lt hf.1
      have hm2 : (fletcher (ubxUnknownBody cls msg payload)).2 % 256 =
          (fletcher (ubxUnknownBody cls msg payload)).2 :=
        Nat.mod_eq_of_lt hf.2
      refine ⟨frameUbx (ubxUnknownBody cls msg payload), ?_, ?_⟩
      · show some (0xb5 :: 0x62 :: (ubxUnknownBody cls msg payload ++
          writeU8 ((fletcher (ubxUnknownBody cls msg payload)).1) ++
          writeU8 ((fletcher (ubxUnknownBody cls msg payload)).2))) = _
        unfold frameUbx writeU8
        rw [hm1, hm2]
        simp [List.append_assoc]
      · exact gpsMsgRead_ubxFrame _ _ rfl
          (ubxRead_frame_unknown cls msg payload h06 h01 h05 h0A h02 h04
            hcls hmsg hplen hpb)

/-- C1 counterexample: the ACK-ACK message (acknowledging class 0x06,
id 0x8A). `parse_write` emits `B5 62 05 01 06 8A 96 AD` — no two-byte
length word — so `parse_read` fails (the `[2]` tag the reader demands
reads `0x8A06`), the `UbxPoll` retry fails on the zero-length tag, and
the round trip of the claim does not hold for this value. -/
theorem c1_ack_frame_fails_roundtrip :
    gpsMsgWrite (.ubx (.ack (.ack ⟨6, 0x8A⟩))) =
      some [0xB5, 0x62, 0x05, 0x01, 0x06, 0x8A, 0x96, 0xAD] ∧
    gpsMsgRead [0xB5, 0x62, 0x05, 0x01, 0x06, 0x8A, 0x96, 0xAD] =
      .error .invalid := ⟨rfl, rfl⟩

/-- C1 witness: the canonical round trip evaluated at the Server Quit
frame. -/
theorem c1_gps_roundtrip_witness :
    gpsCanon (.server ⟨.quit⟩) ∧
    ∃ bs, gpsMsgWrite (.server ⟨.quit⟩) = some bs ∧
      gpsMsgRead bs = .ok ([], .server ⟨.quit⟩) :=
  ⟨trivial, c1_gps_roundtrip_on_canonical (.server ⟨.quit⟩) trivial⟩
